import Mathlib

/-!
# Nautilus canvas container: registry, selection and layout core

A shallow embedding of the icon registry, the selection engine and the grid
computation of `src/nautilus-canvas-container.c`.

Conventions of the embedding:

* A C pointer is a `Nat`; `0` is `NULL`.  An icon is identified by the address
  of its `NautilusCanvasIcon` block, an id by its `NautilusCanvasIconData *`.
* The memory holding the icon blocks is the field `heap` of the container: the
  block stored at each address.  A `GList` of icons is the list of the
  addresses it holds, so aliasing behaves as it does in C.
* A `GHashTable` with direct hashing is an association list.
* A `double` is a `Rat` (exact arithmetic).
* The GLib main context (idle and timeout sources) and the signals emitted are
  recorded in the container, in `sources` and `emitted`.
* Rendering calls (`eel_canvas_item_set`, `icon_raise`, scrolling of the
  adjustments, accessibility) have no effect on the modelled state and are
  left out.
* A failed `g_assert` or a `NULL` dereference is the result `none`.
-/

namespace Nautilus

/-! ## Constants -/

/-- Source constant `ICON_UNPOSITIONED_VALUE`. -/
def ICON_UNPOSITIONED_VALUE : Rat := -1

/-- Source constant `ICON_PAD_LEFT`. -/
def ICON_PAD_LEFT : Rat := 4

/-- Source constant `ICON_PAD_RIGHT`. -/
def ICON_PAD_RIGHT : Rat := 4

/-! ## GLib containers -/

/-- GLib `g_list_prepend`. -/
def g_list_prepend (list : List Nat) (data : Nat) : List Nat := data :: list

/-- GLib `g_list_remove`: removes the first node holding `data`, if any. -/
def g_list_remove (list : List Nat) (data : Nat) : List Nat := list.erase data

/-- GLib `g_list_find`: the position of the first node holding `data`, or `none` for `NULL`. -/
def g_list_find (list : List Nat) (data : Nat) : Option Nat :=
  if data ∈ list then some (list.indexOf data) else none

/-- GLib `g_list_nth`: the data of the node at position `n`, or `none` when the list is too short. -/
def g_list_nth (list : List Nat) (n : Nat) : Option Nat := list.get? n

/-- GLib `g_list_length`. -/
def g_list_length (list : List Nat) : Nat := list.length

/-- GLib `g_hash_table_lookup` on a table with direct keys; `0` (NULL) when the key is absent. -/
def g_hash_table_lookup : List (Nat × Nat) → Nat → Nat
  | [], _ => 0
  | (k, v) :: t, key => if k = key then v else g_hash_table_lookup t key

/-- GLib `g_hash_table_remove`. -/
def g_hash_table_remove (table : List (Nat × Nat)) (key : Nat) : List (Nat × Nat) :=
  table.filter (fun p => decide (p.1 ≠ key))

/-- GLib `g_hash_table_insert`: a present key gets the new value. -/
def g_hash_table_insert (table : List (Nat × Nat)) (key value : Nat) : List (Nat × Nat) :=
  (key, value) :: g_hash_table_remove table key

/-- The keys of a hash table. -/
def g_hash_table_keys (table : List (Nat × Nat)) : List Nat := table.map Prod.fst

/-- GLib `g_list_sort_with_data`: a stable merge sort by a three-way comparison. -/
def g_list_sort_with_data (list : List Nat) (compare_func : Nat → Nat → Int) : List Nat :=
  list.mergeSort (fun a b => decide (compare_func a b ≤ 0))

/-! ## Data model -/

/-- The struct `NautilusCanvasIcon` of `nautilus-canvas-private.h` (the canvas item it owns is not modelled). -/
structure NautilusCanvasIcon where
  data : Nat
  x : Rat
  y : Rat
  saved_ltr_x : Rat
  position : Int
  is_selected : Bool
  was_selected_before_rubberband : Bool
  is_visible : Bool
deriving DecidableEq

/-- A zero-filled icon block, as `g_new0 (NautilusCanvasIcon, 1)` returns it. -/
def g_new0_icon : NautilusCanvasIcon :=
  { data := 0, x := 0, y := 0, saved_ltr_x := 0, position := 0,
    is_selected := false, was_selected_before_rubberband := false, is_visible := false }

/-- The struct `NautilusCanvasRubberbandInfo`; the pointer-tracking fields (start point, previous
pointer position, last adjustments) only feed the rectangle of the timer tick and are left out. -/
structure NautilusCanvasRubberbandInfo where
  active : Bool
  selection_rectangle : Bool
  device : Nat
  timer_id : Nat
deriving DecidableEq

/-- The enum `DragState`. -/
inductive DragState where
  | DRAG_STATE_INITIAL
  | DRAG_STATE_MOVE_OR_COPY
  | DRAG_STATE_STRETCH
deriving DecidableEq

/-- The callbacks the container hands to `g_idle_add` and `g_timeout_add`. -/
inductive GSourceFunc where
  | redo_layout_callback
  | selection_changed_at_idle_callback
  | keyboard_icon_reveal_timeout_callback
  | rubberband_timeout_callback
deriving DecidableEq

/-- The signals of the container that the modelled functions emit. -/
inductive Signal where
  | SELECTION_CHANGED
  | ICON_REMOVED (icon : Nat)
  | BAND_SELECT_STARTED
  | BAND_SELECT_ENDED
  | ICON_ADDED (data : Nat)
deriving DecidableEq

/-- The directions of GTK (`GtkDirectionType`). -/
inductive GtkDirectionType where
  | GTK_DIR_TAB_FORWARD
  | GTK_DIR_TAB_BACKWARD
  | GTK_DIR_UP
  | GTK_DIR_DOWN
  | GTK_DIR_LEFT
  | GTK_DIR_RIGHT
deriving DecidableEq

/-- The container: the fields of `NautilusCanvasContainerDetails` that the registry, the selection
engine and the deferred operations use, the memory of the icon blocks (`heap`), the sources of the
GLib main context (`sources`, `last_source_id`) and the signals emitted so far (`emitted`). -/
structure NautilusCanvasContainer where
  heap : Nat → NautilusCanvasIcon
  icons : List Nat
  new_icons : List Nat
  selection : List Nat
  icon_set : List (Nat × Nat)
  focus : Nat
  keyboard_focus : Bool
  keyboard_rubberband_start : Nat
  drop_target : Nat
  rubberband_info : NautilusCanvasRubberbandInfo
  keyboard_icon_reveal_timer_id : Nat
  keyboard_icon_to_reveal : Nat
  selection_changed_id : Nat
  pending_icon_to_reveal : Nat
  drag_icon : Nat
  drag_state : DragState
  range_selection_base_icon : Nat
  idle_id : Nat
  arrow_key_start_x : Int
  arrow_key_start_y : Int
  arrow_key_direction : GtkDirectionType
  has_been_allocated : Bool
  needs_resort : Bool
  selection_needs_resort : Bool
  sources : List (Nat × GSourceFunc)
  last_source_id : Nat
  emitted : List Signal

/-- A rectangle with `double` coordinates (`EelDRect`). -/
structure EelDRect where
  x0 : Rat
  y0 : Rat
  x1 : Rat
  y1 : Rat
deriving DecidableEq

/-- A rectangle with `int` coordinates (`EelIRect`). -/
structure EelIRect where
  x0 : Int
  y0 : Int
  x1 : Int
  y1 : Int
deriving DecidableEq

/-- The collaborators outside this file that the modelled functions call: the comparison of the
container class, the world-to-canvas conversion of the canvas, the hit test of a canvas item
(given by the address of the icon that owns the item), `pow` of the C library, the answer of the
handler of the signal `GET_ICON_URI` for an id, and `eel_drect_union`. -/
structure Collaborators where
  compare_icons : Nat → Nat → Int
  pow : Rat → Rat → Rat
  eel_canvas_w2c : Rat → Rat → Int × Int
  nautilus_canvas_item_hit_test_rectangle : Nat → EelIRect → Bool
  get_icon_uri : Nat → String
  eel_drect_union : EelDRect → EelDRect → EelDRect

/-- The part of a `GdkEventButton` that the rubber band reads: the device and the number of the
button, which is 1, the rubber band button, unless stated. -/
structure GdkEventButton where
  device : Nat
  button : Nat := 1
deriving DecidableEq

/-! ## GLib main context -/

/-- GLib `g_idle_add` / `g_timeout_add`: attaches a source and returns its id, which is never 0. -/
def g_source_add (c : NautilusCanvasContainer) (function : GSourceFunc) :
    Nat × NautilusCanvasContainer :=
  (c.last_source_id + 1,
   { c with sources := c.sources ++ [(c.last_source_id + 1, function)],
            last_source_id := c.last_source_id + 1 })

/-- GLib `g_source_remove`. -/
def g_source_remove (c : NautilusCanvasContainer) (tag : Nat) : NautilusCanvasContainer :=
  { c with sources := c.sources.filter (fun s => decide (s.1 ≠ tag)) }

/-- GLib `g_signal_emit`, recorded in the log of emitted signals. -/
def g_signal_emit (c : NautilusCanvasContainer) (signal : Signal) : NautilusCanvasContainer :=
  { c with emitted := c.emitted ++ [signal] }

/-! ## Icons -/

/-- Source function `icon_is_positioned`. -/
def icon_is_positioned (icon : NautilusCanvasIcon) : Bool :=
  decide (icon.x ≠ ICON_UNPOSITIONED_VALUE) && decide (icon.y ≠ ICON_UNPOSITIONED_VALUE)

/-- Source function `icon_toggle_selected`. -/
def icon_toggle_selected (c : NautilusCanvasContainer) (icon : Nat) : NautilusCanvasContainer :=
  let is_selected := !(c.heap icon).is_selected
  let data := (c.heap icon).data
  let c := { c with heap := Function.update c.heap icon { c.heap icon with is_selected := is_selected } }
  if is_selected then
    { c with selection := g_list_prepend c.selection data, selection_needs_resort := true }
  else
    { c with selection := g_list_remove c.selection data }

/-- Source function `icon_set_selected`: returns whether the flag changed. -/
def icon_set_selected (c : NautilusCanvasContainer) (icon : Nat) (select : Bool) :
    Bool × NautilusCanvasContainer :=
  if select = (c.heap icon).is_selected then (false, c)
  else (true, icon_toggle_selected c icon)

/-! ## Deferred operations and transient references -/

/-- Source function `set_pending_icon_to_reveal`. -/
def set_pending_icon_to_reveal (c : NautilusCanvasContainer) (icon : Nat) : NautilusCanvasContainer :=
  if icon = c.pending_icon_to_reveal then c else { c with pending_icon_to_reveal := icon }

/-- Source function `reveal_icon`, as far as the container state goes (the scroll adjustments
belong to the scrollable surface). -/
def reveal_icon (c : NautilusCanvasContainer) (icon : Nat) : NautilusCanvasContainer :=
  if !icon_is_positioned (c.heap icon) then set_pending_icon_to_reveal c icon
  else set_pending_icon_to_reveal c 0

/-- Source function `unschedule_keyboard_icon_reveal`. -/
def unschedule_keyboard_icon_reveal (c : NautilusCanvasContainer) : NautilusCanvasContainer :=
  if c.keyboard_icon_reveal_timer_id ≠ 0 then g_source_remove c c.keyboard_icon_reveal_timer_id
  else c

/-- Source function `clear_focus`. -/
def clear_focus (c : NautilusCanvasContainer) : NautilusCanvasContainer :=
  { c with focus := 0 }

/-- Source function `set_focus`; its assertion fails on a `NULL` icon. -/
def set_focus (c : NautilusCanvasContainer) (icon : Nat) (keyboard_focus : Bool) :
    Option NautilusCanvasContainer :=
  if icon = 0 then none
  else if icon = c.focus then some c
  else some { clear_focus c with focus := icon, keyboard_focus := keyboard_focus }

/-- Source function `clear_keyboard_rubberband_start`. -/
def clear_keyboard_rubberband_start (c : NautilusCanvasContainer) : NautilusCanvasContainer :=
  { c with keyboard_rubberband_start := 0 }

/-- Source function `clear_drag_state`. -/
def clear_drag_state (c : NautilusCanvasContainer) : NautilusCanvasContainer :=
  { c with drag_icon := 0, drag_state := DragState.DRAG_STATE_INITIAL }

/-- Source function `schedule_redo_layout`. -/
def schedule_redo_layout (c : NautilusCanvasContainer) : NautilusCanvasContainer :=
  if c.idle_id = 0 ∧ c.has_been_allocated = true then
    let r := g_source_add c GSourceFunc.redo_layout_callback
    { r.2 with idle_id := r.1 }
  else c

/-! ## Item registry -/

/-- Source function `icon_destroy`, lines 4662 to 4673: the focus goes to `icon_to_focus` when the
destroyed icon was focused or no icon was. -/
def icon_destroy_focus (c : NautilusCanvasContainer) (icon icon_to_focus : Nat) :
    Option NautilusCanvasContainer :=
  if c.focus = icon ∨ c.focus = 0 then
    (if icon_to_focus ≠ 0 then set_focus c icon_to_focus true else some (clear_focus c))
  else some c

/-- Source function `icon_destroy`, lines 4675 to 4699: the transient references to the destroyed
icon are cleared. -/
def icon_destroy_references (c : NautilusCanvasContainer) (icon : Nat) : NautilusCanvasContainer :=
  let c := if c.keyboard_rubberband_start = icon then clear_keyboard_rubberband_start c else c
  let c := if c.keyboard_icon_to_reveal = icon then unschedule_keyboard_icon_reveal c else c
  let c := if c.drag_icon = icon then clear_drag_state c else c
  let c := if c.drop_target = icon then { c with drop_target := 0 } else c
  let c := if c.range_selection_base_icon = icon then { c with range_selection_base_icon := 0 } else c
  if c.pending_icon_to_reveal = icon then set_pending_icon_to_reveal c 0 else c

/-- Source function `icon_destroy`: removes one icon from the container.  `g_list_find` yields
`NULL` for an icon that is not in the list, and `item->next` then dereferences it. -/
def icon_destroy (c : NautilusCanvasContainer) (icon : Nat) : Option NautilusCanvasContainer :=
  match g_list_find c.icons icon with
  | none => none
  | some item =>
    let icon_to_focus : Nat :=
      if item + 1 < c.icons.length then c.icons.getD (item + 1) 0
      else if 0 < item then c.icons.getD (item - 1) 0
      else 0
    let c := { c with icons := g_list_remove c.icons icon }
    let c := { c with new_icons := g_list_remove c.new_icons icon }
    let c := { c with selection := g_list_remove c.selection (c.heap icon).data }
    let c := { c with icon_set := g_hash_table_remove c.icon_set (c.heap icon).data }
    let was_selected := (c.heap icon).is_selected
    match icon_destroy_focus c icon icon_to_focus with
    | none => none
    | some c =>
      let c := icon_destroy_references c icon
      if was_selected then
        let r := g_source_add c GSourceFunc.selection_changed_at_idle_callback
        some { r.2 with selection_changed_id := r.1 }
      else some c

/-- Source function `nautilus_canvas_container_add`.  The argument `icon` is the address of the
block that `g_new0` returns for the new icon. -/
def nautilus_canvas_container_add (c : NautilusCanvasContainer) (icon : Nat) (data : Nat) :
    Bool × NautilusCanvasContainer :=
  if data = 0 then (false, c)
  else if g_hash_table_lookup c.icon_set data ≠ 0 then (false, c)
  else
    let block : NautilusCanvasIcon :=
      { g_new0_icon with data := data, x := ICON_UNPOSITIONED_VALUE, y := ICON_UNPOSITIONED_VALUE }
    let c := { c with heap := Function.update c.heap icon block }
    let c := { c with icons := g_list_prepend c.icons icon }
    let c := { c with new_icons := g_list_prepend c.new_icons icon }
    let c := { c with icon_set := g_hash_table_insert c.icon_set data icon }
    let c := { c with needs_resort := true }
    (true, schedule_redo_layout c)

/-- Source function `nautilus_canvas_container_remove`. -/
def nautilus_canvas_container_remove (c : NautilusCanvasContainer) (data : Nat) :
    Option (Bool × NautilusCanvasContainer) :=
  if data = 0 then some (false, c)
  else
    let icon := g_hash_table_lookup c.icon_set data
    if icon = 0 then some (false, c)
    else
      match icon_destroy c icon with
      | none => none
      | some c =>
        let c := schedule_redo_layout c
        some (true, g_signal_emit c (Signal.ICON_REMOVED icon))

/-- Source function `nautilus_canvas_container_clear`. -/
def nautilus_canvas_container_clear (c : NautilusCanvasContainer) : NautilusCanvasContainer :=
  if c.icons = [] then c
  else
    let c := clear_focus c
    let c := clear_keyboard_rubberband_start c
    let c := unschedule_keyboard_icon_reveal c
    let c := set_pending_icon_to_reveal c 0
    let c := { c with drop_target := 0 }
    let c := { c with icons := [] }
    let c := { c with new_icons := [] }
    let c := { c with selection := [] }
    { c with icon_set := [] }

/-- Source function `nautilus_canvas_container_is_empty`. -/
def nautilus_canvas_container_is_empty (c : NautilusCanvasContainer) : Bool :=
  decide (c.icons = [])

/-! ## Selection engine -/

/-- Source function `sort_selection`. -/
def sort_selection (k : Collaborators) (c : NautilusCanvasContainer) : NautilusCanvasContainer :=
  { c with selection := g_list_sort_with_data c.selection k.compare_icons,
           selection_needs_resort := false }

/-- Source function `nautilus_canvas_container_get_selection`: the returned copy and the container,
whose stored selection list may have been sorted. -/
def nautilus_canvas_container_get_selection (k : Collaborators) (c : NautilusCanvasContainer) :
    List Nat × NautilusCanvasContainer :=
  let c := if c.selection_needs_resort then sort_selection k c else c
  (c.selection, c)

/-- Source function `nautilus_canvas_container_get_selected_icons`. -/
def nautilus_canvas_container_get_selected_icons (c : NautilusCanvasContainer) : List Nat :=
  (c.icons.foldl (fun list icon => if (c.heap icon).is_selected then g_list_prepend list icon else list)
    []).reverse

/-- The local variables of the loop of `select_range`. -/
structure select_range_state where
  container : NautilusCanvasContainer
  unmatched_icon : Nat
  select : Bool
  selection_changed : Bool

/-- The loop body of `select_range`, lines 1473 to 1485: the first end of the range met starts
the selection and the other end becomes the unmatched icon. -/
def select_range_match (icon1 icon2 : Nat) (s : select_range_state) (icon : Nat) :
    select_range_state :=
  if s.unmatched_icon = 0 then
    if icon = icon1 then { s with unmatched_icon := icon2, select := true }
    else if icon = icon2 then { s with unmatched_icon := icon1, select := true }
    else s
  else s

/-- The loop body of `select_range`, lines 1487 to 1491. -/
def select_range_apply (unselect_outside_range : Bool) (s : select_range_state) (icon : Nat) :
    select_range_state :=
  if s.select || unselect_outside_range then
    let r := icon_set_selected s.container icon s.select
    { s with container := r.2, selection_changed := s.selection_changed || r.1 }
  else s

/-- The loop body of `select_range`, lines 1493 to 1496: the unmatched icon ends the selection. -/
def select_range_close (s : select_range_state) (icon : Nat) : select_range_state :=
  if s.unmatched_icon ≠ 0 ∧ icon = s.unmatched_icon then { s with select := false } else s

/-- One iteration of the loop of `select_range`, at the list node holding `icon`. -/
def select_range_step (icon1 icon2 : Nat) (unselect_outside_range : Bool)
    (s : select_range_state) (icon : Nat) : select_range_state :=
  let s := select_range_match icon1 icon2 s icon
  let s := select_range_apply unselect_outside_range s icon
  select_range_close s icon

/-- Source function `select_range`. -/
def select_range (c : NautilusCanvasContainer) (icon1 icon2 : Nat)
    (unselect_outside_range : Bool) : Bool × NautilusCanvasContainer :=
  let s := c.icons.foldl (select_range_step icon1 icon2 unselect_outside_range)
    { container := c, unmatched_icon := 0, select := false, selection_changed := false }
  (s.selection_changed, s.container)

/-- The loop body shared by the functions that give every icon of the list a computed flag:
`selection_changed |= icon_set_selected (container, icon, want (icon))`. -/
def set_selected_step (want : NautilusCanvasContainer → Nat → Bool)
    (acc : Bool × NautilusCanvasContainer) (icon : Nat) : Bool × NautilusCanvasContainer :=
  let r := icon_set_selected acc.2 icon (want acc.2 icon)
  (acc.1 || r.1, r.2)

/-- The loop `for (p = container->details->icons; p != NULL; p = p->next)` around
`set_selected_step`. -/
def set_selected_loop (want : NautilusCanvasContainer → Nat → Bool) (icons : List Nat)
    (acc : Bool × NautilusCanvasContainer) : Bool × NautilusCanvasContainer :=
  icons.foldl (set_selected_step want) acc

/-- Source function `select_one_unselect_others`. -/
def select_one_unselect_others (c : NautilusCanvasContainer) (icon_to_select : Nat) :
    Bool × NautilusCanvasContainer :=
  let r := set_selected_loop (fun _ icon => decide (icon = icon_to_select)) c.icons (false, c)
  if r.1 = true ∧ icon_to_select ≠ 0 then (r.1, reveal_icon r.2 icon_to_select) else r

/-- Source function `unselect_all`. -/
def unselect_all (c : NautilusCanvasContainer) : Bool × NautilusCanvasContainer :=
  select_one_unselect_others c 0

/-- Source function `nautilus_canvas_container_select_all`. -/
def nautilus_canvas_container_select_all (c : NautilusCanvasContainer) : NautilusCanvasContainer :=
  let r := set_selected_loop (fun _ _ => true) c.icons (false, c)
  if r.1 then g_signal_emit r.2 Signal.SELECTION_CHANGED else r.2

/-- Source function `nautilus_canvas_container_invert_selection`. -/
def nautilus_canvas_container_invert_selection (c : NautilusCanvasContainer) :
    NautilusCanvasContainer :=
  g_signal_emit (c.icons.foldl icon_toggle_selected c) Signal.SELECTION_CHANGED

/-- The canvas rectangle that `rubberband_select` computes from the world rectangle. -/
def rubberband_canvas_rect (k : Collaborators) (current_rect : EelDRect) : EelIRect :=
  let p0 := k.eel_canvas_w2c current_rect.x0 current_rect.y0
  let p1 := k.eel_canvas_w2c current_rect.x1 current_rect.y1
  { x0 := p0.1, y0 := p0.2, x1 := p1.1, y1 := p1.2 }

/-- Source function `rubberband_select`. -/
def rubberband_select (k : Collaborators) (c : NautilusCanvasContainer) (current_rect : EelDRect) :
    NautilusCanvasContainer :=
  let canvas_rect := rubberband_canvas_rect k current_rect
  let r := set_selected_loop
    (fun c icon =>
      let is_in := k.nautilus_canvas_item_hit_test_rectangle icon canvas_rect
      xor is_in (c.heap icon).was_selected_before_rubberband)
    c.icons (false, c)
  if r.1 then g_signal_emit r.2 Signal.SELECTION_CHANGED else r.2

/-- Source function `stop_rubberbanding`; `event` is `none` for a `NULL` event.  Its assertion
fails when no timer is installed. -/
def stop_rubberbanding (c : NautilusCanvasContainer) (event : Option GdkEventButton) :
    Option NautilusCanvasContainer :=
  let mismatch : Bool :=
    match event with
    | some e => decide (e.device ≠ c.rubberband_info.device)
    | none => false
  if mismatch then some c
  else if c.rubberband_info.timer_id = 0 then none
  else
    let c := g_source_remove c c.rubberband_info.timer_id
    let c := { c with rubberband_info := { c.rubberband_info with timer_id := 0 } }
    let c := { c with rubberband_info := { c.rubberband_info with active := false } }
    let c := { c with rubberband_info := { c.rubberband_info with device := 0 } }
    let c := { c with rubberband_info := { c.rubberband_info with selection_rectangle := false } }
    let icons := nautilus_canvas_container_get_selected_icons c
    let c := if g_list_length icons = 1 then { c with range_selection_base_icon := icons.getD 0 0 } else c
    some (g_signal_emit c Signal.BAND_SELECT_ENDED)

/-- The loop body of the snapshot of `start_rubberbanding`:
`icon->was_selected_before_rubberband = icon->is_selected`. -/
def start_rubberbanding_snapshot_step (c : NautilusCanvasContainer) (icon : Nat) :
    NautilusCanvasContainer :=
  let block := { c.heap icon with was_selected_before_rubberband := (c.heap icon).is_selected }
  { c with heap := Function.update c.heap icon block }

/-- The snapshot loop of `start_rubberbanding`. -/
def start_rubberbanding_snapshot (c : NautilusCanvasContainer) : NautilusCanvasContainer :=
  c.icons.foldl start_rubberbanding_snapshot_step c

/-- Source function `start_rubberbanding`, lines 1744 to 1793: what it does once an active rubber
band has been cancelled. -/
def start_rubberbanding_begin (c : NautilusCanvasContainer) (event : GdkEventButton) :
    NautilusCanvasContainer :=
  let c := g_signal_emit c Signal.BAND_SELECT_STARTED
  let c := { c with rubberband_info := { c.rubberband_info with device := event.device } }
  let c := start_rubberbanding_snapshot c
  let c := { c with rubberband_info := { c.rubberband_info with selection_rectangle := true } }
  let c := { c with rubberband_info := { c.rubberband_info with active := true } }
  if c.rubberband_info.timer_id = 0 then
    let r := g_source_add c GSourceFunc.rubberband_timeout_callback
    { r.2 with rubberband_info := { r.2.rubberband_info with timer_id := r.1 } }
  else c

/-- Source function `start_rubberbanding`. -/
def start_rubberbanding (c : NautilusCanvasContainer) (event : GdkEventButton) :
    Option NautilusCanvasContainer :=
  let stopped : Option NautilusCanvasContainer :=
    if c.rubberband_info.active then stop_rubberbanding c none else some c
  match stopped with
  | none => none
  | some c => some (start_rubberbanding_begin c event)

/-- The temporary hash table of `nautilus_canvas_container_set_selection`. -/
def set_selection_hash (selection : List Nat) : List (Nat × Nat) :=
  selection.foldl (fun hash data => g_hash_table_insert hash data data) []

/-- The local variables of the loop of `nautilus_canvas_container_set_selection`. -/
structure set_selection_state where
  container : NautilusCanvasContainer
  selection_changed : Bool
  selected_icon : Nat

/-- One iteration of the loop of `nautilus_canvas_container_set_selection`. -/
def set_selection_step (hash : List (Nat × Nat)) (s : set_selection_state) (icon : Nat) :
    set_selection_state :=
  let res := icon_set_selected s.container icon
    (decide (g_hash_table_lookup hash (s.container.heap icon).data ≠ 0))
  { container := res.2,
    selection_changed := s.selection_changed || res.1,
    selected_icon := if res.1 then icon else s.selected_icon }

/-- Source function `nautilus_canvas_container_set_selection`. -/
def nautilus_canvas_container_set_selection (c : NautilusCanvasContainer) (selection : List Nat) :
    NautilusCanvasContainer :=
  let hash := set_selection_hash selection
  let s := c.icons.foldl (set_selection_step hash)
    { container := c, selection_changed := false, selected_icon := 0 }
  if s.selection_changed then
    let c := s.container
    let c := if g_list_length selection = 1 then { c with range_selection_base_icon := s.selected_icon } else c
    g_signal_emit c Signal.SELECTION_CHANGED
  else s.container

/-! ## Layout engine: the grid -/

/-- The C macro `MAX`. -/
def MAX (a b : Rat) : Rat := if a > b then a else b

/-- The widths that `lay_down_icons_horizontal` computes before it walks the icons. -/
structure lay_down_grid where
  available_width : Rat
  num_columns : Rat
  grid_width : Rat
deriving DecidableEq

/-- Source function `lay_down_icons_horizontal`, lines 1187 to 1228: the available width, the
number of columns and the grid width, for the canvas width `CANVAS_WIDTH (container, allocation)`
and the minimum grid width of the zoom level. -/
def lay_down_icons_horizontal_grid (k : Collaborators) (canvas_width min_grid_width : Rat)
    (icons : List Nat) : lay_down_grid :=
  let available_width : Rat := MAX 1 (canvas_width - ICON_PAD_LEFT - ICON_PAD_RIGHT - 1)
  let num_columns : Rat := MAX 1 (Int.floor (available_width / min_grid_width) : Int)
  let grid_width : Rat :=
    if (g_list_nth icons (Int.toNat (Int.floor num_columns))).isSome then
      available_width / num_columns
    else
      let num_icons : Rat := MAX 1 (g_list_length icons : Nat)
      let used_width := num_icons * min_grid_width
      let unused_width := available_width - used_width
      let max_extra_fraction := (unused_width / num_icons) / min_grid_width
      let extra_fraction := k.pow (max_extra_fraction + 1) (1 / 4) - 1
      min_grid_width * (1 + extra_fraction)
  let grid_width := MAX min_grid_width grid_width
  { available_width := available_width, num_columns := num_columns, grid_width := grid_width }

/-! ## Reachable states and consistency -/

/-- An empty container: no icon, no pending new icon, no selection and an empty index. -/
def is_empty_container (c : NautilusCanvasContainer) : Prop :=
  c.icons = [] ∧ c.new_icons = [] ∧ c.selection = [] ∧ c.icon_set = []

/-- The states reachable from an empty container through `nautilus_canvas_container_add`,
`nautilus_canvas_container_remove` and `nautilus_canvas_container_clear`.  The block that `g_new0`
hands to `add` is not `NULL` and is none of the live icon blocks. -/
inductive RegistryReachable : NautilusCanvasContainer → Prop
  | empty (c : NautilusCanvasContainer) : is_empty_container c → RegistryReachable c
  | add (c : NautilusCanvasContainer) (icon data : Nat) :
      RegistryReachable c → icon ≠ 0 → icon ∉ c.icons →
      RegistryReachable (nautilus_canvas_container_add c icon data).2
  | remove (c : NautilusCanvasContainer) (data : Nat) (r : Bool × NautilusCanvasContainer) :
      RegistryReachable c → nautilus_canvas_container_remove c data = some r →
      RegistryReachable r.2
  | clear (c : NautilusCanvasContainer) :
      RegistryReachable c → RegistryReachable (nautilus_canvas_container_clear c)

/-- The states reachable from an empty container through add, remove, clear and the selection
operations: the two primitives on an icon of the list, and the functions built on them. -/
inductive Reachable (k : Collaborators) : NautilusCanvasContainer → Prop
  | empty (c : NautilusCanvasContainer) : is_empty_container c → Reachable k c
  | add (c : NautilusCanvasContainer) (icon data : Nat) :
      Reachable k c → icon ≠ 0 → icon ∉ c.icons →
      Reachable k (nautilus_canvas_container_add c icon data).2
  | remove (c : NautilusCanvasContainer) (data : Nat) (r : Bool × NautilusCanvasContainer) :
      Reachable k c → nautilus_canvas_container_remove c data = some r → Reachable k r.2
  | clear (c : NautilusCanvasContainer) :
      Reachable k c → Reachable k (nautilus_canvas_container_clear c)
  | toggle_selected (c : NautilusCanvasContainer) (icon : Nat) :
      Reachable k c → icon ∈ c.icons → Reachable k (icon_toggle_selected c icon)
  | set_selected (c : NautilusCanvasContainer) (icon : Nat) (select : Bool) :
      Reachable k c → icon ∈ c.icons → Reachable k (icon_set_selected c icon select).2
  | select_range (c : NautilusCanvasContainer) (icon1 icon2 : Nat) (unselect_outside_range : Bool) :
      Reachable k c → Reachable k (select_range c icon1 icon2 unselect_outside_range).2
  | select_one_unselect_others (c : NautilusCanvasContainer) (icon_to_select : Nat) :
      Reachable k c → Reachable k (select_one_unselect_others c icon_to_select).2
  | unselect_all (c : NautilusCanvasContainer) :
      Reachable k c → Reachable k (unselect_all c).2
  | select_all (c : NautilusCanvasContainer) :
      Reachable k c → Reachable k (nautilus_canvas_container_select_all c)
  | invert_selection (c : NautilusCanvasContainer) :
      Reachable k c → Reachable k (nautilus_canvas_container_invert_selection c)
  | set_selection (c : NautilusCanvasContainer) (selection : List Nat) :
      Reachable k c → Reachable k (nautilus_canvas_container_set_selection c selection)
  | get_selection (c : NautilusCanvasContainer) :
      Reachable k c → Reachable k (nautilus_canvas_container_get_selection k c).2
  | rubberband_select (c : NautilusCanvasContainer) (current_rect : EelDRect) :
      Reachable k c → Reachable k (rubberband_select k c current_rect)
  | start_rubberbanding (c : NautilusCanvasContainer) (event : GdkEventButton)
      (c1 : NautilusCanvasContainer) :
      Reachable k c → start_rubberbanding c event = some c1 → Reachable k c1
  | stop_rubberbanding (c : NautilusCanvasContainer) (event : Option GdkEventButton)
      (c1 : NautilusCanvasContainer) :
      Reachable k c → stop_rubberbanding c event = some c1 → Reachable k c1

/-- The id of the icon at an address. -/
def icon_data (c : NautilusCanvasContainer) (icon : Nat) : Nat := (c.heap icon).data

/-- The selection flag of the icon at an address. -/
def icon_is_selected (c : NautilusCanvasContainer) (icon : Nat) : Bool := (c.heap icon).is_selected

/-- An id is registered when the index has an icon for it, which is what `add`, `remove`,
`request_update` and `reveal` test. -/
def is_registered (c : NautilusCanvasContainer) (data : Nat) : Prop :=
  g_hash_table_lookup c.icon_set data ≠ 0

instance (c : NautilusCanvasContainer) (data : Nat) : Decidable (is_registered c data) :=
  inferInstanceAs (Decidable (g_hash_table_lookup c.icon_set data ≠ 0))

/-- Consistency of the registry: the icon list holds distinct live blocks with non-null ids, and
the index and the list describe the same icons. -/
structure RegistryConsistent (c : NautilusCanvasContainer) : Prop where
  icons_nodup : c.icons.Nodup
  icons_not_null : 0 ∉ c.icons
  data_not_null : ∀ icon ∈ c.icons, icon_data c icon ≠ 0
  index_of_icon : ∀ icon ∈ c.icons, g_hash_table_lookup c.icon_set (icon_data c icon) = icon
  icon_of_key : ∀ data ∈ g_hash_table_keys c.icon_set,
    g_hash_table_lookup c.icon_set data ∈ c.icons ∧
      icon_data c (g_hash_table_lookup c.icon_set data) = data
  keys_nodup : (g_hash_table_keys c.icon_set).Nodup

/-- Consistency of the selection: the selection list holds, each once, the ids of the icons of the
list whose flag is set. -/
structure SelectionConsistent (c : NautilusCanvasContainer) : Prop where
  selection_nodup : c.selection.Nodup
  selection_mem : ∀ data, data ∈ c.selection ↔
    ∃ icon ∈ c.icons, icon_data c icon = data ∧ icon_is_selected c icon = true

/-- Two containers with the same icon memory, icon list, new-icon list, index and selection list. -/
def SameCore (c c1 : NautilusCanvasContainer) : Prop :=
  c1.heap = c.heap ∧ c1.icons = c.icons ∧ c1.new_icons = c.new_icons ∧
    c1.icon_set = c.icon_set ∧ c1.selection = c.selection

/-- What the selection operations leave alone: the icon list, the index, the rubber band record,
the id of every icon and the snapshot flag of every icon. -/
def SelectionFrame (c c1 : NautilusCanvasContainer) : Prop :=
  c1.icons = c.icons ∧ c1.icon_set = c.icon_set ∧ c1.rubberband_info = c.rubberband_info ∧
    (∀ icon, icon_data c1 icon = icon_data c icon) ∧
    (∀ icon, (c1.heap icon).was_selected_before_rubberband =
      (c.heap icon).was_selected_before_rubberband)

/-- What the snapshot of `start_rubberbanding` leaves alone: the icon list, the index, the
selection list, the rubber band record, and the id and the selection flag of every icon. -/
def SnapshotFrame (c c1 : NautilusCanvasContainer) : Prop :=
  c1.icons = c.icons ∧ c1.icon_set = c.icon_set ∧ c1.selection = c.selection ∧
    c1.rubberband_info = c.rubberband_info ∧
    (∀ icon, icon_data c1 icon = icon_data c icon) ∧
    (∀ icon, icon_is_selected c1 icon = icon_is_selected c icon)

/-- A consistent container: registry and selection are both consistent. -/
structure Consistent (c : NautilusCanvasContainer) : Prop where
  registry : RegistryConsistent c
  selection : SelectionConsistent c

/-! ## Sample states -/

/-- A container as `nautilus_canvas_container_init` leaves it, after its first size allocation. -/
def sample_empty : NautilusCanvasContainer :=
  { heap := fun _ => g_new0_icon, icons := [], new_icons := [], selection := [], icon_set := [],
    focus := 0, keyboard_focus := false, keyboard_rubberband_start := 0, drop_target := 0,
    rubberband_info := { active := false, selection_rectangle := false, device := 0, timer_id := 0 },
    keyboard_icon_reveal_timer_id := 0, keyboard_icon_to_reveal := 0, selection_changed_id := 0,
    pending_icon_to_reveal := 0, drag_icon := 0, drag_state := DragState.DRAG_STATE_INITIAL,
    range_selection_base_icon := 0, idle_id := 0, arrow_key_start_x := 0, arrow_key_start_y := 0,
    arrow_key_direction := GtkDirectionType.GTK_DIR_TAB_FORWARD, has_been_allocated := true,
    needs_resort := false, selection_needs_resort := false, sources := [], last_source_id := 0,
    emitted := [] }

/-- The sample container after the ids 10, 20 and 30 were added, in the blocks 1, 2 and 3: the
icon list is `[3, 2, 1]`. -/
def sample_three : NautilusCanvasContainer :=
  (nautilus_canvas_container_add
    (nautilus_canvas_container_add (nautilus_canvas_container_add sample_empty 1 10).2 2 20).2
    3 30).2

/-- The sample container with a fourth icon, id 40 in block 4, which is selected: the icon list is
`[4, 3, 2, 1]` and the selection list is `[40]`. -/
def sample_four : NautilusCanvasContainer :=
  icon_toggle_selected (nautilus_canvas_container_add sample_three 4 40).2 4

/-- Sample collaborators: ids compare as numbers, canvas coordinates are the floors of world
coordinates, the item of the icon at address `a` is hit by the rectangles whose horizontal
extent contains `a`, the ids 10 to 50 have the URIs a to e, and the union of two rectangles is
their bounding box. -/
def sample_collaborators : Collaborators :=
  { compare_icons := fun a b => (a : Int) - (b : Int),
    pow := fun x _ => x,
    eel_canvas_w2c := fun x y => (Int.floor x, Int.floor y),
    nautilus_canvas_item_hit_test_rectangle := fun icon rect =>
      decide (rect.x0 ≤ (icon : Int) ∧ (icon : Int) ≤ rect.x1),
    get_icon_uri := fun data =>
      if data = 10 then "a" else if data = 20 then "b" else if data = 30 then "c"
      else if data = 40 then "d" else if data = 50 then "e" else "",
    eel_drect_union := fun a b =>
      { x0 := min a.x0 b.x0, y0 := min a.y0 b.y0, x1 := max a.x1 b.x1, y1 := max a.y1 b.y1 } }

/-- A sample rectangle whose horizontal extent covers the blocks 1 to 4. -/
def sample_rect_wide : EelDRect := { x0 := 1, y0 := 0, x1 := 4, y1 := 0 }

/-- A sample rectangle whose horizontal extent covers the blocks 1 and 2 only. -/
def sample_rect_narrow : EelDRect := { x0 := 1, y0 := 0, x1 := 2, y1 := 0 }

/-- The sample container with the icon of the id 20 focused. -/
def sample_three_focused : NautilusCanvasContainer :=
  { sample_three with focus := 2, keyboard_focus := true }

/-! ## Double arithmetic -/

/-- The position of the leading bit of `n`, for `n ≤ fuel`: the number of times that `n` can be
halved before it falls under 2. -/
def log2_fuel : Nat → Nat → Nat
  | 0, _ => 0
  | fuel + 1, n => if 2 ≤ n then log2_fuel fuel (n / 2) + 1 else 0

/-- The binary exponent of a positive rational `a`: the `e` with `2 ^ e ≤ a < 2 ^ (e + 1)`.  The
difference of the leading bits of numerator and denominator is `e` or `e + 1`, and the comparison
decides which. -/
def double_exponent (a : Rat) : Int :=
  let e0 := (log2_fuel a.num.natAbs a.num.natAbs : Int) - (log2_fuel a.den a.den : Int)
  if a.den * 2 ^ e0.toNat ≤ a.num.natAbs * 2 ^ (-e0).toNat then e0 else e0 - 1

/-- The power `2 ^ z` for an integer `z`, as a rational. -/
def two_pow (z : Int) : Rat := ((2 ^ z.toNat : Nat) : Rat) / ((2 ^ (-z).toNat : Nat) : Rat)

/-- Rounding to the nearest integer, a tie to the even one. -/
def round_half_even (m : Rat) : Int :=
  let f := Int.floor m
  let r := m - f
  if r < 1 / 2 then f
  else if 1 / 2 < r then f + 1
  else if f % 2 = 0 then f else f + 1

/-- The value of type `double` (IEEE 754 binary64, significand of 53 bits) that an operation of C
returns for the exact result `x`: the nearest multiple of `2 ^ (e - 52)`, where `e` is the binary
exponent of `x`, a tie going to the even significand.  The range of the exponent is not bounded
here: the overflow above `2 ^ 1024` and the subnormal numbers under `2 ^ -1022` are left out. -/
def double_round (x : Rat) : Rat :=
  if x = 0 then 0
  else
    let a := |x|
    let q := two_pow (double_exponent a - 52)
    let n := round_half_even (a / q)
    if x < 0 then -((n : Rat) * q) else (n : Rat) * q

/-- The operator `-` of C on two values of type `double`. -/
def double_sub (a b : Rat) : Rat := double_round (a - b)

/-! ## Layout engine: the rows -/

/-- Source constant `ICON_PAD_TOP`. -/
def ICON_PAD_TOP : Rat := 4

/-- Source constant `ICON_PAD_BOTTOM`. -/
def ICON_PAD_BOTTOM : Rat := 4

/-- Source constant `CONTAINER_PAD_TOP`. -/
def CONTAINER_PAD_TOP : Rat := 4

/-- What the layout reads from outside the container record: the canvas width
(`CANVAS_WIDTH (container, allocation)`), the grid width and the icon size of the zoom level, the
text direction of the widget (`nautilus_canvas_container_is_layout_rtl`) and the rectangles of
the canvas item of an icon, given by the address of the icon that owns the item: its bounds for
the layout, its icon rectangle, its bounds (`eel_canvas_item_get_bounds`) and its fields `x1`,
`y1`, `x2`, `y2` (`eel_canvas_item_extent`, as the rectangle `x0`, `y0`, `x1`, `y1`).  The layout
reads only differences of the coordinates of the first two rectangles. -/
structure CanvasWidget where
  canvas_width : Rat
  min_grid_width : Rat
  icon_size : Rat
  is_layout_rtl : Bool
  nautilus_canvas_item_get_bounds_for_layout : Nat → EelDRect
  nautilus_canvas_item_get_icon_rectangle : Nat → EelDRect
  eel_canvas_item_get_bounds : Nat → EelDRect
  eel_canvas_item_extent : Nat → EelDRect

/-- Source structure `IconPositions`. -/
structure IconPositions where
  width : Rat
  height : Rat
  x_offset : Rat
  y_offset : Rat
deriving DecidableEq

/-- Source function `icon_set_position`.  The writes of 0 over `ICON_UNPOSITIONED_VALUE` only
serve the distance that the canvas item is moved by, and are overwritten by the last two
assignments. -/
def icon_set_position (c : NautilusCanvasContainer) (icon : Nat) (x y : Rat) :
    NautilusCanvasContainer :=
  if (c.heap icon).x = x ∧ (c.heap icon).y = y then c
  else { c with heap := Function.update c.heap icon { c.heap icon with x := x, y := y } }

/-- Source function `get_mirror_x_position`: the statement
`return CANVAS_WIDTH (container, allocation) - x - (icon_bounds.x1 - icon_bounds.x0);` on values
of type `double`, each of its three subtractions rounded. -/
def get_mirror_x_position (w : CanvasWidget) (icon : Nat) (x : Rat) : Rat :=
  let icon_bounds := w.nautilus_canvas_item_get_icon_rectangle icon
  double_sub (double_sub w.canvas_width x) (double_sub icon_bounds.x1 icon_bounds.x0)

/-- The local variables of the loop of `lay_down_one_line`. -/
structure lay_down_one_line_state where
  container : NautilusCanvasContainer
  x : Rat

/-- One round of the loop of `lay_down_one_line`, for an icon of the line and its entry of the
array `positions`. -/
def lay_down_one_line_step (w : CanvasWidget) (y : Rat) (s : lay_down_one_line_state)
    (entry : Nat × IconPositions) : lay_down_one_line_state :=
  let icon := entry.1
  let position := entry.2
  let ltr_icon_x := s.x + position.x_offset
  let icon_x := if w.is_layout_rtl then get_mirror_x_position w icon ltr_icon_x else ltr_icon_x
  let y_offset := position.y_offset
  let c := icon_set_position s.container icon icon_x (y + y_offset)
  let saved_ltr_x := if w.is_layout_rtl then ltr_icon_x else (c.heap icon).x
  let c := { c with heap := Function.update c.heap icon { c.heap icon with saved_ltr_x := saved_ltr_x } }
  { container := c, x := s.x + position.width }

/-- Source function `lay_down_one_line`.  The line is the list of the icons from `line_start` up
to `line_end`, each with its entry of `positions`; `max_height` is not read and `whole_text` goes
to the canvas items. -/
def lay_down_one_line (w : CanvasWidget) (c : NautilusCanvasContainer)
    (line : List (Nat × IconPositions)) (y : Rat) : NautilusCanvasContainer :=
  (line.foldl (lay_down_one_line_step w y) { container := c, x := ICON_PAD_LEFT }).container

/-- The local variables of the loop of `lay_down_icons_horizontal`: `line` holds the icons from
`line_start` up to `p` with their entries of `positions`, and `lines` is the log of the lines that
were handed to `lay_down_one_line`. -/
structure lay_down_icons_horizontal_state where
  container : NautilusCanvasContainer
  line : List (Nat × IconPositions)
  y : Rat
  line_width : Rat
  max_height_above : Rat
  max_height_below : Rat
  lines : List (List Nat)

/-- The width that `lay_down_icons_horizontal` gives an icon: its width, or the icon size of the
zoom level if that is larger, rounded up to whole grid cells. -/
def lay_down_icon_width (w : CanvasWidget) (grid_width : Rat) (icon : Nat) : Rat :=
  let bounds := w.nautilus_canvas_item_get_bounds_for_layout icon
  (Int.ceil (MAX (bounds.x1 - bounds.x0) w.icon_size / grid_width) : Int) * grid_width

/-- The test of `lay_down_icons_horizontal` for laying down the queued line before `icon`:
`line_start != p && line_width + icon_width >= canvas_width`. -/
def lay_down_line_is_full (w : CanvasWidget) (grid_width : Rat)
    (s : lay_down_icons_horizontal_state) (icon : Nat) : Prop :=
  s.line ≠ [] ∧ s.line_width + lay_down_icon_width w grid_width icon ≥ w.canvas_width

instance (w : CanvasWidget) (grid_width : Rat) (s : lay_down_icons_horizontal_state) (icon : Nat) :
    Decidable (lay_down_line_is_full w grid_width s icon) :=
  inferInstanceAs (Decidable (_ ∧ _))

/-- The entry of the array `positions` that `lay_down_icons_horizontal` writes for an icon. -/
def lay_down_icon_position (w : CanvasWidget) (grid_width : Rat) (icon : Nat) : IconPositions :=
  let icon_width := lay_down_icon_width w grid_width icon
  let icon_bounds := w.nautilus_canvas_item_get_icon_rectangle icon
  { width := icon_width, height := icon_bounds.y1 - icon_bounds.y0,
    x_offset := (icon_width - (icon_bounds.x1 - icon_bounds.x0)) / 2,
    y_offset := icon_bounds.y0 - icon_bounds.y1 }

/-- One round of the loop of `lay_down_icons_horizontal`. -/
def lay_down_icons_horizontal_step (w : CanvasWidget) (grid_width : Rat)
    (s : lay_down_icons_horizontal_state) (icon : Nat) : lay_down_icons_horizontal_state :=
  let bounds := w.nautilus_canvas_item_get_bounds_for_layout icon
  let icon_width := lay_down_icon_width w grid_width icon
  let icon_bounds := w.nautilus_canvas_item_get_icon_rectangle icon
  let height_above := icon_bounds.y1 - bounds.y0
  let height_below := bounds.y1 - icon_bounds.y1
  let s : lay_down_icons_horizontal_state :=
    if lay_down_line_is_full w grid_width s icon then
      let y := s.y + (ICON_PAD_TOP + s.max_height_above)
      let c := lay_down_one_line w s.container s.line y
      let y := y + (s.max_height_below + ICON_PAD_BOTTOM)
      { container := c, line := [], y := y, line_width := 0, max_height_above := height_above,
        max_height_below := height_below, lines := s.lines ++ [s.line.map Prod.fst] }
    else
      { s with
        max_height_above :=
          if height_above > s.max_height_above then height_above else s.max_height_above,
        max_height_below :=
          if height_below > s.max_height_below then height_below else s.max_height_below }
  { s with line := s.line ++ [(icon, lay_down_icon_position w grid_width icon)],
           line_width := s.line_width + icon_width }

/-- Source function `lay_down_icons_horizontal`, from line 1230 on, for a list that is not empty:
the walk over the icons and the last line. -/
def lay_down_icons_horizontal_loop (k : Collaborators) (w : CanvasWidget)
    (c : NautilusCanvasContainer) (icons : List Nat) (start_y : Rat) :
    lay_down_icons_horizontal_state :=
  let grid := lay_down_icons_horizontal_grid k w.canvas_width w.min_grid_width icons
  let s := icons.foldl (lay_down_icons_horizontal_step w grid.grid_width)
    { container := c, line := [], y := start_y + CONTAINER_PAD_TOP, line_width := 0,
      max_height_above := 0, max_height_below := 0, lines := [] }
  let y := s.y + (ICON_PAD_TOP + s.max_height_above)
  { s with container := lay_down_one_line w s.container s.line y, line := [], y := y,
           lines := s.lines ++ [s.line.map Prod.fst] }

/-- Source function `lay_down_icons_horizontal`. -/
def lay_down_icons_horizontal (k : Collaborators) (w : CanvasWidget) (c : NautilusCanvasContainer)
    (icons : List Nat) (start_y : Rat) : NautilusCanvasContainer :=
  if c.has_been_allocated = false then c
  else if icons = [] then c
  else (lay_down_icons_horizontal_loop k w c icons start_y).container

/-- The rows of `lay_down_icons_horizontal`: the lines that it hands to `lay_down_one_line`, in
order, each as the list of its icons. -/
def lay_down_icons_horizontal_lines (k : Collaborators) (w : CanvasWidget)
    (c : NautilusCanvasContainer) (icons : List Nat) (start_y : Rat) : List (List Nat) :=
  if c.has_been_allocated = false then []
  else if icons = [] then []
  else (lay_down_icons_horizontal_loop k w c icons start_y).lines

/-- Source function `lay_down_icons`. -/
def lay_down_icons (k : Collaborators) (w : CanvasWidget) (c : NautilusCanvasContainer)
    (icons : List Nat) (start_y : Rat) : NautilusCanvasContainer :=
  lay_down_icons_horizontal k w c icons start_y

/-- Source function `nautilus_canvas_container_set_rtl_positions`. -/
def nautilus_canvas_container_set_rtl_positions (w : CanvasWidget) (c : NautilusCanvasContainer) :
    NautilusCanvasContainer :=
  if c.icons = [] then c
  else
    c.icons.foldl (fun c icon =>
      let x := get_mirror_x_position w icon (c.heap icon).saved_ltr_x
      icon_set_position c icon x (c.heap icon).y) c

/-- Source function `finish_adding_icon`, as far as the container record goes: the signal. -/
def finish_adding_icon (c : NautilusCanvasContainer) (icon : Nat) : NautilusCanvasContainer :=
  g_signal_emit c (Signal.ICON_ADDED (c.heap icon).data)

/-- Source function `finish_adding_new_icons`. -/
def finish_adding_new_icons (c : NautilusCanvasContainer) : Bool × NautilusCanvasContainer :=
  let new_icons := c.new_icons
  let c := { c with new_icons := [] }
  let new_icons := new_icons.reverse
  (true, new_icons.foldl finish_adding_icon c)

/-- Source function `sort_icons`, applied to the icon list of the container. -/
def sort_icons (k : Collaborators) (c : NautilusCanvasContainer) : NautilusCanvasContainer :=
  let compare_func := fun a b => k.compare_icons (c.heap a).data (c.heap b).data
  { c with icons := g_list_sort_with_data c.icons compare_func }

/-- Source function `cache_icon_positions`. -/
def cache_icon_positions (c : NautilusCanvasContainer) : NautilusCanvasContainer :=
  (c.icons.foldl (fun (s : NautilusCanvasContainer × Int) icon =>
    ({ s.1 with heap := Function.update s.1.heap icon { s.1.heap icon with position := s.2 } },
      s.2 + 1)) (c, 0)).1

/-- Source function `resort`. -/
def resort (k : Collaborators) (c : NautilusCanvasContainer) : NautilusCanvasContainer :=
  cache_icon_positions (sort_selection k (sort_icons k c))

/-- Source function `process_pending_icon_to_reveal`. -/
def process_pending_icon_to_reveal (c : NautilusCanvasContainer) : NautilusCanvasContainer :=
  if c.pending_icon_to_reveal ≠ 0 then reveal_icon c c.pending_icon_to_reveal else c

/-- Source function `redo_layout_internal`.  The scroll region and the visibility of the canvas
items, which it updates last, are not part of the container record. -/
def redo_layout_internal (k : Collaborators) (w : CanvasWidget) (c : NautilusCanvasContainer) :
    NautilusCanvasContainer :=
  let r := finish_adding_new_icons c
  if r.1 = false then schedule_redo_layout r.2
  else
    let c := r.2
    let c := if c.needs_resort then { resort k c with needs_resort := false } else c
    let c := lay_down_icons k w c c.icons 0
    let c := if w.is_layout_rtl then nautilus_canvas_container_set_rtl_positions w c else c
    process_pending_icon_to_reveal c

/-- Source function `redo_layout_callback`: the container and the value returned to the main
loop. -/
def redo_layout_callback (k : Collaborators) (w : CanvasWidget) (c : NautilusCanvasContainer) :
    Bool × NautilusCanvasContainer :=
  let c := redo_layout_internal k w c
  (false, { c with idle_id := 0 })

/-- Source function `unschedule_redo_layout`. -/
def unschedule_redo_layout (c : NautilusCanvasContainer) : NautilusCanvasContainer :=
  if c.idle_id ≠ 0 then { g_source_remove c c.idle_id with idle_id := 0 } else c

/-! ## Sample states of the layout -/

/-- The sample container after the ids 50, 40, 30, 20 and 10 were added, in the blocks 5 down to
1: the icon list is `[1, 2, 3, 4, 5]`. -/
def sample_five : NautilusCanvasContainer :=
  (nautilus_canvas_container_add (nautilus_canvas_container_add (nautilus_canvas_container_add
    (nautilus_canvas_container_add (nautilus_canvas_container_add sample_empty 5 50).2 4 40).2
    3 30).2 2 20).2 1 10).2

/-- A sample widget: canvas width 130, minimum grid width 50, icon size 32, left to right, every
item 40 wide with an image of 40 by 40 and 20 of text under it. -/
def sample_widget : CanvasWidget :=
  { canvas_width := 130, min_grid_width := 50, icon_size := 32, is_layout_rtl := false,
    nautilus_canvas_item_get_bounds_for_layout := fun _ => { x0 := 0, y0 := 0, x1 := 40, y1 := 60 },
    nautilus_canvas_item_get_icon_rectangle := fun _ => { x0 := 0, y0 := 0, x1 := 40, y1 := 40 },
    eel_canvas_item_get_bounds := fun _ => { x0 := 0, y0 := 0, x1 := 40, y1 := 60 },
    eel_canvas_item_extent := fun _ => { x0 := 0, y0 := 0, x1 := 40, y1 := 60 } }

/-- The sample widget in right-to-left mode. -/
def sample_widget_rtl : CanvasWidget := { sample_widget with is_layout_rtl := true }

/-- A sample widget in right-to-left mode at 3/4 pixels per unit: an allocation of 201 pixels gives
the canvas width 268; the minimum grid width is `SMALL_ICON_GRID_WIDTH` (124) and the icon size
48; the image of every item is 64 pixels wide, which is the double nearest to 256/3 in canvas
units, and 64 high, with 32 of text under it. -/
def sample_widget_zoomed_rtl : CanvasWidget :=
  { canvas_width := 268, min_grid_width := 124, icon_size := 48, is_layout_rtl := true,
    nautilus_canvas_item_get_bounds_for_layout := fun _ =>
      { x0 := 0, y0 := 0, x1 := 6004799503160661 / 70368744177664, y1 := 96 },
    nautilus_canvas_item_get_icon_rectangle := fun _ =>
      { x0 := 0, y0 := 0, x1 := 6004799503160661 / 70368744177664, y1 := 64 },
    eel_canvas_item_get_bounds := fun _ =>
      { x0 := 0, y0 := 0, x1 := 6004799503160661 / 70368744177664, y1 := 96 },
    eel_canvas_item_extent := fun _ =>
      { x0 := 0, y0 := 0, x1 := 6004799503160661 / 70368744177664, y1 := 96 } }

/-! ## Relations used to state the layout results -/

/-- Two containers that differ in the icon memory only. -/
def HeapOnly (c c1 : NautilusCanvasContainer) : Prop := c1 = { c with heap := c1.heap }

/-- The icon stands where its saved left-to-right x puts it in the direction of the widget: at
that x, or at its mirror image in right-to-left mode. -/
def Placed (w : CanvasWidget) (c : NautilusCanvasContainer) (icon : Nat) : Prop :=
  (c.heap icon).x =
    if w.is_layout_rtl then get_mirror_x_position w icon (c.heap icon).saved_ltr_x
    else (c.heap icon).saved_ltr_x

/-- On the icons of `D`, two containers hold the same saved left-to-right x and the same y, and
each icon stands where its saved x puts it in the direction of its widget. -/
def LaidAlike (w1 w2 : CanvasWidget) (c1 c2 : NautilusCanvasContainer) (D : Nat → Prop) : Prop :=
  ∀ icon, D icon →
    (c1.heap icon).saved_ltr_x = (c2.heap icon).saved_ltr_x ∧
    (c1.heap icon).y = (c2.heap icon).y ∧ Placed w1 c1 icon ∧ Placed w2 c2 icon

/-- Two widgets with the same geometry, which may differ in the text direction. -/
def SameGeometry (w1 w2 : CanvasWidget) : Prop :=
  w2 = { w1 with is_layout_rtl := w2.is_layout_rtl }

/-- Two states of the loop of `lay_down_icons_horizontal` with the same local variables, the
container apart. -/
def SameControl (s1 s2 : lay_down_icons_horizontal_state) : Prop :=
  s2.line = s1.line ∧ s2.y = s1.y ∧ s2.line_width = s1.line_width ∧
    s2.max_height_above = s1.max_height_above ∧ s2.max_height_below = s1.max_height_below ∧
    s2.lines = s1.lines

/-- The container when `redo_layout_internal` reaches `lay_down_icons`: the new icons are
finished and the icons are sorted if that was needed. -/
def redo_layout_sorted (k : Collaborators) (c : NautilusCanvasContainer) :
    NautilusCanvasContainer :=
  let c := (finish_adding_new_icons c).2
  if c.needs_resort then { resort k c with needs_resort := false } else c

/-- The number of columns of `lay_down_icons_horizontal`, as the index that `g_list_nth`
receives. -/
def lay_down_num_columns (k : Collaborators) (w : CanvasWidget) (icons : List Nat) : Nat :=
  Int.toNat (Int.floor
    (lay_down_icons_horizontal_grid k w.canvas_width w.min_grid_width icons).num_columns)

/-- The grid width of `lay_down_icons_horizontal`. -/
def lay_down_grid_width (k : Collaborators) (w : CanvasWidget) (icons : List Nat) : Rat :=
  (lay_down_icons_horizontal_grid k w.canvas_width w.min_grid_width icons).grid_width

/-! ## Layout engine: the positions of the rows -/

/-- The height of an item above the baseline of its row, `icon_bounds.y1 - bounds.y0` in
`lay_down_icons_horizontal`. -/
def lay_down_height_above (w : CanvasWidget) (icon : Nat) : Rat :=
  (w.nautilus_canvas_item_get_icon_rectangle icon).y1 -
    (w.nautilus_canvas_item_get_bounds_for_layout icon).y0

/-- The height of an item below the baseline of its row, `bounds.y1 - icon_bounds.y1` in
`lay_down_icons_horizontal`. -/
def lay_down_height_below (w : CanvasWidget) (icon : Nat) : Rat :=
  (w.nautilus_canvas_item_get_bounds_for_layout icon).y1 -
    (w.nautilus_canvas_item_get_icon_rectangle icon).y1

/-- The update `if (height > max_height) max_height = height` of `lay_down_icons_horizontal`,
for the height above or the height below. -/
def lay_down_max_height (height : Nat → Rat) (max_height : Rat) (icon : Nat) : Rat :=
  if height icon > max_height then height icon else max_height

/-- The local variable `x` of `lay_down_one_line` after `j` items of the width `g`, from the
value `x`: the left edge of column `j`. -/
def lay_down_column_x (g : Rat) (x : Rat) : Nat → Rat
  | 0 => x
  | j + 1 => lay_down_column_x g (x + g) j

/-- The items of row `r` when every row but the last holds `n` items: those with the indices
`r * n` up to `r * n + n - 1`. -/
def lay_down_row (n : Nat) (icons : List Nat) (r : Nat) : List Nat := (icons.drop (r * n)).take n

/-- The value of `max_height_above` (or of `max_height_below`, for the other height) of
`lay_down_icons_horizontal` when row `r` is laid down: on the first row the variable starts at 0
and is updated with every item of the row; on a later row it is set to the height of the first
item of the row and updated with the others. -/
def lay_down_row_max_height (height : Nat → Rat) (n : Nat) (icons : List Nat) (r : Nat) : Rat :=
  match r, lay_down_row n icons r with
  | 0, row => row.foldl (lay_down_max_height height) 0
  | _ + 1, [] => 0
  | _ + 1, first :: others => others.foldl (lay_down_max_height height) (height first)

/-- The value of `y` of `lay_down_icons_horizontal` when the walk is in row `r`:
`start_y + CONTAINER_PAD_TOP` in the first row, and after every row that was laid down the
baseline of that row plus `max_height_below + ICON_PAD_BOTTOM`. -/
def lay_down_row_top (w : CanvasWidget) (n : Nat) (icons : List Nat) (start_y : Rat) : Nat → Rat
  | 0 => start_y + CONTAINER_PAD_TOP
  | r + 1 =>
    lay_down_row_top w n icons start_y r +
        (ICON_PAD_TOP + lay_down_row_max_height (lay_down_height_above w) n icons r) +
      (lay_down_row_max_height (lay_down_height_below w) n icons r + ICON_PAD_BOTTOM)

/-- The baseline of row `r`: the `y` that `lay_down_icons_horizontal` hands to
`lay_down_one_line` for the row, `y + ICON_PAD_TOP + max_height_above`. -/
def lay_down_row_baseline (w : CanvasWidget) (n : Nat) (icons : List Nat) (start_y : Rat)
    (r : Nat) : Rat :=
  lay_down_row_top w n icons start_y r +
    (ICON_PAD_TOP + lay_down_row_max_height (lay_down_height_above w) n icons r)

/-- The item with the index `j` of the list stands in column `j % n` of row `j / n`: its saved
left-to-right x is the left edge of the column plus its `x_offset`, its y is the baseline of the
row plus its `y_offset`, and its x is where the saved x puts it in the direction of the widget. -/
def LaidAt (w : CanvasWidget) (g : Rat) (n : Nat) (icons : List Nat) (start_y : Rat)
    (c : NautilusCanvasContainer) (j : Nat) (icon : Nat) : Prop :=
  (c.heap icon).saved_ltr_x =
      lay_down_column_x g ICON_PAD_LEFT (j % n) + (lay_down_icon_position w g icon).x_offset ∧
    (c.heap icon).y =
      lay_down_row_baseline w n icons start_y (j / n) +
        (lay_down_icon_position w g icon).y_offset ∧
    Placed w c icon

/-! ## Deferred operations: callbacks and their dispatch -/

/-- Source function `keyboard_icon_reveal_timeout_callback`: the container and the value returned
to the main loop; its assertion fails when no icon is to be revealed. -/
def keyboard_icon_reveal_timeout_callback (c : NautilusCanvasContainer) :
    Option (Bool × NautilusCanvasContainer) :=
  let icon := c.keyboard_icon_to_reveal
  if icon = 0 then none
  else
    let c := if icon = c.focus ∨ (c.heap icon).is_selected = true then reveal_icon c icon else c
    some (false, { c with keyboard_icon_reveal_timer_id := 0 })

/-- Source function `schedule_keyboard_icon_reveal`. -/
def schedule_keyboard_icon_reveal (c : NautilusCanvasContainer) (icon : Nat) :
    NautilusCanvasContainer :=
  let c := unschedule_keyboard_icon_reveal c
  let c := { c with keyboard_icon_to_reveal := icon }
  let r := g_source_add c GSourceFunc.keyboard_icon_reveal_timeout_callback
  { r.2 with keyboard_icon_reveal_timer_id := r.1 }

/-- Source function `selection_changed_at_idle_callback`: the container and the value returned to
the main loop. -/
def selection_changed_at_idle_callback (c : NautilusCanvasContainer) :
    Bool × NautilusCanvasContainer :=
  let c := g_signal_emit c Signal.SELECTION_CHANGED
  (false, { c with selection_changed_id := 0 })

/-- Whether a source function of the container is attached with `g_idle_add`; the other two are
attached with `g_timeout_add`. -/
def is_idle_source (function : GSourceFunc) : Bool :=
  match function with
  | GSourceFunc.redo_layout_callback => true
  | GSourceFunc.selection_changed_at_idle_callback => true
  | GSourceFunc.keyboard_icon_reveal_timeout_callback => false
  | GSourceFunc.rubberband_timeout_callback => false

/-- GLib: the dispatch of one idle source.  A source that was removed in the meantime is not
dispatched, and a source whose function returns FALSE is removed. -/
def g_idle_dispatch (k : Collaborators) (w : CanvasWidget) (c : NautilusCanvasContainer)
    (source : Nat × GSourceFunc) : NautilusCanvasContainer :=
  if source ∈ c.sources then
    match source.2 with
    | GSourceFunc.redo_layout_callback =>
      let r := redo_layout_callback k w c
      if r.1 then r.2 else g_source_remove r.2 source.1
    | GSourceFunc.selection_changed_at_idle_callback =>
      let r := selection_changed_at_idle_callback c
      if r.1 then r.2 else g_source_remove r.2 source.1
    | GSourceFunc.keyboard_icon_reveal_timeout_callback => c
    | GSourceFunc.rubberband_timeout_callback => c
  else c

/-- GLib: one run of the idle queue of the main loop, which dispatches the idle sources that are
attached when it starts, in the order of their attachment. -/
def g_main_context_iteration (k : Collaborators) (w : CanvasWidget)
    (c : NautilusCanvasContainer) : NautilusCanvasContainer :=
  (c.sources.filter (fun source => is_idle_source source.2)).foldl (g_idle_dispatch k w) c

/-- The number of attached sources with a given function. -/
def pending_sources (c : NautilusCanvasContainer) (function : GSourceFunc) : Nat :=
  (c.sources.filter (fun source => decide (source.2 = function))).length

/-- The number of times that a signal was emitted. -/
def emissions (c : NautilusCanvasContainer) (signal : Signal) : Nat :=
  (c.emitted.filter (fun s => decide (s = signal))).length

/-! ## Sample states of the deferred operations -/

/-- The sample container with the icons of the ids 40 and 30 selected: the icon list is
`[4, 3, 2, 1]` and the selection list is `[30, 40]`. -/
def sample_two_selected : NautilusCanvasContainer := icon_toggle_selected sample_four 3

/-- The sample container after `nautilus_canvas_container_set_selection` selected the id 20, which
makes the icon 2 the range-selection anchor. -/
def sample_anchored : NautilusCanvasContainer :=
  nautilus_canvas_container_set_selection sample_three [20]

/-! ## Keyboard navigation -/

/-- GDK constant `GDK_SHIFT_MASK`. -/
def GDK_SHIFT_MASK : Nat := 1

/-- GDK constant `GDK_CONTROL_MASK`. -/
def GDK_CONTROL_MASK : Nat := 4

/-- The part of a `GdkEventKey` that the keyboard navigation reads. -/
structure GdkEventKey where
  state : Nat
deriving DecidableEq

/-- The functions of type `IsBetterCanvasFunction` that `keyboard_arrow_key`, `keyboard_home` and
`keyboard_end` hand to `find_best_icon` and `find_best_selected_icon`. -/
inductive IsBetterCanvasFunction where
  | leftmost_in_top_row
  | rightmost_in_top_row
  | rightmost_in_bottom_row
  | same_row_right_side_leftmost
  | same_row_left_side_rightmost
  | next_row_leftmost
  | next_row_rightmost
  | previous_row_rightmost
  | same_column_above_lowest
  | same_column_below_highest
deriving DecidableEq

/-- The conversion of a `double` to an `int` in C, which drops the fraction. -/
def double_to_int (x : Rat) : Int := if 0 ≤ x then Int.floor x else Int.ceil x

/-- C library `strcmp`, up to the size of a result that is not 0. -/
def strcmp (a b : String) : Int := if a < b then -1 else if a = b then 0 else 1

/-- Source function `get_cmp_point_x`. -/
def get_cmp_point_x (icon_rect : EelDRect) : Int := double_to_int ((icon_rect.x0 + icon_rect.x1) / 2)

/-- Source function `get_cmp_point_y`. -/
def get_cmp_point_y (icon_rect : EelDRect) : Int := double_to_int icon_rect.y1

/-- The canvas coordinates of the comparison point of an icon: the call of `eel_canvas_w2c` on
the icon rectangle that the comparisons and `record_arrow_key_start` share. -/
def icon_cmp_point (k : Collaborators) (w : CanvasWidget) (icon : Nat) : Int × Int :=
  let world_rect := w.nautilus_canvas_item_get_icon_rectangle icon
  k.eel_canvas_w2c (get_cmp_point_x world_rect) (get_cmp_point_y world_rect)

/-- Source function `compare_icons_by_uri`, whose assertions fail on a `NULL` icon, on twice the
same icon and on equal URIs. -/
def compare_icons_by_uri (k : Collaborators) (c : NautilusCanvasContainer) (icon_a icon_b : Nat) :
    Option Int :=
  if icon_a = 0 then none
  else if icon_b = 0 then none
  else if icon_a = icon_b then none
  else
    let uri_a := k.get_icon_uri (c.heap icon_a).data
    let uri_b := k.get_icon_uri (c.heap icon_b).data
    let result := strcmp uri_a uri_b
    if result = 0 then none else some result

/-- Source function `compare_icons_horizontal`; it dereferences both icons. -/
def compare_icons_horizontal (k : Collaborators) (w : CanvasWidget) (icon_a icon_b : Nat) :
    Option Int :=
  if icon_a = 0 ∨ icon_b = 0 then none
  else
    let ax := (icon_cmp_point k w icon_a).1
    let bx := (icon_cmp_point k w icon_b).1
    if ax < bx then some (-1) else if ax > bx then some 1 else some 0

/-- Source function `compare_icons_vertical`; it dereferences both icons. -/
def compare_icons_vertical (k : Collaborators) (w : CanvasWidget) (icon_a icon_b : Nat) :
    Option Int :=
  if icon_a = 0 ∨ icon_b = 0 then none
  else
    let ay := (icon_cmp_point k w icon_a).2
    let by_ := (icon_cmp_point k w icon_b).2
    if ay < by_ then some (-1) else if ay > by_ then some 1 else some 0

/-- Source function `compare_icons_horizontal_first`; it dereferences both icons. -/
def compare_icons_horizontal_first (k : Collaborators) (w : CanvasWidget)
    (c : NautilusCanvasContainer) (icon_a icon_b : Nat) : Option Int :=
  if icon_a = 0 ∨ icon_b = 0 then none
  else
    let a := icon_cmp_point k w icon_a
    let b := icon_cmp_point k w icon_b
    if a.1 < b.1 then some (-1)
    else if a.1 > b.1 then some 1
    else if a.2 < b.2 then some (-1)
    else if a.2 > b.2 then some 1
    else compare_icons_by_uri k c icon_a icon_b

/-- Source function `compare_icons_vertical_first`; it dereferences both icons. -/
def compare_icons_vertical_first (k : Collaborators) (w : CanvasWidget)
    (c : NautilusCanvasContainer) (icon_a icon_b : Nat) : Option Int :=
  if icon_a = 0 ∨ icon_b = 0 then none
  else
    let a := icon_cmp_point k w icon_a
    let b := icon_cmp_point k w icon_b
    if a.2 < b.2 then some (-1)
    else if a.2 > b.2 then some 1
    else if a.1 < b.1 then some (-1)
    else if a.1 > b.1 then some 1
    else compare_icons_by_uri k c icon_a icon_b

/-- Source function `leftmost_in_top_row`. -/
def leftmost_in_top_row (k : Collaborators) (w : CanvasWidget) (c : NautilusCanvasContainer)
    (best_so_far candidate : Nat) : Option Bool :=
  if best_so_far = 0 then some true
  else (compare_icons_vertical_first k w c best_so_far candidate).map (fun r => decide (r > 0))

/-- Source function `rightmost_in_top_row`, which returns at its first `return` statement. -/
def rightmost_in_top_row (k : Collaborators) (w : CanvasWidget)
    (best_so_far candidate : Nat) : Option Bool :=
  if best_so_far = 0 then some true
  else (compare_icons_vertical k w best_so_far candidate).map (fun r => decide (r > 0))

/-- Source function `rightmost_in_bottom_row`. -/
def rightmost_in_bottom_row (k : Collaborators) (w : CanvasWidget) (c : NautilusCanvasContainer)
    (best_so_far candidate : Nat) : Option Bool :=
  if best_so_far = 0 then some true
  else (compare_icons_vertical_first k w c best_so_far candidate).map (fun r => decide (r < 0))

/-- Source function `compare_with_start_row`; it dereferences the icon. -/
def compare_with_start_row (w : CanvasWidget) (c : NautilusCanvasContainer) (icon : Nat) :
    Option Int :=
  if icon = 0 then none
  else
    let item := w.eel_canvas_item_extent icon
    if (c.arrow_key_start_y : Rat) < item.y0 then some (-1)
    else if (c.arrow_key_start_y : Rat) > item.y1 then some 1
    else some 0

/-- Source function `compare_with_start_column`; it dereferences the icon. -/
def compare_with_start_column (w : CanvasWidget) (c : NautilusCanvasContainer) (icon : Nat) :
    Option Int :=
  if icon = 0 then none
  else
    let item := w.eel_canvas_item_extent icon
    if (c.arrow_key_start_x : Rat) < item.x0 then some (-1)
    else if (c.arrow_key_start_x : Rat) > item.x1 then some 1
    else some 0

/-- Source function `same_row_right_side_leftmost`. -/
def same_row_right_side_leftmost (k : Collaborators) (w : CanvasWidget)
    (c : NautilusCanvasContainer) (start_icon best_so_far candidate : Nat) : Option Bool :=
  (compare_with_start_row w c candidate).bind fun row =>
  if row ≠ 0 then some false
  else
    (if best_so_far ≠ 0 then compare_icons_horizontal_first k w c best_so_far candidate
     else some 0).bind fun r1 =>
    if best_so_far ≠ 0 ∧ r1 < 0 then some false
    else
      (compare_icons_horizontal_first k w c candidate start_icon).bind fun r2 =>
      if r2 ≤ 0 then some false else some true

/-- Source function `same_row_left_side_rightmost`. -/
def same_row_left_side_rightmost (k : Collaborators) (w : CanvasWidget)
    (c : NautilusCanvasContainer) (start_icon best_so_far candidate : Nat) : Option Bool :=
  (compare_with_start_row w c candidate).bind fun row =>
  if row ≠ 0 then some false
  else
    (if best_so_far ≠ 0 then compare_icons_horizontal_first k w c best_so_far candidate
     else some 0).bind fun r1 =>
    if best_so_far ≠ 0 ∧ r1 > 0 then some false
    else
      (compare_icons_horizontal_first k w c candidate start_icon).bind fun r2 =>
      if r2 ≥ 0 then some false else some true

/-- Source function `next_row_leftmost`. -/
def next_row_leftmost (k : Collaborators) (w : CanvasWidget) (c : NautilusCanvasContainer)
    (best_so_far candidate : Nat) : Option Bool :=
  (compare_with_start_row w c candidate).bind fun row =>
  if row ≥ 0 then some false
  else if best_so_far ≠ 0 then
    (compare_icons_vertical_first k w c best_so_far candidate).bind fun r1 =>
    if r1 > 0 then some true
    else
      (compare_icons_horizontal_first k w c best_so_far candidate).bind fun r2 =>
      if r2 > 0 then some true else some (decide (best_so_far = 0))
  else some (decide (best_so_far = 0))

/-- Source function `next_row_rightmost`. -/
def next_row_rightmost (k : Collaborators) (w : CanvasWidget) (c : NautilusCanvasContainer)
    (best_so_far candidate : Nat) : Option Bool :=
  (compare_with_start_row w c candidate).bind fun row =>
  if row ≥ 0 then some false
  else if best_so_far ≠ 0 then
    (compare_icons_vertical_first k w c best_so_far candidate).bind fun r1 =>
    if r1 > 0 then some true
    else
      (compare_icons_horizontal_first k w c best_so_far candidate).bind fun r2 =>
      if r2 < 0 then some true else some (decide (best_so_far = 0))
  else some (decide (best_so_far = 0))

/-- Source function `previous_row_rightmost`. -/
def previous_row_rightmost (k : Collaborators) (w : CanvasWidget) (c : NautilusCanvasContainer)
    (best_so_far candidate : Nat) : Option Bool :=
  (compare_with_start_row w c candidate).bind fun row =>
  if row ≤ 0 then some false
  else if best_so_far ≠ 0 then
    (compare_icons_vertical_first k w c best_so_far candidate).bind fun r1 =>
    if r1 < 0 then some true
    else
      (compare_icons_horizontal_first k w c best_so_far candidate).bind fun r2 =>
      if r2 < 0 then some true else some (decide (best_so_far = 0))
  else some (decide (best_so_far = 0))

/-- Source function `same_column_above_lowest`. -/
def same_column_above_lowest (k : Collaborators) (w : CanvasWidget)
    (c : NautilusCanvasContainer) (start_icon best_so_far candidate : Nat) : Option Bool :=
  (compare_with_start_column w c candidate).bind fun column =>
  if column ≠ 0 then some false
  else
    (if best_so_far ≠ 0 then compare_icons_vertical_first k w c best_so_far candidate
     else some 0).bind fun r1 =>
    if best_so_far ≠ 0 ∧ r1 > 0 then some false
    else
      (compare_icons_vertical_first k w c candidate start_icon).bind fun r2 =>
      if r2 ≥ 0 then some false else some true

/-- Source function `same_column_below_highest`. -/
def same_column_below_highest (k : Collaborators) (w : CanvasWidget)
    (c : NautilusCanvasContainer) (start_icon best_so_far candidate : Nat) : Option Bool :=
  (compare_with_start_column w c candidate).bind fun column =>
  if column ≠ 0 then some false
  else
    (if best_so_far ≠ 0 then compare_icons_vertical_first k w c best_so_far candidate
     else some 0).bind fun r1 =>
    if best_so_far ≠ 0 ∧ r1 < 0 then some false
    else
      (compare_icons_vertical_first k w c candidate start_icon).bind fun r2 =>
      if r2 ≤ 0 then some false else some true

/-- The call `(*function) (container, start_icon, best, candidate, data)` of `find_best_icon` and
`find_best_selected_icon`; none of the functions above reads `data`. -/
def is_better_canvas (function : IsBetterCanvasFunction) (k : Collaborators) (w : CanvasWidget)
    (c : NautilusCanvasContainer) (start_icon best_so_far candidate : Nat) : Option Bool :=
  match function with
  | IsBetterCanvasFunction.leftmost_in_top_row => leftmost_in_top_row k w c best_so_far candidate
  | IsBetterCanvasFunction.rightmost_in_top_row => rightmost_in_top_row k w best_so_far candidate
  | IsBetterCanvasFunction.rightmost_in_bottom_row =>
    rightmost_in_bottom_row k w c best_so_far candidate
  | IsBetterCanvasFunction.same_row_right_side_leftmost =>
    same_row_right_side_leftmost k w c start_icon best_so_far candidate
  | IsBetterCanvasFunction.same_row_left_side_rightmost =>
    same_row_left_side_rightmost k w c start_icon best_so_far candidate
  | IsBetterCanvasFunction.next_row_leftmost => next_row_leftmost k w c best_so_far candidate
  | IsBetterCanvasFunction.next_row_rightmost => next_row_rightmost k w c best_so_far candidate
  | IsBetterCanvasFunction.previous_row_rightmost =>
    previous_row_rightmost k w c best_so_far candidate
  | IsBetterCanvasFunction.same_column_above_lowest =>
    same_column_above_lowest k w c start_icon best_so_far candidate
  | IsBetterCanvasFunction.same_column_below_highest =>
    same_column_below_highest k w c start_icon best_so_far candidate

/-- One round of the loop of `find_best_icon`; `none` is a crash in an earlier round or in this
one. -/
def find_best_icon_step (k : Collaborators) (w : CanvasWidget) (c : NautilusCanvasContainer)
    (start_icon : Nat) (function : IsBetterCanvasFunction) (best : Option Nat)
    (candidate : Nat) : Option Nat :=
  best.bind fun best =>
  if candidate ≠ start_icon then
    (is_better_canvas function k w c start_icon best candidate).bind fun better =>
    if better then some candidate else some best
  else some best

/-- Source function `find_best_icon`. -/
def find_best_icon (k : Collaborators) (w : CanvasWidget) (c : NautilusCanvasContainer)
    (start_icon : Nat) (function : IsBetterCanvasFunction) : Option Nat :=
  c.icons.foldl (find_best_icon_step k w c start_icon function) (some 0)

/-- One round of the loop of `find_best_selected_icon`. -/
def find_best_selected_icon_step (k : Collaborators) (w : CanvasWidget)
    (c : NautilusCanvasContainer) (start_icon : Nat) (function : IsBetterCanvasFunction)
    (best : Option Nat) (candidate : Nat) : Option Nat :=
  best.bind fun best =>
  if candidate ≠ start_icon ∧ (c.heap candidate).is_selected = true then
    (is_better_canvas function k w c start_icon best candidate).bind fun better =>
    if better then some candidate else some best
  else some best

/-- Source function `find_best_selected_icon`. -/
def find_best_selected_icon (k : Collaborators) (w : CanvasWidget) (c : NautilusCanvasContainer)
    (start_icon : Nat) (function : IsBetterCanvasFunction) : Option Nat :=
  c.icons.foldl (find_best_selected_icon_step k w c start_icon function) (some 0)

/-- The local variables of the loop of `get_nth_selected_icon`; `found` is the returned icon, or
`NULL` while the loop runs. -/
structure get_nth_selected_icon_state where
  selection_count : Int
  found : Nat

/-- Source function `get_nth_selected_icon`, whose assertion fails on an index that is not
positive. -/
def get_nth_selected_icon (c : NautilusCanvasContainer) (index : Int) : Option Nat :=
  if index > 0 then
    some (c.icons.foldl (fun (s : get_nth_selected_icon_state) icon =>
      if s.found ≠ 0 then s
      else if (c.heap icon).is_selected = true then
        if s.selection_count + 1 = index then
          { selection_count := s.selection_count + 1, found := icon }
        else { s with selection_count := s.selection_count + 1 }
      else s) { selection_count := 0, found := 0 }).found
  else none

/-- Source function `get_first_selected_icon`. -/
def get_first_selected_icon (c : NautilusCanvasContainer) : Option Nat :=
  get_nth_selected_icon c 1

/-- Source function `has_multiple_selection`. -/
def has_multiple_selection (c : NautilusCanvasContainer) : Option Bool :=
  (get_nth_selected_icon c 2).map (fun icon => decide (icon ≠ 0))

/-- Source function `all_selected`. -/
def all_selected (c : NautilusCanvasContainer) : Bool :=
  c.icons.all (fun icon => (c.heap icon).is_selected)

/-- Source function `set_keyboard_rubberband_start`. -/
def set_keyboard_rubberband_start (c : NautilusCanvasContainer) (icon : Nat) :
    NautilusCanvasContainer :=
  { c with keyboard_rubberband_start := icon }

/-- Source function `get_rubberband`. -/
def get_rubberband (k : Collaborators) (w : CanvasWidget) (icon1 icon2 : Nat) : EelDRect :=
  let rect1 := w.eel_canvas_item_get_bounds icon1
  let rect2 := w.eel_canvas_item_get_bounds icon2
  k.eel_drect_union rect1 rect2

/-- Whether a key event, `none` for `NULL`, has a modifier of its state set. -/
def event_has (event : Option GdkEventKey) (mask : Nat) : Bool :=
  match event with
  | some e => decide (Nat.land e.state mask ≠ 0)
  | none => false

/-- Source function `keyboard_move_to`, lines 2535 to 2591: what the modifiers of the event do to
the selection once the focus is on `icon`. -/
def keyboard_move_to_select (k : Collaborators) (w : CanvasWidget) (c : NautilusCanvasContainer)
    (icon from_icon : Nat) (event : Option GdkEventKey) : NautilusCanvasContainer :=
  if event.isSome ∧ event_has event GDK_CONTROL_MASK = true ∧
      event_has event GDK_SHIFT_MASK = false then
    clear_keyboard_rubberband_start c
  else if event.isSome ∧ event_has event GDK_CONTROL_MASK = true ∧
      event_has event GDK_SHIFT_MASK = true then
    let c := if from_icon ≠ 0 ∧ c.keyboard_rubberband_start = 0 then
        set_keyboard_rubberband_start c from_icon else c
    if icon ≠ 0 ∧ c.keyboard_rubberband_start ≠ 0 then
      rubberband_select k c (get_rubberband k w c.keyboard_rubberband_start icon)
    else c
  else if event.isSome ∧ event_has event GDK_CONTROL_MASK = false ∧
      event_has event GDK_SHIFT_MASK = true then
    let start_icon := c.range_selection_base_icon
    let reset : Bool := decide (start_icon = 0) || !(c.heap start_icon).is_selected
    let start_icon := if reset then icon else start_icon
    let c := if reset then { c with range_selection_base_icon := icon } else c
    let r := select_range c start_icon icon true
    if r.1 then g_signal_emit r.2 Signal.SELECTION_CHANGED else r.2
  else
    let c := clear_keyboard_rubberband_start c
    let c := { c with range_selection_base_icon := icon }
    let r := select_one_unselect_others c icon
    if r.1 then g_signal_emit r.2 Signal.SELECTION_CHANGED else r.2

/-- Source function `keyboard_move_to`; `event` is `none` for a `NULL` event. -/
def keyboard_move_to (k : Collaborators) (w : CanvasWidget) (c : NautilusCanvasContainer)
    (icon from_icon : Nat) (event : Option GdkEventKey) : Option NautilusCanvasContainer :=
  if icon = 0 then some c
  else
    (set_focus c icon true).bind fun c =>
    let c := keyboard_move_to_select k w c icon from_icon event
    some (schedule_keyboard_icon_reveal c icon)

/-- Source function `record_arrow_key_start`; it dereferences the icon. -/
def record_arrow_key_start (k : Collaborators) (w : CanvasWidget) (c : NautilusCanvasContainer)
    (icon : Nat) (direction : GtkDirectionType) : Option NautilusCanvasContainer :=
  if icon = 0 then none
  else
    let p := icon_cmp_point k w icon
    some { c with arrow_key_start_x := p.1, arrow_key_start_y := p.2,
                  arrow_key_direction := direction }

/-- Source function `keyboard_arrow_key`, lines 2670 to 2695: the icon to start with. -/
def keyboard_arrow_key_from (k : Collaborators) (w : CanvasWidget) (c : NautilusCanvasContainer)
    (better_start empty_start : IsBetterCanvasFunction) : Option Nat :=
  let from_icon := c.focus
  if from_icon = 0 then
    (has_multiple_selection c).bind fun multiple =>
    if multiple then
      if all_selected c then find_best_selected_icon k w c 0 empty_start
      else find_best_selected_icon k w c 0 better_start
    else get_first_selected_icon c
  else some from_icon

/-- The local variables `from` and `to` of `keyboard_arrow_key` and the container, when it calls
`keyboard_move_to`. -/
structure keyboard_arrow_key_choice where
  container : NautilusCanvasContainer
  from_icon : Nat
  to_icon : Nat

/-- Source function `keyboard_arrow_key`, lines 2700 to 2752: the icon to move to.  A fallback
function is `none` for `NULL`. -/
def keyboard_arrow_key_to (k : Collaborators) (w : CanvasWidget) (c : NautilusCanvasContainer)
    (from_icon : Nat) (direction : GtkDirectionType)
    (empty_start better_destination : IsBetterCanvasFunction)
    (better_destination_fallback better_destination_fallback_fallback :
      Option IsBetterCanvasFunction) : Option keyboard_arrow_key_choice :=
  if from_icon = 0 then
    (find_best_icon k w c 0 empty_start).bind fun to_icon =>
    some { container := c, from_icon := to_icon, to_icon := to_icon }
  else
    (record_arrow_key_start k w c from_icon direction).bind fun c =>
    (find_best_icon k w c from_icon better_destination).bind fun to_icon =>
    (match better_destination_fallback with
      | some fallback => if to_icon = 0 then find_best_icon k w c from_icon fallback else some to_icon
      | none => some to_icon).bind fun to_icon =>
    (match better_destination_fallback_fallback with
      | some fallback => if to_icon = 0 then find_best_icon k w c from_icon fallback else some to_icon
      | none => some to_icon).bind fun to_icon =>
    let to_icon := if to_icon = 0 then from_icon else to_icon
    some { container := c, from_icon := from_icon, to_icon := to_icon }

/-- Source function `keyboard_arrow_key`.  Its last parameter, `better_destination_manual`, is
never read and is left out, and with it `closest_in_90_degrees`, the only value it gets. -/
def keyboard_arrow_key (k : Collaborators) (w : CanvasWidget) (c : NautilusCanvasContainer)
    (event : Option GdkEventKey) (direction : GtkDirectionType)
    (better_start empty_start better_destination : IsBetterCanvasFunction)
    (better_destination_fallback better_destination_fallback_fallback :
      Option IsBetterCanvasFunction) : Option NautilusCanvasContainer :=
  (keyboard_arrow_key_from k w c better_start empty_start).bind fun from_icon =>
  (keyboard_arrow_key_to k w c from_icon direction empty_start better_destination
    better_destination_fallback better_destination_fallback_fallback).bind fun choice =>
  keyboard_move_to k w choice.container choice.to_icon choice.from_icon event

/-- Source function `is_rectangle_selection_event`. -/
def is_rectangle_selection_event (event : Option GdkEventKey) : Bool :=
  event.isSome && event_has event GDK_CONTROL_MASK && event_has event GDK_SHIFT_MASK

/-- The argument `empty_start` of the four arrow keys:
`nautilus_canvas_container_is_layout_rtl (container) ? rightmost_in_top_row :
leftmost_in_top_row`. -/
def keyboard_empty_start (w : CanvasWidget) : IsBetterCanvasFunction :=
  if w.is_layout_rtl then IsBetterCanvasFunction.rightmost_in_top_row
  else IsBetterCanvasFunction.leftmost_in_top_row

/-- Source function `keyboard_right`. -/
def keyboard_right (k : Collaborators) (w : CanvasWidget) (c : NautilusCanvasContainer)
    (event : Option GdkEventKey) : Option NautilusCanvasContainer :=
  let fallback : Option IsBetterCanvasFunction :=
    if !is_rectangle_selection_event event then some IsBetterCanvasFunction.next_row_leftmost
    else none
  keyboard_arrow_key k w c event GtkDirectionType.GTK_DIR_RIGHT
    IsBetterCanvasFunction.rightmost_in_bottom_row (keyboard_empty_start w)
    IsBetterCanvasFunction.same_row_right_side_leftmost fallback none

/-- Source function `keyboard_left`. -/
def keyboard_left (k : Collaborators) (w : CanvasWidget) (c : NautilusCanvasContainer)
    (event : Option GdkEventKey) : Option NautilusCanvasContainer :=
  let fallback : Option IsBetterCanvasFunction :=
    if !is_rectangle_selection_event event then some IsBetterCanvasFunction.previous_row_rightmost
    else none
  keyboard_arrow_key k w c event GtkDirectionType.GTK_DIR_LEFT
    IsBetterCanvasFunction.rightmost_in_bottom_row (keyboard_empty_start w)
    IsBetterCanvasFunction.same_row_left_side_rightmost fallback none

/-- Source function `keyboard_down`. -/
def keyboard_down (k : Collaborators) (w : CanvasWidget) (c : NautilusCanvasContainer)
    (event : Option GdkEventKey) : Option NautilusCanvasContainer :=
  let next_row_fallback : IsBetterCanvasFunction :=
    if w.is_layout_rtl then IsBetterCanvasFunction.next_row_leftmost
    else IsBetterCanvasFunction.next_row_rightmost
  keyboard_arrow_key k w c event GtkDirectionType.GTK_DIR_DOWN
    IsBetterCanvasFunction.rightmost_in_bottom_row (keyboard_empty_start w)
    IsBetterCanvasFunction.same_column_below_highest none (some next_row_fallback)

/-- Source function `keyboard_up`. -/
def keyboard_up (k : Collaborators) (w : CanvasWidget) (c : NautilusCanvasContainer)
    (event : Option GdkEventKey) : Option NautilusCanvasContainer :=
  keyboard_arrow_key k w c event GtkDirectionType.GTK_DIR_UP
    IsBetterCanvasFunction.rightmost_in_bottom_row (keyboard_empty_start w)
    IsBetterCanvasFunction.same_column_above_lowest none none

/-- Source function `keyboard_home`. -/
def keyboard_home (k : Collaborators) (w : CanvasWidget) (c : NautilusCanvasContainer)
    (event : Option GdkEventKey) : Option NautilusCanvasContainer :=
  (find_best_selected_icon k w c 0 IsBetterCanvasFunction.rightmost_in_bottom_row).bind
    fun from_icon =>
  (find_best_icon k w c 0 IsBetterCanvasFunction.leftmost_in_top_row).bind fun to_icon =>
  keyboard_move_to k w c to_icon from_icon event

/-- Source function `keyboard_end`. -/
def keyboard_end (k : Collaborators) (w : CanvasWidget) (c : NautilusCanvasContainer)
    (event : Option GdkEventKey) : Option NautilusCanvasContainer :=
  (find_best_selected_icon k w c 0 IsBetterCanvasFunction.leftmost_in_top_row).bind
    fun from_icon =>
  (find_best_icon k w c 0 IsBetterCanvasFunction.rightmost_in_bottom_row).bind fun to_icon =>
  keyboard_move_to k w c to_icon from_icon event

/-! ## Keyboard navigation: sample states and the vertical-first order -/

/-- The sample container after the id 10 was added, in the block 1: the icon list is `[1]`. -/
def sample_one : NautilusCanvasContainer := (nautilus_canvas_container_add sample_empty 1 10).2

/-- The key of the vertical-first order of the icons: the y of the comparison point, then its x,
then the URI. -/
def vertical_first_key (k : Collaborators) (w : CanvasWidget) (c : NautilusCanvasContainer)
    (icon : Nat) : Lex (Int × Lex (Int × String)) :=
  toLex ((icon_cmp_point k w icon).2,
    toLex ((icon_cmp_point k w icon).1, k.get_icon_uri (c.heap icon).data))

/-- The icons of the list have pairwise distinct URIs. -/
def distinct_uris (k : Collaborators) (c : NautilusCanvasContainer) (icons : List Nat) : Prop :=
  ∀ a ∈ icons, ∀ b ∈ icons, a ≠ b →
    k.get_icon_uri (c.heap a).data ≠ k.get_icon_uri (c.heap b).data

/-- A sample widget whose items stand in two columns: the icon rectangles of the icons 1 to 5 are
40 by 40 at (0, 0), (60, 0), (0, 60), (60, 60) and (0, 120). -/
def sample_widget_placed : CanvasWidget :=
  { sample_widget with
    nautilus_canvas_item_get_icon_rectangle := fun icon =>
      { x0 := 60 * (((icon - 1) % 2 : Nat) : Rat), y0 := 60 * (((icon - 1) / 2 : Nat) : Rat),
        x1 := 60 * (((icon - 1) % 2 : Nat) : Rat) + 40,
        y1 := 60 * (((icon - 1) / 2 : Nat) : Rat) + 40 } }

/-! ## Layout engine: the grid width of a single line -/

/-- The zoom levels that the switch statements of `nautilus-canvas-container.c` name; `other` is
any value that takes their `default` branch. -/
inductive NautilusCanvasZoomLevel where
  | NAUTILUS_CANVAS_ZOOM_LEVEL_SMALL
  | NAUTILUS_CANVAS_ZOOM_LEVEL_STANDARD
  | NAUTILUS_CANVAS_ZOOM_LEVEL_LARGE
  | NAUTILUS_CANVAS_ZOOM_LEVEL_LARGER
  | other (value : Int)
deriving DecidableEq

/-- Source constant `SMALL_ICON_GRID_WIDTH`. -/
def SMALL_ICON_GRID_WIDTH : Nat := 124

/-- Source constant `STANDARD_ICON_GRID_WIDTH`. -/
def STANDARD_ICON_GRID_WIDTH : Nat := 112

/-- Source constant `LARGE_ICON_GRID_WIDTH`. -/
def LARGE_ICON_GRID_WIDTH : Nat := 106

/-- Source constant `LARGER_ICON_GRID_WIDTH`. -/
def LARGER_ICON_GRID_WIDTH : Nat := 128

/-- Source function `nautilus_canvas_container_get_grid_size_for_zoom_level`, which gives
`lay_down_icons_horizontal` its `min_grid_width`. -/
def nautilus_canvas_container_get_grid_size_for_zoom_level
    (zoom_level : NautilusCanvasZoomLevel) : Nat :=
  match zoom_level with
  | NautilusCanvasZoomLevel.NAUTILUS_CANVAS_ZOOM_LEVEL_SMALL => SMALL_ICON_GRID_WIDTH
  | NautilusCanvasZoomLevel.NAUTILUS_CANVAS_ZOOM_LEVEL_STANDARD => STANDARD_ICON_GRID_WIDTH
  | NautilusCanvasZoomLevel.NAUTILUS_CANVAS_ZOOM_LEVEL_LARGE => LARGE_ICON_GRID_WIDTH
  | NautilusCanvasZoomLevel.NAUTILUS_CANVAS_ZOOM_LEVEL_LARGER => LARGER_ICON_GRID_WIDTH
  | NautilusCanvasZoomLevel.other _ => STANDARD_ICON_GRID_WIDTH

/-- Source function `lay_down_icons_horizontal`, lines 1217 to 1222: the local variable
`max_extra_fraction` of the branch that is taken when the icons do not fill a line. -/
def lay_down_max_extra_fraction (canvas_width min_grid_width : Rat) (icons : List Nat) : Rat :=
  let available_width : Rat := MAX 1 (canvas_width - ICON_PAD_LEFT - ICON_PAD_RIGHT - 1)
  let num_icons : Rat := MAX 1 (g_list_length icons : Nat)
  let used_width := num_icons * min_grid_width
  let unused_width := available_width - used_width
  (unused_width / num_icons) / min_grid_width

/-- Sample collaborators whose `pow` is the fourth root at 16 and its argument elsewhere. -/
def sample_collaborators_root : Collaborators :=
  { sample_collaborators with pow := fun x _ => if x = 16 then 2 else x }

/-- The sample container after the ids 20 and 10 were added, in the blocks 2 and 1: the icon list
is `[1, 2]`. -/
def sample_pair : NautilusCanvasContainer :=
  (nautilus_canvas_container_add (nautilus_canvas_container_add sample_empty 2 20).2 1 10).2

/-- The sample widget with a canvas of width 1609, which leaves 1600 for the icons. -/
def sample_widget_wide : CanvasWidget := { sample_widget with canvas_width := 1609 }

/-! ## Keyboard navigation: the comparison that is handed over as `better_destination_manual` -/

/-- Source function `closest_in_90_degrees`: its answer and the value that it leaves in
`*best_dist`, the `int` that `data` points to.  It dereferences the candidate, its `default` case
is not to be reached, and the products of `int`s are taken without overflow.  The four arrow keys
hand it to `keyboard_arrow_key` as `better_destination_manual`. -/
def closest_in_90_degrees (k : Collaborators) (w : CanvasWidget) (c : NautilusCanvasContainer)
    (best_so_far candidate : Nat) (best_dist : Int) : Option (Bool × Int) :=
  if candidate = 0 then none
  else
    let p := icon_cmp_point k w candidate
    let dx := p.1 - c.arrow_key_start_x
    let dy := p.2 - c.arrow_key_start_y
    let outside : Option Bool :=
      match c.arrow_key_direction with
      | GtkDirectionType.GTK_DIR_UP => some (decide (dy > 0 ∨ abs dx > abs dy))
      | GtkDirectionType.GTK_DIR_DOWN => some (decide (dy < 0 ∨ abs dx > abs dy))
      | GtkDirectionType.GTK_DIR_LEFT => some (decide (dx > 0 ∨ abs dy > abs dx))
      | GtkDirectionType.GTK_DIR_RIGHT => some (decide (dx < 0 ∨ abs dy > abs dx))
      | _ => none
    outside.bind fun outside =>
    if outside then some (false, best_dist)
    else
      let dist := dx * dx + dy * dy
      if best_so_far = 0 then some (true, dist)
      else if dist < best_dist then some (true, dist)
      else some (false, best_dist)

/-- A sample widget whose items stand in a grid of two columns, 100 apart, and rows 80 apart: the
icon rectangle of the icon `i` is 40 by 40 and its item is 40 wide and 60 high, so the comparison
points of the icons 1 to 5 are (20, 40), (120, 40), (20, 120), (120, 120) and (20, 200). -/
def sample_widget_grid : CanvasWidget :=
  { sample_widget with
    nautilus_canvas_item_get_icon_rectangle := fun icon =>
      { x0 := 100 * (((icon - 1) % 2 : Nat) : Rat), y0 := 80 * (((icon - 1) / 2 : Nat) : Rat),
        x1 := 100 * (((icon - 1) % 2 : Nat) : Rat) + 40,
        y1 := 80 * (((icon - 1) / 2 : Nat) : Rat) + 40 },
    eel_canvas_item_get_bounds := fun icon =>
      { x0 := 100 * (((icon - 1) % 2 : Nat) : Rat), y0 := 80 * (((icon - 1) / 2 : Nat) : Rat),
        x1 := 100 * (((icon - 1) % 2 : Nat) : Rat) + 40,
        y1 := 80 * (((icon - 1) / 2 : Nat) : Rat) + 60 },
    eel_canvas_item_extent := fun icon =>
      { x0 := 100 * (((icon - 1) % 2 : Nat) : Rat), y0 := 80 * (((icon - 1) / 2 : Nat) : Rat),
        x1 := 100 * (((icon - 1) % 2 : Nat) : Rat) + 40,
        y1 := 80 * (((icon - 1) / 2 : Nat) : Rat) + 60 } }

/-- The sample container of five icons with the keyboard focus on the icon 5, the only one of the
last row of `sample_widget_grid`. -/
def sample_five_focused : NautilusCanvasContainer :=
  { sample_five with focus := 5, keyboard_focus := true }

/-- The sample container with the focus on the icon 5 after `record_arrow_key_start` recorded the
comparison point (20, 200) of that icon for a press of the right arrow. -/
def sample_five_recorded : NautilusCanvasContainer :=
  { sample_five_focused with
    arrow_key_start_x := 20, arrow_key_start_y := 200,
    arrow_key_direction := GtkDirectionType.GTK_DIR_RIGHT }

/-- Two containers that differ at most in what `keyboard_move_to` writes: the icon memory, the
selection list and its sort flag, the focus, the start of the keyboard rubber band, the
range-selection anchor, the icons to reveal, the sources and the signals. -/
def KeyboardOnly (c c1 : NautilusCanvasContainer) : Prop :=
  c1 = { c with heap := c1.heap, selection := c1.selection,
                selection_needs_resort := c1.selection_needs_resort, focus := c1.focus,
                keyboard_focus := c1.keyboard_focus,
                keyboard_rubberband_start := c1.keyboard_rubberband_start,
                keyboard_icon_reveal_timer_id := c1.keyboard_icon_reveal_timer_id,
                keyboard_icon_to_reveal := c1.keyboard_icon_to_reveal,
                pending_icon_to_reveal := c1.pending_icon_to_reveal,
                range_selection_base_icon := c1.range_selection_base_icon,
                sources := c1.sources, last_source_id := c1.last_source_id,
                emitted := c1.emitted }

/-- Source function `keyboard_arrow_key`, lines 2714 to 2721 and again 2740 to 2747: a fallback
comparison, `none` for `NULL`, is tried when no icon has been found so far. -/
def keyboard_arrow_key_fallback (k : Collaborators) (w : CanvasWidget)
    (c : NautilusCanvasContainer) (from_icon : Nat) (fallback : Option IsBetterCanvasFunction)
    (to_icon : Nat) : Option Nat :=
  match fallback with
  | some function => if to_icon = 0 then find_best_icon k w c from_icon function else some to_icon
  | none => some to_icon

/-- A sample widget whose items are not lined up: the icon rectangle of the icon `i` is 20 wide
and 40 high at (20 (i - 1), 80 (i - 1)), and its item reaches 15 further to the left and to the
right and 20 further down.  The comparison points of the icons 1, 2 and 3 are (10, 40), (30, 120)
and (50, 200); their items span -15 to 35, 5 to 55 and 25 to 75. -/
def sample_widget_ragged : CanvasWidget :=
  { sample_widget with
    nautilus_canvas_item_get_icon_rectangle := fun icon =>
      { x0 := 20 * ((icon - 1 : Nat) : Rat), y0 := 80 * ((icon - 1 : Nat) : Rat),
        x1 := 20 * ((icon - 1 : Nat) : Rat) + 20, y1 := 80 * ((icon - 1 : Nat) : Rat) + 40 },
    eel_canvas_item_get_bounds := fun icon =>
      { x0 := 20 * ((icon - 1 : Nat) : Rat) - 15, y0 := 80 * ((icon - 1 : Nat) : Rat),
        x1 := 20 * ((icon - 1 : Nat) : Rat) + 35, y1 := 80 * ((icon - 1 : Nat) : Rat) + 60 },
    eel_canvas_item_extent := fun icon =>
      { x0 := 20 * ((icon - 1 : Nat) : Rat) - 15, y0 := 80 * ((icon - 1 : Nat) : Rat),
        x1 := 20 * ((icon - 1 : Nat) : Rat) + 35, y1 := 80 * ((icon - 1 : Nat) : Rat) + 60 } }

/-- The sample container of three icons with the keyboard focus on the icon 3, the lowest one of
`sample_widget_ragged`. -/
def sample_three_bottom : NautilusCanvasContainer :=
  { sample_three with focus := 3, keyboard_focus := true }

/-- Two containers that differ at most in what `icon_toggle_selected` writes: the icon memory,
the selection list and its sort flag. -/
def SelectionOnly (c c1 : NautilusCanvasContainer) : Prop :=
  c1 = { c with heap := c1.heap, selection := c1.selection,
                selection_needs_resort := c1.selection_needs_resort }

/-! ## The scroll region -/

/-- Two containers with the same selection list and the same flag `selection_needs_resort`. -/
def SortKept (c c1 : NautilusCanvasContainer) : Prop :=
  c1.selection = c.selection ∧ c1.selection_needs_resort = c.selection_needs_resort

/-- The selection list is in the order of the comparison of the container class: no id comes
before an id that compares less. -/
def selection_sorted (k : Collaborators) (selection : List Nat) : Prop :=
  selection.Pairwise (fun a b => k.compare_icons a b ≤ 0)

/-- The states reachable from an empty container through `nautilus_canvas_container_add`,
`nautilus_canvas_container_remove`, the two selection primitives on an icon (`icon_set_selected`
selects or unselects, `icon_toggle_selected` toggles), `resort` and
`nautilus_canvas_container_get_selection`. -/
inductive SortReachable (k : Collaborators) : NautilusCanvasContainer → Prop
  | empty (c : NautilusCanvasContainer) : is_empty_container c → SortReachable k c
  | add (c : NautilusCanvasContainer) (icon data : Nat) :
      SortReachable k c → icon ≠ 0 → icon ∉ c.icons →
      SortReachable k (nautilus_canvas_container_add c icon data).2
  | remove (c : NautilusCanvasContainer) (data : Nat) (r : Bool × NautilusCanvasContainer) :
      SortReachable k c → nautilus_canvas_container_remove c data = some r →
      SortReachable k r.2
  | toggle_selected (c : NautilusCanvasContainer) (icon : Nat) :
      SortReachable k c → icon ∈ c.icons → SortReachable k (icon_toggle_selected c icon)
  | set_selected (c : NautilusCanvasContainer) (icon : Nat) (select : Bool) :
      SortReachable k c → icon ∈ c.icons → SortReachable k (icon_set_selected c icon select).2
  | resort (c : NautilusCanvasContainer) : SortReachable k c → SortReachable k (resort k c)
  | get_selection (c : NautilusCanvasContainer) :
      SortReachable k c → SortReachable k (nautilus_canvas_container_get_selection k c).2

/-- Sample collaborators whose comparison puts the larger id first. -/
def sample_collaborators_descending : Collaborators :=
  { sample_collaborators with compare_icons := fun a b => (b : Int) - (a : Int) }

/-- The sample container of three icons after the icon 1 and then the icon 3 were selected: the
selection list is `[30, 10]`, the later selection first, and `selection_needs_resort` is set. -/
def sample_three_unsorted : NautilusCanvasContainer :=
  icon_toggle_selected (icon_toggle_selected sample_three 1) 3

/-! ## The timer of the rubber band -/

/-- Source constant `RUBBERBAND_BUTTON`. -/
def RUBBERBAND_BUTTON : Nat := 1

/-- Source function `rubberband_timeout_callback`; its assertion fails when no timer is installed.
`selection_rect` is the rectangle between the start point and the pointer, which the function
derives from the pointer position and the scroll adjustments; it is `none` when neither moved
since the last tick, where the function returns early.  The result holds the return value, which
is always TRUE. -/
def rubberband_timeout_callback (k : Collaborators) (c : NautilusCanvasContainer)
    (selection_rect : Option EelDRect) : Option (Bool × NautilusCanvasContainer) :=
  if c.rubberband_info.timer_id = 0 then none
  else
    match selection_rect with
    | none => some (true, c)
    | some rect => some (true, rubberband_select k c rect)

/-- GLib: the dispatch of a timeout source of the rubber band.  A source that is not attached is
not dispatched, and a source whose function returns FALSE is removed. -/
def g_timeout_dispatch (k : Collaborators) (c : NautilusCanvasContainer)
    (source : Nat × GSourceFunc) (selection_rect : Option EelDRect) :
    Option NautilusCanvasContainer :=
  if source ∈ c.sources ∧ source.2 = GSourceFunc.rubberband_timeout_callback then
    (rubberband_timeout_callback k c selection_rect).map fun r =>
      if r.1 then r.2 else g_source_remove r.2 source.1
  else some c

/-- Source function `button_release_event`, lines 3474 to 3478: the release of the rubber band
button while a rubber band is active stops the band.  The result is `some none` for a release
that goes on to the drag code of lines 3480 to 3507, which is not modelled. -/
def button_release_event (c : NautilusCanvasContainer) (event : GdkEventButton) :
    Option (Option NautilusCanvasContainer) :=
  if event.button = RUBBERBAND_BUTTON ∧ c.rubberband_info.active = true then
    (stop_rubberbanding c (some event)).map some
  else some none

/-- Source function `grab_notify_cb`. -/
def grab_notify_cb (c : NautilusCanvasContainer) (was_grabbed : Bool) :
    Option NautilusCanvasContainer :=
  if c.rubberband_info.active = true ∧ was_grabbed = false then stop_rubberbanding c none
  else some c

/-- A container in which no rubber band has been started: the band is inactive, it has no timer,
no source of the main loop runs `rubberband_timeout_callback`, and, as GLib guarantees, no source
has the id 0. -/
def rubberband_idle (c : NautilusCanvasContainer) : Prop :=
  c.rubberband_info.active = false ∧ c.rubberband_info.timer_id = 0 ∧
    ∀ source ∈ c.sources,
      source.1 ≠ 0 ∧ source.2 ≠ GSourceFunc.rubberband_timeout_callback

/-- The states reachable from a container without a rubber band through `start_rubberbanding`,
`stop_rubberbanding`, the timer tick, the rubber band branch of `button_release_event` and
`grab_notify_cb`; a step is a call that returns. -/
inductive RubberbandReachable (k : Collaborators) : NautilusCanvasContainer → Prop
  | idle (c : NautilusCanvasContainer) : rubberband_idle c → RubberbandReachable k c
  | start_rubberbanding (c : NautilusCanvasContainer) (event : GdkEventButton)
      (c1 : NautilusCanvasContainer) :
      RubberbandReachable k c → start_rubberbanding c event = some c1 →
      RubberbandReachable k c1
  | stop_rubberbanding (c : NautilusCanvasContainer) (event : Option GdkEventButton)
      (c1 : NautilusCanvasContainer) :
      RubberbandReachable k c → stop_rubberbanding c event = some c1 →
      RubberbandReachable k c1
  | timer_tick (c : NautilusCanvasContainer) (source : Nat × GSourceFunc)
      (selection_rect : Option EelDRect) (c1 : NautilusCanvasContainer) :
      RubberbandReachable k c → g_timeout_dispatch k c source selection_rect = some c1 →
      RubberbandReachable k c1
  | button_release (c : NautilusCanvasContainer) (event : GdkEventButton)
      (c1 : NautilusCanvasContainer) :
      RubberbandReachable k c → button_release_event c event = some (some c1) →
      RubberbandReachable k c1
  | grab_notify (c : NautilusCanvasContainer) (was_grabbed : Bool)
      (c1 : NautilusCanvasContainer) :
      RubberbandReachable k c → grab_notify_cb c was_grabbed = some c1 →
      RubberbandReachable k c1

/-- The sample container of three icons after `start_rubberbanding` with an event of the device
7: the rubber band is active and its timer is the source 2. -/
def sample_banding : NautilusCanvasContainer :=
  start_rubberbanding_begin sample_three { device := 7 }

/-- The invariant of the rubber band and its timer: an active band has a timer, no source has the
id 0, and every source that runs `rubberband_timeout_callback` is the timer of the band. -/
def rubberband_invariant (c : NautilusCanvasContainer) : Prop :=
  (c.rubberband_info.active = true → c.rubberband_info.timer_id ≠ 0) ∧
    (∀ source ∈ c.sources, source.1 ≠ 0) ∧
    (∀ source ∈ c.sources, source.2 = GSourceFunc.rubberband_timeout_callback →
      source.1 = c.rubberband_info.timer_id)

/-- A sample widget whose items stand in a line: the bounds of the item of the icon `i` are the
point (i, 0), so the sample hit test of an icon succeeds on the rectangles between two icons
that it lies between. -/
def sample_widget_line : CanvasWidget :=
  { sample_widget with
    eel_canvas_item_get_bounds := fun icon => { x0 := icon, y0 := 0, x1 := icon, y1 := 0 } }

/-! ## Keyboard navigation: runs of the up arrow -/

/-- A run of presses of the up arrow, one for each event of the list: the container after each
press, or `none` when a press does not return. -/
def keyboard_up_run (k : Collaborators) (w : CanvasWidget) :
    NautilusCanvasContainer → List (Option GdkEventKey) → Option (List NautilusCanvasContainer)
  | _, [] => some []
  | c, event :: events =>
    (keyboard_up k w c event).bind fun c1 =>
    (keyboard_up_run k w c1 events).map fun states => c1 :: states

/-- The number of moves in a list of successive foci: the places where an icon is followed by
another icon. -/
def focus_moves : List Nat → Nat
  | a :: b :: rest => (if a ≠ b then 1 else 0) + focus_moves (b :: rest)
  | _ => 0

/-! ## Lemmas: hash tables -/

theorem g_hash_table_lookup_remove (table : List (Nat × Nat)) (key key2 : Nat) :
    g_hash_table_lookup (g_hash_table_remove table key) key2 =
      if key = key2 then 0 else g_hash_table_lookup table key2 := by
  induction table with
  | nil => simp [g_hash_table_remove, g_hash_table_lookup]
  | cons p t ih =>
    obtain ⟨a, b⟩ := p
    unfold g_hash_table_remove at ih ⊢
    by_cases hak : a = key
    · subst hak
      by_cases h2 : a = key2
      · simpa [List.filter_cons, h2] using ih
      · simpa [List.filter_cons, g_hash_table_lookup, h2] using ih
    · by_cases h2 : a = key2
      · subst h2
        have : ¬ key = a := fun h => hak h.symm
        simp [List.filter_cons, g_hash_table_lookup, hak, this]
      · simpa [List.filter_cons, g_hash_table_lookup, hak, h2] using ih

theorem g_hash_table_lookup_insert (table : List (Nat × Nat)) (key value key2 : Nat) :
    g_hash_table_lookup (g_hash_table_insert table key value) key2 =
      if key = key2 then value else g_hash_table_lookup table key2 := by
  unfold g_hash_table_insert
  by_cases h : key = key2
  · simp [g_hash_table_lookup, h]
  · simp [g_hash_table_lookup, h, g_hash_table_lookup_remove]

theorem mem_keys_remove (table : List (Nat × Nat)) (key key2 : Nat) :
    key2 ∈ g_hash_table_keys (g_hash_table_remove table key) ↔
      key2 ≠ key ∧ key2 ∈ g_hash_table_keys table := by
  unfold g_hash_table_keys g_hash_table_remove
  simp only [List.mem_map, List.mem_filter, decide_eq_true_eq]
  constructor
  · rintro ⟨p, ⟨hp, hne⟩, rfl⟩
    exact ⟨hne, p, hp, rfl⟩
  · rintro ⟨hne, p, hp, rfl⟩
    exact ⟨p, ⟨hp, hne⟩, rfl⟩

theorem mem_keys_insert (table : List (Nat × Nat)) (key value key2 : Nat) :
    key2 ∈ g_hash_table_keys (g_hash_table_insert table key value) ↔
      key2 = key ∨ (key2 ≠ key ∧ key2 ∈ g_hash_table_keys table) := by
  have h := mem_keys_remove table key key2
  unfold g_hash_table_keys at h ⊢
  unfold g_hash_table_insert
  rw [List.map_cons, List.mem_cons, h]

theorem mem_keys_of_lookup_ne_zero (table : List (Nat × Nat)) (key : Nat)
    (h : g_hash_table_lookup table key ≠ 0) : key ∈ g_hash_table_keys table := by
  induction table with
  | nil => simp [g_hash_table_lookup] at h
  | cons p t ih =>
    obtain ⟨a, b⟩ := p
    by_cases hak : a = key
    · simp [g_hash_table_keys, hak]
    · simp only [g_hash_table_lookup, hak, if_false] at h
      have := ih h
      unfold g_hash_table_keys at this ⊢
      simp [this]

theorem keys_nodup_remove (table : List (Nat × Nat)) (key : Nat)
    (h : (g_hash_table_keys table).Nodup) :
    (g_hash_table_keys (g_hash_table_remove table key)).Nodup := by
  unfold g_hash_table_keys g_hash_table_remove at *
  exact (List.Sublist.map _ (List.filter_sublist _)).nodup h

theorem keys_nodup_insert (table : List (Nat × Nat)) (key value : Nat)
    (h : (g_hash_table_keys table).Nodup) :
    (g_hash_table_keys (g_hash_table_insert table key value)).Nodup := by
  have h1 := keys_nodup_remove table key h
  have h2 := mem_keys_remove table key key
  unfold g_hash_table_keys at h1 h2 ⊢
  unfold g_hash_table_insert
  rw [List.map_cons, List.nodup_cons]
  exact ⟨fun e => (h2.mp e).1 rfl, h1⟩

theorem length_remove_of_mem_keys (table : List (Nat × Nat)) (key : Nat)
    (h : (g_hash_table_keys table).Nodup) (hm : key ∈ g_hash_table_keys table) :
    (g_hash_table_remove table key).length + 1 = table.length := by
  induction table with
  | nil => cases hm
  | cons p t ih =>
    obtain ⟨a, b⟩ := p
    unfold g_hash_table_keys at h hm ih
    rw [List.map_cons, List.nodup_cons] at h
    rw [List.map_cons, List.mem_cons] at hm
    unfold g_hash_table_remove at ih ⊢
    by_cases hak : a = key
    · subst hak
      have hall : ∀ p ∈ t, decide (p.1 ≠ a) = true := by
        intro p hp
        simp only [decide_eq_true_eq]
        intro e
        exact h.1 (List.mem_map.mpr ⟨p, hp, e⟩)
      rw [List.filter_cons, List.filter_eq_self.mpr hall]
      simp
    · have hkt : key ∈ List.map Prod.fst t := by
        rcases hm with e | e
        · exact absurd e.symm hak
        · exact e
      have := ih h.2 hkt
      rw [List.filter_cons]
      simp only [ne_eq, hak, not_false_eq_true, decide_True, if_true, List.length_cons]
      simp only [ne_eq] at this
      omega

theorem lookup_set_selection_hash_aux (selection : List Nat) (hash : List (Nat × Nat)) (data : Nat) :
    g_hash_table_lookup
        (selection.foldl (fun hash data => g_hash_table_insert hash data data) hash) data =
      if data ∈ selection then data else g_hash_table_lookup hash data := by
  induction selection generalizing hash with
  | nil => simp
  | cons x t ih =>
    rw [List.foldl_cons, ih, g_hash_table_lookup_insert]
    by_cases hx : x = data
    · subst hx
      simp
    · have hx2 : ¬ data = x := fun h => hx h.symm
      simp [hx, hx2]

theorem lookup_set_selection_hash (selection : List Nat) (data : Nat) :
    g_hash_table_lookup (set_selection_hash selection) data =
      if data ∈ selection then data else 0 := by
  unfold set_selection_hash
  rw [lookup_set_selection_hash_aux]
  simp [g_hash_table_lookup]

/-! ## Lemmas: the two selection primitives -/

theorem icon_toggle_selected_icons (c : NautilusCanvasContainer) (icon : Nat) :
    (icon_toggle_selected c icon).icons = c.icons := by
  unfold icon_toggle_selected
  cases (c.heap icon).is_selected <;> rfl

theorem icon_toggle_selected_icon_set (c : NautilusCanvasContainer) (icon : Nat) :
    (icon_toggle_selected c icon).icon_set = c.icon_set := by
  unfold icon_toggle_selected
  cases (c.heap icon).is_selected <;> rfl

theorem icon_toggle_selected_rubberband_info (c : NautilusCanvasContainer) (icon : Nat) :
    (icon_toggle_selected c icon).rubberband_info = c.rubberband_info := by
  unfold icon_toggle_selected
  cases (c.heap icon).is_selected <;> rfl

theorem icon_toggle_selected_heap (c : NautilusCanvasContainer) (icon : Nat) :
    (icon_toggle_selected c icon).heap =
      Function.update c.heap icon
        { c.heap icon with is_selected := !(c.heap icon).is_selected } := by
  unfold icon_toggle_selected
  cases (c.heap icon).is_selected <;> rfl

theorem icon_toggle_selected_data (c : NautilusCanvasContainer) (icon other : Nat) :
    icon_data (icon_toggle_selected c icon) other = icon_data c other := by
  unfold icon_data
  rw [icon_toggle_selected_heap]
  by_cases h : other = icon
  · subst h
    simp
  · simp [Function.update_noteq h]

theorem icon_toggle_selected_was_selected (c : NautilusCanvasContainer) (icon other : Nat) :
    ((icon_toggle_selected c icon).heap other).was_selected_before_rubberband =
      (c.heap other).was_selected_before_rubberband := by
  rw [icon_toggle_selected_heap]
  by_cases h : other = icon
  · subst h
    simp
  · simp [Function.update_noteq h]

theorem icon_toggle_selected_flag (c : NautilusCanvasContainer) (icon other : Nat) :
    icon_is_selected (icon_toggle_selected c icon) other =
      if other = icon then !(icon_is_selected c icon) else icon_is_selected c other := by
  unfold icon_is_selected
  rw [icon_toggle_selected_heap]
  by_cases h : other = icon
  · subst h
    simp
  · simp [Function.update_noteq h, h]

theorem icon_toggle_selected_selection (c : NautilusCanvasContainer) (icon : Nat) :
    (icon_toggle_selected c icon).selection =
      if icon_is_selected c icon = true then c.selection.erase (icon_data c icon)
      else icon_data c icon :: c.selection := by
  unfold icon_toggle_selected icon_is_selected icon_data g_list_remove g_list_prepend
  cases (c.heap icon).is_selected <;> rfl

theorem icon_set_selected_icons (c : NautilusCanvasContainer) (icon : Nat) (select : Bool) :
    (icon_set_selected c icon select).2.icons = c.icons := by
  unfold icon_set_selected
  split
  · rfl
  · exact icon_toggle_selected_icons c icon

theorem icon_set_selected_icon_set (c : NautilusCanvasContainer) (icon : Nat) (select : Bool) :
    (icon_set_selected c icon select).2.icon_set = c.icon_set := by
  unfold icon_set_selected
  split
  · rfl
  · exact icon_toggle_selected_icon_set c icon

theorem icon_set_selected_rubberband_info (c : NautilusCanvasContainer) (icon : Nat)
    (select : Bool) :
    (icon_set_selected c icon select).2.rubberband_info = c.rubberband_info := by
  unfold icon_set_selected
  split
  · rfl
  · exact icon_toggle_selected_rubberband_info c icon

theorem icon_set_selected_data (c : NautilusCanvasContainer) (icon : Nat) (select : Bool)
    (other : Nat) :
    icon_data (icon_set_selected c icon select).2 other = icon_data c other := by
  unfold icon_set_selected
  split
  · rfl
  · exact icon_toggle_selected_data c icon other

theorem icon_set_selected_was_selected (c : NautilusCanvasContainer) (icon : Nat) (select : Bool)
    (other : Nat) :
    ((icon_set_selected c icon select).2.heap other).was_selected_before_rubberband =
      (c.heap other).was_selected_before_rubberband := by
  unfold icon_set_selected
  split
  · rfl
  · exact icon_toggle_selected_was_selected c icon other

theorem icon_set_selected_flag (c : NautilusCanvasContainer) (icon : Nat) (select : Bool)
    (other : Nat) :
    icon_is_selected (icon_set_selected c icon select).2 other =
      if other = icon then select else icon_is_selected c other := by
  unfold icon_set_selected
  split
  · next h =>
    by_cases ho : other = icon
    · subst ho
      simp [icon_is_selected, h]
    · simp [ho]
  · next h =>
    rw [icon_toggle_selected_flag]
    by_cases ho : other = icon
    · subst ho
      simp only [if_true]
      unfold icon_is_selected
      cases hs : (c.heap other).is_selected <;> cases select <;> simp_all
    · simp [ho]

theorem icon_set_selected_changed (c : NautilusCanvasContainer) (icon : Nat) (select : Bool) :
    (icon_set_selected c icon select).1 = true ↔
      icon_is_selected (icon_set_selected c icon select).2 icon ≠ icon_is_selected c icon := by
  rw [icon_set_selected_flag]
  unfold icon_set_selected icon_is_selected
  by_cases h : select = (c.heap icon).is_selected
  · simp [h]
  · simp [h]

/-! ## Lemmas: consistency is preserved -/

theorem RegistryConsistent.data_injective {c : NautilusCanvasContainer}
    (h : RegistryConsistent c) {a b : Nat} (ha : a ∈ c.icons) (hb : b ∈ c.icons)
    (hab : icon_data c a = icon_data c b) : a = b := by
  have h1 := h.index_of_icon a ha
  have h2 := h.index_of_icon b hb
  rw [hab] at h1
  exact h1.symm.trans h2

theorem RegistryConsistent.registry_of_same {c c1 : NautilusCanvasContainer} (h : RegistryConsistent c)
    (hi : c1.icons = c.icons) (hs : c1.icon_set = c.icon_set)
    (hd : ∀ icon, icon_data c1 icon = icon_data c icon) : RegistryConsistent c1 := by
  constructor
  · rw [hi]; exact h.icons_nodup
  · rw [hi]; exact h.icons_not_null
  · intro icon hm
    rw [hi] at hm
    rw [hd]
    exact h.data_not_null icon hm
  · intro icon hm
    rw [hi] at hm
    rw [hd, hs]
    exact h.index_of_icon icon hm
  · intro data hm
    rw [hs] at hm ⊢
    rw [hi, hd]
    exact h.icon_of_key data hm
  · rw [hs]
    exact h.keys_nodup

theorem SelectionConsistent.selection_of_same {c c1 : NautilusCanvasContainer} (h : SelectionConsistent c)
    (hi : c1.icons = c.icons) (hs : c1.selection.Perm c.selection)
    (hd : ∀ icon, icon_data c1 icon = icon_data c icon)
    (hf : ∀ icon, icon_is_selected c1 icon = icon_is_selected c icon) :
    SelectionConsistent c1 := by
  constructor
  · exact hs.nodup_iff.mpr h.selection_nodup
  · intro data
    rw [hs.mem_iff, h.selection_mem, hi]
    simp only [hd, hf]

theorem Consistent.of_same {c c1 : NautilusCanvasContainer} (h : Consistent c)
    (hi : c1.icons = c.icons) (hs : c1.icon_set = c.icon_set)
    (hl : c1.selection.Perm c.selection)
    (hd : ∀ icon, icon_data c1 icon = icon_data c icon)
    (hf : ∀ icon, icon_is_selected c1 icon = icon_is_selected c icon) : Consistent c1 :=
  ⟨h.registry.registry_of_same hi hs hd, h.selection.selection_of_same hi hl hd hf⟩

theorem Consistent.toggle {c : NautilusCanvasContainer} (h : Consistent c) {icon : Nat}
    (hm : icon ∈ c.icons) : Consistent (icon_toggle_selected c icon) := by
  refine ⟨h.registry.registry_of_same (icon_toggle_selected_icons c icon)
    (icon_toggle_selected_icon_set c icon) (icon_toggle_selected_data c icon), ?_⟩
  have hinj := fun {a b : Nat} => h.registry.data_injective (a := a) (b := b)
  have hsel := h.selection
  constructor
  · rw [icon_toggle_selected_selection]
    split
    · exact hsel.selection_nodup.erase _
    · next hflag =>
      refine List.nodup_cons.mpr ⟨?_, hsel.selection_nodup⟩
      intro hin
      obtain ⟨b, hb, hdb, hfb⟩ := (hsel.selection_mem _).mp hin
      have := hinj hb hm hdb
      subst this
      exact hflag hfb
  · intro data
    rw [icon_toggle_selected_selection, icon_toggle_selected_icons]
    simp only [icon_toggle_selected_data, icon_toggle_selected_flag]
    split
    · next hflag =>
      rw [hsel.selection_nodup.mem_erase_iff, hsel.selection_mem]
      constructor
      · rintro ⟨hne, b, hb, hdb, hfb⟩
        refine ⟨b, hb, hdb, ?_⟩
        have hba : b ≠ icon := by
          rintro rfl
          exact hne hdb.symm
        simpa [hba] using hfb
      · rintro ⟨b, hb, hdb, hfb⟩
        have hba : b ≠ icon := by
          rintro rfl
          simp [hflag] at hfb
        refine ⟨?_, b, hb, hdb, by simpa [hba] using hfb⟩
        rintro rfl
        exact hba (hinj hb hm hdb)
    · next hflag =>
      rw [List.mem_cons, hsel.selection_mem]
      constructor
      · rintro (rfl | ⟨b, hb, hdb, hfb⟩)
        · exact ⟨icon, hm, rfl, by simpa using hflag⟩
        · have hba : b ≠ icon := by
            rintro rfl
            exact hflag hfb
          exact ⟨b, hb, hdb, by simpa [hba] using hfb⟩
      · rintro ⟨b, hb, hdb, hfb⟩
        by_cases hba : b = icon
        · subst hba
          exact Or.inl hdb.symm
        · exact Or.inr ⟨b, hb, hdb, by simpa [hba] using hfb⟩

theorem Consistent.set_selected {c : NautilusCanvasContainer} (h : Consistent c) {icon : Nat}
    (hm : icon ∈ c.icons) (select : Bool) : Consistent (icon_set_selected c icon select).2 := by
  unfold icon_set_selected
  split
  · exact h
  · exact h.toggle hm

/-! ## Lemmas: operations that leave icons, index and selection alone -/

theorem SameCore.core_refl (c : NautilusCanvasContainer) : SameCore c c :=
  ⟨rfl, rfl, rfl, rfl, rfl⟩

theorem SameCore.core_trans {c c1 c2 : NautilusCanvasContainer} (h1 : SameCore c c1)
    (h2 : SameCore c1 c2) : SameCore c c2 :=
  ⟨h2.1.trans h1.1, h2.2.1.trans h1.2.1, h2.2.2.1.trans h1.2.2.1,
    h2.2.2.2.1.trans h1.2.2.2.1, h2.2.2.2.2.trans h1.2.2.2.2⟩

theorem SameCore.ite {c : NautilusCanvasContainer} (p : Prop) [Decidable p]
    {c1 : NautilusCanvasContainer} (h : SameCore c c1) : SameCore c (if p then c1 else c) := by
  split
  · exact h
  · exact SameCore.core_refl c

theorem SameCore.core_consistent {c c1 : NautilusCanvasContainer} (h : SameCore c c1)
    (hc : Consistent c) : Consistent c1 := by
  obtain ⟨hh, hi, _, hs, hl⟩ := h
  refine hc.of_same hi hs (by rw [hl]) ?_ ?_
  · intro icon
    unfold icon_data
    rw [hh]
  · intro icon
    unfold icon_is_selected
    rw [hh]

theorem same_core_g_source_add (c : NautilusCanvasContainer) (f : GSourceFunc) :
    SameCore c (g_source_add c f).2 :=
  ⟨rfl, rfl, rfl, rfl, rfl⟩

theorem same_core_g_source_remove (c : NautilusCanvasContainer) (tag : Nat) :
    SameCore c (g_source_remove c tag) :=
  ⟨rfl, rfl, rfl, rfl, rfl⟩

theorem same_core_g_signal_emit (c : NautilusCanvasContainer) (signal : Signal) :
    SameCore c (g_signal_emit c signal) :=
  ⟨rfl, rfl, rfl, rfl, rfl⟩

theorem same_core_schedule_redo_layout (c : NautilusCanvasContainer) :
    SameCore c (schedule_redo_layout c) := by
  unfold schedule_redo_layout
  split
  · exact ⟨rfl, rfl, rfl, rfl, rfl⟩
  · exact SameCore.core_refl c

theorem same_core_set_pending_icon_to_reveal (c : NautilusCanvasContainer) (icon : Nat) :
    SameCore c (set_pending_icon_to_reveal c icon) := by
  unfold set_pending_icon_to_reveal
  split
  · exact SameCore.core_refl c
  · exact ⟨rfl, rfl, rfl, rfl, rfl⟩

theorem same_core_reveal_icon (c : NautilusCanvasContainer) (icon : Nat) :
    SameCore c (reveal_icon c icon) := by
  unfold reveal_icon
  split
  · exact same_core_set_pending_icon_to_reveal c icon
  · exact same_core_set_pending_icon_to_reveal c 0

theorem same_core_unschedule_keyboard_icon_reveal (c : NautilusCanvasContainer) :
    SameCore c (unschedule_keyboard_icon_reveal c) := by
  unfold unschedule_keyboard_icon_reveal
  split
  · exact same_core_g_source_remove c _
  · exact SameCore.core_refl c

theorem same_core_icon_destroy_focus {c c1 : NautilusCanvasContainer} {icon icon_to_focus : Nat}
    (h : icon_destroy_focus c icon icon_to_focus = some c1) : SameCore c c1 := by
  unfold icon_destroy_focus set_focus clear_focus at h
  split_ifs at h <;> simp only [Option.some.injEq] at h <;> subst h <;>
    exact ⟨rfl, rfl, rfl, rfl, rfl⟩

theorem icon_destroy_focus_isSome (c : NautilusCanvasContainer) (icon icon_to_focus : Nat) :
    ∃ c1, icon_destroy_focus c icon icon_to_focus = some c1 := by
  unfold icon_destroy_focus set_focus
  split_ifs <;> exact ⟨_, rfl⟩

theorem same_core_icon_destroy_references (c : NautilusCanvasContainer) (icon : Nat) :
    SameCore c (icon_destroy_references c icon) := by
  unfold icon_destroy_references
  lift_lets
  extract_lets c1 c2 c3 c4 c5
  have h1 : SameCore c c1 := SameCore.ite _ ⟨rfl, rfl, rfl, rfl, rfl⟩
  have h2 : SameCore c1 c2 := SameCore.ite _ (same_core_unschedule_keyboard_icon_reveal c1)
  have h3 : SameCore c2 c3 := SameCore.ite _ ⟨rfl, rfl, rfl, rfl, rfl⟩
  have h4 : SameCore c3 c4 := SameCore.ite _ ⟨rfl, rfl, rfl, rfl, rfl⟩
  have h5 : SameCore c4 c5 := SameCore.ite _ ⟨rfl, rfl, rfl, rfl, rfl⟩
  have h6 : SameCore c5 (if c5.pending_icon_to_reveal = icon then
      set_pending_icon_to_reveal c5 0 else c5) :=
    SameCore.ite _ (same_core_set_pending_icon_to_reveal c5 0)
  exact h1.core_trans (h2.core_trans (h3.core_trans (h4.core_trans (h5.core_trans h6))))

theorem icon_destroy_focus_ne_none (c : NautilusCanvasContainer) (icon icon_to_focus : Nat) :
    icon_destroy_focus c icon icon_to_focus ≠ none := by
  obtain ⟨c1, h⟩ := icon_destroy_focus_isSome c icon icon_to_focus
  rw [h]
  exact Option.some_ne_none c1

theorem icon_destroy_core (c : NautilusCanvasContainer) (icon : Nat) (hm : icon ∈ c.icons) :
    ∃ c1, icon_destroy c icon = some c1 ∧ c1.heap = c.heap ∧
      c1.icons = c.icons.erase icon ∧
      c1.new_icons = c.new_icons.erase icon ∧
      c1.icon_set = g_hash_table_remove c.icon_set (icon_data c icon) ∧
      c1.selection = c.selection.erase (icon_data c icon) := by
  unfold icon_destroy
  simp only [g_list_find, hm, if_true]
  split
  · next heq => exact absurd heq (icon_destroy_focus_ne_none _ _ _)
  · next cf heq =>
    have hsame2 := (same_core_icon_destroy_focus heq).core_trans (same_core_icon_destroy_references cf icon)
    split
    · refine ⟨_, rfl, ?_⟩
      have hs := hsame2.core_trans (same_core_g_source_add (icon_destroy_references cf icon)
        GSourceFunc.selection_changed_at_idle_callback)
      unfold SameCore at hs
      simp only [g_list_remove] at hs
      unfold icon_data
      dsimp only
      exact hs
    · refine ⟨_, rfl, ?_⟩
      unfold SameCore at hsame2
      simp only [g_list_remove] at hsame2
      unfold icon_data
      exact hsame2

/-! ## Lemmas: add, remove and clear preserve consistency -/

theorem nautilus_canvas_container_add_core (c : NautilusCanvasContainer) (icon data : Nat)
    (hd : data ≠ 0) (hn : g_hash_table_lookup c.icon_set data = 0) :
    (nautilus_canvas_container_add c icon data).1 = true ∧
      (nautilus_canvas_container_add c icon data).2.heap =
        Function.update c.heap icon
          { g_new0_icon with data := data, x := ICON_UNPOSITIONED_VALUE,
                             y := ICON_UNPOSITIONED_VALUE } ∧
      (nautilus_canvas_container_add c icon data).2.icons = icon :: c.icons ∧
      (nautilus_canvas_container_add c icon data).2.new_icons = icon :: c.new_icons ∧
      (nautilus_canvas_container_add c icon data).2.icon_set =
        g_hash_table_insert c.icon_set data icon ∧
      (nautilus_canvas_container_add c icon data).2.selection = c.selection := by
  unfold nautilus_canvas_container_add
  simp only [hd, hn, if_false, ne_eq, not_true_eq_false, g_list_prepend]
  refine ⟨trivial, ?_⟩
  exact same_core_schedule_redo_layout _

theorem nautilus_canvas_container_add_unchanged (c : NautilusCanvasContainer) (icon data : Nat)
    (h : data = 0 ∨ g_hash_table_lookup c.icon_set data ≠ 0) :
    nautilus_canvas_container_add c icon data = (false, c) := by
  unfold nautilus_canvas_container_add
  rcases h with h | h
  · simp [h]
  · simp [h]

theorem Consistent.add {c : NautilusCanvasContainer} (h : Consistent c) (icon data : Nat)
    (h0 : icon ≠ 0) (hfresh : icon ∉ c.icons) :
    Consistent (nautilus_canvas_container_add c icon data).2 := by
  by_cases hu : data = 0 ∨ g_hash_table_lookup c.icon_set data ≠ 0
  · rw [nautilus_canvas_container_add_unchanged c icon data hu]
    exact h
  · have hd : data ≠ 0 := fun e => hu (Or.inl e)
    have hn : g_hash_table_lookup c.icon_set data = 0 := by
      by_contra e
      exact hu (Or.inr e)
    obtain ⟨_, hheap, hicons, _, hset, hsel⟩ := nautilus_canvas_container_add_core c icon data hd hn
    generalize nautilus_canvas_container_add c icon data = r at hheap hicons hset hsel
    have hdata_new : icon_data r.2 icon = data := by
      unfold icon_data
      rw [hheap]
      simp
    have hdata_old : ∀ a, a ≠ icon → icon_data r.2 a = icon_data c a := by
      intro a ha
      unfold icon_data
      rw [hheap, Function.update_noteq ha]
    have hflag_new : icon_is_selected r.2 icon = false := by
      unfold icon_is_selected
      rw [hheap]
      simp [g_new0_icon]
    have hflag_old : ∀ a, a ≠ icon → icon_is_selected r.2 a = icon_is_selected c a := by
      intro a ha
      unfold icon_is_selected
      rw [hheap, Function.update_noteq ha]
    have hne : ∀ a, a ∈ c.icons → a ≠ icon := by
      rintro a ha rfl
      exact hfresh ha
    have hreg := h.registry
    constructor
    · constructor
      · rw [hicons]
        exact List.nodup_cons.mpr ⟨hfresh, hreg.icons_nodup⟩
      · rw [hicons, List.mem_cons]
        rintro (e | e)
        · exact h0 e.symm
        · exact hreg.icons_not_null e
      · intro a ha
        rw [hicons, List.mem_cons] at ha
        rcases ha with rfl | ha
        · rw [hdata_new]
          exact hd
        · rw [hdata_old a (hne a ha)]
          exact hreg.data_not_null a ha
      · intro a ha
        rw [hicons, List.mem_cons] at ha
        rw [hset, g_hash_table_lookup_insert]
        rcases ha with rfl | ha
        · rw [hdata_new]
          simp
        · rw [hdata_old a (hne a ha)]
          have hlk := hreg.index_of_icon a ha
          have : data ≠ icon_data c a := by
            intro e
            rw [← e, hn] at hlk
            exact hreg.icons_not_null (hlk ▸ ha)
          simp [this, hlk]
      · intro d hdk
        rw [hset, mem_keys_insert] at hdk
        rw [hset, g_hash_table_lookup_insert, hicons]
        rcases hdk with rfl | ⟨hdne, hdk⟩
        · simp [hdata_new]
        · have hdne2 : ¬ data = d := fun e => hdne e.symm
          simp only [hdne2, if_false]
          obtain ⟨hmem, hdat⟩ := hreg.icon_of_key d hdk
          refine ⟨List.mem_cons_of_mem _ hmem, ?_⟩
          rw [hdata_old _ (hne _ hmem)]
          exact hdat
      · rw [hset]
        exact keys_nodup_insert _ _ _ hreg.keys_nodup
    · have hsc := h.selection
      constructor
      · rw [hsel]
        exact hsc.selection_nodup
      · intro d
        rw [hsel, hsc.selection_mem, hicons]
        constructor
        · rintro ⟨a, ha, hda, hfa⟩
          refine ⟨a, List.mem_cons_of_mem _ ha, ?_, ?_⟩
          · rw [hdata_old a (hne a ha)]
            exact hda
          · rw [hflag_old a (hne a ha)]
            exact hfa
        · rintro ⟨a, ha, hda, hfa⟩
          rw [List.mem_cons] at ha
          rcases ha with rfl | ha
          · rw [hflag_new] at hfa
            cases hfa
          · refine ⟨a, ha, ?_, ?_⟩
            · rw [← hdata_old a (hne a ha)]
              exact hda
            · rw [← hflag_old a (hne a ha)]
              exact hfa

theorem RegistryConsistent.registered {c : NautilusCanvasContainer} (h : RegistryConsistent c)
    {data : Nat} (hr : is_registered c data) :
    g_hash_table_lookup c.icon_set data ∈ c.icons ∧
      icon_data c (g_hash_table_lookup c.icon_set data) = data :=
  h.icon_of_key data (mem_keys_of_lookup_ne_zero _ _ hr)

theorem nautilus_canvas_container_remove_core (c : NautilusCanvasContainer) (data : Nat)
    (hreg : RegistryConsistent c) (hr : is_registered c data) :
    ∃ c1, nautilus_canvas_container_remove c data = some (true, c1) ∧ c1.heap = c.heap ∧
      c1.icons = c.icons.erase (g_hash_table_lookup c.icon_set data) ∧
      c1.new_icons = c.new_icons.erase (g_hash_table_lookup c.icon_set data) ∧
      c1.icon_set = g_hash_table_remove c.icon_set data ∧
      c1.selection = c.selection.erase data := by
  obtain ⟨hmem, hdat⟩ := hreg.registered hr
  have hd : data ≠ 0 := by
    rw [← hdat]
    exact hreg.data_not_null _ hmem
  obtain ⟨cd, hcd, e1, e2, e3, e4, e5⟩ := icon_destroy_core c _ hmem
  rw [hdat] at e4 e5
  unfold nautilus_canvas_container_remove
  unfold is_registered at hr
  simp only [hd, hr, if_false, hcd]
  refine ⟨_, rfl, ?_⟩
  obtain ⟨s1, s2, s3, s4, s5⟩ := (same_core_schedule_redo_layout cd).core_trans
    (same_core_g_signal_emit (schedule_redo_layout cd)
      (Signal.ICON_REMOVED (g_hash_table_lookup c.icon_set data)))
  exact ⟨s1.trans e1, s2.trans e2, s3.trans e3, s4.trans e4, s5.trans e5⟩

theorem nautilus_canvas_container_remove_unregistered (c : NautilusCanvasContainer) (data : Nat)
    (hr : ¬ is_registered c data) :
    nautilus_canvas_container_remove c data = some (false, c) := by
  unfold is_registered at hr
  unfold nautilus_canvas_container_remove
  by_cases hd : data = 0
  · simp [hd]
  · have : g_hash_table_lookup c.icon_set data = 0 := by
      by_contra e
      exact hr e
    simp [hd, this]

theorem Consistent.remove {c : NautilusCanvasContainer} (h : Consistent c) {data : Nat}
    {r : Bool × NautilusCanvasContainer}
    (hrem : nautilus_canvas_container_remove c data = some r) : Consistent r.2 := by
  by_cases hr : is_registered c data
  · have hreg := h.registry
    obtain ⟨c1, hc1, hheap, hicons, _, hset, hsel⟩ :=
      nautilus_canvas_container_remove_core c data hreg hr
    rw [hc1] at hrem
    cases hrem
    obtain ⟨hmem, hdat⟩ := hreg.registered hr
    generalize g_hash_table_lookup c.icon_set data = icon at hicons hmem hdat
    have hdata : ∀ a, icon_data c1 a = icon_data c a := by
      intro a
      unfold icon_data
      rw [hheap]
    have hflag : ∀ a, icon_is_selected c1 a = icon_is_selected c a := by
      intro a
      unfold icon_is_selected
      rw [hheap]
    have herase : ∀ a, a ∈ c.icons.erase icon ↔ a ≠ icon ∧ a ∈ c.icons :=
      fun a => hreg.icons_nodup.mem_erase_iff
    have hother : ∀ a, a ∈ c.icons → a ≠ icon → icon_data c a ≠ data := by
      intro a ha hne e
      exact hne (hreg.data_injective ha hmem (e.trans hdat.symm))
    constructor
    · constructor
      · show c1.icons.Nodup
        rw [hicons]
        exact hreg.icons_nodup.erase _
      · show 0 ∉ c1.icons
        rw [hicons]
        exact fun e => hreg.icons_not_null (List.mem_of_mem_erase e)
      · intro a ha
        change a ∈ c1.icons at ha
        rw [hicons] at ha
        rw [hdata]
        exact hreg.data_not_null a (List.mem_of_mem_erase ha)
      · intro a ha
        change a ∈ c1.icons at ha
        rw [hicons, herase] at ha
        show g_hash_table_lookup c1.icon_set (icon_data c1 a) = a
        rw [hset, hdata, g_hash_table_lookup_remove]
        have := hother a ha.2 ha.1
        simp [Ne.symm this, hreg.index_of_icon a ha.2]
      · intro d hdk
        change d ∈ g_hash_table_keys c1.icon_set at hdk
        rw [hset, mem_keys_remove] at hdk
        show g_hash_table_lookup c1.icon_set d ∈ c1.icons ∧
          icon_data c1 (g_hash_table_lookup c1.icon_set d) = d
        rw [hset, g_hash_table_lookup_remove, hicons]
        have hne : ¬ data = d := fun e => hdk.1 e.symm
        simp only [hne, if_false, hdata]
        obtain ⟨hm2, hd2⟩ := hreg.icon_of_key d hdk.2
        refine ⟨(herase _).mpr ⟨?_, hm2⟩, hd2⟩
        intro e
        rw [e, hdat] at hd2
        exact hne hd2
      · show (g_hash_table_keys c1.icon_set).Nodup
        rw [hset]
        exact keys_nodup_remove _ _ hreg.keys_nodup
    · have hsc := h.selection
      constructor
      · show c1.selection.Nodup
        rw [hsel]
        exact hsc.selection_nodup.erase _
      · intro d
        show d ∈ c1.selection ↔ ∃ a ∈ c1.icons, icon_data c1 a = d ∧ icon_is_selected c1 a = true
        rw [hsel, hsc.selection_nodup.mem_erase_iff, hsc.selection_mem, hicons]
        simp only [hdata, hflag]
        constructor
        · rintro ⟨hne, a, ha, hda, hfa⟩
          refine ⟨a, (herase a).mpr ⟨?_, ha⟩, hda, hfa⟩
          rintro rfl
          exact hne (hda.symm.trans hdat)
        · rintro ⟨a, ha, hda, hfa⟩
          rw [herase] at ha
          refine ⟨?_, a, ha.2, hda, hfa⟩
          rw [← hda]
          exact hother a ha.2 ha.1
  · rw [nautilus_canvas_container_remove_unregistered c data hr] at hrem
    cases hrem
    exact h

theorem consistent_of_empty {c : NautilusCanvasContainer} (h : is_empty_container c) :
    Consistent c := by
  obtain ⟨h1, _, h3, h4⟩ := h
  constructor
  · constructor
    · rw [h1]; exact List.nodup_nil
    · rw [h1]; exact List.not_mem_nil 0
    · intro a ha
      rw [h1] at ha
      cases ha
    · intro a ha
      rw [h1] at ha
      cases ha
    · intro d hd
      rw [h4] at hd
      cases hd
    · rw [h4]
      exact List.nodup_nil
  · constructor
    · rw [h3]; exact List.nodup_nil
    · intro d
      rw [h3, h1]
      simp

theorem nautilus_canvas_container_clear_empty (c : NautilusCanvasContainer) :
    is_empty_container (nautilus_canvas_container_clear c) ∨
      nautilus_canvas_container_clear c = c := by
  unfold nautilus_canvas_container_clear
  split
  · exact Or.inr rfl
  · exact Or.inl ⟨rfl, rfl, rfl, rfl⟩

theorem Consistent.clear {c : NautilusCanvasContainer} (h : Consistent c) :
    Consistent (nautilus_canvas_container_clear c) := by
  rcases nautilus_canvas_container_clear_empty c with he | he
  · exact consistent_of_empty he
  · rw [he]
    exact h

/-! ## Lemmas: loops over the icon list -/

theorem SelectionFrame.frame_refl (c : NautilusCanvasContainer) : SelectionFrame c c :=
  ⟨rfl, rfl, rfl, fun _ => rfl, fun _ => rfl⟩

theorem SelectionFrame.frame_trans {c c1 c2 : NautilusCanvasContainer} (h1 : SelectionFrame c c1)
    (h2 : SelectionFrame c1 c2) : SelectionFrame c c2 :=
  ⟨h2.1.trans h1.1, h2.2.1.trans h1.2.1, h2.2.2.1.trans h1.2.2.1,
    fun a => (h2.2.2.2.1 a).trans (h1.2.2.2.1 a), fun a => (h2.2.2.2.2 a).trans (h1.2.2.2.2 a)⟩

theorem selection_frame_icon_set_selected (c : NautilusCanvasContainer) (icon : Nat)
    (select : Bool) : SelectionFrame c (icon_set_selected c icon select).2 :=
  ⟨icon_set_selected_icons c icon select, icon_set_selected_icon_set c icon select,
    icon_set_selected_rubberband_info c icon select, icon_set_selected_data c icon select,
    icon_set_selected_was_selected c icon select⟩

theorem selection_frame_icon_toggle_selected (c : NautilusCanvasContainer) (icon : Nat) :
    SelectionFrame c (icon_toggle_selected c icon) :=
  ⟨icon_toggle_selected_icons c icon, icon_toggle_selected_icon_set c icon,
    icon_toggle_selected_rubberband_info c icon, icon_toggle_selected_data c icon,
    icon_toggle_selected_was_selected c icon⟩

theorem selection_frame_of_same_core {c c1 : NautilusCanvasContainer} (h : SameCore c c1)
    (hr : c1.rubberband_info = c.rubberband_info) : SelectionFrame c c1 := by
  obtain ⟨hh, hi, _, hs, _⟩ := h
  refine ⟨hi, hs, hr, ?_, ?_⟩
  · intro icon
    unfold icon_data
    rw [hh]
  · intro icon
    rw [hh]

theorem foldl_selection_frame {σ : Type} (f : σ → Nat → σ) (cont : σ → NautilusCanvasContainer)
    (hstep : ∀ s icon, SelectionFrame (cont s) (cont (f s icon))) (l : List Nat) (s : σ) :
    SelectionFrame (cont s) (cont (l.foldl f s)) := by
  induction l generalizing s with
  | nil => exact SelectionFrame.frame_refl _
  | cons x t ih =>
    rw [List.foldl_cons]
    exact (hstep s x).frame_trans (ih (f s x))

theorem foldl_consistent {σ : Type} (f : σ → Nat → σ) (cont : σ → NautilusCanvasContainer)
    (hicons : ∀ s icon, (cont (f s icon)).icons = (cont s).icons)
    (hstep : ∀ s icon, icon ∈ (cont s).icons → Consistent (cont s) → Consistent (cont (f s icon)))
    (l : List Nat) (s : σ) (hl : ∀ a ∈ l, a ∈ (cont s).icons) (h : Consistent (cont s)) :
    Consistent (cont (l.foldl f s)) := by
  induction l generalizing s with
  | nil => exact h
  | cons x t ih =>
    rw [List.foldl_cons]
    refine ih (f s x) ?_ (hstep s x (hl x (List.mem_cons_self x t)) h)
    intro a ha
    rw [hicons]
    exact hl a (List.mem_cons_of_mem x ha)

theorem foldl_flag_frame {σ : Type} (f : σ → Nat → σ) (cont : σ → NautilusCanvasContainer)
    (hstep : ∀ s icon other, other ≠ icon →
      icon_is_selected (cont (f s icon)) other = icon_is_selected (cont s) other)
    (l : List Nat) (s : σ) (other : Nat) (ho : other ∉ l) :
    icon_is_selected (cont (l.foldl f s)) other = icon_is_selected (cont s) other := by
  induction l generalizing s with
  | nil => rfl
  | cons x t ih =>
    rw [List.foldl_cons, ih (f s x) (fun e => ho (List.mem_cons_of_mem x e))]
    exact hstep s x other (fun e => ho (e ▸ List.mem_cons_self x t))

theorem foldl_changed {σ : Type} (f : σ → Nat → σ) (cont : σ → NautilusCanvasContainer)
    (changed : σ → Bool)
    (hframe : ∀ s icon other, other ≠ icon →
      icon_is_selected (cont (f s icon)) other = icon_is_selected (cont s) other)
    (hstep : ∀ s icon, changed (f s icon) = true ↔
      changed s = true ∨ icon_is_selected (cont (f s icon)) icon ≠ icon_is_selected (cont s) icon)
    (l : List Nat) (hnd : l.Nodup) (s : σ) :
    changed (l.foldl f s) = true ↔
      changed s = true ∨
        ∃ a ∈ l, icon_is_selected (cont (l.foldl f s)) a ≠ icon_is_selected (cont s) a := by
  induction l generalizing s with
  | nil => simp
  | cons x t ih =>
    obtain ⟨hx, ht⟩ := List.nodup_cons.mp hnd
    rw [List.foldl_cons, ih ht (f s x), hstep s x]
    have hself : icon_is_selected (cont (t.foldl f (f s x))) x =
        icon_is_selected (cont (f s x)) x := foldl_flag_frame f cont hframe t (f s x) x hx
    have hrest : ∀ a ∈ t, icon_is_selected (cont (f s x)) a = icon_is_selected (cont s) a := by
      intro a ha
      exact hframe s x a (fun e => hx (e ▸ ha))
    constructor
    · rintro ((h | h) | ⟨a, ha, h⟩)
      · exact Or.inl h
      · exact Or.inr ⟨x, List.mem_cons_self x t, by rw [hself]; exact h⟩
      · exact Or.inr ⟨a, List.mem_cons_of_mem x ha, by rw [← hrest a ha]; exact h⟩
    · rintro (h | ⟨a, ha, h⟩)
      · exact Or.inl (Or.inl h)
      · rw [List.mem_cons] at ha
        rcases ha with rfl | ha
        · rw [hself] at h
          exact Or.inl (Or.inr h)
        · rw [← hrest a ha] at h
          exact Or.inr ⟨a, ha, h⟩

/-! ## Lemmas: the loop of `select_range` -/

theorem icon_set_selected_same (c : NautilusCanvasContainer) (icon : Nat) :
    icon_set_selected c icon (icon_is_selected c icon) = (false, c) := by
  unfold icon_set_selected icon_is_selected
  simp

theorem select_range_match_container (icon1 icon2 : Nat) (s : select_range_state) (icon : Nat) :
    (select_range_match icon1 icon2 s icon).container = s.container ∧
      (select_range_match icon1 icon2 s icon).selection_changed = s.selection_changed := by
  unfold select_range_match
  split_ifs <;> exact ⟨rfl, rfl⟩

theorem select_range_close_container (s : select_range_state) (icon : Nat) :
    (select_range_close s icon).container = s.container ∧
      (select_range_close s icon).selection_changed = s.selection_changed := by
  unfold select_range_close
  split_ifs <;> exact ⟨rfl, rfl⟩

theorem select_range_apply_container (u : Bool) (s : select_range_state) (icon : Nat) :
    (select_range_apply u s icon).container =
      (icon_set_selected s.container icon
        (if (s.select || u) = true then s.select else icon_is_selected s.container icon)).2 ∧
    (select_range_apply u s icon).selection_changed =
      (s.selection_changed || (icon_set_selected s.container icon
        (if (s.select || u) = true then s.select else icon_is_selected s.container icon)).1) := by
  unfold select_range_apply
  split
  · exact ⟨rfl, rfl⟩
  · rw [icon_set_selected_same]
    simp

theorem select_range_step_container (icon1 icon2 : Nat) (u : Bool) (s : select_range_state)
    (icon : Nat) :
    ∃ b, (select_range_step icon1 icon2 u s icon).container =
        (icon_set_selected s.container icon b).2 ∧
      (select_range_step icon1 icon2 u s icon).selection_changed =
        (s.selection_changed || (icon_set_selected s.container icon b).1) := by
  unfold select_range_step
  obtain ⟨m1, m2⟩ := select_range_match_container icon1 icon2 s icon
  obtain ⟨a1, a2⟩ := select_range_apply_container u (select_range_match icon1 icon2 s icon) icon
  obtain ⟨k1, k2⟩ := select_range_close_container
    (select_range_apply u (select_range_match icon1 icon2 s icon) icon) icon
  rw [m1] at a1 a2
  rw [m2] at a2
  exact ⟨_, k1.trans a1, k2.trans a2⟩

theorem select_range_step_frame (icon1 icon2 : Nat) (u : Bool) (s : select_range_state)
    (icon : Nat) :
    SelectionFrame s.container (select_range_step icon1 icon2 u s icon).container := by
  obtain ⟨b, hb, _⟩ := select_range_step_container icon1 icon2 u s icon
  rw [hb]
  exact selection_frame_icon_set_selected _ _ _

theorem select_range_step_consistent (icon1 icon2 : Nat) (u : Bool) (s : select_range_state)
    (icon : Nat) (hm : icon ∈ s.container.icons) (h : Consistent s.container) :
    Consistent (select_range_step icon1 icon2 u s icon).container := by
  obtain ⟨b, hb, _⟩ := select_range_step_container icon1 icon2 u s icon
  rw [hb]
  exact h.set_selected hm b

theorem select_range_step_flag_frame (icon1 icon2 : Nat) (u : Bool) (s : select_range_state)
    (icon other : Nat) (ho : other ≠ icon) :
    icon_is_selected (select_range_step icon1 icon2 u s icon).container other =
      icon_is_selected s.container other := by
  obtain ⟨b, hb, _⟩ := select_range_step_container icon1 icon2 u s icon
  rw [hb, icon_set_selected_flag]
  simp [ho]

theorem select_range_step_changed (icon1 icon2 : Nat) (u : Bool) (s : select_range_state)
    (icon : Nat) :
    (select_range_step icon1 icon2 u s icon).selection_changed = true ↔
      s.selection_changed = true ∨
        icon_is_selected (select_range_step icon1 icon2 u s icon).container icon ≠
          icon_is_selected s.container icon := by
  obtain ⟨b, hb, hc⟩ := select_range_step_container icon1 icon2 u s icon
  rw [hb, hc, Bool.or_eq_true, icon_set_selected_changed]

theorem select_range_frame (c : NautilusCanvasContainer) (icon1 icon2 : Nat) (u : Bool) :
    SelectionFrame c (select_range c icon1 icon2 u).2 := by
  unfold select_range
  exact foldl_selection_frame (select_range_step icon1 icon2 u) (fun s => s.container)
    (select_range_step_frame icon1 icon2 u) c.icons _

theorem Consistent.select_range {c : NautilusCanvasContainer} (h : Consistent c)
    (icon1 icon2 : Nat) (u : Bool) : Consistent (select_range c icon1 icon2 u).2 := by
  unfold Nautilus.select_range
  refine foldl_consistent (select_range_step icon1 icon2 u) (fun s => s.container) ?_
    (select_range_step_consistent icon1 icon2 u) c.icons _ (fun a ha => ha) h
  intro s icon
  exact (select_range_step_frame icon1 icon2 u s icon).1

/-! ## Lemmas: the loops that set every flag -/

theorem set_selected_loop_frame (want : NautilusCanvasContainer → Nat → Bool) (l : List Nat)
    (acc : Bool × NautilusCanvasContainer) :
    SelectionFrame acc.2 (set_selected_loop want l acc).2 := by
  unfold set_selected_loop
  exact foldl_selection_frame (set_selected_step want) (fun s => s.2)
    (fun s icon => selection_frame_icon_set_selected s.2 icon (want s.2 icon)) l acc

theorem set_selected_loop_consistent (want : NautilusCanvasContainer → Nat → Bool) (l : List Nat)
    (acc : Bool × NautilusCanvasContainer) (hl : ∀ a ∈ l, a ∈ acc.2.icons)
    (h : Consistent acc.2) : Consistent (set_selected_loop want l acc).2 := by
  unfold set_selected_loop
  refine foldl_consistent (set_selected_step want) (fun s => s.2) ?_ ?_ l acc hl h
  · intro s icon
    exact icon_set_selected_icons s.2 icon (want s.2 icon)
  · intro s icon hm hc
    exact hc.set_selected hm (want s.2 icon)

theorem set_selected_loop_flag_frame (want : NautilusCanvasContainer → Nat → Bool) (l : List Nat)
    (acc : Bool × NautilusCanvasContainer) (other : Nat) (ho : other ∉ l) :
    icon_is_selected (set_selected_loop want l acc).2 other = icon_is_selected acc.2 other := by
  unfold set_selected_loop
  refine foldl_flag_frame (set_selected_step want) (fun s => s.2) ?_ l acc other ho
  intro s icon o hne
  show icon_is_selected (icon_set_selected s.2 icon (want s.2 icon)).2 o = icon_is_selected s.2 o
  rw [icon_set_selected_flag]
  simp [hne]

theorem set_selected_loop_flag (want : NautilusCanvasContainer → Nat → Bool)
    (hw : ∀ c c1 icon, SelectionFrame c c1 → want c1 icon = want c icon) (l : List Nat)
    (acc : Bool × NautilusCanvasContainer) (icon : Nat) (hm : icon ∈ l) :
    icon_is_selected (set_selected_loop want l acc).2 icon = want acc.2 icon := by
  induction l generalizing acc with
  | nil => cases hm
  | cons x t ih =>
    have hcons : set_selected_loop want (x :: t) acc =
        set_selected_loop want t
          (acc.1 || (icon_set_selected acc.2 x (want acc.2 x)).1,
            (icon_set_selected acc.2 x (want acc.2 x)).2) := by
      unfold set_selected_loop
      rw [List.foldl_cons]
      rfl
    rw [hcons]
    by_cases ht : icon ∈ t
    · rw [ih _ ht]
      exact hw _ _ _ (selection_frame_icon_set_selected acc.2 x (want acc.2 x))
    · have hx : icon = x := by
        rcases List.mem_cons.mp hm with e | e
        · exact e
        · exact absurd e ht
      subst hx
      rw [set_selected_loop_flag_frame want t _ icon ht]
      show icon_is_selected (icon_set_selected acc.2 icon (want acc.2 icon)).2 icon = _
      rw [icon_set_selected_flag]
      simp

theorem set_selection_loop_eq (hash : List (Nat × Nat)) (l : List Nat) (s : set_selection_state) :
    (l.foldl (set_selection_step hash) s).container =
        (set_selected_loop
          (fun c icon => decide (g_hash_table_lookup hash (c.heap icon).data ≠ 0)) l
          (s.selection_changed, s.container)).2 ∧
      (l.foldl (set_selection_step hash) s).selection_changed =
        (set_selected_loop
          (fun c icon => decide (g_hash_table_lookup hash (c.heap icon).data ≠ 0)) l
          (s.selection_changed, s.container)).1 := by
  induction l generalizing s with
  | nil => exact ⟨rfl, rfl⟩
  | cons x t ih =>
    rw [List.foldl_cons]
    have := ih (set_selection_step hash s x)
    unfold set_selected_loop at this ⊢
    rw [List.foldl_cons]
    exact this

theorem invert_selection_loop_frame (l : List Nat) (c : NautilusCanvasContainer) :
    SelectionFrame c (l.foldl icon_toggle_selected c) :=
  foldl_selection_frame icon_toggle_selected (fun s => s) selection_frame_icon_toggle_selected l c

theorem invert_selection_loop_consistent (l : List Nat) (c : NautilusCanvasContainer)
    (hl : ∀ a ∈ l, a ∈ c.icons) (h : Consistent c) :
    Consistent (l.foldl icon_toggle_selected c) :=
  foldl_consistent icon_toggle_selected (fun s => s) icon_toggle_selected_icons
    (fun _ _ hm hc => hc.toggle hm) l c hl h

/-! ## Lemmas: the rubber band -/

theorem SnapshotFrame.snapshot_refl (c : NautilusCanvasContainer) : SnapshotFrame c c :=
  ⟨rfl, rfl, rfl, rfl, fun _ => rfl, fun _ => rfl⟩

theorem SnapshotFrame.snapshot_trans {c c1 c2 : NautilusCanvasContainer} (h1 : SnapshotFrame c c1)
    (h2 : SnapshotFrame c1 c2) : SnapshotFrame c c2 :=
  ⟨h2.1.trans h1.1, h2.2.1.trans h1.2.1, h2.2.2.1.trans h1.2.2.1, h2.2.2.2.1.trans h1.2.2.2.1,
    fun a => (h2.2.2.2.2.1 a).trans (h1.2.2.2.2.1 a),
    fun a => (h2.2.2.2.2.2 a).trans (h1.2.2.2.2.2 a)⟩

theorem SnapshotFrame.snapshot_consistent {c c1 : NautilusCanvasContainer} (h : SnapshotFrame c c1)
    (hc : Consistent c) : Consistent c1 := by
  obtain ⟨hi, hs, hl, _, hd, hf⟩ := h
  exact hc.of_same hi hs (by rw [hl]) hd hf

theorem snapshot_frame_step (c : NautilusCanvasContainer) (icon : Nat) :
    SnapshotFrame c (start_rubberbanding_snapshot_step c icon) := by
  refine ⟨rfl, rfl, rfl, rfl, ?_, ?_⟩
  · intro a
    unfold icon_data start_rubberbanding_snapshot_step
    by_cases h : a = icon
    · subst h
      simp
    · simp [Function.update_noteq h]
  · intro a
    unfold icon_is_selected start_rubberbanding_snapshot_step
    by_cases h : a = icon
    · subst h
      simp
    · simp [Function.update_noteq h]

theorem snapshot_frame_loop (l : List Nat) (c : NautilusCanvasContainer) :
    SnapshotFrame c (l.foldl start_rubberbanding_snapshot_step c) := by
  induction l generalizing c with
  | nil => exact SnapshotFrame.snapshot_refl c
  | cons x t ih =>
    rw [List.foldl_cons]
    exact (snapshot_frame_step c x).snapshot_trans (ih _)

theorem snapshot_loop_other (l : List Nat) (c : NautilusCanvasContainer) (other : Nat)
    (ho : other ∉ l) :
    ((l.foldl start_rubberbanding_snapshot_step c).heap other).was_selected_before_rubberband =
      (c.heap other).was_selected_before_rubberband := by
  induction l generalizing c with
  | nil => rfl
  | cons x t ih =>
    rw [List.foldl_cons, ih _ (fun e => ho (List.mem_cons_of_mem x e))]
    have hne : other ≠ x := fun e => ho (e ▸ List.mem_cons_self x t)
    unfold start_rubberbanding_snapshot_step
    simp [Function.update_noteq hne]

theorem snapshot_loop_flag (l : List Nat) (c : NautilusCanvasContainer) (icon : Nat)
    (hm : icon ∈ l) :
    ((l.foldl start_rubberbanding_snapshot_step c).heap icon).was_selected_before_rubberband =
      icon_is_selected c icon := by
  induction l generalizing c with
  | nil => cases hm
  | cons x t ih =>
    rw [List.foldl_cons]
    by_cases ht : icon ∈ t
    · rw [ih _ ht]
      exact (snapshot_frame_step c x).2.2.2.2.2 icon
    · have hx : icon = x := by
        rcases List.mem_cons.mp hm with e | e
        · exact e
        · exact absurd e ht
      subst hx
      rw [snapshot_loop_other t _ icon ht]
      unfold start_rubberbanding_snapshot_step icon_is_selected
      simp

theorem stop_rubberbanding_same_core {c c1 : NautilusCanvasContainer}
    {event : Option GdkEventButton} (h : stop_rubberbanding c event = some c1) :
    SameCore c c1 := by
  simp only [stop_rubberbanding, g_source_remove, g_signal_emit] at h
  split_ifs at h <;> cases h <;> exact ⟨rfl, rfl, rfl, rfl, rfl⟩

theorem stop_rubberbanding_isSome (c : NautilusCanvasContainer) (event : Option GdkEventButton)
    (ht : c.rubberband_info.timer_id ≠ 0) : ∃ c1, stop_rubberbanding c event = some c1 := by
  simp only [stop_rubberbanding]
  split_ifs <;> exact ⟨_, rfl⟩

theorem start_rubberbanding_begin_frame (c : NautilusCanvasContainer) (event : GdkEventButton) :
    (start_rubberbanding_begin c event).icons = c.icons ∧
      (start_rubberbanding_begin c event).icon_set = c.icon_set ∧
      (start_rubberbanding_begin c event).selection = c.selection ∧
      (∀ icon, icon_data (start_rubberbanding_begin c event) icon = icon_data c icon) ∧
      (∀ icon, icon_is_selected (start_rubberbanding_begin c event) icon =
        icon_is_selected c icon) ∧
      (∀ icon ∈ c.icons,
        ((start_rubberbanding_begin c event).heap icon).was_selected_before_rubberband =
          icon_is_selected c icon) ∧
      (start_rubberbanding_begin c event).rubberband_info.timer_id ≠ 0 := by
  have hfr := fun (c0 : NautilusCanvasContainer) (l : List Nat) => snapshot_frame_loop l c0
  have hfl := fun (c0 : NautilusCanvasContainer) (l : List Nat) => snapshot_loop_flag l c0
  simp only [start_rubberbanding_begin, g_signal_emit, g_source_add, start_rubberbanding_snapshot]
  split
  · dsimp only [icon_data, icon_is_selected]
    refine ⟨(hfr _ _).1, (hfr _ _).2.1, (hfr _ _).2.2.1, (hfr _ _).2.2.2.2.1,
      (hfr _ _).2.2.2.2.2, hfl _ _, Nat.succ_ne_zero _⟩
  · next hne =>
    dsimp only [icon_data, icon_is_selected]
    exact ⟨(hfr _ _).1, (hfr _ _).2.1, (hfr _ _).2.2.1, (hfr _ _).2.2.2.2.1,
      (hfr _ _).2.2.2.2.2, hfl _ _, hne⟩

theorem start_rubberbanding_core (c : NautilusCanvasContainer) (event : GdkEventButton)
    (c1 : NautilusCanvasContainer) (h : start_rubberbanding c event = some c1) :
    c1.icons = c.icons ∧ c1.icon_set = c.icon_set ∧ c1.selection = c.selection ∧
      (∀ icon, icon_data c1 icon = icon_data c icon) ∧
      (∀ icon, icon_is_selected c1 icon = icon_is_selected c icon) ∧
      (∀ icon ∈ c.icons, (c1.heap icon).was_selected_before_rubberband =
        icon_is_selected c icon) ∧
      c1.rubberband_info.timer_id ≠ 0 := by
  unfold start_rubberbanding at h
  dsimp only at h
  split at h
  · cases h
  · next c0 hc0 =>
    cases h
    have hsame : SameCore c c0 := by
      split_ifs at hc0
      · exact stop_rubberbanding_same_core hc0
      · cases hc0
        exact SameCore.core_refl c
    obtain ⟨hh, hi, _, hs, hl⟩ := hsame
    obtain ⟨b1, b2, b3, b4, b5, b6, b7⟩ := start_rubberbanding_begin_frame c0 event
    refine ⟨b1.trans hi, b2.trans hs, b3.trans hl, ?_, ?_, ?_, b7⟩
    · intro icon
      rw [b4]
      unfold icon_data
      rw [hh]
    · intro icon
      rw [b5]
      unfold icon_is_selected
      rw [hh]
    · intro icon hm
      rw [b6 icon (hi ▸ hm)]
      unfold icon_is_selected
      rw [hh]

theorem start_rubberbanding_isSome (c : NautilusCanvasContainer) (event : GdkEventButton)
    (ht : c.rubberband_info.active = true → c.rubberband_info.timer_id ≠ 0) :
    ∃ c1, start_rubberbanding c event = some c1 := by
  unfold start_rubberbanding
  dsimp only
  by_cases ha : c.rubberband_info.active = true
  · obtain ⟨c0, hc0⟩ := stop_rubberbanding_isSome c none (ht ha)
    simp only [ha, if_true, hc0]
    exact ⟨_, rfl⟩
  · simp only [ha]
    exact ⟨_, rfl⟩

/-! ## Lemmas: every operation preserves consistency -/

theorem Consistent.select_one_unselect_others {c : NautilusCanvasContainer} (h : Consistent c)
    (icon_to_select : Nat) : Consistent (select_one_unselect_others c icon_to_select).2 := by
  have hl := set_selected_loop_consistent (fun _ icon => decide (icon = icon_to_select)) c.icons
    (false, c) (fun a ha => ha) h
  unfold Nautilus.select_one_unselect_others
  dsimp only
  split
  · exact (same_core_reveal_icon _ _).core_consistent hl
  · exact hl

theorem Consistent.select_all {c : NautilusCanvasContainer} (h : Consistent c) :
    Consistent (nautilus_canvas_container_select_all c) := by
  have hl := set_selected_loop_consistent (fun _ _ => true) c.icons (false, c) (fun a ha => ha) h
  unfold nautilus_canvas_container_select_all
  dsimp only
  split
  · exact (same_core_g_signal_emit _ _).core_consistent hl
  · exact hl

theorem Consistent.invert_selection {c : NautilusCanvasContainer} (h : Consistent c) :
    Consistent (nautilus_canvas_container_invert_selection c) := by
  unfold nautilus_canvas_container_invert_selection
  exact (same_core_g_signal_emit _ _).core_consistent
    (invert_selection_loop_consistent c.icons c (fun a ha => ha) h)

theorem Consistent.rubberband_select {c : NautilusCanvasContainer} (h : Consistent c)
    (k : Collaborators) (current_rect : EelDRect) :
    Consistent (rubberband_select k c current_rect) := by
  unfold Nautilus.rubberband_select
  dsimp only
  split
  · exact (same_core_g_signal_emit _ _).core_consistent
      (set_selected_loop_consistent _ c.icons (false, c) (fun a ha => ha) h)
  · exact set_selected_loop_consistent _ c.icons (false, c) (fun a ha => ha) h

theorem Consistent.set_selection {c : NautilusCanvasContainer} (h : Consistent c)
    (selection : List Nat) : Consistent (nautilus_canvas_container_set_selection c selection) := by
  have hl : Consistent (c.icons.foldl (set_selection_step (set_selection_hash selection))
      { container := c, selection_changed := false, selected_icon := 0 }).container := by
    rw [(set_selection_loop_eq _ _ _).1]
    exact set_selected_loop_consistent _ c.icons (false, c) (fun a ha => ha) h
  unfold nautilus_canvas_container_set_selection
  dsimp only
  split
  · refine (same_core_g_signal_emit _ _).core_consistent ?_
    split
    · exact hl.of_same rfl rfl (List.Perm.refl _) (fun _ => rfl) (fun _ => rfl)
    · exact hl
  · exact hl

theorem g_list_sort_with_data_perm (list : List Nat) (compare_func : Nat → Nat → Int) :
    (g_list_sort_with_data list compare_func).Perm list :=
  List.mergeSort_perm list _

theorem Consistent.get_selection {c : NautilusCanvasContainer} (h : Consistent c)
    (k : Collaborators) : Consistent (nautilus_canvas_container_get_selection k c).2 := by
  unfold nautilus_canvas_container_get_selection
  dsimp only
  split
  · exact h.of_same rfl rfl (g_list_sort_with_data_perm _ _) (fun _ => rfl) (fun _ => rfl)
  · exact h

theorem Consistent.start_rubberbanding {c c1 : NautilusCanvasContainer} (h : Consistent c)
    {event : GdkEventButton} (hs : start_rubberbanding c event = some c1) : Consistent c1 := by
  obtain ⟨h1, h2, h3, h4, h5, _, _⟩ := start_rubberbanding_core c event c1 hs
  exact h.of_same h1 h2 (by rw [h3]) h4 h5

theorem Consistent.stop_rubberbanding {c c1 : NautilusCanvasContainer} (h : Consistent c)
    {event : Option GdkEventButton} (hs : stop_rubberbanding c event = some c1) :
    Consistent c1 :=
  (stop_rubberbanding_same_core hs).core_consistent h

theorem consistent_of_reachable (k : Collaborators) {c : NautilusCanvasContainer}
    (h : Reachable k c) : Consistent c := by
  induction h with
  | empty c he => exact consistent_of_empty he
  | add c icon data _ h0 hfresh ih => exact ih.add icon data h0 hfresh
  | remove c data r _ hrem ih => exact ih.remove hrem
  | clear c _ ih => exact ih.clear
  | toggle_selected c icon _ hm ih => exact ih.toggle hm
  | set_selected c icon select _ hm ih => exact ih.set_selected hm select
  | select_range c icon1 icon2 u _ ih => exact ih.select_range icon1 icon2 u
  | select_one_unselect_others c icon _ ih => exact ih.select_one_unselect_others icon
  | unselect_all c _ ih => exact ih.select_one_unselect_others 0
  | select_all c _ ih => exact ih.select_all
  | invert_selection c _ ih => exact ih.invert_selection
  | set_selection c selection _ ih => exact ih.set_selection selection
  | get_selection c _ ih => exact ih.get_selection k
  | rubberband_select c rect _ ih => exact ih.rubberband_select k rect
  | start_rubberbanding c event c1 _ hs ih => exact ih.start_rubberbanding hs
  | stop_rubberbanding c event c1 _ hs ih => exact ih.stop_rubberbanding hs

theorem consistent_of_registry_reachable {c : NautilusCanvasContainer}
    (h : RegistryReachable c) : Consistent c := by
  induction h with
  | empty c he => exact consistent_of_empty he
  | add c icon data _ h0 hfresh ih => exact ih.add icon data h0 hfresh
  | remove c data r _ hrem ih => exact ih.remove hrem
  | clear c _ ih => exact ih.clear

/-! ## Lemmas: what `select_range` selects -/

theorem select_range_close_fields (s : select_range_state) (x : Nat) :
    (select_range_close s x).unmatched_icon = s.unmatched_icon ∧
      (select_range_close s x).select =
        (if s.unmatched_icon ≠ 0 ∧ x = s.unmatched_icon then false else s.select) ∧
      (select_range_close s x).container = s.container := by
  unfold select_range_close
  split_ifs <;> exact ⟨rfl, rfl, rfl⟩

theorem select_range_apply_fields (u : Bool) (s : select_range_state) (x : Nat) :
    (select_range_apply u s x).unmatched_icon = s.unmatched_icon ∧
      (select_range_apply u s x).select = s.select ∧
      ∀ b, icon_is_selected (select_range_apply u s x).container b =
        if b = x ∧ (s.select || u) = true then s.select else icon_is_selected s.container b := by
  unfold select_range_apply
  split
  · next h =>
    refine ⟨rfl, rfl, ?_⟩
    intro b
    show icon_is_selected (icon_set_selected s.container x s.select).2 b = _
    rw [icon_set_selected_flag]
    simp [h]
  · next h =>
    refine ⟨rfl, rfl, ?_⟩
    intro b
    simp [h]

theorem select_range_step_of_match (icon1 icon2 : Nat) (u : Bool) (s m : select_range_state)
    (x : Nat) (hm : select_range_match icon1 icon2 s x = m) (hc : m.container = s.container) :
    (select_range_step icon1 icon2 u s x).unmatched_icon = m.unmatched_icon ∧
      (select_range_step icon1 icon2 u s x).select =
        (if m.unmatched_icon ≠ 0 ∧ x = m.unmatched_icon then false else m.select) ∧
      ∀ b, icon_is_selected (select_range_step icon1 icon2 u s x).container b =
        if b = x ∧ (m.select || u) = true then m.select else icon_is_selected s.container b := by
  unfold select_range_step
  dsimp only
  rw [hm]
  obtain ⟨a1, a2, a3⟩ := select_range_apply_fields u m x
  obtain ⟨k1, k2, k3⟩ := select_range_close_fields (select_range_apply u m x) x
  rw [k1, k2, k3, a1, a2]
  refine ⟨rfl, rfl, ?_⟩
  intro b
  rw [a3, hc]

theorem select_range_step_after (icon1 icon2 : Nat) (u : Bool) (s : select_range_state) (x : Nat)
    (hu : s.unmatched_icon ≠ 0) (hs : s.select = false) :
    (select_range_step icon1 icon2 u s x).unmatched_icon = s.unmatched_icon ∧
      (select_range_step icon1 icon2 u s x).select = false ∧
      ∀ b, icon_is_selected (select_range_step icon1 icon2 u s x).container b =
        if b = x ∧ u = true then false else icon_is_selected s.container b := by
  have hm : select_range_match icon1 icon2 s x = s := by
    unfold select_range_match
    simp [hu]
  obtain ⟨r1, r2, r3⟩ := select_range_step_of_match icon1 icon2 u s s x hm rfl
  refine ⟨r1, ?_, ?_⟩
  · rw [r2, hs]
    simp
  · intro b
    rw [r3, hs]
    simp

theorem select_range_step_inside (icon1 icon2 : Nat) (u : Bool) (s : select_range_state) (x : Nat)
    (hu : s.unmatched_icon ≠ 0) (hs : s.select = true) :
    (select_range_step icon1 icon2 u s x).unmatched_icon = s.unmatched_icon ∧
      (select_range_step icon1 icon2 u s x).select = decide (x ≠ s.unmatched_icon) ∧
      ∀ b, icon_is_selected (select_range_step icon1 icon2 u s x).container b =
        if b = x then true else icon_is_selected s.container b := by
  have hm : select_range_match icon1 icon2 s x = s := by
    unfold select_range_match
    simp [hu]
  obtain ⟨r1, r2, r3⟩ := select_range_step_of_match icon1 icon2 u s s x hm rfl
  refine ⟨r1, ?_, ?_⟩
  · rw [r2, hs]
    by_cases hx : x = s.unmatched_icon
    · simp [hx, hu]
    · simp [hx]
  · intro b
    rw [r3, hs]
    simp

theorem select_range_step_before (icon1 icon2 : Nat) (u : Bool) (s : select_range_state) (x : Nat)
    (hu : s.unmatched_icon = 0) (hs : s.select = false) (h2 : icon2 ≠ 0) :
    (x = icon1 →
      (select_range_step icon1 icon2 u s x).unmatched_icon = icon2 ∧
      (select_range_step icon1 icon2 u s x).select = decide (x ≠ icon2) ∧
      ∀ b, icon_is_selected (select_range_step icon1 icon2 u s x).container b =
        if b = x then true else icon_is_selected s.container b) ∧
    (x ≠ icon1 → x = icon2 →
      (select_range_step icon1 icon2 u s x).unmatched_icon = icon1 ∧
      (select_range_step icon1 icon2 u s x).select = true ∧
      ∀ b, icon_is_selected (select_range_step icon1 icon2 u s x).container b =
        if b = x then true else icon_is_selected s.container b) ∧
    (x ≠ icon1 → x ≠ icon2 →
      (select_range_step icon1 icon2 u s x).unmatched_icon = 0 ∧
      (select_range_step icon1 icon2 u s x).select = false ∧
      ∀ b, icon_is_selected (select_range_step icon1 icon2 u s x).container b =
        if b = x ∧ u = true then false else icon_is_selected s.container b) := by
  refine ⟨?_, ?_, ?_⟩
  · intro hx
    have hm : select_range_match icon1 icon2 s x =
        { s with unmatched_icon := icon2, select := true } := by
      unfold select_range_match
      simp [hu, hx]
    obtain ⟨r1, r2, r3⟩ := select_range_step_of_match icon1 icon2 u s _ x hm rfl
    refine ⟨r1, ?_, ?_⟩
    · rw [r2]
      by_cases hx2 : x = icon2
      · simp [hx2, h2]
      · simp [hx2]
    · intro b
      rw [r3]
      simp
  · intro hx1 hx2
    have hm : select_range_match icon1 icon2 s x =
        { s with unmatched_icon := icon1, select := true } := by
      unfold select_range_match
      simp [hu, hx1, hx2]
    obtain ⟨r1, r2, r3⟩ := select_range_step_of_match icon1 icon2 u s _ x hm rfl
    refine ⟨r1, ?_, ?_⟩
    · rw [r2]
      simp [hx1]
    · intro b
      rw [r3]
      simp
  · intro hx1 hx2
    have hm : select_range_match icon1 icon2 s x = s := by
      unfold select_range_match
      simp [hu, hx1, hx2]
    obtain ⟨r1, r2, r3⟩ := select_range_step_of_match icon1 icon2 u s s x hm rfl
    refine ⟨r1.trans hu, ?_, ?_⟩
    · rw [r2, hs]
      simp
    · intro b
      rw [r3, hs]
      simp

theorem select_range_loop_after (icon1 icon2 : Nat) (u : Bool) (l : List Nat)
    (s : select_range_state) (hu : s.unmatched_icon ≠ 0) (hs : s.select = false) (icon : Nat) :
    icon_is_selected (l.foldl (select_range_step icon1 icon2 u) s).container icon =
      if icon ∈ l ∧ u = true then false else icon_is_selected s.container icon := by
  induction l generalizing s with
  | nil => simp
  | cons x t ih =>
    obtain ⟨r1, r2, r3⟩ := select_range_step_after icon1 icon2 u s x hu hs
    rw [List.foldl_cons, ih _ (by rw [r1]; exact hu) r2, r3]
    by_cases hx : icon = x
    · subst hx
      by_cases hu2 : u = true <;> simp [hu2]
    · by_cases ht : icon ∈ t <;> simp [hx, ht]

theorem select_range_loop_inside (icon1 icon2 : Nat) (u : Bool) (l : List Nat) (hnd : l.Nodup)
    (s : select_range_state) (hu : s.unmatched_icon ≠ 0) (hs : s.select = true)
    (hm : s.unmatched_icon ∈ l) (icon : Nat) (hi : icon ∈ l) :
    icon_is_selected (l.foldl (select_range_step icon1 icon2 u) s).container icon =
      if l.indexOf icon ≤ l.indexOf s.unmatched_icon then true
      else if u = true then false else icon_is_selected s.container icon := by
  induction l generalizing s with
  | nil => cases hi
  | cons x t ih =>
    obtain ⟨hxt, htnd⟩ := List.nodup_cons.mp hnd
    obtain ⟨r1, r2, r3⟩ := select_range_step_inside icon1 icon2 u s x hu hs
    rw [List.foldl_cons]
    by_cases hix : icon = x
    · subst hix
      rw [foldl_flag_frame (select_range_step icon1 icon2 u) (fun s => s.container)
        (select_range_step_flag_frame icon1 icon2 u) t _ icon hxt, r3]
      simp
    · have hit : icon ∈ t := by
        rcases List.mem_cons.mp hi with e | e
        · exact absurd e hix
        · exact e
      have hxi : x ≠ icon := fun e => hix e.symm
      rw [List.indexOf_cons_ne _ hxi]
      by_cases hxu : x = s.unmatched_icon
      · rw [select_range_loop_after icon1 icon2 u t _ (by rw [r1]; exact hu) (by rw [r2]; simp [hxu]), r3]
        rw [List.indexOf_cons_eq _ hxu]
        simp [hit, hix]
      · have hut : s.unmatched_icon ∈ t := by
          rcases List.mem_cons.mp hm with e | e
          · exact absurd e.symm hxu
          · exact e
        rw [ih htnd _ (by rw [r1]; exact hu) (by rw [r2]; simp [hxu]) (by rw [r1]; exact hut) hit, r1, r3]
        rw [List.indexOf_cons_ne _ hxu]
        simp [hix]

theorem select_range_loop_before (icon1 icon2 : Nat) (u : Bool) (l : List Nat) (hnd : l.Nodup)
    (h0 : 0 ∉ l) (s : select_range_state) (hu : s.unmatched_icon = 0) (hs : s.select = false)
    (h1 : icon1 ∈ l) (h2 : icon2 ∈ l) (icon : Nat) (hi : icon ∈ l) :
    icon_is_selected (l.foldl (select_range_step icon1 icon2 u) s).container icon =
      if min (l.indexOf icon1) (l.indexOf icon2) ≤ l.indexOf icon ∧
          l.indexOf icon ≤ max (l.indexOf icon1) (l.indexOf icon2) then true
      else if u = true then false else icon_is_selected s.container icon := by
  induction l generalizing s with
  | nil => cases hi
  | cons x t ih =>
    obtain ⟨hxt, htnd⟩ := List.nodup_cons.mp hnd
    have h0t : 0 ∉ t := fun e => h0 (List.mem_cons_of_mem x e)
    have hn1 : icon1 ≠ 0 := fun e => h0 (e ▸ h1)
    have hn2 : icon2 ≠ 0 := fun e => h0 (e ▸ h2)
    obtain ⟨b1, b2, b3⟩ := select_range_step_before icon1 icon2 u s x hu hs hn2
    have hframe := fun (s0 : select_range_state) =>
      foldl_flag_frame (select_range_step icon1 icon2 u) (fun s => s.container)
        (select_range_step_flag_frame icon1 icon2 u) t s0 x hxt
    have htail : ∀ a, a ∈ x :: t → a ≠ x → a ∈ t := by
      intro a ha hne
      rcases List.mem_cons.mp ha with e | e
      · exact absurd e hne
      · exact e
    rw [List.foldl_cons]
    by_cases hx1 : x = icon1
    · obtain ⟨r1, r2, r3⟩ := b1 hx1
      rw [List.indexOf_cons_eq _ hx1]
      by_cases hx2 : x = icon2
      · rw [List.indexOf_cons_eq _ hx2]
        rw [select_range_loop_after icon1 icon2 u t _ (by rw [r1]; exact hn2) (by rw [r2]; simp [hx2]), r3]
        by_cases hix : icon = x
        · subst hix
          simp [hxt]
        · have hxi : x ≠ icon := fun e => hix e.symm
          rw [List.indexOf_cons_ne _ hxi]
          simp [hix, htail icon hi hix]
      · have h2t : icon2 ∈ t := htail icon2 h2 (fun e => hx2 e.symm)
        rw [List.indexOf_cons_ne _ hx2]
        by_cases hix : icon = x
        · subst hix
          rw [hframe, r3, List.indexOf_cons_self]
          simp
        · have hxi : x ≠ icon := fun e => hix e.symm
          rw [select_range_loop_inside icon1 icon2 u t htnd _ (by rw [r1]; exact hn2)
            (by rw [r2]; simp [hx2]) (by rw [r1]; exact h2t) icon (htail icon hi hix), r1, r3]
          rw [List.indexOf_cons_ne _ hxi]
          simp [hix]
    · have h1t : icon1 ∈ t := htail icon1 h1 (fun e => hx1 e.symm)
      rw [List.indexOf_cons_ne _ hx1]
      by_cases hx2 : x = icon2
      · obtain ⟨r1, r2, r3⟩ := b2 hx1 hx2
        rw [List.indexOf_cons_eq _ hx2]
        by_cases hix : icon = x
        · subst hix
          rw [hframe, r3, List.indexOf_cons_self]
          simp
        · have hxi : x ≠ icon := fun e => hix e.symm
          rw [select_range_loop_inside icon1 icon2 u t htnd _ (by rw [r1]; exact hn1) r2 (by rw [r1]; exact h1t) icon
            (htail icon hi hix), r1, r3]
          rw [List.indexOf_cons_ne _ hxi]
          simp [hix]
      · obtain ⟨r1, r2, r3⟩ := b3 hx1 hx2
        have h2t : icon2 ∈ t := htail icon2 h2 (fun e => hx2 e.symm)
        rw [List.indexOf_cons_ne _ hx2]
        by_cases hix : icon = x
        · subst hix
          rw [hframe, r3, List.indexOf_cons_self]
          simp
        · have hxi : x ≠ icon := fun e => hix e.symm
          rw [ih htnd h0t _ r1 r2 h1t h2t (htail icon hi hix), r3]
          rw [List.indexOf_cons_ne _ hxi]
          simp [hix, Nat.succ_le_succ_iff]

theorem select_range_match_comm (icon1 icon2 : Nat) (s : select_range_state) (x : Nat) :
    select_range_match icon1 icon2 s x = select_range_match icon2 icon1 s x := by
  unfold select_range_match
  by_cases h1 : x = icon1
  · by_cases h2 : x = icon2
    · have : icon1 = icon2 := h1.symm.trans h2
      subst this
      rfl
    · have h12 : ¬ icon1 = icon2 := fun e => h2 (h1.trans e)
      simp [h1, h12]
  · by_cases h2 : x = icon2
    · have h21 : ¬ icon2 = icon1 := fun e => h1 (h2.trans e)
      simp [h2, h21]
    · simp [h1, h2]

theorem select_range_comm (c : NautilusCanvasContainer) (icon1 icon2 : Nat) (u : Bool) :
    select_range c icon1 icon2 u = select_range c icon2 icon1 u := by
  have hstep : select_range_step icon1 icon2 u = select_range_step icon2 icon1 u := by
    funext s x
    unfold select_range_step
    rw [select_range_match_comm]
  unfold select_range
  rw [hstep]

/-! ## Lemmas: rubber band updates and `set_selection` -/

theorem rubberband_select_frame (k : Collaborators) (c : NautilusCanvasContainer)
    (current_rect : EelDRect) : SelectionFrame c (rubberband_select k c current_rect) := by
  unfold rubberband_select
  dsimp only
  split
  · exact (set_selected_loop_frame _ c.icons (false, c)).frame_trans
      (selection_frame_of_same_core (same_core_g_signal_emit _ _) rfl)
  · exact set_selected_loop_frame _ c.icons (false, c)

theorem rubberband_select_flag (k : Collaborators) (c : NautilusCanvasContainer)
    (current_rect : EelDRect) (icon : Nat) (hm : icon ∈ c.icons) :
    icon_is_selected (rubberband_select k c current_rect) icon =
      xor (k.nautilus_canvas_item_hit_test_rectangle icon (rubberband_canvas_rect k current_rect))
        (c.heap icon).was_selected_before_rubberband := by
  have hflag := set_selected_loop_flag
    (fun c icon =>
      xor (k.nautilus_canvas_item_hit_test_rectangle icon (rubberband_canvas_rect k current_rect))
        (c.heap icon).was_selected_before_rubberband)
    (fun c c1 icon hf => by
      show xor _ (c1.heap icon).was_selected_before_rubberband =
        xor _ (c.heap icon).was_selected_before_rubberband
      rw [hf.2.2.2.2 icon])
    c.icons (false, c) icon hm
  unfold rubberband_select
  dsimp only
  split
  · exact hflag
  · exact hflag

theorem rubberband_select_loop_frame (k : Collaborators) (rects : List EelDRect)
    (c : NautilusCanvasContainer) : SelectionFrame c (rects.foldl (rubberband_select k) c) := by
  induction rects generalizing c with
  | nil => exact SelectionFrame.frame_refl c
  | cons r t ih =>
    rw [List.foldl_cons]
    exact (rubberband_select_frame k c r).frame_trans (ih _)

theorem set_selection_core (c : NautilusCanvasContainer) (selection : List Nat) :
    SelectionFrame c (nautilus_canvas_container_set_selection c selection) ∧
      ∀ icon ∈ c.icons,
        icon_is_selected (nautilus_canvas_container_set_selection c selection) icon =
          decide (icon_data c icon ∈ selection ∧ icon_data c icon ≠ 0) := by
  have hloop := set_selection_loop_eq (set_selection_hash selection) c.icons
    { container := c, selection_changed := false, selected_icon := 0 }
  have hframe := set_selected_loop_frame
    (fun c icon => decide (g_hash_table_lookup (set_selection_hash selection)
      (c.heap icon).data ≠ 0)) c.icons (false, c)
  have hflag := fun icon hm => set_selected_loop_flag
    (fun c icon => decide (g_hash_table_lookup (set_selection_hash selection)
      (c.heap icon).data ≠ 0))
    (fun c c1 icon hf => by
      have := hf.2.2.2.1 icon
      unfold icon_data at this
      show decide (g_hash_table_lookup _ (c1.heap icon).data ≠ 0) =
        decide (g_hash_table_lookup _ (c.heap icon).data ≠ 0)
      rw [this])
    c.icons (false, c) icon hm
  rw [← hloop.1] at hframe
  have hflag2 : ∀ icon ∈ c.icons,
      icon_is_selected (c.icons.foldl (set_selection_step (set_selection_hash selection))
        { container := c, selection_changed := false, selected_icon := 0 }).container icon =
        decide (icon_data c icon ∈ selection ∧ icon_data c icon ≠ 0) := by
    intro icon hm
    rw [hloop.1, hflag icon hm]
    show decide (g_hash_table_lookup _ (icon_data c icon) ≠ 0) = _
    rw [lookup_set_selection_hash]
    by_cases hin : icon_data c icon ∈ selection
    · simp [hin]
    · simp [hin]
  unfold nautilus_canvas_container_set_selection
  dsimp only
  split
  · split
    · exact ⟨hframe.frame_trans (selection_frame_of_same_core ⟨rfl, rfl, rfl, rfl, rfl⟩ rfl),
        hflag2⟩
    · exact ⟨hframe.frame_trans (selection_frame_of_same_core (same_core_g_signal_emit _ _) rfl),
        hflag2⟩
  · exact ⟨hframe, hflag2⟩

theorem get_selection_mem (k : Collaborators) (c : NautilusCanvasContainer) (data : Nat) :
    data ∈ (nautilus_canvas_container_get_selection k c).1 ↔ data ∈ c.selection := by
  unfold nautilus_canvas_container_get_selection
  dsimp only
  split
  · exact (g_list_sort_with_data_perm c.selection k.compare_icons).mem_iff
  · exact Iff.rfl

/-! ## Lemmas: the grid -/

theorem MAX_eq_max (a b : Rat) : MAX a b = max a b := by
  unfold MAX
  rcases le_or_lt a b with h | h
  · rw [max_eq_right h, if_neg (not_lt.mpr h)]
  · rw [max_eq_left h.le, if_pos h]

theorem grid_nth_isSome_iff (icons : List Nat) (n : Int) (hn : 1 ≤ n) :
    (g_list_nth icons (Int.toNat (Int.floor ((n : Int) : Rat)))).isSome = true ↔
      ((n : Int) : Rat) < ((icons.length : Nat) : Rat) := by
  unfold g_list_nth
  rw [Int.floor_intCast]
  have h1 : ((icons.length : Nat) : Rat) = (((icons.length : Nat) : Int) : Rat) := by
    push_cast
    rfl
  rw [h1, Int.cast_lt]
  rw [List.get?_eq_getElem?, Option.isSome_iff_exists]
  constructor
  · rintro ⟨a, ha⟩
    have := (List.getElem?_eq_some_iff.mp ha).1
    omega
  · intro h
    have hlt : n.toNat < icons.length := by omega
    exact ⟨_, List.getElem?_eq_getElem hlt⟩

/-! ## Lemmas: the sample states -/

theorem sample_three_registry_reachable : RegistryReachable sample_three :=
  RegistryReachable.add _ 3 30
    (RegistryReachable.add _ 2 20
      (RegistryReachable.add _ 1 10 (RegistryReachable.empty _ ⟨rfl, rfl, rfl, rfl⟩)
        (by decide) (by decide))
      (by decide) (by decide))
    (by decide) (by decide)

theorem sample_three_reachable (k : Collaborators) : Reachable k sample_three :=
  Reachable.add _ 3 30
    (Reachable.add _ 2 20
      (Reachable.add _ 1 10 (Reachable.empty _ ⟨rfl, rfl, rfl, rfl⟩) (by decide) (by decide))
      (by decide) (by decide))
    (by decide) (by decide)

theorem sample_three_consistent : Consistent sample_three :=
  consistent_of_registry_reachable sample_three_registry_reachable

theorem is_registered_iff {c : NautilusCanvasContainer} (h : RegistryConsistent c) (data : Nat) :
    is_registered c data ↔ ∃ icon ∈ c.icons, icon_data c icon = data := by
  constructor
  · intro hr
    exact ⟨_, (h.registered hr).1, (h.registered hr).2⟩
  · rintro ⟨icon, hm, rfl⟩
    unfold is_registered
    rw [h.index_of_icon icon hm]
    exact fun e => h.icons_not_null (e ▸ hm)

/-! ## The claims -/

/-- C1: in every state reachable from an empty container through `nautilus_canvas_container_add`,
`nautilus_canvas_container_remove` and `nautilus_canvas_container_clear`, the index `icon_set` and
the icon list agree: an id is a key of the index if and only if exactly one icon of the list
carries it, the index maps the id of every icon of the list to that icon, and no two nodes of the
list carry the same id. -/
theorem C1_index_agrees_with_icon_list (c : NautilusCanvasContainer) (h : RegistryReachable c) :
    (∀ data, data ∈ g_hash_table_keys c.icon_set ↔
      ∃! icon, icon ∈ c.icons ∧ icon_data c icon = data) ∧
    (∀ icon ∈ c.icons, g_hash_table_lookup c.icon_set (icon_data c icon) = icon) ∧
    (c.icons.map (icon_data c)).Nodup := by
  have hreg := (consistent_of_registry_reachable h).registry
  refine ⟨?_, hreg.index_of_icon, ?_⟩
  · intro data
    constructor
    · intro hk
      obtain ⟨hm, hd⟩ := hreg.icon_of_key data hk
      refine ⟨_, ⟨hm, hd⟩, ?_⟩
      rintro other ⟨hmo, hdo⟩
      exact hreg.data_injective hmo hm (hdo.trans hd.symm)
    · rintro ⟨icon, ⟨hm, hd⟩, _⟩
      exact mem_keys_of_lookup_ne_zero _ _ ((is_registered_iff hreg data).mpr ⟨icon, hm, hd⟩)
  · exact List.Nodup.map_on (fun a ha b hb e => hreg.data_injective ha hb e) hreg.icons_nodup

/-- Witness of C1 on the sample container with the ids 10, 20 and 30. -/
theorem C1_index_agrees_with_icon_list_witness :
    RegistryReachable sample_three ∧
      g_hash_table_lookup sample_three.icon_set (icon_data sample_three 2) = 2 ∧
      (sample_three.icons.map (icon_data sample_three)).Nodup :=
  ⟨sample_three_registry_reachable,
    (C1_index_agrees_with_icon_list sample_three sample_three_registry_reachable).2.1 2
      (by decide),
    (C1_index_agrees_with_icon_list sample_three sample_three_registry_reachable).2.2⟩

/-- C2: in every state reachable through add, remove, clear and the selection operations, the
selection list holds exactly the ids of the icons of the icon list whose `is_selected` flag is
set, each id once; so every selected id belongs to a registered item. -/
theorem C2_selection_list_matches_flags (k : Collaborators) (c : NautilusCanvasContainer)
    (h : Reachable k c) :
    c.selection.Nodup ∧
    (∀ data, data ∈ c.selection ↔
      ∃ icon ∈ c.icons, icon_data c icon = data ∧ icon_is_selected c icon = true) ∧
    c.selection.Perm ((c.icons.filter (icon_is_selected c)).map (icon_data c)) ∧
    (∀ data ∈ c.selection, is_registered c data) := by
  have hc := consistent_of_reachable k h
  have hreg := hc.registry
  have hsel := hc.selection
  refine ⟨hsel.selection_nodup, hsel.selection_mem, ?_, ?_⟩
  · refine (List.perm_ext_iff_of_nodup hsel.selection_nodup ?_).mpr ?_
    · refine List.Nodup.map_on ?_ (hreg.icons_nodup.filter _)
      intro a ha b hb e
      exact hreg.data_injective (List.mem_of_mem_filter ha) (List.mem_of_mem_filter hb) e
    · intro data
      rw [hsel.selection_mem, List.mem_map]
      constructor
      · rintro ⟨icon, hm, hd, hf⟩
        exact ⟨icon, List.mem_filter.mpr ⟨hm, hf⟩, hd⟩
      · rintro ⟨icon, hm, hd⟩
        exact ⟨icon, (List.mem_filter.mp hm).1, hd, (List.mem_filter.mp hm).2⟩
  · intro data hm
    obtain ⟨icon, hi, hd, _⟩ := (hsel.selection_mem data).mp hm
    exact (is_registered_iff hreg data).mpr ⟨icon, hi, hd⟩

/-- Witness of C2: the sample container after a range selection over all three icons. -/
theorem C2_selection_list_matches_flags_witness :
    Reachable sample_collaborators (select_range sample_three 3 1 true).2 ∧
      (select_range sample_three 3 1 true).2.selection.Nodup :=
  ⟨Reachable.select_range _ 3 1 true (sample_three_reachable sample_collaborators),
    (C2_selection_list_matches_flags sample_collaborators _
      (Reachable.select_range _ 3 1 true (sample_three_reachable sample_collaborators))).1⟩

/-- C3: for every container state and every non-null id, `nautilus_canvas_container_add` returns
FALSE if and only if the id is already registered, and then the whole container state is
unchanged; otherwise it returns TRUE and registers one new unselected, unpositioned item
(x = y = -1) for the id, at the head of the icon list and of the new-icon list.  In a consistent
container the registered ids are the ids of the icons of the list. -/
theorem C3_add_reports_duplicates (c : NautilusCanvasContainer) (icon data : Nat)
    (hd : data ≠ 0) :
    ((nautilus_canvas_container_add c icon data).1 = false ↔ is_registered c data) ∧
    (is_registered c data → (nautilus_canvas_container_add c icon data).2 = c) ∧
    (¬ is_registered c data →
      (nautilus_canvas_container_add c icon data).1 = true ∧
      (nautilus_canvas_container_add c icon data).2.icons = icon :: c.icons ∧
      (nautilus_canvas_container_add c icon data).2.new_icons = icon :: c.new_icons ∧
      g_hash_table_lookup (nautilus_canvas_container_add c icon data).2.icon_set data = icon ∧
      (nautilus_canvas_container_add c icon data).2.selection = c.selection ∧
      icon_data (nautilus_canvas_container_add c icon data).2 icon = data ∧
      icon_is_selected (nautilus_canvas_container_add c icon data).2 icon = false ∧
      ((nautilus_canvas_container_add c icon data).2.heap icon).x = -1 ∧
      ((nautilus_canvas_container_add c icon data).2.heap icon).y = -1 ∧
      icon_is_positioned ((nautilus_canvas_container_add c icon data).2.heap icon) = false) ∧
    (Consistent c → (is_registered c data ↔ ∃ other ∈ c.icons, icon_data c other = data)) := by
  have hdup : is_registered c data → nautilus_canvas_container_add c icon data = (false, c) :=
    fun hr => nautilus_canvas_container_add_unchanged c icon data (Or.inr hr)
  have hnew : ¬ is_registered c data → g_hash_table_lookup c.icon_set data = 0 := by
    intro hr
    by_contra e
    exact hr e
  refine ⟨?_, ?_, ?_, ?_⟩
  · constructor
    · intro hf
      by_contra hr
      rw [(nautilus_canvas_container_add_core c icon data hd (hnew hr)).1] at hf
      cases hf
    · intro hr
      rw [hdup hr]
  · intro hr
    rw [hdup hr]
  · intro hr
    obtain ⟨h1, hheap, h3, h4, hset, h6⟩ :=
      nautilus_canvas_container_add_core c icon data hd (hnew hr)
    refine ⟨h1, h3, h4, ?_, h6, ?_, ?_, ?_, ?_, ?_⟩
    · rw [hset, g_hash_table_lookup_insert]
      simp
    · unfold icon_data
      rw [hheap]
      simp
    · unfold icon_is_selected
      rw [hheap]
      simp [g_new0_icon]
    · rw [hheap]
      simp [ICON_UNPOSITIONED_VALUE]
    · rw [hheap]
      simp [ICON_UNPOSITIONED_VALUE]
    · rw [hheap]
      simp [icon_is_positioned, ICON_UNPOSITIONED_VALUE]
  · intro hc
    exact is_registered_iff hc.registry data

/-- Witness of C3: adding the registered id 20 to the sample container fails and changes
nothing. -/
theorem C3_add_reports_duplicates_witness :
    (20 : Nat) ≠ 0 ∧ (nautilus_canvas_container_add sample_three 4 20).1 = false :=
  ⟨by decide, (C3_add_reports_duplicates sample_three 4 20 (by decide)).1.mpr (by decide)⟩

/-- C4: for every consistent container state and every registered id, the first
`nautilus_canvas_container_remove` returns TRUE and the number of registered items (the length of
the icon list and the size of the index) drops by one; the second returns FALSE and leaves the
container state unchanged. -/
theorem C4_remove_twice (c : NautilusCanvasContainer) (data : Nat) (hc : Consistent c)
    (hr : is_registered c data) :
    ∃ c1, nautilus_canvas_container_remove c data = some (true, c1) ∧
      c1.icons.length + 1 = c.icons.length ∧
      c1.icon_set.length + 1 = c.icon_set.length ∧
      ¬ is_registered c1 data ∧
      nautilus_canvas_container_remove c1 data = some (false, c1) := by
  obtain ⟨c1, h1, _, hicons, _, hset, _⟩ :=
    nautilus_canvas_container_remove_core c data hc.registry hr
  have hm := (hc.registry.registered hr).1
  have hnr : ¬ is_registered c1 data := by
    unfold is_registered
    rw [hset, g_hash_table_lookup_remove]
    simp
  refine ⟨c1, h1, ?_, ?_, hnr, nautilus_canvas_container_remove_unregistered c1 data hnr⟩
  · rw [hicons, List.length_erase_of_mem hm]
    have : 0 < c.icons.length := List.length_pos_of_mem hm
    omega
  · rw [hset]
    exact length_remove_of_mem_keys _ _ hc.registry.keys_nodup
      (mem_keys_of_lookup_ne_zero _ _ hr)

/-- Witness of C4: removing the id 20 twice from the sample container. -/
theorem C4_remove_twice_witness :
    Consistent sample_three ∧ is_registered sample_three 20 ∧
      ∃ c1, nautilus_canvas_container_remove sample_three 20 = some (true, c1) ∧
        c1.icons.length + 1 = sample_three.icons.length ∧
        c1.icon_set.length + 1 = sample_three.icon_set.length ∧
        ¬ is_registered c1 20 ∧
        nautilus_canvas_container_remove c1 20 = some (false, c1) :=
  ⟨sample_three_consistent, by decide,
    C4_remove_twice sample_three 20 sample_three_consistent (by decide)⟩

/-- C5: for every consistent container state and every list of registered ids, after
`nautilus_canvas_container_set_selection` the list that
`nautilus_canvas_container_get_selection` returns contains, as a set, exactly the ids of the
list. -/
theorem C5_set_selection_round_trip (k : Collaborators) (c : NautilusCanvasContainer)
    (selection : List Nat) (hc : Consistent c)
    (hs : ∀ data ∈ selection, is_registered c data) (data : Nat) :
    data ∈ (nautilus_canvas_container_get_selection k
      (nautilus_canvas_container_set_selection c selection)).1 ↔ data ∈ selection := by
  obtain ⟨hframe, hflag⟩ := set_selection_core c selection
  have hc1 := hc.set_selection selection
  rw [get_selection_mem, hc1.selection.selection_mem, hframe.1]
  constructor
  · rintro ⟨icon, hm, hd, hf⟩
    rw [hflag icon hm, decide_eq_true_eq, ← hframe.2.2.2.1 icon, hd] at hf
    exact hf.1
  · intro hin
    obtain ⟨icon, hm, hd⟩ := (is_registered_iff hc.registry data).mp (hs data hin)
    refine ⟨icon, hm, (hframe.2.2.2.1 icon).trans hd, ?_⟩
    rw [hflag icon hm, decide_eq_true_eq, hd]
    exact ⟨hin, hd ▸ hc.registry.data_not_null icon hm⟩

/-- Witness of C5: selecting the ids 30 and 10 of the sample container. -/
theorem C5_set_selection_round_trip_witness :
    Consistent sample_three ∧ (∀ data ∈ [30, 10], is_registered sample_three data) ∧
      (10 ∈ (nautilus_canvas_container_get_selection sample_collaborators
        (nautilus_canvas_container_set_selection sample_three [30, 10])).1 ↔ 10 ∈ [30, 10]) :=
  ⟨sample_three_consistent, by decide,
    C5_set_selection_round_trip sample_collaborators sample_three [30, 10]
      sample_three_consistent (by decide) 10⟩

/-- C6: for every icon list of distinct non-null icons and every two icons `icon1` and `icon2` of
the list, after `select_range` every icon whose list index lies between the indices of the two,
inclusive, is selected; every other icon of the list is unselected when
`unselect_outside_range` is true and keeps its flag when it is false; icons outside the list keep
their flag; and the return value is TRUE exactly when the flag of at least one icon changed. -/
theorem C6_select_range_selects_between (c : NautilusCanvasContainer) (icon1 icon2 : Nat)
    (unselect_outside_range : Bool) (hnd : c.icons.Nodup) (h0 : 0 ∉ c.icons)
    (h1 : icon1 ∈ c.icons) (h2 : icon2 ∈ c.icons) :
    (∀ icon ∈ c.icons,
      min (c.icons.indexOf icon1) (c.icons.indexOf icon2) ≤ c.icons.indexOf icon ∧
        c.icons.indexOf icon ≤ max (c.icons.indexOf icon1) (c.icons.indexOf icon2) →
      icon_is_selected (select_range c icon1 icon2 unselect_outside_range).2 icon = true) ∧
    (∀ icon ∈ c.icons,
      ¬ (min (c.icons.indexOf icon1) (c.icons.indexOf icon2) ≤ c.icons.indexOf icon ∧
        c.icons.indexOf icon ≤ max (c.icons.indexOf icon1) (c.icons.indexOf icon2)) →
      icon_is_selected (select_range c icon1 icon2 unselect_outside_range).2 icon =
        if unselect_outside_range = true then false else icon_is_selected c icon) ∧
    (∀ icon, icon ∉ c.icons →
      icon_is_selected (select_range c icon1 icon2 unselect_outside_range).2 icon =
        icon_is_selected c icon) ∧
    ((select_range c icon1 icon2 unselect_outside_range).1 = true ↔
      ∃ icon ∈ c.icons,
        icon_is_selected (select_range c icon1 icon2 unselect_outside_range).2 icon ≠
          icon_is_selected c icon) := by
  have hflag := select_range_loop_before icon1 icon2 unselect_outside_range c.icons hnd h0
    { container := c, unmatched_icon := 0, select := false, selection_changed := false }
    rfl rfl h1 h2
  have hchanged := foldl_changed (select_range_step icon1 icon2 unselect_outside_range)
    (fun s => s.container) (fun s => s.selection_changed)
    (select_range_step_flag_frame icon1 icon2 unselect_outside_range)
    (select_range_step_changed icon1 icon2 unselect_outside_range) c.icons hnd
    { container := c, unmatched_icon := 0, select := false, selection_changed := false }
  have hother := foldl_flag_frame (select_range_step icon1 icon2 unselect_outside_range)
    (fun s => s.container) (select_range_step_flag_frame icon1 icon2 unselect_outside_range)
    c.icons { container := c, unmatched_icon := 0, select := false, selection_changed := false }
  unfold select_range
  dsimp only at hflag hchanged hother ⊢
  refine ⟨?_, ?_, ?_, ?_⟩
  · intro icon hm hin
    rw [hflag icon hm, if_pos hin]
  · intro icon hm hout
    rw [hflag icon hm, if_neg hout]
  · intro icon hm
    exact hother icon hm
  · rw [hchanged]
    simp

/-- Witness of C6: a range selection from the first to the last icon of the sample container
selects the icon between them. -/
theorem C6_select_range_selects_between_witness :
    sample_three.icons.Nodup ∧ 0 ∉ sample_three.icons ∧ 3 ∈ sample_three.icons ∧
      1 ∈ sample_three.icons ∧
      icon_is_selected (select_range sample_three 3 1 true).2 2 = true :=
  ⟨by decide, by decide, by decide, by decide,
    (C6_select_range_selects_between sample_three 3 1 true (by decide) (by decide) (by decide)
      (by decide)).1 2 (by decide) (by decide)⟩

/-- C7: for every container state, every two icons and every value of
`unselect_outside_range`, `select_range (a, b)` and `select_range (b, a)` started from the same
state return the same value and the same container, so the same selection flag on every icon.
On the sample list `[4, 3, 2, 1]` with icon 4 selected, `select_range (3, 1, TRUE)`,
`select_range (1, 3, TRUE)` and the second after the first all leave exactly the icons 3, 2 and 1
selected. -/
theorem C7_select_range_symmetric (c : NautilusCanvasContainer) (a b : Nat)
    (unselect_outside_range : Bool) :
    select_range c a b unselect_outside_range = select_range c b a unselect_outside_range ∧
    (∀ icon, icon_is_selected (select_range c a b unselect_outside_range).2 icon =
      icon_is_selected (select_range c b a unselect_outside_range).2 icon) ∧
    sample_four.icons = [4, 3, 2, 1] ∧
    sample_four.icons.map (icon_is_selected sample_four) = [true, false, false, false] ∧
    sample_four.icons.map (icon_is_selected (select_range sample_four 3 1 true).2) =
      [false, true, true, true] ∧
    sample_four.icons.map (icon_is_selected (select_range sample_four 1 3 true).2) =
      [false, true, true, true] ∧
    sample_four.icons.map
      (icon_is_selected (select_range (select_range sample_four 3 1 true).2 1 3 true).2) =
      [false, true, true, true] := by
  refine ⟨select_range_comm c a b unselect_outside_range, ?_, ?_, ?_, ?_, ?_, ?_⟩
  · intro icon
    rw [select_range_comm]
  · decide
  · decide
  · decide
  · decide
  · decide

/-- C8: for every container state and every rectangle, after `rubberband_select` each icon of the
list is selected if and only if exactly one of these holds: its hit test against the rectangle
succeeds, or its `was_selected_before_rubberband` flag is set; the snapshot flags themselves are
unchanged. -/
theorem C8_rubberband_select_xor (k : Collaborators) (c : NautilusCanvasContainer)
    (current_rect : EelDRect) :
    (∀ icon ∈ c.icons,
      icon_is_selected (rubberband_select k c current_rect) icon =
        xor (k.nautilus_canvas_item_hit_test_rectangle icon
          (rubberband_canvas_rect k current_rect))
          (c.heap icon).was_selected_before_rubberband) ∧
    (∀ icon ∈ c.icons,
      icon_is_selected (rubberband_select k c current_rect) icon = true ↔
        (k.nautilus_canvas_item_hit_test_rectangle icon
            (rubberband_canvas_rect k current_rect) = true ∧
          (c.heap icon).was_selected_before_rubberband = false) ∨
        (k.nautilus_canvas_item_hit_test_rectangle icon
            (rubberband_canvas_rect k current_rect) = false ∧
          (c.heap icon).was_selected_before_rubberband = true)) ∧
    (∀ icon, ((rubberband_select k c current_rect).heap icon).was_selected_before_rubberband =
      (c.heap icon).was_selected_before_rubberband) := by
  refine ⟨rubberband_select_flag k c current_rect, ?_,
    (rubberband_select_frame k c current_rect).2.2.2.2⟩
  intro icon hm
  rw [rubberband_select_flag k c current_rect icon hm]
  cases k.nautilus_canvas_item_hit_test_rectangle icon (rubberband_canvas_rect k current_rect) <;>
    cases (c.heap icon).was_selected_before_rubberband <;> simp

/-- Witness of C8: a rectangle over the icons 2 and 3 of the sample container, none of which was
selected before, selects icon 2. -/
theorem C8_rubberband_select_xor_witness :
    2 ∈ sample_three.icons ∧
      icon_is_selected
        (rubberband_select sample_collaborators sample_three
          { x0 := 2, y0 := 0, x1 := 3, y1 := 0 }) 2 =
      xor (sample_collaborators.nautilus_canvas_item_hit_test_rectangle 2
          (rubberband_canvas_rect sample_collaborators { x0 := 2, y0 := 0, x1 := 3, y1 := 0 }))
        (sample_three.heap 2).was_selected_before_rubberband :=
  ⟨by decide,
    (C8_rubberband_select_xor sample_collaborators sample_three
      { x0 := 2, y0 := 0, x1 := 3, y1 := 0 }).1 2 (by decide)⟩

/-- C9: a rubber band gesture is `start_rubberbanding`, a sequence of `rubberband_select`
updates and `stop_rubberbanding`.  From every container state in which an active rubber band
has its timer, the gesture runs to its end, and every icon of the list that the last rectangle
does not hit ends with the selection flag it had when the gesture started, whatever the earlier
rectangles covered; so an icon that was selected then is selected after the stop. -/
theorem C9_rubberband_gesture_restores (k : Collaborators) (c : NautilusCanvasContainer)
    (event : GdkEventButton) (rects : List EelDRect) (last : EelDRect)
    (stop_event : Option GdkEventButton) (icon : Nat)
    (ht : c.rubberband_info.active = true → c.rubberband_info.timer_id ≠ 0)
    (hm : icon ∈ c.icons)
    (hmiss : k.nautilus_canvas_item_hit_test_rectangle icon (rubberband_canvas_rect k last) =
      false) :
    ∃ c1 c2, start_rubberbanding c event = some c1 ∧
      stop_rubberbanding ((rects ++ [last]).foldl (rubberband_select k) c1) stop_event =
        some c2 ∧
      icon_is_selected c2 icon = icon_is_selected c icon ∧
      (icon_is_selected c icon = true → icon_is_selected c2 icon = true) := by
  obtain ⟨c1, hc1⟩ := start_rubberbanding_isSome c event ht
  obtain ⟨hicons, _, _, _, _, hwas, htimer⟩ := start_rubberbanding_core c event c1 hc1
  have hloop := rubberband_select_loop_frame k rects c1
  have hlast := rubberband_select_frame k (rects.foldl (rubberband_select k) c1) last
  have hfold : (rects ++ [last]).foldl (rubberband_select k) c1 =
      rubberband_select k (rects.foldl (rubberband_select k) c1) last := by
    rw [List.foldl_append, List.foldl_cons, List.foldl_nil]
  have hmem : icon ∈ (rects.foldl (rubberband_select k) c1).icons := by
    rw [hloop.1, hicons]
    exact hm
  have hflag : icon_is_selected (rubberband_select k (rects.foldl (rubberband_select k) c1) last)
      icon = icon_is_selected c icon := by
    rw [rubberband_select_flag k _ last icon hmem, hmiss, hloop.2.2.2.2 icon, hwas icon hm]
    simp
  have htimer2 : (rubberband_select k (rects.foldl (rubberband_select k) c1)
      last).rubberband_info.timer_id ≠ 0 := by
    rw [hlast.2.2.1, hloop.2.2.1]
    exact htimer
  obtain ⟨c2, hc2⟩ := stop_rubberbanding_isSome _ stop_event htimer2
  have hsame := stop_rubberbanding_same_core hc2
  have hfinal : icon_is_selected c2 icon = icon_is_selected c icon := by
    rw [← hflag]
    unfold icon_is_selected
    rw [hsame.1]
  refine ⟨c1, c2, hc1, ?_, hfinal, ?_⟩
  · rw [hfold]
    exact hc2
  · intro hsel
    rw [hfinal]
    exact hsel

/-- Witness of C9: on the sample container with icon 4 selected, a gesture whose rectangle first
covers icon 4 and then misses it leaves icon 4 selected. -/
theorem C9_rubberband_gesture_restores_witness :
    (sample_four.rubberband_info.active = true → sample_four.rubberband_info.timer_id ≠ 0) ∧
      4 ∈ sample_four.icons ∧
      sample_collaborators.nautilus_canvas_item_hit_test_rectangle 4
        (rubberband_canvas_rect sample_collaborators sample_rect_narrow) = false ∧
      icon_is_selected sample_four 4 = true ∧
      ∃ c1 c2, start_rubberbanding sample_four { device := 7 } = some c1 ∧
        stop_rubberbanding
          (([sample_rect_wide] ++ [sample_rect_narrow]).foldl
            (rubberband_select sample_collaborators) c1) none = some c2 ∧
        icon_is_selected c2 4 = icon_is_selected sample_four 4 ∧
        (icon_is_selected sample_four 4 = true → icon_is_selected c2 4 = true) :=
  ⟨by decide, by decide, by decide, by decide,
    C9_rubberband_gesture_restores sample_collaborators sample_four { device := 7 }
      [sample_rect_wide] sample_rect_narrow none 4 (by decide) (by decide) (by decide)⟩

/-- C10: for every canvas width, zero and negative widths included, and every positive minimum
grid width, `lay_down_icons_horizontal` computes
`available_width = max (1, canvas_width - 4 - 4 - 1)` and
`num_columns = max (1, floor (available_width / min_grid_width))`, so both are at least 1; and
when the item count exceeds `num_columns` it uses
`grid_width = max (min_grid_width, available_width / num_columns)`.  With canvas width 130,
minimum grid width 50 and 5 items this gives 121, 2 and 60.5. -/
theorem C10_grid_widths (k : Collaborators) (canvas_width min_grid_width : Rat)
    (icons : List Nat) (hpos : 0 < min_grid_width) :
    (lay_down_icons_horizontal_grid k canvas_width min_grid_width icons).available_width =
      max 1 (canvas_width - 4 - 4 - 1) ∧
    (lay_down_icons_horizontal_grid k canvas_width min_grid_width icons).num_columns =
      max 1 ((Int.floor
        ((lay_down_icons_horizontal_grid k canvas_width min_grid_width icons).available_width /
          min_grid_width) : Int) : Rat) ∧
    1 ≤ (lay_down_icons_horizontal_grid k canvas_width min_grid_width icons).available_width ∧
    1 ≤ (lay_down_icons_horizontal_grid k canvas_width min_grid_width icons).num_columns ∧
    ((lay_down_icons_horizontal_grid k canvas_width min_grid_width icons).num_columns <
        ((icons.length : Nat) : Rat) →
      (lay_down_icons_horizontal_grid k canvas_width min_grid_width icons).grid_width =
        max min_grid_width
          ((lay_down_icons_horizontal_grid k canvas_width min_grid_width icons).available_width /
            (lay_down_icons_horizontal_grid k canvas_width min_grid_width
              icons).num_columns)) ∧
    lay_down_icons_horizontal_grid k 130 50 [1, 2, 3, 4, 5] =
      { available_width := 121, num_columns := 2, grid_width := 121 / 2 } := by
  have _ := hpos
  have hcols : MAX 1 ((Int.floor (MAX 1 (canvas_width - ICON_PAD_LEFT - ICON_PAD_RIGHT - 1) /
      min_grid_width) : Int) : Rat) =
      ((max 1 (Int.floor (MAX 1 (canvas_width - ICON_PAD_LEFT - ICON_PAD_RIGHT - 1) /
        min_grid_width)) : Int) : Rat) := by
    rw [MAX_eq_max]
    push_cast
    rfl
  refine ⟨?_, ?_, ?_, ?_, ?_, ?_⟩
  · simp only [lay_down_icons_horizontal_grid, MAX_eq_max, ICON_PAD_LEFT, ICON_PAD_RIGHT]
  · simp only [lay_down_icons_horizontal_grid, MAX_eq_max]
  · simp only [lay_down_icons_horizontal_grid, MAX_eq_max]
    exact le_max_left _ _
  · simp only [lay_down_icons_horizontal_grid, MAX_eq_max]
    exact le_max_left _ _
  · intro hlt
    simp only [lay_down_icons_horizontal_grid] at hlt ⊢
    rw [hcols] at hlt ⊢
    rw [if_pos ((grid_nth_isSome_iff icons _ (le_max_left _ _)).mpr hlt), MAX_eq_max]
  · norm_num [lay_down_icons_horizontal_grid, MAX, ICON_PAD_LEFT, ICON_PAD_RIGHT, g_list_nth,
      g_list_length]

/-- Witness of C10: canvas width 130, minimum grid width 50 and five items. -/
theorem C10_grid_widths_witness :
    (0 : Rat) < 50 ∧
      (lay_down_icons_horizontal_grid sample_collaborators 130 50
        [1, 2, 3, 4, 5]).available_width = max 1 (130 - 4 - 4 - 1) :=
  ⟨by norm_num, (C10_grid_widths sample_collaborators 130 50 [1, 2, 3, 4, 5] (by norm_num)).1⟩

/-! ## Lemmas: the transient references after a removal -/

theorem icon_destroy_focus_fields {c c1 : NautilusCanvasContainer} {icon icon_to_focus : Nat}
    (h : icon_destroy_focus c icon icon_to_focus = some c1) :
    c1.focus = (if c.focus = icon ∨ c.focus = 0 then icon_to_focus else c.focus) ∧
      c1.keyboard_rubberband_start = c.keyboard_rubberband_start ∧
      c1.keyboard_icon_to_reveal = c.keyboard_icon_to_reveal ∧
      c1.drag_icon = c.drag_icon ∧ c1.drop_target = c.drop_target ∧
      c1.range_selection_base_icon = c.range_selection_base_icon ∧
      c1.pending_icon_to_reveal = c.pending_icon_to_reveal := by
  unfold icon_destroy_focus set_focus clear_focus at h
  split_ifs at h with h1 h2 h3 <;> simp only [Option.some.injEq] at h <;> subst h <;>
    simp_all

theorem icon_destroy_references_fields (c : NautilusCanvasContainer) (icon : Nat) :
    (icon_destroy_references c icon).focus = c.focus ∧
      (icon_destroy_references c icon).keyboard_rubberband_start =
        (if c.keyboard_rubberband_start = icon then 0 else c.keyboard_rubberband_start) ∧
      (icon_destroy_references c icon).drag_icon =
        (if c.drag_icon = icon then 0 else c.drag_icon) ∧
      (icon_destroy_references c icon).drop_target =
        (if c.drop_target = icon then 0 else c.drop_target) ∧
      (icon_destroy_references c icon).range_selection_base_icon =
        (if c.range_selection_base_icon = icon then 0 else c.range_selection_base_icon) ∧
      (icon_destroy_references c icon).pending_icon_to_reveal =
        (if c.pending_icon_to_reveal = icon then 0 else c.pending_icon_to_reveal) := by
  unfold icon_destroy_references
  lift_lets
  extract_lets c1 c2 c3 c4 c5
  have h1 : c1.focus = c.focus ∧
      c1.keyboard_rubberband_start =
        (if c.keyboard_rubberband_start = icon then 0 else c.keyboard_rubberband_start) ∧
      c1.drag_icon = c.drag_icon ∧ c1.drop_target = c.drop_target ∧
      c1.range_selection_base_icon = c.range_selection_base_icon ∧
      c1.pending_icon_to_reveal = c.pending_icon_to_reveal ∧
      c1.keyboard_icon_to_reveal = c.keyboard_icon_to_reveal := by
    simp only [c1]
    split_ifs <;> simp [clear_keyboard_rubberband_start]
  have h2 : c2.focus = c1.focus ∧ c2.keyboard_rubberband_start = c1.keyboard_rubberband_start ∧
      c2.drag_icon = c1.drag_icon ∧ c2.drop_target = c1.drop_target ∧
      c2.range_selection_base_icon = c1.range_selection_base_icon ∧
      c2.pending_icon_to_reveal = c1.pending_icon_to_reveal := by
    simp only [c2, unschedule_keyboard_icon_reveal, g_source_remove]
    split_ifs <;> simp
  have h3 : c3.focus = c2.focus ∧ c3.keyboard_rubberband_start = c2.keyboard_rubberband_start ∧
      c3.drag_icon = (if c2.drag_icon = icon then 0 else c2.drag_icon) ∧
      c3.drop_target = c2.drop_target ∧
      c3.range_selection_base_icon = c2.range_selection_base_icon ∧
      c3.pending_icon_to_reveal = c2.pending_icon_to_reveal := by
    simp only [c3]
    split_ifs <;> simp [clear_drag_state]
  have h4 : c4.focus = c3.focus ∧ c4.keyboard_rubberband_start = c3.keyboard_rubberband_start ∧
      c4.drag_icon = c3.drag_icon ∧
      c4.drop_target = (if c3.drop_target = icon then 0 else c3.drop_target) ∧
      c4.range_selection_base_icon = c3.range_selection_base_icon ∧
      c4.pending_icon_to_reveal = c3.pending_icon_to_reveal := by
    simp only [c4]
    split_ifs <;> simp
  have h5 : c5.focus = c4.focus ∧ c5.keyboard_rubberband_start = c4.keyboard_rubberband_start ∧
      c5.drag_icon = c4.drag_icon ∧ c5.drop_target = c4.drop_target ∧
      c5.range_selection_base_icon =
        (if c4.range_selection_base_icon = icon then 0 else c4.range_selection_base_icon) ∧
      c5.pending_icon_to_reveal = c4.pending_icon_to_reveal := by
    simp only [c5]
    split_ifs <;> simp
  have h6 : ∀ c6 : NautilusCanvasContainer,
      c6 = (if c5.pending_icon_to_reveal = icon then set_pending_icon_to_reveal c5 0 else c5) →
      c6.focus = c5.focus ∧ c6.keyboard_rubberband_start = c5.keyboard_rubberband_start ∧
      c6.drag_icon = c5.drag_icon ∧ c6.drop_target = c5.drop_target ∧
      c6.range_selection_base_icon = c5.range_selection_base_icon ∧
      c6.pending_icon_to_reveal =
        (if c5.pending_icon_to_reveal = icon then 0 else c5.pending_icon_to_reveal) := by
    intro c6 e
    subst e
    simp only [set_pending_icon_to_reveal]
    split_ifs <;> simp_all
  obtain ⟨a1, a2, a3, a4, a5, a6⟩ := h6 _ rfl
  obtain ⟨b1, b2, b3, b4, b5, b6, _⟩ := h1
  obtain ⟨d1, d2, d3, d4, d5, d6⟩ := h2
  obtain ⟨e1, e2, e3, e4, e5, e6⟩ := h3
  obtain ⟨f1, f2, f3, f4, f5, f6⟩ := h4
  obtain ⟨g1, g2, g3, g4, g5, g6⟩ := h5
  refine ⟨?_, ?_, ?_, ?_, ?_, ?_⟩
  · rw [a1, g1, f1, e1, d1, b1]
  · rw [a2, g2, f2, e2, d2, b2]
  · rw [a3, g3, f3, e3, d3, b3]
  · rw [a4, g4, f4, e4, d4, b4]
  · rw [a5, g5, f5, e5, d5, b5]
  · rw [a6, g6, f6, e6, d6, b6]

theorem icon_destroy_fields (c : NautilusCanvasContainer) (icon : Nat) (hm : icon ∈ c.icons) :
    ∃ c1, icon_destroy c icon = some c1 ∧
      c1.focus = (if c.focus = icon ∨ c.focus = 0 then
          (if c.icons.indexOf icon + 1 < c.icons.length then
            c.icons.getD (c.icons.indexOf icon + 1) 0
          else if 0 < c.icons.indexOf icon then c.icons.getD (c.icons.indexOf icon - 1) 0
          else 0)
        else c.focus) ∧
      c1.keyboard_rubberband_start =
        (if c.keyboard_rubberband_start = icon then 0 else c.keyboard_rubberband_start) ∧
      c1.drag_icon = (if c.drag_icon = icon then 0 else c.drag_icon) ∧
      c1.drop_target = (if c.drop_target = icon then 0 else c.drop_target) ∧
      c1.range_selection_base_icon =
        (if c.range_selection_base_icon = icon then 0 else c.range_selection_base_icon) ∧
      c1.pending_icon_to_reveal =
        (if c.pending_icon_to_reveal = icon then 0 else c.pending_icon_to_reveal) := by
  unfold icon_destroy
  simp only [g_list_find, hm, if_true]
  split
  · next heq => exact absurd heq (icon_destroy_focus_ne_none _ _ _)
  · next cf heq =>
    obtain ⟨a1, a2, _, a4, a5, a6, a7⟩ := icon_destroy_focus_fields heq
    obtain ⟨b1, b2, b3, b4, b5, b6⟩ := icon_destroy_references_fields cf icon
    dsimp only at a1 a2 a4 a5 a6 a7
    rw [a2] at b2
    rw [a4] at b3
    rw [a5] at b4
    rw [a6] at b5
    rw [a7] at b6
    rw [a1] at b1
    split
    · refine ⟨_, rfl, ?_⟩
      dsimp only [g_source_add]
      exact ⟨b1, b2, b3, b4, b5, b6⟩
    · refine ⟨_, rfl, ?_⟩
      exact ⟨b1, b2, b3, b4, b5, b6⟩

theorem schedule_redo_layout_fields (c : NautilusCanvasContainer) :
    (schedule_redo_layout c).focus = c.focus ∧
      (schedule_redo_layout c).keyboard_rubberband_start = c.keyboard_rubberband_start ∧
      (schedule_redo_layout c).drag_icon = c.drag_icon ∧
      (schedule_redo_layout c).drop_target = c.drop_target ∧
      (schedule_redo_layout c).range_selection_base_icon = c.range_selection_base_icon ∧
      (schedule_redo_layout c).pending_icon_to_reveal = c.pending_icon_to_reveal := by
  unfold schedule_redo_layout g_source_add
  split_ifs <;> exact ⟨rfl, rfl, rfl, rfl, rfl, rfl⟩

theorem nautilus_canvas_container_remove_fields (c : NautilusCanvasContainer) (data : Nat)
    (hreg : RegistryConsistent c) (hr : is_registered c data) :
    ∃ c1, nautilus_canvas_container_remove c data = some (true, c1) ∧
      c1.focus = (if c.focus = g_hash_table_lookup c.icon_set data ∨ c.focus = 0 then
          (if c.icons.indexOf (g_hash_table_lookup c.icon_set data) + 1 < c.icons.length then
            c.icons.getD (c.icons.indexOf (g_hash_table_lookup c.icon_set data) + 1) 0
          else if 0 < c.icons.indexOf (g_hash_table_lookup c.icon_set data) then
            c.icons.getD (c.icons.indexOf (g_hash_table_lookup c.icon_set data) - 1) 0
          else 0)
        else c.focus) ∧
      c1.keyboard_rubberband_start =
        (if c.keyboard_rubberband_start = g_hash_table_lookup c.icon_set data then 0
         else c.keyboard_rubberband_start) ∧
      c1.drag_icon = (if c.drag_icon = g_hash_table_lookup c.icon_set data then 0
        else c.drag_icon) ∧
      c1.drop_target = (if c.drop_target = g_hash_table_lookup c.icon_set data then 0
        else c.drop_target) ∧
      c1.range_selection_base_icon =
        (if c.range_selection_base_icon = g_hash_table_lookup c.icon_set data then 0
         else c.range_selection_base_icon) ∧
      c1.pending_icon_to_reveal =
        (if c.pending_icon_to_reveal = g_hash_table_lookup c.icon_set data then 0
         else c.pending_icon_to_reveal) := by
  obtain ⟨hmem, hdat⟩ := hreg.registered hr
  have hd : data ≠ 0 := by
    rw [← hdat]
    exact hreg.data_not_null _ hmem
  obtain ⟨cd, hcd, e1, e2, e3, e4, e5, e6⟩ := icon_destroy_fields c _ hmem
  obtain ⟨s1, s2, s3, s4, s5, s6⟩ := schedule_redo_layout_fields cd
  unfold nautilus_canvas_container_remove
  unfold is_registered at hr
  simp only [hd, hr, if_false, hcd]
  refine ⟨_, rfl, ?_⟩
  simp only [g_signal_emit]
  exact ⟨s1.trans e1, s2.trans e2, s3.trans e3, s4.trans e4, s5.trans e5, s6.trans e6⟩

theorem neighbour_of_split (pre post : List Nat) (icon : Nat) (hnd : (pre ++ icon :: post).Nodup) :
    (if (pre ++ icon :: post).indexOf icon + 1 < (pre ++ icon :: post).length then
        (pre ++ icon :: post).getD ((pre ++ icon :: post).indexOf icon + 1) 0
      else if 0 < (pre ++ icon :: post).indexOf icon then
        (pre ++ icon :: post).getD ((pre ++ icon :: post).indexOf icon - 1) 0
      else 0) =
    post.head?.getD (pre.getLast?.getD 0) := by
  have hni : icon ∉ pre := by
    intro hin
    have := List.nodup_append.mp hnd
    exact this.2.2 hin (List.mem_cons_self _ _)
  have hidx : (pre ++ icon :: post).indexOf icon = pre.length := by
    rw [List.indexOf_append_of_not_mem hni]
    simp
  rw [hidx]
  cases post with
  | nil =>
    simp only [List.length_append, List.length_cons, List.length_nil]
    rw [if_neg (by omega)]
    rcases List.eq_nil_or_concat pre with hp | ⟨l, a, hp⟩
    · subst hp
      simp
    · subst hp
      simp
      rw [List.getElem_append_right (le_refl _)]
      simp
  | cons next rest =>
    simp only [List.length_append, List.length_cons]
    rw [if_pos (by omega)]
    rw [List.getD_eq_getElem?_getD, List.getElem?_append_right (by omega)]
    simp

theorem neighbour_of_split_ne (pre post : List Nat) (icon : Nat)
    (hnd : (pre ++ icon :: post).Nodup) (h0 : icon ≠ 0) :
    post.head?.getD (pre.getLast?.getD 0) ≠ icon := by
  have hn := List.nodup_append.mp hnd
  cases post with
  | cons next rest =>
    intro e
    have h2 := (List.nodup_cons.mp hn.2.1).1
    have e2 : next = icon := by simpa using e
    exact h2 (by rw [← e2]; exact List.mem_cons_self _ _)
  | nil =>
    rcases List.eq_nil_or_concat pre with hp | ⟨l, a, hp⟩
    · subst hp
      intro e
      exact h0 (by simpa using e.symm)
    · subst hp
      intro e
      have ha : a = icon := by simpa using e
      exact hn.2.2 (by rw [← ha]; simp) (List.mem_cons_self _ _)

theorem sample_three_focused_consistent : Consistent sample_three_focused :=
  SameCore.core_consistent (c := sample_three) ⟨rfl, rfl, rfl, rfl, rfl⟩ sample_three_consistent

/-! ## C14 and C15: the references to a removed item -/

/-- C14: for every consistent container state and every registered id,
`nautilus_canvas_container_remove` returns TRUE and afterwards the removed icon is referenced by
none of the selection list, the focus, the keyboard rubber-band anchor, the pending-reveal slot,
the drag icon and the drop target; it is also gone from the icon list and is not the
range-selection anchor. -/
theorem C14_remove_clears_references (c : NautilusCanvasContainer) (data : Nat)
    (hc : Consistent c) (hr : is_registered c data) :
    ∃ c1, nautilus_canvas_container_remove c data = some (true, c1) ∧
      data ∉ c1.selection ∧
      c1.focus ≠ g_hash_table_lookup c.icon_set data ∧
      c1.keyboard_rubberband_start ≠ g_hash_table_lookup c.icon_set data ∧
      c1.pending_icon_to_reveal ≠ g_hash_table_lookup c.icon_set data ∧
      c1.drag_icon ≠ g_hash_table_lookup c.icon_set data ∧
      c1.drop_target ≠ g_hash_table_lookup c.icon_set data ∧
      c1.range_selection_base_icon ≠ g_hash_table_lookup c.icon_set data ∧
      g_hash_table_lookup c.icon_set data ∉ c1.icons := by
  obtain ⟨c1, h1, _, hicons, _, _, hsel⟩ :=
    nautilus_canvas_container_remove_core c data hc.registry hr
  obtain ⟨c2, h2, f1, f2, f3, f4, f5, f6⟩ :=
    nautilus_canvas_container_remove_fields c data hc.registry hr
  have e12 : c2 = c1 := by
    rw [h1] at h2
    simp only [Option.some.injEq, Prod.mk.injEq, true_and] at h2
    exact h2.symm
  subst e12
  have hm := (hc.registry.registered hr).1
  have h0 : g_hash_table_lookup c.icon_set data ≠ 0 := hr
  refine ⟨c2, h1, ?_, ?_, ?_, ?_, ?_, ?_, ?_, ?_⟩
  · rw [hsel]
    exact fun hin => ((List.Nodup.mem_erase_iff hc.selection.selection_nodup).mp hin).1 rfl
  · rw [f1]
    obtain ⟨pre, post, hsplit⟩ := List.append_of_mem hm
    have hnd : (pre ++ g_hash_table_lookup c.icon_set data :: post).Nodup := by
      rw [← hsplit]
      exact hc.registry.icons_nodup
    by_cases hf : c.focus = g_hash_table_lookup c.icon_set data ∨ c.focus = 0
    · have hn := neighbour_of_split pre post _ hnd
      rw [← hsplit] at hn
      rw [if_pos hf, hn]
      exact neighbour_of_split_ne pre post _ hnd h0
    · rw [if_neg hf]
      exact fun e => hf (Or.inl e)
  · rw [f2]
    split_ifs with hf
    · exact fun e => h0 e.symm
    · exact hf
  · rw [f6]
    split_ifs with hf
    · exact fun e => h0 e.symm
    · exact hf
  · rw [f3]
    split_ifs with hf
    · exact fun e => h0 e.symm
    · exact hf
  · rw [f4]
    split_ifs with hf
    · exact fun e => h0 e.symm
    · exact hf
  · rw [f5]
    split_ifs with hf
    · exact fun e => h0 e.symm
    · exact hf
  · rw [hicons]
    exact fun hin => ((List.Nodup.mem_erase_iff hc.registry.icons_nodup).mp hin).1 rfl

/-- Witness of C14: removing the focused id 20 from the sample container. -/
theorem C14_remove_clears_references_witness :
    Consistent sample_three_focused ∧ is_registered sample_three_focused 20 ∧
      ∃ c1, nautilus_canvas_container_remove sample_three_focused 20 = some (true, c1) ∧
        20 ∉ c1.selection ∧
        c1.focus ≠ g_hash_table_lookup sample_three_focused.icon_set 20 ∧
        c1.keyboard_rubberband_start ≠ g_hash_table_lookup sample_three_focused.icon_set 20 ∧
        c1.pending_icon_to_reveal ≠ g_hash_table_lookup sample_three_focused.icon_set 20 ∧
        c1.drag_icon ≠ g_hash_table_lookup sample_three_focused.icon_set 20 ∧
        c1.drop_target ≠ g_hash_table_lookup sample_three_focused.icon_set 20 ∧
        c1.range_selection_base_icon ≠ g_hash_table_lookup sample_three_focused.icon_set 20 ∧
        g_hash_table_lookup sample_three_focused.icon_set 20 ∉ c1.icons :=
  ⟨sample_three_focused_consistent, by decide,
    C14_remove_clears_references sample_three_focused 20 sample_three_focused_consistent
      (by decide)⟩

/-- C15: for every consistent container state in which the focused icon is the one that
`nautilus_canvas_container_remove` removes, with the icon list split as `pre ++ focus :: post`,
the removal returns TRUE and the focus afterwards is the first icon of `post` (the one that
followed), or the last icon of `pre` when `post` is empty (the one that preceded), or `NULL` (0)
when both are empty. -/
theorem C15_focus_moves_to_neighbour (c : NautilusCanvasContainer) (data : Nat)
    (pre post : List Nat) (hc : Consistent c) (hr : is_registered c data)
    (hf : c.focus = g_hash_table_lookup c.icon_set data)
    (hsplit : c.icons = pre ++ c.focus :: post) :
    ∃ c1, nautilus_canvas_container_remove c data = some (true, c1) ∧
      c1.focus = post.head?.getD (pre.getLast?.getD 0) := by
  obtain ⟨c1, h1, f1, _⟩ := nautilus_canvas_container_remove_fields c data hc.registry hr
  refine ⟨c1, h1, ?_⟩
  rw [f1, if_pos (Or.inl hf), ← hf]
  have hnd : (pre ++ c.focus :: post).Nodup := by
    rw [← hsplit]
    exact hc.registry.icons_nodup
  have hn := neighbour_of_split pre post _ hnd
  rw [← hsplit] at hn
  exact hn

/-- Witness of C15: the icon list of the sample is `[3, 2, 1]` and the icon 2 is focused; after
its removal the focus is the icon 1. -/
theorem C15_focus_moves_to_neighbour_witness :
    Consistent sample_three_focused ∧ is_registered sample_three_focused 20 ∧
      sample_three_focused.focus = g_hash_table_lookup sample_three_focused.icon_set 20 ∧
      sample_three_focused.icons = [3] ++ sample_three_focused.focus :: [1] ∧
      ∃ c1, nautilus_canvas_container_remove sample_three_focused 20 = some (true, c1) ∧
        c1.focus = 1 :=
  ⟨sample_three_focused_consistent, by decide, by decide, by decide,
    C15_focus_moves_to_neighbour sample_three_focused 20 [3] [1] sample_three_focused_consistent
      (by decide) (by decide) (by decide)⟩

/-! ## Lemmas: the layout writes -/

theorem HeapOnly.heap_refl (c : NautilusCanvasContainer) : HeapOnly c c := rfl

theorem HeapOnly.heap_trans {c c1 c2 : NautilusCanvasContainer} (h1 : HeapOnly c c1)
    (h2 : HeapOnly c1 c2) : HeapOnly c c2 := by
  unfold HeapOnly at *
  rw [h2, h1]

theorem HeapOnly.set_heap {c c1 : NautilusCanvasContainer} (h : HeapOnly c c1)
    (heap : Nat → NautilusCanvasIcon) : HeapOnly c { c1 with heap := heap } := by
  unfold HeapOnly at h ⊢
  cases c1
  cases c
  simp only [NautilusCanvasContainer.mk.injEq, true_and] at h ⊢
  exact h

theorem icon_set_position_fields (c : NautilusCanvasContainer) (icon : Nat) (x y : Rat) :
    HeapOnly c (icon_set_position c icon x y) ∧
      ((icon_set_position c icon x y).heap icon).x = x ∧
      ((icon_set_position c icon x y).heap icon).y = y ∧
      ((icon_set_position c icon x y).heap icon).saved_ltr_x = (c.heap icon).saved_ltr_x ∧
      (∀ other, other ≠ icon → (icon_set_position c icon x y).heap other = c.heap other) := by
  unfold icon_set_position
  split_ifs with h
  · exact ⟨rfl, h.1, h.2, rfl, fun _ _ => rfl⟩
  · refine ⟨rfl, ?_, ?_, ?_, ?_⟩
    · simp
    · simp
    · simp
    · intro other ho
      simp [Function.update_noteq ho]

theorem lay_down_one_line_step_fields (w : CanvasWidget) (y : Rat) (s : lay_down_one_line_state)
    (entry : Nat × IconPositions) :
    (lay_down_one_line_step w y s entry).x = s.x + entry.2.width ∧
      HeapOnly s.container (lay_down_one_line_step w y s entry).container ∧
      ((lay_down_one_line_step w y s entry).container.heap entry.1).saved_ltr_x =
        s.x + entry.2.x_offset ∧
      ((lay_down_one_line_step w y s entry).container.heap entry.1).y = y + entry.2.y_offset ∧
      ((lay_down_one_line_step w y s entry).container.heap entry.1).x =
        (if w.is_layout_rtl then get_mirror_x_position w entry.1 (s.x + entry.2.x_offset)
         else s.x + entry.2.x_offset) ∧
      (∀ other, other ≠ entry.1 →
        (lay_down_one_line_step w y s entry).container.heap other = s.container.heap other) := by
  obtain ⟨h1, h2, h3, h4, h5⟩ := icon_set_position_fields s.container entry.1
    (if w.is_layout_rtl then get_mirror_x_position w entry.1 (s.x + entry.2.x_offset)
     else s.x + entry.2.x_offset) (y + entry.2.y_offset)
  unfold lay_down_one_line_step
  dsimp only
  refine ⟨rfl, ?_, ?_, ?_, ?_, ?_⟩
  · exact h1.set_heap _
  · simp only [Function.update_same]
    by_cases hr : w.is_layout_rtl = true
    · simp only [hr, if_true]
    · simp only [hr, if_false] at h2 ⊢
      exact h2
  · simp only [Function.update_same]
    exact h3
  · simp only [Function.update_same]
    exact h2
  · intro other ho
    simp only [Function.update_noteq ho]
    exact h5 other ho

/-! ## Lemmas: one round of the row walk -/

theorem lay_down_icons_horizontal_step_full (w : CanvasWidget) (g : Rat)
    (s : lay_down_icons_horizontal_state) (icon : Nat) (hc : lay_down_line_is_full w g s icon) :
    (lay_down_icons_horizontal_step w g s icon).lines = s.lines ++ [s.line.map Prod.fst] ∧
    (lay_down_icons_horizontal_step w g s icon).line = [(icon, lay_down_icon_position w g icon)] ∧
    (lay_down_icons_horizontal_step w g s icon).line_width = 0 + lay_down_icon_width w g icon ∧
    (lay_down_icons_horizontal_step w g s icon).container =
      lay_down_one_line w s.container s.line (s.y + (ICON_PAD_TOP + s.max_height_above)) := by
  unfold lay_down_icons_horizontal_step
  simp only [hc, if_true]
  refine ⟨?_, ?_, ?_, ?_⟩ <;> trivial

theorem lay_down_icons_horizontal_step_not_full (w : CanvasWidget) (g : Rat)
    (s : lay_down_icons_horizontal_state) (icon : Nat) (hc : ¬ lay_down_line_is_full w g s icon) :
    (lay_down_icons_horizontal_step w g s icon).lines = s.lines ∧
    (lay_down_icons_horizontal_step w g s icon).line =
      s.line ++ [(icon, lay_down_icon_position w g icon)] ∧
    (lay_down_icons_horizontal_step w g s icon).line_width =
      s.line_width + lay_down_icon_width w g icon ∧
    (lay_down_icons_horizontal_step w g s icon).container = s.container := by
  unfold lay_down_icons_horizontal_step
  simp only [hc, if_false]
  refine ⟨?_, ?_, ?_, ?_⟩ <;> trivial

theorem same_geometry_fields {w1 w2 : CanvasWidget} (hg : SameGeometry w1 w2) :
    w2.canvas_width = w1.canvas_width ∧ w2.min_grid_width = w1.min_grid_width ∧
      w2.icon_size = w1.icon_size ∧
      w2.nautilus_canvas_item_get_bounds_for_layout =
        w1.nautilus_canvas_item_get_bounds_for_layout ∧
      w2.nautilus_canvas_item_get_icon_rectangle =
        w1.nautilus_canvas_item_get_icon_rectangle := by
  unfold SameGeometry at hg
  rw [hg]
  exact ⟨rfl, rfl, rfl, rfl, rfl⟩

theorem lay_down_icons_horizontal_step_control (w1 w2 : CanvasWidget) (hg : SameGeometry w1 w2)
    (g : Rat) (s1 s2 : lay_down_icons_horizontal_state) (hs : SameControl s1 s2) (icon : Nat) :
    SameControl (lay_down_icons_horizontal_step w1 g s1 icon)
      (lay_down_icons_horizontal_step w2 g s2 icon) ∧
    (lay_down_line_is_full w2 g s2 icon ↔ lay_down_line_is_full w1 g s1 icon) := by
  obtain ⟨h1, h2, h3, h4, h5, h6⟩ := hs
  obtain ⟨e1, _, e2, e3, e4⟩ := same_geometry_fields hg
  have hw : lay_down_icon_width w2 g icon = lay_down_icon_width w1 g icon := by
    unfold lay_down_icon_width
    rw [e2, e3]
  have hp : lay_down_icon_position w2 g icon = lay_down_icon_position w1 g icon := by
    unfold lay_down_icon_position
    rw [hw, e4]
  have hf : lay_down_line_is_full w2 g s2 icon ↔ lay_down_line_is_full w1 g s1 icon := by
    unfold lay_down_line_is_full
    rw [h1, h3, hw, e1]
  refine ⟨?_, hf⟩
  unfold SameControl lay_down_icons_horizontal_step
  by_cases hc : lay_down_line_is_full w1 g s1 icon
  · simp only [hc, hf.mpr hc, if_true]
    rw [e3, e4, h1, h2, h4, h5, h6, hw, hp]
    refine ⟨?_, ?_, ?_, ?_, ?_, ?_⟩ <;> trivial
  · simp only [hc, mt hf.mp hc, if_false]
    rw [e3, e4, h1, h3, h4, h5, h6, hw, hp, h2]
    refine ⟨?_, ?_, ?_, ?_, ?_, ?_⟩ <;> trivial

/-! ## Lemmas: a line -/

theorem LaidAlike.alike_mono {w1 w2 : CanvasWidget} {c1 c2 : NautilusCanvasContainer}
    {D E : Nat → Prop} (h : LaidAlike w1 w2 c1 c2 D) (hde : ∀ icon, E icon → D icon) :
    LaidAlike w1 w2 c1 c2 E :=
  fun icon he => h icon (hde icon he)

theorem lay_down_one_line_step_alike (w1 w2 : CanvasWidget) (y : Rat)
    (s1 s2 : lay_down_one_line_state) (hx : s2.x = s1.x) (D : Nat → Prop)
    (h : LaidAlike w1 w2 s1.container s2.container D) (entry : Nat × IconPositions) :
    (lay_down_one_line_step w2 y s2 entry).x = (lay_down_one_line_step w1 y s1 entry).x ∧
      LaidAlike w1 w2 (lay_down_one_line_step w1 y s1 entry).container
        (lay_down_one_line_step w2 y s2 entry).container (fun i => D i ∨ i = entry.1) := by
  obtain ⟨a1, _, a3, a4, a5, a6⟩ := lay_down_one_line_step_fields w1 y s1 entry
  obtain ⟨b1, _, b3, b4, b5, b6⟩ := lay_down_one_line_step_fields w2 y s2 entry
  refine ⟨by rw [a1, b1, hx], ?_⟩
  intro icon hd
  by_cases hi : icon = entry.1
  · subst hi
    refine ⟨by rw [a3, b3, hx], by rw [a4, b4], ?_, ?_⟩
    · unfold Placed
      rw [a5, a3]
    · unfold Placed
      rw [b5, b3]
  · have hD : D icon := hd.resolve_right hi
    obtain ⟨h1, h2, h3, h4⟩ := h icon hD
    unfold Placed at h3 h4 ⊢
    rw [a6 icon hi, b6 icon hi]
    exact ⟨h1, h2, h3, h4⟩

theorem lay_down_one_line_fold_alike (w1 w2 : CanvasWidget) (y : Rat)
    (line : List (Nat × IconPositions)) (s1 s2 : lay_down_one_line_state) (hx : s2.x = s1.x)
    (D : Nat → Prop) (h : LaidAlike w1 w2 s1.container s2.container D) :
    LaidAlike w1 w2 (line.foldl (lay_down_one_line_step w1 y) s1).container
      (line.foldl (lay_down_one_line_step w2 y) s2).container
      (fun i => D i ∨ i ∈ line.map Prod.fst) := by
  induction line generalizing s1 s2 D with
  | nil =>
    intro icon hd
    simp only [List.map_nil, List.not_mem_nil, or_false] at hd
    exact h icon hd
  | cons entry rest ih =>
    obtain ⟨hx2, h2⟩ := lay_down_one_line_step_alike w1 w2 y s1 s2 hx D h entry
    have := ih _ _ hx2 _ h2
    simp only [List.foldl_cons]
    refine this.alike_mono ?_
    intro icon hd
    simp only [List.map_cons, List.mem_cons] at hd
    tauto

theorem lay_down_one_line_fold_frame (w : CanvasWidget) (y : Rat)
    (line : List (Nat × IconPositions)) (s : lay_down_one_line_state) :
    HeapOnly s.container (line.foldl (lay_down_one_line_step w y) s).container ∧
      ∀ other, other ∉ line.map Prod.fst →
        (line.foldl (lay_down_one_line_step w y) s).container.heap other =
          s.container.heap other := by
  induction line generalizing s with
  | nil => exact ⟨HeapOnly.heap_refl _, fun _ _ => rfl⟩
  | cons entry rest ih =>
    obtain ⟨_, h2, _, _, _, h6⟩ := lay_down_one_line_step_fields w y s entry
    obtain ⟨i1, i2⟩ := ih (lay_down_one_line_step w y s entry)
    simp only [List.foldl_cons]
    refine ⟨h2.heap_trans i1, ?_⟩
    intro other ho
    simp only [List.map_cons, List.mem_cons, not_or] at ho
    rw [i2 other ho.2, h6 other ho.1]

theorem lay_down_one_line_alike (w1 w2 : CanvasWidget) (y : Rat)
    (line : List (Nat × IconPositions)) (c1 c2 : NautilusCanvasContainer) (D : Nat → Prop)
    (h : LaidAlike w1 w2 c1 c2 D) :
    LaidAlike w1 w2 (lay_down_one_line w1 c1 line y) (lay_down_one_line w2 c2 line y)
      (fun i => D i ∨ i ∈ line.map Prod.fst) :=
  lay_down_one_line_fold_alike w1 w2 y line { container := c1, x := ICON_PAD_LEFT }
    { container := c2, x := ICON_PAD_LEFT } rfl D h

theorem lay_down_one_line_frame (w : CanvasWidget) (y : Rat)
    (line : List (Nat × IconPositions)) (c : NautilusCanvasContainer) :
    HeapOnly c (lay_down_one_line w c line y) ∧
      ∀ other, other ∉ line.map Prod.fst →
        (lay_down_one_line w c line y).heap other = c.heap other :=
  lay_down_one_line_fold_frame w y line { container := c, x := ICON_PAD_LEFT }

/-! ## Lemmas: the row walk -/

theorem lay_down_icons_horizontal_step_alike (w1 w2 : CanvasWidget) (hg : SameGeometry w1 w2)
    (g : Rat) (s1 s2 : lay_down_icons_horizontal_state) (hs : SameControl s1 s2)
    (h : LaidAlike w1 w2 s1.container s2.container (fun i => i ∈ s1.lines.flatten)) (icon : Nat) :
    LaidAlike w1 w2 (lay_down_icons_horizontal_step w1 g s1 icon).container
      (lay_down_icons_horizontal_step w2 g s2 icon).container
      (fun i => i ∈ (lay_down_icons_horizontal_step w1 g s1 icon).lines.flatten) := by
  obtain ⟨_, hf⟩ := lay_down_icons_horizontal_step_control w1 w2 hg g s1 s2 hs icon
  obtain ⟨h1, h2, h3, h4, h5, h6⟩ := hs
  by_cases hc : lay_down_line_is_full w1 g s1 icon
  · obtain ⟨a1, _, _, a4⟩ := lay_down_icons_horizontal_step_full w1 g s1 icon hc
    obtain ⟨_, _, _, b4⟩ := lay_down_icons_horizontal_step_full w2 g s2 icon (hf.mpr hc)
    rw [a1, a4, b4, h1, h2, h4]
    refine (lay_down_one_line_alike w1 w2 _ s1.line _ _ _ h).alike_mono ?_
    intro i hi
    simp only [List.flatten_append, List.flatten_cons, List.flatten_nil, List.append_nil,
      List.mem_append] at hi
    exact hi
  · obtain ⟨a1, _, _, a4⟩ := lay_down_icons_horizontal_step_not_full w1 g s1 icon hc
    obtain ⟨_, _, _, b4⟩ := lay_down_icons_horizontal_step_not_full w2 g s2 icon
      (mt hf.mp hc)
    rw [a1, a4, b4]
    exact h

theorem lay_down_icons_horizontal_fold_alike (w1 w2 : CanvasWidget) (hg : SameGeometry w1 w2)
    (g : Rat) (l : List Nat) (s1 s2 : lay_down_icons_horizontal_state) (hs : SameControl s1 s2)
    (h : LaidAlike w1 w2 s1.container s2.container (fun i => i ∈ s1.lines.flatten)) :
    SameControl (l.foldl (lay_down_icons_horizontal_step w1 g) s1)
      (l.foldl (lay_down_icons_horizontal_step w2 g) s2) ∧
    LaidAlike w1 w2 (l.foldl (lay_down_icons_horizontal_step w1 g) s1).container
      (l.foldl (lay_down_icons_horizontal_step w2 g) s2).container
      (fun i => i ∈ (l.foldl (lay_down_icons_horizontal_step w1 g) s1).lines.flatten) := by
  induction l generalizing s1 s2 with
  | nil => exact ⟨hs, h⟩
  | cons icon rest ih =>
    simp only [List.foldl_cons]
    exact ih _ _ (lay_down_icons_horizontal_step_control w1 w2 hg g s1 s2 hs icon).1
      (lay_down_icons_horizontal_step_alike w1 w2 hg g s1 s2 hs h icon)

theorem lay_down_icons_horizontal_step_frame (w : CanvasWidget) (g : Rat)
    (s : lay_down_icons_horizontal_state) (icon : Nat) :
    HeapOnly s.container (lay_down_icons_horizontal_step w g s icon).container ∧
      (∃ more, (lay_down_icons_horizontal_step w g s icon).lines = s.lines ++ more ∧
        ∀ other, other ∉ more.flatten →
          (lay_down_icons_horizontal_step w g s icon).container.heap other =
            s.container.heap other) ∧
      (lay_down_icons_horizontal_step w g s icon).lines.flatten ++
          (lay_down_icons_horizontal_step w g s icon).line.map Prod.fst =
        s.lines.flatten ++ s.line.map Prod.fst ++ [icon] := by
  by_cases hc : lay_down_line_is_full w g s icon
  · obtain ⟨a1, a2, _, a4⟩ := lay_down_icons_horizontal_step_full w g s icon hc
    obtain ⟨f1, f2⟩ := lay_down_one_line_frame w (s.y + (ICON_PAD_TOP + s.max_height_above))
      s.line s.container
    rw [a1, a2, a4]
    refine ⟨f1, ⟨[s.line.map Prod.fst], rfl, ?_⟩, ?_⟩
    · intro other ho
      simp only [List.flatten_cons, List.flatten_nil, List.append_nil] at ho
      exact f2 other ho
    · simp
  · obtain ⟨a1, a2, _, a4⟩ := lay_down_icons_horizontal_step_not_full w g s icon hc
    rw [a1, a2, a4]
    refine ⟨HeapOnly.heap_refl _, ⟨[], by simp, fun _ _ => rfl⟩, ?_⟩
    simp

theorem lay_down_icons_horizontal_fold_frame (w : CanvasWidget) (g : Rat) (l : List Nat)
    (s : lay_down_icons_horizontal_state) :
    HeapOnly s.container (l.foldl (lay_down_icons_horizontal_step w g) s).container ∧
      (∃ more, (l.foldl (lay_down_icons_horizontal_step w g) s).lines = s.lines ++ more ∧
        ∀ other, other ∉ more.flatten →
          (l.foldl (lay_down_icons_horizontal_step w g) s).container.heap other =
            s.container.heap other) ∧
      (l.foldl (lay_down_icons_horizontal_step w g) s).lines.flatten ++
          (l.foldl (lay_down_icons_horizontal_step w g) s).line.map Prod.fst =
        s.lines.flatten ++ s.line.map Prod.fst ++ l := by
  induction l generalizing s with
  | nil => exact ⟨HeapOnly.heap_refl _, ⟨[], by simp, fun _ _ => rfl⟩, by simp⟩
  | cons icon rest ih =>
    obtain ⟨a1, ⟨m1, a2, a3⟩, a4⟩ := lay_down_icons_horizontal_step_frame w g s icon
    obtain ⟨b1, ⟨m2, b2, b3⟩, b4⟩ := ih (lay_down_icons_horizontal_step w g s icon)
    simp only [List.foldl_cons]
    refine ⟨a1.heap_trans b1, ⟨m1 ++ m2, ?_, ?_⟩, ?_⟩
    · rw [b2, a2, List.append_assoc]
    · intro other ho
      simp only [List.flatten_append, List.mem_append, not_or] at ho
      rw [b3 other ho.2, a3 other ho.1]
    · rw [b4, a4]
      simp

theorem lay_down_icons_horizontal_loop_frame (k : Collaborators) (w : CanvasWidget)
    (c : NautilusCanvasContainer) (icons : List Nat) (start_y : Rat) :
    HeapOnly c (lay_down_icons_horizontal_loop k w c icons start_y).container ∧
      (∀ other, other ∉ icons →
        (lay_down_icons_horizontal_loop k w c icons start_y).container.heap other =
          c.heap other) ∧
      (lay_down_icons_horizontal_loop k w c icons start_y).lines.flatten = icons := by
  unfold lay_down_icons_horizontal_loop
  dsimp only
  have hf := lay_down_icons_horizontal_fold_frame w
    (lay_down_icons_horizontal_grid k w.canvas_width w.min_grid_width icons).grid_width icons
    ({ container := c, line := [], y := start_y + CONTAINER_PAD_TOP, line_width := 0,
       max_height_above := 0, max_height_below := 0, lines := [] } :
      lay_down_icons_horizontal_state)
  dsimp only at hf
  generalize List.foldl (lay_down_icons_horizontal_step w
    (lay_down_icons_horizontal_grid k w.canvas_width w.min_grid_width icons).grid_width) _ icons
    = r at hf ⊢
  obtain ⟨a1, ⟨m, a2, a3⟩, a4⟩ := hf
  simp only [List.flatten_nil, List.map_nil, List.append_nil, List.nil_append] at a4 a2
  obtain ⟨f1, f2⟩ := lay_down_one_line_frame w (r.y + (ICON_PAD_TOP + r.max_height_above))
    r.line r.container
  refine ⟨a1.heap_trans f1, ?_, ?_⟩
  · intro other ho
    have ho2 : other ∉ r.lines.flatten ∧ other ∉ r.line.map Prod.fst := by
      rw [← a4] at ho
      simpa [not_or] using ho
    rw [f2 other ho2.2]
    rw [a2] at ho2
    exact a3 other ho2.1
  · simp only [List.flatten_append, List.flatten_cons, List.flatten_nil, List.append_nil]
    exact a4

theorem lay_down_icons_horizontal_loop_alike (k : Collaborators) (w1 w2 : CanvasWidget)
    (hg : SameGeometry w1 w2) (c1 c2 : NautilusCanvasContainer) (icons : List Nat)
    (start_y : Rat) :
    LaidAlike w1 w2 (lay_down_icons_horizontal_loop k w1 c1 icons start_y).container
      (lay_down_icons_horizontal_loop k w2 c2 icons start_y).container (fun i => i ∈ icons) := by
  obtain ⟨e1, e2, _, _, _⟩ := same_geometry_fields hg
  have hflat := (lay_down_icons_horizontal_loop_frame k w1 c1 icons start_y).2.2
  unfold lay_down_icons_horizontal_loop at hflat ⊢
  dsimp only at hflat ⊢
  rw [e1, e2]
  generalize (lay_down_icons_horizontal_grid k w1.canvas_width w1.min_grid_width icons).grid_width
    = g at hflat ⊢
  obtain ⟨hs, ha⟩ := lay_down_icons_horizontal_fold_alike w1 w2 hg g icons
    { container := c1, line := [], y := start_y + CONTAINER_PAD_TOP, line_width := 0,
      max_height_above := 0, max_height_below := 0, lines := [] }
    { container := c2, line := [], y := start_y + CONTAINER_PAD_TOP, line_width := 0,
      max_height_above := 0, max_height_below := 0, lines := [] }
    ⟨rfl, rfl, rfl, rfl, rfl, rfl⟩ (fun i hi => absurd hi (by simp))
  generalize List.foldl (lay_down_icons_horizontal_step w1 g) _ icons = r1 at hs ha hflat ⊢
  generalize List.foldl (lay_down_icons_horizontal_step w2 g) _ icons = r2 at hs ha ⊢
  obtain ⟨h1, h2, _, h4, _, _⟩ := hs
  rw [h1, h2, h4]
  refine (lay_down_one_line_alike w1 w2 _ r1.line _ _ _ ha).alike_mono ?_
  intro i hi
  rw [← hflat] at hi
  simpa using hi

theorem lay_down_icons_frame (k : Collaborators) (w : CanvasWidget)
    (c : NautilusCanvasContainer) (icons : List Nat) (start_y : Rat) :
    HeapOnly c (lay_down_icons k w c icons start_y) ∧
      ∀ other, other ∉ icons → (lay_down_icons k w c icons start_y).heap other = c.heap other := by
  unfold lay_down_icons lay_down_icons_horizontal
  split_ifs
  · exact ⟨HeapOnly.heap_refl _, fun _ _ => rfl⟩
  · exact ⟨HeapOnly.heap_refl _, fun _ _ => rfl⟩
  · exact ⟨(lay_down_icons_horizontal_loop_frame k w c icons start_y).1,
      (lay_down_icons_horizontal_loop_frame k w c icons start_y).2.1⟩

theorem lay_down_icons_alike (k : Collaborators) (w1 w2 : CanvasWidget)
    (hg : SameGeometry w1 w2) (c1 c2 : NautilusCanvasContainer) (icons : List Nat)
    (start_y : Rat) (h1 : c1.has_been_allocated = true) (h2 : c2.has_been_allocated = true) :
    LaidAlike w1 w2 (lay_down_icons k w1 c1 icons start_y) (lay_down_icons k w2 c2 icons start_y)
      (fun i => i ∈ icons) := by
  unfold lay_down_icons lay_down_icons_horizontal
  by_cases he : icons = []
  · subst he
    intro i hi
    exact absurd hi (by simp)
  · simp only [h1, h2, he, if_false, Bool.true_eq_false]
    exact lay_down_icons_horizontal_loop_alike k w1 w2 hg c1 c2 icons start_y

/-! ## Lemmas: the layout pass -/

theorem HeapOnly.fields {c c1 : NautilusCanvasContainer} (h : HeapOnly c c1) :
    c1.icons = c.icons ∧ c1.new_icons = c.new_icons ∧ c1.needs_resort = c.needs_resort ∧
      c1.has_been_allocated = c.has_been_allocated ∧
      c1.pending_icon_to_reveal = c.pending_icon_to_reveal := by
  unfold HeapOnly at h
  rw [h]
  exact ⟨rfl, rfl, rfl, rfl, rfl⟩

theorem set_rtl_positions_fold (w : CanvasWidget) (l : List Nat) (c : NautilusCanvasContainer) :
    HeapOnly c (l.foldl (fun c icon =>
        icon_set_position c icon (get_mirror_x_position w icon (c.heap icon).saved_ltr_x)
          (c.heap icon).y) c) ∧
    ∀ i, ((l.foldl (fun c icon =>
        icon_set_position c icon (get_mirror_x_position w icon (c.heap icon).saved_ltr_x)
          (c.heap icon).y) c).heap i).saved_ltr_x = (c.heap i).saved_ltr_x ∧
      ((l.foldl (fun c icon =>
        icon_set_position c icon (get_mirror_x_position w icon (c.heap icon).saved_ltr_x)
          (c.heap icon).y) c).heap i).y = (c.heap i).y ∧
      ((l.foldl (fun c icon =>
        icon_set_position c icon (get_mirror_x_position w icon (c.heap icon).saved_ltr_x)
          (c.heap icon).y) c).heap i).x =
        (if i ∈ l then get_mirror_x_position w i (c.heap i).saved_ltr_x else (c.heap i).x) := by
  induction l generalizing c with
  | nil => exact ⟨HeapOnly.heap_refl _, fun i => ⟨rfl, rfl, by simp⟩⟩
  | cons icon rest ih =>
    obtain ⟨a1, a2, a3, a4, a5⟩ := icon_set_position_fields c icon
      (get_mirror_x_position w icon (c.heap icon).saved_ltr_x) (c.heap icon).y
    obtain ⟨b1, b2⟩ := ih (icon_set_position c icon
      (get_mirror_x_position w icon (c.heap icon).saved_ltr_x) (c.heap icon).y)
    simp only [List.foldl_cons]
    refine ⟨a1.heap_trans b1, ?_⟩
    intro i
    obtain ⟨e1, e2, e3⟩ := b2 i
    by_cases hi : i = icon
    · subst hi
      refine ⟨by rw [e1, a4], by rw [e2, a3], ?_⟩
      rw [e3, a4, a2]
      simp
    · refine ⟨by rw [e1, a5 i hi], by rw [e2, a5 i hi], ?_⟩
      rw [e3, a5 i hi]
      simp [hi]

theorem set_rtl_positions_fields (w : CanvasWidget) (c : NautilusCanvasContainer) :
    HeapOnly c (nautilus_canvas_container_set_rtl_positions w c) ∧
    ∀ i, ((nautilus_canvas_container_set_rtl_positions w c).heap i).saved_ltr_x =
        (c.heap i).saved_ltr_x ∧
      ((nautilus_canvas_container_set_rtl_positions w c).heap i).y = (c.heap i).y ∧
      ((nautilus_canvas_container_set_rtl_positions w c).heap i).x =
        (if i ∈ c.icons then get_mirror_x_position w i (c.heap i).saved_ltr_x
         else (c.heap i).x) := by
  unfold nautilus_canvas_container_set_rtl_positions
  split_ifs with he
  · refine ⟨HeapOnly.heap_refl _, fun i => ⟨rfl, rfl, ?_⟩⟩
    simp [he]
  · exact set_rtl_positions_fold w c.icons c

theorem process_pending_icon_to_reveal_fields (c : NautilusCanvasContainer) :
    (process_pending_icon_to_reveal c).heap = c.heap ∧
      (process_pending_icon_to_reveal c).icons = c.icons ∧
      (process_pending_icon_to_reveal c).new_icons = c.new_icons ∧
      (process_pending_icon_to_reveal c).needs_resort = c.needs_resort ∧
      (process_pending_icon_to_reveal c).has_been_allocated = c.has_been_allocated := by
  unfold process_pending_icon_to_reveal reveal_icon set_pending_icon_to_reveal
  split_ifs <;> exact ⟨rfl, rfl, rfl, rfl, rfl⟩

theorem redo_layout_internal_eq (k : Collaborators) (w : CanvasWidget)
    (c : NautilusCanvasContainer) :
    redo_layout_internal k w c =
      process_pending_icon_to_reveal
        (if w.is_layout_rtl then
          nautilus_canvas_container_set_rtl_positions w
            (lay_down_icons k w (redo_layout_sorted k c) (redo_layout_sorted k c).icons 0)
         else lay_down_icons k w (redo_layout_sorted k c) (redo_layout_sorted k c).icons 0) :=
  rfl

theorem finish_adding_new_icons_fold (l : List Nat) (c : NautilusCanvasContainer) :
    (l.foldl finish_adding_icon c).heap = c.heap ∧ (l.foldl finish_adding_icon c).icons = c.icons ∧
      (l.foldl finish_adding_icon c).new_icons = c.new_icons ∧
      (l.foldl finish_adding_icon c).needs_resort = c.needs_resort ∧
      (l.foldl finish_adding_icon c).has_been_allocated = c.has_been_allocated ∧
      (l.foldl finish_adding_icon c).selection = c.selection := by
  induction l generalizing c with
  | nil => exact ⟨rfl, rfl, rfl, rfl, rfl, rfl⟩
  | cons icon rest ih =>
    obtain ⟨a1, a2, a3, a4, a5, a6⟩ := ih (finish_adding_icon c icon)
    simp only [List.foldl_cons]
    exact ⟨a1, a2, a3, a4, a5, a6⟩

theorem cache_icon_positions_fold (l : List Nat) (s : NautilusCanvasContainer × Int) :
    HeapOnly s.1 (l.foldl (fun (s : NautilusCanvasContainer × Int) icon =>
      ({ s.1 with heap := Function.update s.1.heap icon { s.1.heap icon with position := s.2 } },
        s.2 + 1)) s).1 := by
  induction l generalizing s with
  | nil => exact HeapOnly.heap_refl _
  | cons icon rest ih =>
    simp only [List.foldl_cons]
    exact ((HeapOnly.heap_refl s.1).set_heap _).heap_trans (ih _)

theorem redo_layout_sorted_fields (k : Collaborators) (c : NautilusCanvasContainer) :
    (redo_layout_sorted k c).new_icons = [] ∧ (redo_layout_sorted k c).needs_resort = false ∧
      (redo_layout_sorted k c).has_been_allocated = c.has_been_allocated := by
  unfold redo_layout_sorted finish_adding_new_icons
  dsimp only
  obtain ⟨_, _, a3, a4, a5, _⟩ := finish_adding_new_icons_fold c.new_icons.reverse
    { c with new_icons := [] }
  split_ifs with hn
  · refine ⟨?_, rfl, ?_⟩
    · dsimp only
      unfold resort cache_icon_positions
      rw [(cache_icon_positions_fold _ _).fields.2.1]
      exact a3
    · dsimp only
      unfold resort cache_icon_positions
      rw [(cache_icon_positions_fold _ _).fields.2.2.2.1]
      exact a5
  · refine ⟨a3, ?_, a5⟩
    simpa using hn

theorem redo_layout_sorted_idem (k : Collaborators) (c : NautilusCanvasContainer)
    (h1 : c.new_icons = []) (h2 : c.needs_resort = false) : redo_layout_sorted k c = c := by
  unfold redo_layout_sorted finish_adding_new_icons
  dsimp only
  rw [h1]
  simp only [List.reverse_nil, List.foldl_nil, h2, Bool.false_eq_true, if_false]
  cases c
  simp only [NautilusCanvasContainer.mk.injEq, true_and, and_true] at h1 h2 ⊢
  exact ⟨h1.symm, h2.symm⟩

theorem lay_down_icons_again (k : Collaborators) (w : CanvasWidget)
    (a c1 : NautilusCanvasContainer) (icons : List Nat)
    (halloc : c1.has_been_allocated = a.has_been_allocated)
    (hsy : ∀ i, (c1.heap i).saved_ltr_x = ((lay_down_icons k w a icons 0).heap i).saved_ltr_x ∧
      (c1.heap i).y = ((lay_down_icons k w a icons 0).heap i).y)
    (i : Nat) :
    ((lay_down_icons k w c1 icons 0).heap i).saved_ltr_x =
        ((lay_down_icons k w a icons 0).heap i).saved_ltr_x ∧
      ((lay_down_icons k w c1 icons 0).heap i).y = ((lay_down_icons k w a icons 0).heap i).y ∧
      (a.has_been_allocated = true → i ∈ icons →
        Placed w (lay_down_icons k w c1 icons 0) i ∧ Placed w (lay_down_icons k w a icons 0) i) ∧
      (i ∉ icons → (lay_down_icons k w c1 icons 0).heap i = c1.heap i) ∧
      (a.has_been_allocated = false → (lay_down_icons k w c1 icons 0).heap i = c1.heap i) := by
  have hfr := (lay_down_icons_frame k w c1 icons 0).2
  have hna2 : a.has_been_allocated = false → (lay_down_icons k w c1 icons 0) = c1 := by
    intro hf
    unfold lay_down_icons lay_down_icons_horizontal
    rw [halloc, hf]
    simp
  refine ⟨?_, ?_, ?_, hfr i, fun hf => by rw [hna2 hf]⟩
  · by_cases hal : a.has_been_allocated = true
    · by_cases hi : i ∈ icons
      · exact ((lay_down_icons_alike k w w rfl c1 a icons 0 (halloc.trans hal) hal) i hi).1
      · rw [hfr i hi]
        exact (hsy i).1
    · have hf : a.has_been_allocated = false := by simpa using hal
      rw [hna2 hf]
      exact (hsy i).1
  · by_cases hal : a.has_been_allocated = true
    · by_cases hi : i ∈ icons
      · exact ((lay_down_icons_alike k w w rfl c1 a icons 0 (halloc.trans hal) hal) i hi).2.1
      · rw [hfr i hi]
        exact (hsy i).2
    · have hf : a.has_been_allocated = false := by simpa using hal
      rw [hna2 hf]
      exact (hsy i).2
  · intro hal hi
    exact ((lay_down_icons_alike k w w rfl c1 a icons 0 (halloc.trans hal) hal) i hi).2.2

/-! ## Lemmas: double arithmetic -/

theorem log2_fuel_spec (fuel : Nat) : ∀ n : Nat, n ≠ 0 → n ≤ fuel →
    2 ^ log2_fuel fuel n ≤ n ∧ n < 2 ^ (log2_fuel fuel n + 1) := by
  induction fuel with
  | zero =>
    intro n h0 hle
    omega
  | succ fuel ih =>
    intro n h0 hle
    unfold log2_fuel
    by_cases h2 : 2 ≤ n
    · rw [if_pos h2]
      obtain ⟨i1, i2⟩ := ih (n / 2) (by omega) (by omega)
      constructor
      · rw [pow_succ]
        omega
      · rw [pow_succ]
        omega
    · rw [if_neg h2]
      have : n = 1 := by omega
      subst this
      exact ⟨by norm_num, by norm_num⟩

theorem two_pow_eq (z : Int) : two_pow z = (2 : Rat) ^ z := by
  unfold two_pow
  rcases le_total 0 z with h | h
  · have h1 : (-z).toNat = 0 := by omega
    have h2 : ((z.toNat : Nat) : Int) = z := Int.toNat_of_nonneg h
    rw [h1]
    conv_rhs => rw [← h2]
    rw [zpow_natCast]
    push_cast
    simp
  · have h1 : z.toNat = 0 := by omega
    have h2 : (((-z).toNat : Nat) : Int) = -z := Int.toNat_of_nonneg (by omega)
    have h3 : z = -(((-z).toNat : Nat) : Int) := by omega
    rw [h1]
    conv_rhs => rw [h3]
    rw [zpow_neg, zpow_natCast]
    push_cast
    simp

theorem two_pow_pos (z : Int) : 0 < two_pow z := by
  rw [two_pow_eq]
  positivity

theorem double_exponent_le (a : Rat) (ha : 0 < a) : two_pow (double_exponent a) ≤ a := by
  have hnum : 0 < a.num := Rat.num_pos.mpr ha
  have hn0 : a.num.natAbs ≠ 0 := by omega
  have hd0 : a.den ≠ 0 := a.den_nz
  obtain ⟨n1, _⟩ := log2_fuel_spec a.num.natAbs a.num.natAbs hn0 le_rfl
  obtain ⟨_, d2⟩ := log2_fuel_spec a.den a.den hd0 le_rfl
  have hcast : (a.num.natAbs : Rat) = (a.num : Rat) := by
    have h := Int.natAbs_of_nonneg hnum.le
    calc (a.num.natAbs : Rat) = (((a.num.natAbs : Nat) : Int) : Rat) := (Int.cast_natCast _).symm
      _ = (a.num : Rat) := by rw [h]
  have hval : a = (a.num.natAbs : Rat) / (a.den : Rat) := by
    rw [hcast]
    exact (Rat.num_div_den a).symm
  have hdpos : (0 : Rat) < (a.den : Rat) := by exact_mod_cast a.den_pos
  unfold double_exponent
  dsimp only
  split_ifs with h
  · unfold two_pow
    have hp : (0 : Rat) < ((2 ^ (-((log2_fuel a.num.natAbs a.num.natAbs : Int) -
        (log2_fuel a.den a.den : Int))).toNat : Nat) : Rat) := by positivity
    refine le_of_le_of_eq ?_ hval.symm
    rw [div_le_iff₀ hp, div_mul_eq_mul_div, le_div_iff₀ hdpos]
    have h' : ((a.den * 2 ^ ((log2_fuel a.num.natAbs a.num.natAbs : Int) -
        (log2_fuel a.den a.den : Int)).toNat : Nat) : Rat) ≤
        ((a.num.natAbs * 2 ^ (-((log2_fuel a.num.natAbs a.num.natAbs : Int) -
        (log2_fuel a.den a.den : Int))).toNat : Nat) : Rat) := by exact_mod_cast h
    push_cast at h' ⊢
    linarith
  · rw [two_pow_eq, zpow_sub₀ (by norm_num : (2 : Rat) ≠ 0),
      zpow_sub₀ (by norm_num : (2 : Rat) ≠ 0), zpow_natCast, zpow_natCast, zpow_one]
    have hn : ((2 : Rat) ^ log2_fuel a.num.natAbs a.num.natAbs) ≤ (a.num.natAbs : Rat) := by
      exact_mod_cast n1
    have hd : (a.den : Rat) ≤ (2 : Rat) ^ log2_fuel a.den a.den * 2 := by
      have : a.den ≤ 2 ^ log2_fuel a.den a.den * 2 := by
        rw [← pow_succ]
        exact d2.le
      exact_mod_cast this
    have hp : (0 : Rat) < (2 : Rat) ^ log2_fuel a.den a.den * 2 := by positivity
    refine le_of_le_of_eq ?_ hval.symm
    rw [div_div, div_le_div_iff₀ hp hdpos]
    have hn' : (0 : Rat) ≤ (2 : Rat) ^ log2_fuel a.num.natAbs a.num.natAbs := by positivity
    nlinarith

theorem round_half_even_error (m : Rat) : |((round_half_even m : Int) : Rat) - m| ≤ 1 / 2 := by
  have h1 : ((Int.floor m : Int) : Rat) ≤ m := Int.floor_le m
  have h2 : m < ((Int.floor m : Int) : Rat) + 1 := Int.lt_floor_add_one m
  unfold round_half_even
  dsimp only
  rw [abs_le]
  split_ifs with a b c
  · constructor <;> linarith
  · push_cast
    constructor <;> linarith
  · have : m - (Int.floor m : Rat) = 1 / 2 := le_antisymm (not_lt.mp b) (not_lt.mp a)
    constructor <;> linarith
  · have : m - (Int.floor m : Rat) = 1 / 2 := le_antisymm (not_lt.mp b) (not_lt.mp a)
    push_cast
    constructor <;> linarith

theorem double_round_error (x : Rat) : |double_round x - x| ≤ |x| / 2 ^ 53 := by
  unfold double_round
  by_cases hx : x = 0
  · rw [if_pos hx, hx]
    simp
  · rw [if_neg hx]
    dsimp only
    have ha : 0 < |x| := abs_pos.mpr hx
    have hq : 0 < two_pow (double_exponent |x| - 52) := two_pow_pos _
    have hle : two_pow (double_exponent |x| - 52) ≤ |x| / 2 ^ 52 := by
      rw [two_pow_eq, zpow_sub₀ (by norm_num : (2 : Rat) ≠ 0), ← two_pow_eq]
      have := double_exponent_le |x| ha
      have e : ((2 : Rat) ^ (52 : Int)) = 2 ^ 52 := by norm_cast
      rw [e]
      exact div_le_div_of_nonneg_right this (by positivity)
    have herr := round_half_even_error (|x| / two_pow (double_exponent |x| - 52))
    generalize round_half_even (|x| / two_pow (double_exponent |x| - 52)) = n at herr
    generalize two_pow (double_exponent |x| - 52) = q at hq hle herr
    have key : abs ((n : Rat) * q - abs x) ≤ |x| / 2 ^ 53 := by
      have e : (n : Rat) * q - abs x = ((n : Rat) - abs x / q) * q := by
        field_simp
      rw [e, abs_mul, abs_of_pos hq]
      have : abs ((n : Rat) - abs x / q) * q ≤ 1 / 2 * q :=
        mul_le_mul_of_nonneg_right herr hq.le
      have e2 : |x| / 2 ^ 53 = 1 / 2 * (|x| / 2 ^ 52) := by ring
      rw [e2]
      linarith
    split_ifs with hneg
    · rw [abs_of_neg hneg] at key ⊢
      have e : -((n : Rat) * q) - x = -((n : Rat) * q - -x) := by ring
      rw [e, abs_neg]
      exact key
    · have hpos : 0 ≤ x := not_lt.mp hneg
      rw [abs_of_nonneg hpos] at key ⊢
      exact key

theorem double_exponent_lt (a : Rat) (ha : 0 < a) : a < two_pow (double_exponent a + 1) := by
  have hnum : 0 < a.num := Rat.num_pos.mpr ha
  have hn0 : a.num.natAbs ≠ 0 := by omega
  have hd0 : a.den ≠ 0 := a.den_nz
  obtain ⟨_, n2⟩ := log2_fuel_spec a.num.natAbs a.num.natAbs hn0 le_rfl
  obtain ⟨d1, _⟩ := log2_fuel_spec a.den a.den hd0 le_rfl
  have hcast : (a.num.natAbs : Rat) = (a.num : Rat) := by
    have h := Int.natAbs_of_nonneg hnum.le
    calc (a.num.natAbs : Rat) = (((a.num.natAbs : Nat) : Int) : Rat) := (Int.cast_natCast _).symm
      _ = (a.num : Rat) := by rw [h]
  have hval : a = (a.num.natAbs : Rat) / (a.den : Rat) := by
    rw [hcast]
    exact (Rat.num_div_den a).symm
  have hdpos : (0 : Rat) < (a.den : Rat) := by exact_mod_cast a.den_pos
  unfold double_exponent
  dsimp only
  split_ifs with h
  · rw [two_pow_eq, zpow_add₀ (by norm_num : (2 : Rat) ≠ 0),
      zpow_sub₀ (by norm_num : (2 : Rat) ≠ 0), zpow_natCast, zpow_natCast, zpow_one]
    have hn : (a.num.natAbs : Rat) < (2 : Rat) ^ log2_fuel a.num.natAbs a.num.natAbs * 2 := by
      have : a.num.natAbs < 2 ^ log2_fuel a.num.natAbs a.num.natAbs * 2 := by
        rw [← pow_succ]
        exact n2
      exact_mod_cast this
    have hd : (2 : Rat) ^ log2_fuel a.den a.den ≤ (a.den : Rat) := by exact_mod_cast d1
    have hp : (0 : Rat) < (2 : Rat) ^ log2_fuel a.den a.den := by positivity
    refine lt_of_eq_of_lt hval ?_
    rw [div_mul_eq_mul_div, div_lt_div_iff₀ hdpos hp]
    have hn' : (0 : Rat) < (2 : Rat) ^ log2_fuel a.num.natAbs a.num.natAbs := by positivity
    nlinarith
  · have e : (log2_fuel a.num.natAbs a.num.natAbs : Int) - (log2_fuel a.den a.den : Int) - 1 + 1 =
        (log2_fuel a.num.natAbs a.num.natAbs : Int) - (log2_fuel a.den a.den : Int) := by ring
    rw [e]
    unfold two_pow
    have hp : (0 : Rat) < ((2 ^ (-((log2_fuel a.num.natAbs a.num.natAbs : Int) -
        (log2_fuel a.den a.den : Int))).toNat : Nat) : Rat) := by positivity
    refine lt_of_eq_of_lt hval ?_
    rw [div_lt_div_iff₀ hdpos hp]
    have h' : ((a.num.natAbs * 2 ^ (-((log2_fuel a.num.natAbs a.num.natAbs : Int) -
        (log2_fuel a.den a.den : Int))).toNat : Nat) : Rat) <
        ((a.den * 2 ^ ((log2_fuel a.num.natAbs a.num.natAbs : Int) -
        (log2_fuel a.den a.den : Int)).toNat : Nat) : Rat) := by exact_mod_cast not_le.mp h
    push_cast at h' ⊢
    linarith

theorem round_half_even_mono_bounds (m : Rat) (lo hi : Int) (h1 : (lo : Rat) ≤ m)
    (h2 : m ≤ (hi : Rat)) : lo ≤ round_half_even m ∧ round_half_even m ≤ hi := by
  have hf1 : lo ≤ Int.floor m := Int.le_floor.mpr h1
  have hfl : ((Int.floor m : Int) : Rat) ≤ m := Int.floor_le m
  unfold round_half_even
  dsimp only
  have hup : m - (Int.floor m : Rat) ≠ 0 → Int.floor m + 1 ≤ hi := by
    intro hne
    have hlt : ((Int.floor m : Int) : Rat) < (hi : Rat) := by
      rcases lt_or_eq_of_le hfl with h | h
      · exact lt_of_lt_of_le h h2
      · exact absurd (by rw [h]; ring) hne
    have : Int.floor m < hi := by exact_mod_cast hlt
    omega
  have hf2 : Int.floor m ≤ hi := by
    have : ((Int.floor m : Int) : Rat) ≤ (hi : Rat) := le_trans hfl h2
    exact_mod_cast this
  split_ifs with a b c
  · exact ⟨hf1, hf2⟩
  · refine ⟨by omega, hup ?_⟩
    intro h0
    rw [h0] at b
    norm_num at b
  · exact ⟨hf1, hf2⟩
  · refine ⟨by omega, hup ?_⟩
    intro h0
    rw [h0] at a
    norm_num at a

/-- The value that `double_round` returns is a significand of 53 bits, or `2 ^ 53`, times the
unit `2 ^ (e - 52)` of the binary exponent `e` of the exact value, with the sign of the exact
value, and the significand is within 1/2 of the exact value in units. -/
theorem double_round_significand (x : Rat) (hx : x ≠ 0) :
    ∃ n : Int, (2 : Int) ^ 52 ≤ n ∧ n ≤ (2 : Int) ^ 53 ∧
      abs ((n : Rat) - abs x / two_pow (double_exponent (abs x) - 52)) ≤ 1 / 2 ∧
      double_round x =
        (if x < 0 then -((n : Rat) * two_pow (double_exponent (abs x) - 52))
         else (n : Rat) * two_pow (double_exponent (abs x) - 52)) := by
  have ha : 0 < abs x := abs_pos.mpr hx
  have hq : 0 < two_pow (double_exponent (abs x) - 52) := two_pow_pos _
  have h1 := double_exponent_le (abs x) ha
  have h2 := double_exponent_lt (abs x) ha
  have e1 : two_pow (double_exponent (abs x)) =
      two_pow (double_exponent (abs x) - 52) * 2 ^ 52 := by
    rw [two_pow_eq, two_pow_eq, zpow_sub₀ (by norm_num : (2 : Rat) ≠ 0)]
    have e : ((2 : Rat) ^ (52 : Int)) = 2 ^ 52 := by norm_cast
    rw [e]
    field_simp
  have e2 : two_pow (double_exponent (abs x) + 1) =
      two_pow (double_exponent (abs x) - 52) * 2 ^ 53 := by
    rw [two_pow_eq, two_pow_eq, zpow_sub₀ (by norm_num : (2 : Rat) ≠ 0),
      zpow_add₀ (by norm_num : (2 : Rat) ≠ 0)]
    have e : ((2 : Rat) ^ (52 : Int)) = 2 ^ 52 := by norm_cast
    rw [e, zpow_one]
    field_simp
    ring
  rw [e1] at h1
  rw [e2] at h2
  have b1 : (((2 : Int) ^ 52 : Int) : Rat) ≤ abs x / two_pow (double_exponent (abs x) - 52) := by
    rw [le_div_iff₀ hq]
    push_cast
    linarith
  have b2 : abs x / two_pow (double_exponent (abs x) - 52) ≤ (((2 : Int) ^ 53 : Int) : Rat) := by
    rw [div_le_iff₀ hq]
    push_cast
    linarith
  obtain ⟨r1, r2⟩ := round_half_even_mono_bounds _ _ _ b1 b2
  refine ⟨round_half_even (abs x / two_pow (double_exponent (abs x) - 52)), r1, r2,
    round_half_even_error _, ?_⟩
  unfold double_round
  rw [if_neg hx]

/-- The rounding on sample values: 268 and the powers of two are kept, 256/3 and -1/10 go to the
nearest `double`, and the ties `2 ^ 53 + 1` and `2 ^ 53 + 3` go to the even significand. -/
theorem double_round_samples :
    double_round 268 = 268 ∧ double_round (1 / 1024) = 1 / 1024 ∧
      double_round (256 / 3) = 6004799503160661 / 70368744177664 ∧
      double_round (-(1 / 10)) = -(3602879701896397 / 36028797018963968) ∧
      double_round 9007199254740993 = 9007199254740992 ∧
      double_round 9007199254740995 = 9007199254740996 := by
  refine ⟨?_, ?_, ?_, ?_, ?_, ?_⟩ <;> decide!

/-! ## C12 and C13: the layout pass -/

/-- C12: for every container state, every widget (canvas width, grid width and icon size of the
zoom level, text direction, item rectangles) and every comparison of the container class, running
`redo_layout_internal` a second time on the state that the first pass left, with the same
widget, leaves the x, the y and the saved left-to-right x of every icon as the first pass left
them, and leaves the icon list in the same order; the text direction of the widget is arbitrary,
so that this holds in left-to-right and in right-to-left mode. -/
theorem C12_layout_pass_is_idempotent (k : Collaborators) (w : CanvasWidget)
    (c : NautilusCanvasContainer) :
    (redo_layout_internal k w (redo_layout_internal k w c)).icons =
        (redo_layout_internal k w c).icons ∧
    ∀ icon,
      ((redo_layout_internal k w (redo_layout_internal k w c)).heap icon).x =
          ((redo_layout_internal k w c).heap icon).x ∧
        ((redo_layout_internal k w (redo_layout_internal k w c)).heap icon).y =
          ((redo_layout_internal k w c).heap icon).y ∧
        ((redo_layout_internal k w (redo_layout_internal k w c)).heap icon).saved_ltr_x =
          ((redo_layout_internal k w c).heap icon).saved_ltr_x := by
  obtain ⟨a, ha⟩ : ∃ a, a = redo_layout_sorted k c := ⟨_, rfl⟩
  obtain ⟨c1, hc1⟩ : ∃ c1, c1 = redo_layout_internal k w c := ⟨_, rfl⟩
  obtain ⟨a1, a2, _⟩ := redo_layout_sorted_fields k c
  rw [← ha] at a1 a2
  obtain ⟨fb, frb⟩ := lay_down_icons_frame k w a a.icons 0
  obtain ⟨b1, b2, b3, b4, _⟩ := fb.fields
  rw [← hc1]
  have e1 := redo_layout_internal_eq k w c
  rw [← hc1, ← ha] at e1
  obtain ⟨p1, p2, p3, p4, p5⟩ := process_pending_icon_to_reveal_fields
    (if w.is_layout_rtl then nautilus_canvas_container_set_rtl_positions w
      (lay_down_icons k w a a.icons 0) else lay_down_icons k w a a.icons 0)
  rw [← e1] at p1 p2 p3 p4 p5
  obtain ⟨r1, r2⟩ := set_rtl_positions_fields w (lay_down_icons k w a a.icons 0)
  obtain ⟨q1, q2, q3, q4, _⟩ := r1.fields
  have hicons : c1.icons = a.icons := by
    rw [p2]
    split_ifs
    · rw [q1, b1]
    · exact b1
  have hnew : c1.new_icons = [] := by
    rw [p3]
    split_ifs
    · rw [q2, b2, a1]
    · rw [b2, a1]
  have hres : c1.needs_resort = false := by
    rw [p4]
    split_ifs
    · rw [q3, b3, a2]
    · rw [b3, a2]
  have halloc : c1.has_been_allocated = a.has_been_allocated := by
    rw [p5]
    split_ifs
    · rw [q4, b4]
    · exact b4
  have e2 := redo_layout_internal_eq k w c1
  rw [redo_layout_sorted_idem k c1 hnew hres, hicons] at e2
  obtain ⟨s1, s2, _⟩ := process_pending_icon_to_reveal_fields
    (if w.is_layout_rtl then nautilus_canvas_container_set_rtl_positions w
      (lay_down_icons k w c1 a.icons 0) else lay_down_icons k w c1 a.icons 0)
  rw [← e2] at s1 s2
  obtain ⟨fb2, _⟩ := lay_down_icons_frame k w c1 a.icons 0
  obtain ⟨t1, t2⟩ := set_rtl_positions_fields w (lay_down_icons k w c1 a.icons 0)
  have hb2icons : (lay_down_icons k w c1 a.icons 0).icons = a.icons := by
    rw [fb2.fields.1, hicons]
  have hsy : ∀ i, (c1.heap i).saved_ltr_x = ((lay_down_icons k w a a.icons 0).heap i).saved_ltr_x ∧
      (c1.heap i).y = ((lay_down_icons k w a a.icons 0).heap i).y := by
    intro i
    rw [p1]
    split_ifs
    · exact ⟨(r2 i).1, (r2 i).2.1⟩
    · exact ⟨rfl, rfl⟩
  refine ⟨?_, ?_⟩
  · rw [s2]
    split_ifs
    · rw [t1.fields.1, hb2icons, hicons]
    · rw [hb2icons, hicons]
  · intro i
    obtain ⟨u1, u2, u3, u4, u5⟩ := lay_down_icons_again k w a c1 a.icons halloc hsy i
    rw [s1, p1]
    by_cases hr : w.is_layout_rtl = true
    · simp only [hr, if_true]
      obtain ⟨v1, v2, v3⟩ := t2 i
      obtain ⟨w1, w2, w3⟩ := r2 i
      rw [v1, v2, v3, w1, w2, w3, u1, u2, hb2icons, b1]
      refine ⟨?_, rfl, rfl⟩
      by_cases hi : i ∈ a.icons
      · simp only [hi, if_true]
      · simp only [hi, if_false]
        rw [u4 hi, p1]
        simp only [hr, if_true]
        rw [w3, b1]
        simp only [hi, if_false]
    · have hr2 : w.is_layout_rtl = false := by simpa using hr
      simp only [hr2, Bool.false_eq_true, if_false] at p1 ⊢
      refine ⟨?_, u2, u1⟩
      by_cases hal : a.has_been_allocated = true
      · by_cases hi : i ∈ a.icons
        · obtain ⟨x1, x2⟩ := u3 hal hi
          unfold Placed at x1 x2
          simp only [hr2, Bool.false_eq_true, if_false] at x1 x2
          rw [x1, x2, u1]
        · rw [u4 hi, p1]
      · have hf : a.has_been_allocated = false := by simpa using hal
        rw [u5 hf, p1]

/-- C13, as amended: for every container that has been allocated, every widget in right-to-left
mode and every icon of the list that `redo_layout_internal` lays out, the saved left-to-right x of
the icon is the x that the same pass gives the icon in left-to-right mode, and the final x is
canvas width - left-to-right x - width of the image evaluated in `double` arithmetic, each of the
three subtractions rounded to the nearest `double`.  So the final x and the width of the image add
up to the canvas width minus the left-to-right x when the three subtractions are exact, and
otherwise miss it by at most `2 ^ -53` times the sum of the magnitudes of the three differences. -/
theorem C13_rtl_positions_mirror_ltr (k : Collaborators) (w : CanvasWidget)
    (c : NautilusCanvasContainer) (hrtl : w.is_layout_rtl = true)
    (halloc : c.has_been_allocated = true) :
    ∀ icon ∈ (redo_layout_internal k w c).icons,
      ((redo_layout_internal k w c).heap icon).saved_ltr_x =
        ((redo_layout_internal k { w with is_layout_rtl := false } c).heap icon).x ∧
      ((redo_layout_internal k w c).heap icon).x =
        double_sub
          (double_sub w.canvas_width
            ((redo_layout_internal k { w with is_layout_rtl := false } c).heap icon).x)
          (double_sub (w.nautilus_canvas_item_get_icon_rectangle icon).x1
            (w.nautilus_canvas_item_get_icon_rectangle icon).x0) ∧
      |((redo_layout_internal k w c).heap icon).x +
            ((w.nautilus_canvas_item_get_icon_rectangle icon).x1 -
              (w.nautilus_canvas_item_get_icon_rectangle icon).x0) -
          (w.canvas_width -
            ((redo_layout_internal k { w with is_layout_rtl := false } c).heap icon).x)| ≤
        (|w.canvas_width -
              ((redo_layout_internal k { w with is_layout_rtl := false } c).heap icon).x| +
            |(w.nautilus_canvas_item_get_icon_rectangle icon).x1 -
              (w.nautilus_canvas_item_get_icon_rectangle icon).x0| +
            |double_sub w.canvas_width
                ((redo_layout_internal k { w with is_layout_rtl := false } c).heap icon).x -
              double_sub (w.nautilus_canvas_item_get_icon_rectangle icon).x1
                (w.nautilus_canvas_item_get_icon_rectangle icon).x0|) / 2 ^ 53 ∧
      (double_sub w.canvas_width
            ((redo_layout_internal k { w with is_layout_rtl := false } c).heap icon).x =
          w.canvas_width -
            ((redo_layout_internal k { w with is_layout_rtl := false } c).heap icon).x →
        double_sub (w.nautilus_canvas_item_get_icon_rectangle icon).x1
            (w.nautilus_canvas_item_get_icon_rectangle icon).x0 =
          (w.nautilus_canvas_item_get_icon_rectangle icon).x1 -
            (w.nautilus_canvas_item_get_icon_rectangle icon).x0 →
        double_sub
            (w.canvas_width -
              ((redo_layout_internal k { w with is_layout_rtl := false } c).heap icon).x)
            ((w.nautilus_canvas_item_get_icon_rectangle icon).x1 -
              (w.nautilus_canvas_item_get_icon_rectangle icon).x0) =
          w.canvas_width -
              ((redo_layout_internal k { w with is_layout_rtl := false } c).heap icon).x -
            ((w.nautilus_canvas_item_get_icon_rectangle icon).x1 -
              (w.nautilus_canvas_item_get_icon_rectangle icon).x0) →
        ((redo_layout_internal k w c).heap icon).x +
            ((w.nautilus_canvas_item_get_icon_rectangle icon).x1 -
              (w.nautilus_canvas_item_get_icon_rectangle icon).x0) =
          w.canvas_width -
            ((redo_layout_internal k { w with is_layout_rtl := false } c).heap icon).x) := by
  obtain ⟨a, ha⟩ : ∃ a, a = redo_layout_sorted k c := ⟨_, rfl⟩
  obtain ⟨_, _, a3⟩ := redo_layout_sorted_fields k c
  rw [← ha] at a3
  have hal : a.has_been_allocated = true := a3.trans halloc
  have e1 := redo_layout_internal_eq k w c
  have e2 := redo_layout_internal_eq k { w with is_layout_rtl := false } c
  rw [← ha] at e1 e2
  simp only [hrtl, if_true] at e1
  simp only [Bool.false_eq_true, if_false] at e2
  obtain ⟨p1, p2, _⟩ := process_pending_icon_to_reveal_fields
    (nautilus_canvas_container_set_rtl_positions w (lay_down_icons k w a a.icons 0))
  obtain ⟨q1, _⟩ := process_pending_icon_to_reveal_fields
    (lay_down_icons k { w with is_layout_rtl := false } a a.icons 0)
  rw [← e1] at p1 p2
  rw [← e2] at q1
  obtain ⟨r1, r2⟩ := set_rtl_positions_fields w (lay_down_icons k w a a.icons 0)
  obtain ⟨fb, _⟩ := lay_down_icons_frame k w a a.icons 0
  have hicons : (redo_layout_internal k w c).icons = a.icons := by
    rw [p2, r1.fields.1, fb.fields.1]
  intro icon hi
  rw [hicons] at hi
  obtain ⟨s1, _, _, s4⟩ := lay_down_icons_alike k w { w with is_layout_rtl := false } rfl a a
    a.icons 0 hal hal icon hi
  unfold Placed at s4
  simp only [Bool.false_eq_true, if_false] at s4
  obtain ⟨t1, _, t3⟩ := r2 icon
  rw [fb.fields.1] at t3
  simp only [hi, if_true] at t3
  rw [p1, q1, t1, t3, s4, s1]
  unfold get_mirror_x_position
  dsimp only
  generalize ((lay_down_icons k { w with is_layout_rtl := false } a a.icons 0).heap
    icon).saved_ltr_x = xl
  generalize (w.nautilus_canvas_item_get_icon_rectangle icon).x1 = x1
  generalize (w.nautilus_canvas_item_get_icon_rectangle icon).x0 = x0
  refine ⟨rfl, rfl, ?_, ?_⟩
  · have d1 := abs_le.mp (double_round_error (w.canvas_width - xl))
    have d2 := abs_le.mp (double_round_error (x1 - x0))
    have d3 := abs_le.mp (double_round_error
      (double_sub w.canvas_width xl - double_sub x1 x0))
    have e : (|w.canvas_width - xl| + |x1 - x0| +
        |double_sub w.canvas_width xl - double_sub x1 x0|) / 2 ^ 53 =
        |w.canvas_width - xl| / 2 ^ 53 + |x1 - x0| / 2 ^ 53 +
          |double_sub w.canvas_width xl - double_sub x1 x0| / 2 ^ 53 := by ring
    rw [e, abs_le]
    have u1 : double_sub w.canvas_width xl = double_round (w.canvas_width - xl) := rfl
    have u2 : double_sub x1 x0 = double_round (x1 - x0) := rfl
    have u3 : double_sub (double_sub w.canvas_width xl) (double_sub x1 x0) =
        double_round (double_sub w.canvas_width xl - double_sub x1 x0) := rfl
    rw [← u1] at d1
    rw [← u2] at d2
    rw [← u3] at d3
    constructor <;> linarith [d1.1, d1.2, d2.1, d2.2, d3.1, d3.2]
  · intro h1 h2 h3
    rw [h1, h2, h3]
    ring

/-- Witness of C13 as amended: the five icons of the sample container in the sample widget in
right-to-left mode; the first icon stands at 303/4, its image is 40 wide and its left-to-right x
is 57/4, and 303/4 + 40 = 130 - 57/4, none of the subtractions being rounded. -/
theorem C13_rtl_positions_mirror_ltr_witness :
    sample_widget_rtl.is_layout_rtl = true ∧ sample_five.has_been_allocated = true ∧
      ((redo_layout_internal sample_collaborators sample_widget_rtl sample_five).heap 1).x =
        303 / 4 ∧
      ((redo_layout_internal sample_collaborators
        { sample_widget_rtl with is_layout_rtl := false } sample_five).heap 1).x = 57 / 4 ∧
      ∀ icon ∈ (redo_layout_internal sample_collaborators sample_widget_rtl sample_five).icons,
        ((redo_layout_internal sample_collaborators sample_widget_rtl sample_five).heap
            icon).saved_ltr_x =
          ((redo_layout_internal sample_collaborators
            { sample_widget_rtl with is_layout_rtl := false } sample_five).heap icon).x ∧
        ((redo_layout_internal sample_collaborators sample_widget_rtl sample_five).heap icon).x =
          double_sub
            (double_sub sample_widget_rtl.canvas_width
              ((redo_layout_internal sample_collaborators
                { sample_widget_rtl with is_layout_rtl := false } sample_five).heap icon).x)
            (double_sub (sample_widget_rtl.nautilus_canvas_item_get_icon_rectangle icon).x1
              (sample_widget_rtl.nautilus_canvas_item_get_icon_rectangle icon).x0) :=
  ⟨rfl, by decide, by decide!, by decide!, fun icon hi =>
    ⟨(C13_rtl_positions_mirror_ltr sample_collaborators sample_widget_rtl sample_five rfl
        (by decide) icon hi).1,
      (C13_rtl_positions_mirror_ltr sample_collaborators sample_widget_rtl sample_five rfl
        (by decide) icon hi).2.1⟩⟩

/-- Counterexample to C13 as stated: the five icons of the sample container in the sample widget
at 3/4 pixels per unit (canvas width 268, image width the double nearest to 256/3) in
right-to-left mode.  The first icon has the saved left-to-right x 4 + (259/2 - width) / 2 =
3670902821268139 / 2 ^ 47, which is its x in left-to-right mode and which `double` arithmetic
computes without rounding; 268 minus that is rounded to 8511686014489941 / 2 ^ 45, and the final x
is 2754643131454805 / 2 ^ 44.  The final x plus the width of the image is 3 / 2 ^ 47 short of the
canvas width minus the saved left-to-right x, and the two sides differ also when each is rounded to
a `double` (241.91666666666663 and 241.91666666666666). -/
theorem C13_rtl_positions_mirror_ltr_counterexample :
    sample_widget_zoomed_rtl.is_layout_rtl = true ∧ sample_five.has_been_allocated = true ∧
      1 ∈ (redo_layout_internal sample_collaborators sample_widget_zoomed_rtl sample_five).icons ∧
      ((redo_layout_internal sample_collaborators sample_widget_zoomed_rtl sample_five).heap
        1).saved_ltr_x = 3670902821268139 / 140737488355328 ∧
      ((redo_layout_internal sample_collaborators
        { sample_widget_zoomed_rtl with is_layout_rtl := false } sample_five).heap 1).x =
          3670902821268139 / 140737488355328 ∧
      ((redo_layout_internal sample_collaborators sample_widget_zoomed_rtl sample_five).heap
        1).x = 2754643131454805 / 17592186044416 ∧
      ((redo_layout_internal sample_collaborators sample_widget_zoomed_rtl sample_five).heap
          1).x +
          ((sample_widget_zoomed_rtl.nautilus_canvas_item_get_icon_rectangle 1).x1 -
            (sample_widget_zoomed_rtl.nautilus_canvas_item_get_icon_rectangle 1).x0) -
        (sample_widget_zoomed_rtl.canvas_width -
          ((redo_layout_internal sample_collaborators sample_widget_zoomed_rtl sample_five).heap
            1).saved_ltr_x) = -(3 / 140737488355328) ∧
      ¬ (((redo_layout_internal sample_collaborators sample_widget_zoomed_rtl sample_five).heap
          1).x +
          ((sample_widget_zoomed_rtl.nautilus_canvas_item_get_icon_rectangle 1).x1 -
            (sample_widget_zoomed_rtl.nautilus_canvas_item_get_icon_rectangle 1).x0) =
        sample_widget_zoomed_rtl.canvas_width -
          ((redo_layout_internal sample_collaborators sample_widget_zoomed_rtl sample_five).heap
            1).saved_ltr_x) ∧
      double_round
          (((redo_layout_internal sample_collaborators sample_widget_zoomed_rtl sample_five).heap
            1).x +
            double_sub (sample_widget_zoomed_rtl.nautilus_canvas_item_get_icon_rectangle 1).x1
              (sample_widget_zoomed_rtl.nautilus_canvas_item_get_icon_rectangle 1).x0) =
        2127921503622485 / 8796093022208 ∧
      double_sub sample_widget_zoomed_rtl.canvas_width
          ((redo_layout_internal sample_collaborators sample_widget_zoomed_rtl sample_five).heap
            1).saved_ltr_x = 8511686014489941 / 35184372088832 := by
  have hs : ((redo_layout_internal sample_collaborators sample_widget_zoomed_rtl
      sample_five).heap 1).saved_ltr_x = 3670902821268139 / 140737488355328 := by decide!
  have hx : ((redo_layout_internal sample_collaborators sample_widget_zoomed_rtl
      sample_five).heap 1).x = 2754643131454805 / 17592186044416 := by decide!
  have hw : (sample_widget_zoomed_rtl.nautilus_canvas_item_get_icon_rectangle 1).x1 -
      (sample_widget_zoomed_rtl.nautilus_canvas_item_get_icon_rectangle 1).x0 =
      6004799503160661 / 70368744177664 := by decide!
  have hc : sample_widget_zoomed_rtl.canvas_width = 268 := rfl
  refine ⟨rfl, by decide, by decide!, hs, by decide!, hx, ?_, ?_, ?_, ?_⟩
  · rw [hs, hx, hw, hc]
    norm_num
  · rw [hs, hx, hw, hc]
    norm_num
  · rw [hx]
    decide!
  · rw [hs]
    decide!

/-! ## Lemmas: rows of single-cell items -/

theorem lay_down_icon_width_single_cell (w : CanvasWidget) (g : Rat) (icon : Nat)
    (hs : 0 < w.icon_size) (hsg : w.icon_size ≤ g)
    (hb : (w.nautilus_canvas_item_get_bounds_for_layout icon).x1 -
      (w.nautilus_canvas_item_get_bounds_for_layout icon).x0 ≤ g) :
    lay_down_icon_width w g icon = g := by
  unfold lay_down_icon_width
  dsimp only
  have hg : 0 < g := lt_of_lt_of_le hs hsg
  have hm1 : 0 < MAX ((w.nautilus_canvas_item_get_bounds_for_layout icon).x1 -
      (w.nautilus_canvas_item_get_bounds_for_layout icon).x0) w.icon_size := by
    rw [MAX_eq_max]
    exact lt_of_lt_of_le hs (le_max_right _ _)
  have hm2 : MAX ((w.nautilus_canvas_item_get_bounds_for_layout icon).x1 -
      (w.nautilus_canvas_item_get_bounds_for_layout icon).x0) w.icon_size ≤ g := by
    rw [MAX_eq_max]
    exact max_le hb hsg
  have hc : Int.ceil (MAX ((w.nautilus_canvas_item_get_bounds_for_layout icon).x1 -
      (w.nautilus_canvas_item_get_bounds_for_layout icon).x0) w.icon_size / g) = 1 := by
    rw [Int.ceil_eq_iff]
    constructor
    · simpa using div_pos hm1 hg
    · simpa using (div_le_one hg).mpr hm2
  rw [hc]
  simp

theorem lay_down_fold_line_not_empty (w : CanvasWidget) (g : Rat) (l : List Nat)
    (s : lay_down_icons_horizontal_state) (h : s.line ≠ [] ∨ l ≠ [])
    (hrows : ∀ row ∈ s.lines, row ≠ []) :
    (l.foldl (lay_down_icons_horizontal_step w g) s).line ≠ [] ∧
      ∀ row ∈ (l.foldl (lay_down_icons_horizontal_step w g) s).lines, row ≠ [] := by
  induction l generalizing s with
  | nil =>
    refine ⟨?_, hrows⟩
    rcases h with h | h
    · exact h
    · exact absurd rfl h
  | cons icon rest ih =>
    simp only [List.foldl_cons]
    apply ih
    · left
      by_cases hc : lay_down_line_is_full w g s icon
      · rw [(lay_down_icons_horizontal_step_full w g s icon hc).2.1]
        simp
      · rw [(lay_down_icons_horizontal_step_not_full w g s icon hc).2.1]
        simp
    · by_cases hc : lay_down_line_is_full w g s icon
      · rw [(lay_down_icons_horizontal_step_full w g s icon hc).1]
        intro row hr
        rcases List.mem_append.mp hr with hr | hr
        · exact hrows row hr
        · rw [List.mem_singleton.mp hr]
          intro he
          exact hc.1 (List.map_eq_nil_iff.mp he)
      · rw [(lay_down_icons_horizontal_step_not_full w g s icon hc).1]
        exact hrows

theorem lay_down_fold_first_row (w : CanvasWidget) (g : Rat) (n : Nat) (hg : 0 < g)
    (hfit : n = 1 ∨ n * g < w.canvas_width) (l : List Nat)
    (s : lay_down_icons_horizontal_state)
    (hw : ∀ icon ∈ l, lay_down_icon_width w g icon = g)
    (hlw : s.line_width = s.line.length * g) (hlen : s.line.length + l.length ≤ n) :
    (l.foldl (lay_down_icons_horizontal_step w g) s).lines = s.lines ∧
      (l.foldl (lay_down_icons_horizontal_step w g) s).line.map Prod.fst =
        s.line.map Prod.fst ++ l ∧
      (l.foldl (lay_down_icons_horizontal_step w g) s).line_width =
        (l.foldl (lay_down_icons_horizontal_step w g) s).line.length * g := by
  induction l generalizing s with
  | nil => exact ⟨rfl, by simp, hlw⟩
  | cons icon rest ih =>
    have hwi := hw icon (List.mem_cons_self _ _)
    have hc : ¬ lay_down_line_is_full w g s icon := by
      intro hfull
      obtain ⟨hne, hge⟩ := hfull
      have hpos : 0 < s.line.length := List.length_pos.mpr hne
      simp only [List.length_cons] at hlen
      have hn2 : (s.line.length : Rat) + 1 ≤ n := by exact_mod_cast (by omega : s.line.length + 1 ≤ n)
      rcases hfit with h1 | h1
      · omega
      · rw [hlw, hwi] at hge
        have : (s.line.length : Rat) * g + g ≤ n * g := by nlinarith
        linarith
    obtain ⟨a1, a2, a3, _⟩ := lay_down_icons_horizontal_step_not_full w g s icon hc
    simp only [List.foldl_cons]
    obtain ⟨b1, b2, b3⟩ := ih (lay_down_icons_horizontal_step w g s icon)
      (fun i hi => hw i (List.mem_cons_of_mem _ hi))
      (by rw [a3, a2, hlw, hwi]; simp; ring)
      (by rw [a2]; simp only [List.length_append, List.length_cons, List.length_nil] at hlen ⊢; omega)
    refine ⟨by rw [b1, a1], ?_, b3⟩
    rw [b2, a2]
    simp

theorem lay_down_rows_of_split (w : CanvasWidget) (g : Rat) (n : Nat) (hg : 0 < g) (hn : 1 ≤ n)
    (hfit1 : n = 1 ∨ n * g < w.canvas_width) (hfit2 : w.canvas_width ≤ (n + 1) * g)
    (A B : List Nat) (x : Nat) (hA : A.length = n)
    (hw : ∀ icon ∈ A ++ x :: B, lay_down_icon_width w g icon = g)
    (s0 : lay_down_icons_horizontal_state) (h0 : s0.line = []) (h1 : s0.lines = [])
    (h2 : s0.line_width = 0) :
    ∃ second rest,
      ((A ++ x :: B).foldl (lay_down_icons_horizontal_step w g) s0).lines ++
          [((A ++ x :: B).foldl (lay_down_icons_horizontal_step w g) s0).line.map Prod.fst] =
        A :: second :: rest ∧ second.head? = some x := by
  rw [List.foldl_append, List.foldl_cons]
  obtain ⟨a1, a2, a3⟩ := lay_down_fold_first_row w g n hg hfit1 A s0
    (fun i hi => hw i (List.mem_append_left _ hi)) (by rw [h2, h0]; simp)
    (by rw [h0, hA]; simp)
  generalize List.foldl (lay_down_icons_horizontal_step w g) s0 A = rA at a1 a2 a3 ⊢
  rw [h1] at a1
  rw [h0] at a2
  simp only [List.map_nil, List.nil_append] at a2
  have hlen : rA.line.length = n := by
    rw [← hA, ← a2, List.length_map]
  have hfull : lay_down_line_is_full w g rA x := by
    refine ⟨?_, ?_⟩
    · intro he
      rw [he] at hlen
      simp at hlen
      omega
    · rw [a3, hlen, hw x (by simp)]
      have : ((n : Rat) + 1) * g = n * g + g := by ring
      rw [this] at hfit2
      exact hfit2
  obtain ⟨b1, b2, _, _⟩ := lay_down_icons_horizontal_step_full w g rA x hfull
  rw [a1, a2] at b1
  obtain ⟨_, ⟨more, c2, _⟩, c4⟩ := lay_down_icons_horizontal_fold_frame w g B
    (lay_down_icons_horizontal_step w g rA x)
  obtain ⟨d1, d2⟩ := lay_down_fold_line_not_empty w g B (lay_down_icons_horizontal_step w g rA x)
    (Or.inl (by rw [b2]; simp))
    (by
      rw [b1]
      intro row hr
      simp only [List.nil_append, List.mem_singleton] at hr
      rw [hr]
      intro he
      rw [he] at hA
      simp at hA
      omega)
  generalize List.foldl (lay_down_icons_horizontal_step w g)
    (lay_down_icons_horizontal_step w g rA x) B = r at c2 c4 d1 d2 ⊢
  rw [b1] at c2
  rw [b1, b2, c2] at c4
  simp only [List.nil_append, List.singleton_append, List.flatten_cons, List.flatten_nil,
    List.append_nil, List.map_cons, List.map_nil, List.append_assoc,
    List.append_cancel_left_eq] at c4
  rw [c2]
  cases more with
  | nil =>
    refine ⟨r.line.map Prod.fst, [], by simp, ?_⟩
    simp only [List.flatten_nil, List.nil_append] at c4
    rw [c4]
    rfl
  | cons m ms =>
    refine ⟨m, ms ++ [r.line.map Prod.fst], by simp, ?_⟩
    have hm : m ≠ [] := d2 m (by rw [c2]; simp)
    simp only [List.flatten_cons, List.append_assoc] at c4
    cases m with
    | nil => exact absurd rfl hm
    | cons y ys =>
      simp only [List.cons_append, List.cons.injEq] at c4
      rw [c4.1]
      rfl

theorem lay_down_num_columns_pos (k : Collaborators) (w : CanvasWidget) (icons : List Nat) :
    1 ≤ lay_down_num_columns k w icons := by
  unfold lay_down_num_columns lay_down_icons_horizontal_grid
  dsimp only
  rw [MAX_eq_max]
  have h1 : (1 : Int) ≤ Int.floor (max (1 : Rat)
      (Int.floor (MAX 1 (w.canvas_width - ICON_PAD_LEFT - ICON_PAD_RIGHT - 1) /
        w.min_grid_width) : Int)) := by
    rw [Int.le_floor]
    simp
  omega

/-! ## Lemmas: when the columns fit -/

theorem columns_fit_arith (cw m : Rat) (hm : 9 ≤ m) :
    (max 1 (Int.floor (max 1 (cw - 9) / m)) = 1 ∨
      ((max 1 (Int.floor (max 1 (cw - 9) / m)) : Int) : Rat) *
        max m (max 1 (cw - 9) / ((max 1 (Int.floor (max 1 (cw - 9) / m)) : Int) : Rat)) < cw) ∧
    cw ≤ (((max 1 (Int.floor (max 1 (cw - 9) / m)) : Int) : Rat) + 1) *
      max m (max 1 (cw - 9) / ((max 1 (Int.floor (max 1 (cw - 9) / m)) : Int) : Rat)) := by
  have hmpos : 0 < m := by linarith
  have ha1 : (1 : Rat) ≤ max 1 (cw - 9) := le_max_left _ _
  have ha2 : cw - 9 ≤ max 1 (cw - 9) := le_max_right _ _
  have ha3 : max 1 (cw - 9) = 1 ∨ max 1 (cw - 9) = cw - 9 := by
    rcases le_total (1 : Rat) (cw - 9) with h | h
    · exact Or.inr (max_eq_right h)
    · exact Or.inl (max_eq_left h)
  generalize max 1 (cw - 9) = a at ha1 ha2 ha3 ⊢
  by_cases hf : 1 ≤ Int.floor (a / m)
  · rw [max_eq_right hf]
    have hN1 : (1 : Rat) ≤ (Int.floor (a / m) : Rat) := by exact_mod_cast hf
    have hNpos : (0 : Rat) < (Int.floor (a / m) : Rat) := by linarith
    have hle : (Int.floor (a / m) : Rat) ≤ a / m := Int.floor_le _
    have hNm : (Int.floor (a / m) : Rat) * m ≤ a := by
      rw [le_div_iff₀ hmpos] at hle
      exact hle
    have hgm : m ≤ a / (Int.floor (a / m) : Rat) := by
      rw [le_div_iff₀ hNpos]
      linarith
    rw [max_eq_right hgm]
    have hNg : (Int.floor (a / m) : Rat) * (a / (Int.floor (a / m) : Rat)) = a := by
      field_simp
    have ha9 : 9 ≤ a := by nlinarith
    have hacw : a = cw - 9 := by
      rcases ha3 with h | h
      · linarith
      · exact h
    refine ⟨Or.inr ?_, ?_⟩
    · rw [hNg]
      linarith
    · rw [add_mul, hNg, one_mul]
      linarith
  · have hf2 : Int.floor (a / m) < 1 := not_le.mp hf
    rw [max_eq_left (le_of_lt hf2)]
    refine ⟨Or.inl rfl, ?_⟩
    have hlt : a / m < 1 := by
      have := Int.floor_lt.mp hf2
      exact_mod_cast this
    have ham : a < m := by
      rw [div_lt_iff₀ hmpos] at hlt
      linarith
    have hmx : max m (a / ((1 : Int) : Rat)) = m := by
      rw [Int.cast_one, div_one]
      exact max_eq_left (le_of_lt ham)
    rw [hmx]
    push_cast
    linarith

/-- Whenever the minimum grid width is at least the padding that the available width leaves out
(9), and there are more items than columns, the columns of `lay_down_icons_horizontal` fit in the
canvas width and one more column does not. -/
theorem lay_down_fits_of_min_grid_width (k : Collaborators) (w : CanvasWidget) (icons : List Nat)
    (hm : 9 ≤ w.min_grid_width)
    (hmore : lay_down_num_columns k w icons < icons.length) :
    (lay_down_num_columns k w icons = 1 ∨
        (lay_down_num_columns k w icons : Rat) * lay_down_grid_width k w icons < w.canvas_width) ∧
      w.canvas_width ≤
        ((lay_down_num_columns k w icons : Rat) + 1) * lay_down_grid_width k w icons := by
  have ha : MAX 1 (w.canvas_width - ICON_PAD_LEFT - ICON_PAD_RIGHT - 1) =
      max 1 (w.canvas_width - 9) := by
    rw [MAX_eq_max]
    unfold ICON_PAD_LEFT ICON_PAD_RIGHT
    congr 1
    ring
  have hN : MAX 1 ((Int.floor (max 1 (w.canvas_width - 9) / w.min_grid_width) : Int) : Rat) =
      ((max 1 (Int.floor (max 1 (w.canvas_width - 9) / w.min_grid_width)) : Int) : Rat) := by
    rw [MAX_eq_max]
    push_cast
    rfl
  have hN1 : (1 : Int) ≤ max 1 (Int.floor (max 1 (w.canvas_width - 9) / w.min_grid_width)) :=
    le_max_left _ _
  have hn : lay_down_num_columns k w icons =
      Int.toNat (max 1 (Int.floor (max 1 (w.canvas_width - 9) / w.min_grid_width))) := by
    unfold lay_down_num_columns lay_down_icons_horizontal_grid
    dsimp only
    rw [ha, hN, Int.floor_intCast]
  have hcast : ((lay_down_num_columns k w icons : Nat) : Rat) =
      ((max 1 (Int.floor (max 1 (w.canvas_width - 9) / w.min_grid_width)) : Int) : Rat) := by
    rw [hn]
    have : ((Int.toNat (max 1 (Int.floor (max 1 (w.canvas_width - 9) / w.min_grid_width))) : Nat)
        : Int) = max 1 (Int.floor (max 1 (w.canvas_width - 9) / w.min_grid_width)) :=
      Int.toNat_of_nonneg (by omega)
    exact_mod_cast congrArg (fun z : Int => (z : Rat)) this
  have hg : lay_down_grid_width k w icons =
      max w.min_grid_width (max 1 (w.canvas_width - 9) /
        ((max 1 (Int.floor (max 1 (w.canvas_width - 9) / w.min_grid_width)) : Int) : Rat)) := by
    have hsome : (g_list_nth icons (lay_down_num_columns k w icons)).isSome = true := by
      unfold g_list_nth
      rw [List.get?_eq_getElem? , List.getElem?_eq_getElem hmore]
      rfl
    rw [hn] at hsome
    unfold lay_down_grid_width lay_down_icons_horizontal_grid
    dsimp only
    rw [ha, hN, Int.floor_intCast, if_pos hsome, MAX_eq_max]
  have key := columns_fit_arith w.canvas_width w.min_grid_width hm
  rw [hcast, hg]
  refine ⟨?_, key.2⟩
  rcases key.1 with h | h
  · left
    rw [hn, h]
    rfl
  · exact Or.inr h

/-! ## Lemmas: the positions of a row -/

theorem lay_down_step_full_heights (w : CanvasWidget) (g : Rat)
    (s : lay_down_icons_horizontal_state) (icon : Nat) (hc : lay_down_line_is_full w g s icon) :
    (lay_down_icons_horizontal_step w g s icon).y =
      s.y + (ICON_PAD_TOP + s.max_height_above) + (s.max_height_below + ICON_PAD_BOTTOM) ∧
    (lay_down_icons_horizontal_step w g s icon).max_height_above = lay_down_height_above w icon ∧
    (lay_down_icons_horizontal_step w g s icon).max_height_below =
      lay_down_height_below w icon := by
  unfold lay_down_icons_horizontal_step
  simp only [hc, if_true]
  refine ⟨?_, ?_, ?_⟩ <;> trivial

theorem lay_down_step_not_full_heights (w : CanvasWidget) (g : Rat)
    (s : lay_down_icons_horizontal_state) (icon : Nat)
    (hc : ¬ lay_down_line_is_full w g s icon) :
    (lay_down_icons_horizontal_step w g s icon).y = s.y ∧
    (lay_down_icons_horizontal_step w g s icon).max_height_above =
      lay_down_max_height (lay_down_height_above w) s.max_height_above icon ∧
    (lay_down_icons_horizontal_step w g s icon).max_height_below =
      lay_down_max_height (lay_down_height_below w) s.max_height_below icon := by
  unfold lay_down_icons_horizontal_step
  simp only [hc, if_false]
  refine ⟨?_, ?_, ?_⟩ <;> trivial

theorem lay_down_fold_within_row (w : CanvasWidget) (g : Rat) (n : Nat) (hg : 0 < g)
    (hfit : n = 1 ∨ n * g < w.canvas_width) (l : List Nat)
    (s : lay_down_icons_horizontal_state)
    (hw : ∀ icon ∈ l, lay_down_icon_width w g icon = g)
    (hlw : s.line_width = s.line.length * g) (hlen : s.line.length + l.length ≤ n) :
    (l.foldl (lay_down_icons_horizontal_step w g) s).line =
        s.line ++ l.map (fun icon => (icon, lay_down_icon_position w g icon)) ∧
      (l.foldl (lay_down_icons_horizontal_step w g) s).line_width =
        (l.foldl (lay_down_icons_horizontal_step w g) s).line.length * g ∧
      (l.foldl (lay_down_icons_horizontal_step w g) s).container = s.container ∧
      (l.foldl (lay_down_icons_horizontal_step w g) s).y = s.y ∧
      (l.foldl (lay_down_icons_horizontal_step w g) s).max_height_above =
        l.foldl (lay_down_max_height (lay_down_height_above w)) s.max_height_above ∧
      (l.foldl (lay_down_icons_horizontal_step w g) s).max_height_below =
        l.foldl (lay_down_max_height (lay_down_height_below w)) s.max_height_below := by
  induction l generalizing s with
  | nil => exact ⟨by simp, hlw, rfl, rfl, rfl, rfl⟩
  | cons icon rest ih =>
    have hwi := hw icon (List.mem_cons_self _ _)
    have hc : ¬ lay_down_line_is_full w g s icon := by
      intro hfull
      obtain ⟨hne, hge⟩ := hfull
      have hpos : 0 < s.line.length := List.length_pos.mpr hne
      simp only [List.length_cons] at hlen
      have hn2 : (s.line.length : Rat) + 1 ≤ n := by
        exact_mod_cast (by omega : s.line.length + 1 ≤ n)
      rcases hfit with h1 | h1
      · omega
      · rw [hlw, hwi] at hge
        have : (s.line.length : Rat) * g + g ≤ n * g := by nlinarith
        linarith
    obtain ⟨_, a2, a3, a4⟩ := lay_down_icons_horizontal_step_not_full w g s icon hc
    obtain ⟨c1, c2, c3⟩ := lay_down_step_not_full_heights w g s icon hc
    simp only [List.foldl_cons]
    obtain ⟨b1, b2, b3, b4, b5, b6⟩ := ih (lay_down_icons_horizontal_step w g s icon)
      (fun i hi => hw i (List.mem_cons_of_mem _ hi))
      (by rw [a3, a2, hlw, hwi]; simp; ring)
      (by
        rw [a2]
        simp only [List.length_append, List.length_cons, List.length_nil] at hlen ⊢
        omega)
    refine ⟨?_, b2, by rw [b3, a4], by rw [b4, c1], by rw [b5, c2], by rw [b6, c3]⟩
    rw [b1, a2]
    simp

theorem lay_down_column_x_succ (g : Rat) (x : Rat) (j : Nat) :
    lay_down_column_x g x (j + 1) = lay_down_column_x g x j + g := by
  induction j generalizing x with
  | zero => rfl
  | succ j ih =>
    show lay_down_column_x g (x + g) (j + 1) = lay_down_column_x g (x + g) j + g
    exact ih (x + g)

theorem lay_down_one_line_fold_positions (w : CanvasWidget) (y g : Rat) (l : List Nat)
    (hnd : l.Nodup) (hw : ∀ icon ∈ l, lay_down_icon_width w g icon = g)
    (s : lay_down_one_line_state) (j : Nat) (icon : Nat) (hj : l[j]? = some icon) :
    (((l.map (fun icon => (icon, lay_down_icon_position w g icon))).foldl
        (lay_down_one_line_step w y) s).container.heap icon).saved_ltr_x =
        lay_down_column_x g s.x j + (lay_down_icon_position w g icon).x_offset ∧
      (((l.map (fun icon => (icon, lay_down_icon_position w g icon))).foldl
        (lay_down_one_line_step w y) s).container.heap icon).y =
        y + (lay_down_icon_position w g icon).y_offset ∧
      Placed w ((l.map (fun icon => (icon, lay_down_icon_position w g icon))).foldl
        (lay_down_one_line_step w y) s).container icon := by
  induction l generalizing s j with
  | nil => simp at hj
  | cons first rest ih =>
    simp only [List.map_cons, List.foldl_cons]
    obtain ⟨a1, _, a3, a4, a5, _⟩ := lay_down_one_line_step_fields w y s
      (first, lay_down_icon_position w g first)
    have hwidth : (lay_down_icon_position w g first).width = g := hw first (List.mem_cons_self _ _)
    dsimp only at a1 a3 a4 a5
    cases j with
    | zero =>
      simp only [List.getElem?_cons_zero, Option.some.injEq] at hj
      subst hj
      have hnot : first ∉ (rest.map (fun icon => (icon, lay_down_icon_position w g icon))).map
          Prod.fst := by
        rw [List.map_map]
        have : (Prod.fst ∘ fun icon => (icon, lay_down_icon_position w g icon)) = id := rfl
        rw [this, List.map_id]
        exact (List.nodup_cons.mp hnd).1
      have hsame := (lay_down_one_line_fold_frame w y
        (rest.map (fun icon => (icon, lay_down_icon_position w g icon)))
        (lay_down_one_line_step w y s (first, lay_down_icon_position w g first))).2 first hnot
      unfold Placed
      rw [hsame, a3, a4, a5]
      exact ⟨rfl, rfl, rfl⟩
    | succ j =>
      simp only [List.getElem?_cons_succ] at hj
      have := ih (List.nodup_cons.mp hnd).2 (fun i hi => hw i (List.mem_cons_of_mem _ hi))
        (lay_down_one_line_step w y s (first, lay_down_icon_position w g first)) j hj
      rw [a1, hwidth] at this
      exact this

theorem nodup_index_unique (l : List Nat) (hnd : l.Nodup) (i j : Nat) (x : Nat)
    (hi : l[i]? = some x) (hj : l[j]? = some x) : i = j := by
  induction l generalizing i j with
  | nil => simp at hi
  | cons first rest ih =>
    obtain ⟨h1, h2⟩ := List.nodup_cons.mp hnd
    cases i with
    | zero =>
      cases j with
      | zero => rfl
      | succ j =>
        simp only [List.getElem?_cons_zero, Option.some.injEq] at hi
        simp only [List.getElem?_cons_succ] at hj
        subst hi
        exact absurd (List.mem_iff_getElem?.mpr ⟨j, hj⟩) h1
    | succ i =>
      cases j with
      | zero =>
        simp only [List.getElem?_cons_zero, Option.some.injEq] at hj
        simp only [List.getElem?_cons_succ] at hi
        subst hj
        exact absurd (List.mem_iff_getElem?.mpr ⟨i, hi⟩) h1
      | succ j =>
        simp only [List.getElem?_cons_succ] at hi hj
        rw [ih h2 i j hi hj]

theorem lay_down_row_index (n : Nat) (icons : List Nat) (r i : Nat) (hi : i < n) :
    (lay_down_row n icons r)[i]? = icons[r * n + i]? := by
  unfold lay_down_row
  rw [List.getElem?_take_of_lt hi, List.getElem?_drop]

theorem lay_down_row_nodup (n : Nat) (icons : List Nat) (r : Nat) (hnd : icons.Nodup) :
    (lay_down_row n icons r).Nodup :=
  (hnd.sublist (List.drop_sublist _ _)).sublist (List.take_sublist _ _)

theorem lay_down_row_mem (n : Nat) (icons : List Nat) (r : Nat) (x : Nat)
    (hx : x ∈ lay_down_row n icons r) : ∃ i, i < n ∧ icons[r * n + i]? = some x := by
  obtain ⟨i, hi, hget⟩ := List.getElem_of_mem hx
  have hin : i < n := by
    unfold lay_down_row at hi
    rw [List.length_take] at hi
    omega
  refine ⟨i, hin, ?_⟩
  rw [← lay_down_row_index n icons r i hin, List.getElem?_eq_getElem hi, hget]

theorem lay_down_one_line_places_row (w : CanvasWidget) (g : Rat) (n : Nat) (icons : List Nat)
    (start_y : Rat) (hn : 1 ≤ n) (hnd : icons.Nodup)
    (hw : ∀ icon ∈ icons, lay_down_icon_width w g icon = g) (r : Nat)
    (c0 : NautilusCanvasContainer)
    (hprev : ∀ j icon, j < r * n → icons[j]? = some icon →
      LaidAt w g n icons start_y c0 j icon) :
    ∀ j icon, j < r * n + n → icons[j]? = some icon →
      LaidAt w g n icons start_y
        (lay_down_one_line w c0
          ((lay_down_row n icons r).map (fun icon => (icon, lay_down_icon_position w g icon)))
          (lay_down_row_baseline w n icons start_y r)) j icon := by
  intro j icon hj hget
  by_cases hlt : j < r * n
  · have hnot : icon ∉ ((lay_down_row n icons r).map
        (fun icon => (icon, lay_down_icon_position w g icon))).map Prod.fst := by
      rw [List.map_map]
      have : (Prod.fst ∘ fun icon => (icon, lay_down_icon_position w g icon)) = id := rfl
      rw [this, List.map_id]
      intro hmem
      obtain ⟨i, _, hi⟩ := lay_down_row_mem n icons r icon hmem
      have := nodup_index_unique icons hnd j (r * n + i) icon hget hi
      omega
    have hsame := (lay_down_one_line_frame w (lay_down_row_baseline w n icons start_y r)
      ((lay_down_row n icons r).map (fun icon => (icon, lay_down_icon_position w g icon)))
      c0).2 icon hnot
    obtain ⟨p1, p2, p3⟩ := hprev j icon hlt hget
    unfold LaidAt Placed at *
    rw [hsame]
    exact ⟨p1, p2, p3⟩
  · have hge : r * n ≤ j := not_lt.mp hlt
    obtain ⟨i, hi⟩ : ∃ i, j = r * n + i := ⟨j - r * n, by omega⟩
    subst hi
    have hin : i < n := by omega
    have hrow : (lay_down_row n icons r)[i]? = some icon := by
      rw [lay_down_row_index n icons r i hin, hget]
    have hmod : (r * n + i) % n = i := by
      rw [Nat.mul_comm, Nat.mul_add_mod, Nat.mod_eq_of_lt hin]
    have hdiv : (r * n + i) / n = r := by
      rw [Nat.mul_comm, Nat.mul_add_div (by omega), Nat.div_eq_of_lt hin, Nat.add_zero]
    obtain ⟨q1, q2, q3⟩ := lay_down_one_line_fold_positions w
      (lay_down_row_baseline w n icons start_y r) g (lay_down_row n icons r)
      (lay_down_row_nodup n icons r hnd)
      (fun x hx => hw x (List.mem_of_mem_drop (List.mem_of_mem_take hx)))
      { container := c0, x := ICON_PAD_LEFT } i icon hrow
    unfold LaidAt
    rw [hmod, hdiv]
    exact ⟨q1, q2, q3⟩

theorem lay_down_row_succ (n : Nat) (icons : List Nat) (r : Nat) :
    icons.take ((r + 1) * n + n) = icons.take (r * n + n) ++ lay_down_row n icons (r + 1) := by
  unfold lay_down_row
  have : (r + 1) * n = r * n + n := by ring
  rw [this, List.take_add]

theorem lay_down_row_length (n : Nat) (icons : List Nat) (r : Nat)
    (h : r * n + n ≤ icons.length) : (lay_down_row n icons r).length = n := by
  unfold lay_down_row
  rw [List.length_take, List.length_drop]
  omega

theorem lay_down_fold_rows (w : CanvasWidget) (g : Rat) (n : Nat) (hg : 0 < g) (hn : 1 ≤ n)
    (hfit1 : n = 1 ∨ n * g < w.canvas_width) (hfit2 : w.canvas_width ≤ (n + 1) * g)
    (icons : List Nat) (start_y : Rat) (c : NautilusCanvasContainer) (hnd : icons.Nodup)
    (hw : ∀ icon ∈ icons, lay_down_icon_width w g icon = g) (r : Nat)
    (hr : r * n < icons.length) :
    ((icons.take (r * n + n)).foldl (lay_down_icons_horizontal_step w g)
        { container := c, line := [], y := start_y + CONTAINER_PAD_TOP, line_width := 0,
          max_height_above := 0, max_height_below := 0, lines := [] }).line =
        (lay_down_row n icons r).map (fun icon => (icon, lay_down_icon_position w g icon)) ∧
      ((icons.take (r * n + n)).foldl (lay_down_icons_horizontal_step w g)
        { container := c, line := [], y := start_y + CONTAINER_PAD_TOP, line_width := 0,
          max_height_above := 0, max_height_below := 0, lines := [] }).line_width =
        ((icons.take (r * n + n)).foldl (lay_down_icons_horizontal_step w g)
          { container := c, line := [], y := start_y + CONTAINER_PAD_TOP, line_width := 0,
            max_height_above := 0, max_height_below := 0, lines := [] }).line.length * g ∧
      ((icons.take (r * n + n)).foldl (lay_down_icons_horizontal_step w g)
        { container := c, line := [], y := start_y + CONTAINER_PAD_TOP, line_width := 0,
          max_height_above := 0, max_height_below := 0, lines := [] }).y =
        lay_down_row_top w n icons start_y r ∧
      ((icons.take (r * n + n)).foldl (lay_down_icons_horizontal_step w g)
        { container := c, line := [], y := start_y + CONTAINER_PAD_TOP, line_width := 0,
          max_height_above := 0, max_height_below := 0, lines := [] }).max_height_above =
        lay_down_row_max_height (lay_down_height_above w) n icons r ∧
      ((icons.take (r * n + n)).foldl (lay_down_icons_horizontal_step w g)
        { container := c, line := [], y := start_y + CONTAINER_PAD_TOP, line_width := 0,
          max_height_above := 0, max_height_below := 0, lines := [] }).max_height_below =
        lay_down_row_max_height (lay_down_height_below w) n icons r ∧
      ∀ j icon, j < r * n → icons[j]? = some icon →
        LaidAt w g n icons start_y
          ((icons.take (r * n + n)).foldl (lay_down_icons_horizontal_step w g)
            { container := c, line := [], y := start_y + CONTAINER_PAD_TOP, line_width := 0,
              max_height_above := 0, max_height_below := 0, lines := [] }).container j icon := by
  induction r with
  | zero =>
    have h0 : 0 * n + n = n := by omega
    have hrow0 : lay_down_row n icons 0 = icons.take n := by
      unfold lay_down_row
      simp
    obtain ⟨a1, a2, _, a4, a5, a6⟩ := lay_down_fold_within_row w g n hg hfit1 (icons.take n)
      { container := c, line := [], y := start_y + CONTAINER_PAD_TOP, line_width := 0,
        max_height_above := 0, max_height_below := 0, lines := [] }
      (fun i hi => hw i (List.mem_of_mem_take hi)) (by simp)
      (by
        simp only [List.length_nil, List.length_take]
        omega)
    rw [h0]
    refine ⟨?_, a2, a4, ?_, ?_, ?_⟩
    · rw [a1, hrow0]
      rfl
    · rw [a5]
      unfold lay_down_row_max_height
      rw [hrow0]
    · rw [a6]
      unfold lay_down_row_max_height
      rw [hrow0]
    · intro j icon hj
      omega
  | succ r ih =>
    have hr0 : r * n < icons.length := by
      have : (r + 1) * n = r * n + n := by ring
      omega
    have hr1 : r * n + n < icons.length := by
      have : (r + 1) * n = r * n + n := by ring
      omega
    obtain ⟨i1, i2, i3, i4, i5, i6⟩ := ih hr0
    rw [lay_down_row_succ, List.foldl_append]
    generalize (icons.take (r * n + n)).foldl (lay_down_icons_horizontal_step w g)
      { container := c, line := [], y := start_y + CONTAINER_PAD_TOP, line_width := 0,
        max_height_above := 0, max_height_below := 0, lines := [] } = T at i1 i2 i3 i4 i5 i6 ⊢
    have hlenr : (lay_down_row n icons r).length = n :=
      lay_down_row_length n icons r (le_of_lt hr1)
    have hTlen : T.line.length = n := by rw [i1, List.length_map, hlenr]
    obtain ⟨x, mid, hrow⟩ : ∃ x mid, lay_down_row n icons (r + 1) = x :: mid := by
      cases hrow : lay_down_row n icons (r + 1) with
      | nil =>
        have := congrArg List.length hrow
        unfold lay_down_row at this
        rw [List.length_take, List.length_drop] at this
        simp only [List.length_nil] at this
        have h2 : (r + 1) * n = r * n + n := by ring
        omega
      | cons x mid => exact ⟨x, mid, rfl⟩
    have hsub : ∀ i ∈ lay_down_row n icons (r + 1), i ∈ icons := fun i hi =>
      List.mem_of_mem_drop (List.mem_of_mem_take hi)
    have hlen1 : (lay_down_row n icons (r + 1)).length ≤ n := by
      unfold lay_down_row
      rw [List.length_take]
      omega
    rw [hrow] at hsub hlen1
    rw [hrow, List.foldl_cons]
    have hwx : lay_down_icon_width w g x = g := hw x (hsub x (List.mem_cons_self _ _))
    have hfull : lay_down_line_is_full w g T x := by
      refine ⟨?_, ?_⟩
      · intro he
        rw [he] at hTlen
        simp at hTlen
        omega
      · rw [i2, hTlen, hwx]
        have : ((n : Rat) + 1) * g = n * g + g := by ring
        rw [this] at hfit2
        exact hfit2
    obtain ⟨_, b2, b3, b4⟩ := lay_down_icons_horizontal_step_full w g T x hfull
    obtain ⟨b5, b6, b7⟩ := lay_down_step_full_heights w g T x hfull
    obtain ⟨a1, a2, a3, a4, a5, a6⟩ := lay_down_fold_within_row w g n hg hfit1 mid
      (lay_down_icons_horizontal_step w g T x)
      (fun i hi => hw i (hsub i (List.mem_cons_of_mem _ hi)))
      (by rw [b3, b2, hwx]; simp)
      (by
        rw [b2]
        simp only [List.length_cons, List.length_nil] at hlen1 ⊢
        omega)
    refine ⟨?_, a2, ?_, ?_, ?_, ?_⟩
    · rw [a1, b2]
      rfl
    · rw [a4, b5, i3, i4, i5]
      rfl
    · rw [a5, b6]
      unfold lay_down_row_max_height
      rw [hrow]
    · rw [a6, b7]
      unfold lay_down_row_max_height
      rw [hrow]
    · rw [a3, b4, i1, i3, i4]
      have h2 : (r + 1) * n = r * n + n := by ring
      rw [h2]
      exact lay_down_one_line_places_row w g n icons start_y hn hnd hw r T.container i6

theorem lay_down_icons_horizontal_positions (k : Collaborators) (w : CanvasWidget)
    (c : NautilusCanvasContainer) (icons : List Nat) (start_y : Rat)
    (halloc : c.has_been_allocated = true)
    (hg : 0 < lay_down_grid_width k w icons)
    (hfit1 : lay_down_num_columns k w icons = 1 ∨
      (lay_down_num_columns k w icons : Rat) * lay_down_grid_width k w icons < w.canvas_width)
    (hfit2 : w.canvas_width ≤
      ((lay_down_num_columns k w icons : Rat) + 1) * lay_down_grid_width k w icons)
    (hnd : icons.Nodup)
    (hw : ∀ icon ∈ icons,
      lay_down_icon_width w (lay_down_grid_width k w icons) icon = lay_down_grid_width k w icons) :
    ∀ j icon, icons[j]? = some icon →
      LaidAt w (lay_down_grid_width k w icons) (lay_down_num_columns k w icons) icons start_y
        (lay_down_icons_horizontal k w c icons start_y) j icon := by
  intro j icon hget
  have hjlt : j < icons.length := by
    by_contra h
    rw [List.getElem?_eq_none (not_lt.mp h)] at hget
    exact absurd hget (by simp)
  have hne : icons ≠ [] := by
    intro h
    rw [h] at hjlt
    simp at hjlt
  have hn := lay_down_num_columns_pos k w icons
  unfold lay_down_icons_horizontal lay_down_icons_horizontal_loop
  simp only [halloc, hne, if_false, Bool.true_eq_false]
  change LaidAt w (lay_down_grid_width k w icons) (lay_down_num_columns k w icons) icons start_y
    (lay_down_one_line w
      (icons.foldl (lay_down_icons_horizontal_step w (lay_down_grid_width k w icons))
        { container := c, line := [], y := start_y + CONTAINER_PAD_TOP, line_width := 0,
          max_height_above := 0, max_height_below := 0, lines := [] }).container
      (icons.foldl (lay_down_icons_horizontal_step w (lay_down_grid_width k w icons))
        { container := c, line := [], y := start_y + CONTAINER_PAD_TOP, line_width := 0,
          max_height_above := 0, max_height_below := 0, lines := [] }).line
      ((icons.foldl (lay_down_icons_horizontal_step w (lay_down_grid_width k w icons))
        { container := c, line := [], y := start_y + CONTAINER_PAD_TOP, line_width := 0,
          max_height_above := 0, max_height_below := 0, lines := [] }).y +
        (ICON_PAD_TOP +
          (icons.foldl (lay_down_icons_horizontal_step w (lay_down_grid_width k w icons))
            { container := c, line := [], y := start_y + CONTAINER_PAD_TOP, line_width := 0,
              max_height_above := 0, max_height_below := 0, lines := [] }).max_height_above)))
    j icon
  generalize lay_down_grid_width k w icons = g at hg hfit1 hfit2 hw ⊢
  generalize lay_down_num_columns k w icons = n at hn hfit1 hfit2 ⊢
  have hlast : (icons.length - 1) / n * n < icons.length := by
    have := Nat.div_mul_le_self (icons.length - 1) n
    omega
  have hall : icons.length ≤ (icons.length - 1) / n * n + n := by
    have h1 := Nat.div_add_mod (icons.length - 1) n
    have h2 := Nat.mod_lt (icons.length - 1) (by omega : n > 0)
    have h3 : n * ((icons.length - 1) / n) = (icons.length - 1) / n * n := Nat.mul_comm _ _
    omega
  obtain ⟨i1, _, i3, i4, _, i6⟩ := lay_down_fold_rows w g n hg hn hfit1 hfit2 icons start_y c hnd
    hw ((icons.length - 1) / n) hlast
  rw [List.take_of_length_le hall] at i1 i3 i4 i6
  rw [i1, i3, i4]
  exact lay_down_one_line_places_row w g n icons start_y hn hnd hw ((icons.length - 1) / n) _ i6
    j icon (by omega) hget

theorem lay_down_max_height_fold_ge (height : Nat → Rat) (l : List Nat) (m : Rat) :
    m ≤ l.foldl (lay_down_max_height height) m := by
  induction l generalizing m with
  | nil => exact le_refl _
  | cons x rest ih =>
    rw [List.foldl_cons]
    refine le_trans ?_ (ih _)
    unfold lay_down_max_height
    split_ifs with h
    · exact le_of_lt h
    · exact le_refl _

theorem lay_down_row_baseline_succ (w : CanvasWidget) (n : Nat) (icons : List Nat)
    (start_y : Rat) (x : Nat) (hx : icons[n]? = some x) (hn : 1 ≤ n)
    (hh : 0 ≤ lay_down_height_above w x) :
    lay_down_row_baseline w n icons start_y 0 < lay_down_row_baseline w n icons start_y 1 := by
  have hrow : ∃ others, lay_down_row n icons 1 = x :: others := by
    have h0 : (lay_down_row n icons 1)[0]? = some x := by
      rw [lay_down_row_index n icons 1 0 (by omega)]
      simpa using hx
    cases hr : lay_down_row n icons 1 with
    | nil =>
      rw [hr] at h0
      simp at h0
    | cons y others =>
      rw [hr] at h0
      simp only [List.getElem?_cons_zero, Option.some.injEq] at h0
      rw [h0]
      exact ⟨others, rfl⟩
  obtain ⟨others, hrow⟩ := hrow
  have h1 : lay_down_row_max_height (lay_down_height_above w) n icons 1 =
      others.foldl (lay_down_max_height (lay_down_height_above w)) (lay_down_height_above w x) := by
    unfold lay_down_row_max_height
    rw [hrow]
  have h2 : (0 : Rat) ≤ lay_down_row_max_height (lay_down_height_below w) n icons 0 := by
    unfold lay_down_row_max_height
    exact lay_down_max_height_fold_ge _ _ _
  have h3 := lay_down_max_height_fold_ge (lay_down_height_above w) others
    (lay_down_height_above w x)
  rw [← h1] at h3
  have e : lay_down_row_baseline w n icons start_y 1 =
      lay_down_row_baseline w n icons start_y 0 +
        (lay_down_row_max_height (lay_down_height_below w) n icons 0 + ICON_PAD_BOTTOM) +
        (ICON_PAD_TOP + lay_down_row_max_height (lay_down_height_above w) n icons 1) := rfl
  rw [e]
  unfold ICON_PAD_BOTTOM ICON_PAD_TOP
  linarith

/-! ## C11: the rows of the layout -/

/-- C11: for every allocated container, every widget and every list of distinct icons in which
each item takes one grid cell (the icon size of the zoom level is positive and at most the grid
width `g`, and the width of every item is at most `g`), with `n` the number of columns: if `n`
columns fit in the canvas width (`n = 1` or `n * g < canvas_width`), `n + 1` columns do not
(`canvas_width ≤ (n + 1) * g`) and there are more than `n` items, then in the container that
`lay_down_icons_horizontal` returns the item with the index `j` stands in column `j % n` of row
`j / n`: its saved left-to-right x is the left edge of the column (`ICON_PAD_LEFT` with `g` added
`j % n` times, as `lay_down_one_line` adds the widths) plus its offset `(g - image width) / 2`,
its y is the baseline of the row (`lay_down_row_baseline`, computed in the order of the source)
plus its offset `icon_bounds.y0 - icon_bounds.y1`, and its x is its saved x, mirrored in
right-to-left mode.  So the first `n` items stand in the columns 0 to `n - 1` on the baseline of
the first row, and item `n + 1` stands in column 0 on the baseline of the second row, which lies
below the first when the image of the item does not end above its bounds.  The first line handed
to `lay_down_one_line` is the first `n` items and the second line starts with item `n + 1`. -/
theorem C11_row_wraps_after_num_columns (k : Collaborators) (w : CanvasWidget)
    (c : NautilusCanvasContainer) (icons : List Nat) (start_y : Rat)
    (halloc : c.has_been_allocated = true)
    (hsize : 0 < w.icon_size ∧ w.icon_size ≤ lay_down_grid_width k w icons)
    (hcell : ∀ icon ∈ icons,
      (w.nautilus_canvas_item_get_bounds_for_layout icon).x1 -
        (w.nautilus_canvas_item_get_bounds_for_layout icon).x0 ≤ lay_down_grid_width k w icons)
    (hfit : (lay_down_num_columns k w icons = 1 ∨
        (lay_down_num_columns k w icons : Rat) * lay_down_grid_width k w icons < w.canvas_width) ∧
      w.canvas_width ≤
        ((lay_down_num_columns k w icons : Rat) + 1) * lay_down_grid_width k w icons)
    (hmore : lay_down_num_columns k w icons < icons.length) (hnodup : icons.Nodup) :
    (∀ j icon, icons[j]? = some icon →
      ((lay_down_icons_horizontal k w c icons start_y).heap icon).saved_ltr_x =
          lay_down_column_x (lay_down_grid_width k w icons) ICON_PAD_LEFT
              (j % lay_down_num_columns k w icons) +
            (lay_down_grid_width k w icons -
              ((w.nautilus_canvas_item_get_icon_rectangle icon).x1 -
                (w.nautilus_canvas_item_get_icon_rectangle icon).x0)) / 2 ∧
        ((lay_down_icons_horizontal k w c icons start_y).heap icon).y =
          lay_down_row_baseline w (lay_down_num_columns k w icons) icons start_y
              (j / lay_down_num_columns k w icons) +
            ((w.nautilus_canvas_item_get_icon_rectangle icon).y0 -
              (w.nautilus_canvas_item_get_icon_rectangle icon).y1) ∧
        ((lay_down_icons_horizontal k w c icons start_y).heap icon).x =
          (if w.is_layout_rtl then
            get_mirror_x_position w icon
              ((lay_down_icons_horizontal k w c icons start_y).heap icon).saved_ltr_x
           else ((lay_down_icons_horizontal k w c icons start_y).heap icon).saved_ltr_x)) ∧
    (∀ j icon, j < lay_down_num_columns k w icons → icons[j]? = some icon →
      ((lay_down_icons_horizontal k w c icons start_y).heap icon).saved_ltr_x =
          lay_down_column_x (lay_down_grid_width k w icons) ICON_PAD_LEFT j +
            (lay_down_grid_width k w icons -
              ((w.nautilus_canvas_item_get_icon_rectangle icon).x1 -
                (w.nautilus_canvas_item_get_icon_rectangle icon).x0)) / 2 ∧
        ((lay_down_icons_horizontal k w c icons start_y).heap icon).y =
          lay_down_row_baseline w (lay_down_num_columns k w icons) icons start_y 0 +
            ((w.nautilus_canvas_item_get_icon_rectangle icon).y0 -
              (w.nautilus_canvas_item_get_icon_rectangle icon).y1)) ∧
    (∀ icon, icons[lay_down_num_columns k w icons]? = some icon →
      ((lay_down_icons_horizontal k w c icons start_y).heap icon).saved_ltr_x =
          ICON_PAD_LEFT +
            (lay_down_grid_width k w icons -
              ((w.nautilus_canvas_item_get_icon_rectangle icon).x1 -
                (w.nautilus_canvas_item_get_icon_rectangle icon).x0)) / 2 ∧
        ((lay_down_icons_horizontal k w c icons start_y).heap icon).y =
          lay_down_row_baseline w (lay_down_num_columns k w icons) icons start_y 1 +
            ((w.nautilus_canvas_item_get_icon_rectangle icon).y0 -
              (w.nautilus_canvas_item_get_icon_rectangle icon).y1) ∧
        (0 ≤ lay_down_height_above w icon →
          lay_down_row_baseline w (lay_down_num_columns k w icons) icons start_y 0 <
            lay_down_row_baseline w (lay_down_num_columns k w icons) icons start_y 1)) ∧
    ∃ second rest,
      lay_down_icons_horizontal_lines k w c icons start_y =
        icons.take (lay_down_num_columns k w icons) :: second :: rest ∧
      second.head? = icons.get? (lay_down_num_columns k w icons) := by
  have hne : icons ≠ [] := by
    intro h
    rw [h] at hmore
    simp at hmore
  have hw : ∀ icon ∈ icons,
      lay_down_icon_width w (lay_down_grid_width k w icons) icon = lay_down_grid_width k w icons :=
    fun icon hi => lay_down_icon_width_single_cell w _ icon hsize.1 hsize.2 (hcell icon hi)
  have hn := lay_down_num_columns_pos k w icons
  have hpos := lay_down_icons_horizontal_positions k w c icons start_y halloc
    (lt_of_lt_of_le hsize.1 hsize.2) hfit.1 hfit.2 hnodup hw
  have hall : ∀ j icon, icons[j]? = some icon →
      ((lay_down_icons_horizontal k w c icons start_y).heap icon).saved_ltr_x =
          lay_down_column_x (lay_down_grid_width k w icons) ICON_PAD_LEFT
              (j % lay_down_num_columns k w icons) +
            (lay_down_grid_width k w icons -
              ((w.nautilus_canvas_item_get_icon_rectangle icon).x1 -
                (w.nautilus_canvas_item_get_icon_rectangle icon).x0)) / 2 ∧
        ((lay_down_icons_horizontal k w c icons start_y).heap icon).y =
          lay_down_row_baseline w (lay_down_num_columns k w icons) icons start_y
              (j / lay_down_num_columns k w icons) +
            ((w.nautilus_canvas_item_get_icon_rectangle icon).y0 -
              (w.nautilus_canvas_item_get_icon_rectangle icon).y1) ∧
        ((lay_down_icons_horizontal k w c icons start_y).heap icon).x =
          (if w.is_layout_rtl then
            get_mirror_x_position w icon
              ((lay_down_icons_horizontal k w c icons start_y).heap icon).saved_ltr_x
           else ((lay_down_icons_horizontal k w c icons start_y).heap icon).saved_ltr_x) := by
    intro j icon hget
    obtain ⟨p1, p2, p3⟩ := hpos j icon hget
    have hmem : icon ∈ icons := List.mem_iff_getElem?.mpr ⟨j, hget⟩
    have hx : (lay_down_icon_position w (lay_down_grid_width k w icons) icon).x_offset =
        (lay_down_grid_width k w icons -
          ((w.nautilus_canvas_item_get_icon_rectangle icon).x1 -
            (w.nautilus_canvas_item_get_icon_rectangle icon).x0)) / 2 := by
      unfold lay_down_icon_position
      dsimp only
      rw [hw icon hmem]
    rw [hx] at p1
    exact ⟨p1, p2, p3⟩
  refine ⟨hall, ?_, ?_, ?_⟩
  · intro j icon hj hget
    obtain ⟨p1, p2, _⟩ := hall j icon hget
    rw [Nat.mod_eq_of_lt hj] at p1
    rw [Nat.div_eq_of_lt hj] at p2
    exact ⟨p1, p2⟩
  · intro icon hget
    obtain ⟨p1, p2, _⟩ := hall _ icon hget
    rw [Nat.mod_self] at p1
    rw [Nat.div_self (by omega)] at p2
    exact ⟨p1, p2, fun hh => lay_down_row_baseline_succ w _ icons start_y icon hget hn hh⟩
  · have hsplit : icons = icons.take (lay_down_num_columns k w icons) ++
        icons[lay_down_num_columns k w icons] ::
          icons.drop (lay_down_num_columns k w icons + 1) := by
      rw [← List.drop_eq_getElem_cons hmore, List.take_append_drop]
    have hA : (icons.take (lay_down_num_columns k w icons)).length =
        lay_down_num_columns k w icons := by
      rw [List.length_take]
      omega
    have hget : icons.get? (lay_down_num_columns k w icons) =
        some icons[lay_down_num_columns k w icons] := by
      rw [List.get?_eq_getElem?, List.getElem?_eq_getElem hmore]
    rw [hget]
    unfold lay_down_icons_horizontal_lines lay_down_icons_horizontal_loop
    simp only [halloc, hne, if_false, Bool.true_eq_false]
    have key := lay_down_rows_of_split w (lay_down_grid_width k w icons)
      (lay_down_num_columns k w icons) (lt_of_lt_of_le hsize.1 hsize.2)
      (lay_down_num_columns_pos k w icons) hfit.1 hfit.2
      (icons.take (lay_down_num_columns k w icons))
      (icons.drop (lay_down_num_columns k w icons + 1))
      icons[lay_down_num_columns k w icons] hA (by rw [← hsplit]; exact hw)
      { container := c, line := [], y := start_y + CONTAINER_PAD_TOP, line_width := 0,
        max_height_above := 0, max_height_below := 0, lines := [] } rfl rfl rfl
    rw [← hsplit] at key
    exact key

/-- Witness of C11: five items of width 40 in a canvas of width 130 with minimum grid width 50
(two columns of width 121/2, the baselines of the rows at 48, 116 and 184, every image 40 high):
the items 1 and 2 stand at (57/4, 8) and (299/4, 8), the items 3 and 4 at (57/4, 76) and
(299/4, 76), and the item 5 at (57/4, 144). -/
theorem C11_row_wraps_after_num_columns_witness :
    lay_down_num_columns sample_collaborators sample_widget sample_five.icons = 2 ∧
      lay_down_grid_width sample_collaborators sample_widget sample_five.icons = 121 / 2 ∧
      (List.map
          (fun icon =>
            (((lay_down_icons_horizontal sample_collaborators sample_widget sample_five
                sample_five.icons 0).heap icon).x,
              ((lay_down_icons_horizontal sample_collaborators sample_widget sample_five
                sample_five.icons 0).heap icon).y))
          sample_five.icons =
        [(57 / 4, 8), (299 / 4, 8), (57 / 4, 76), (299 / 4, 76), (57 / 4, 144)]) ∧
      (List.map
          (lay_down_row_baseline sample_widget
            (lay_down_num_columns sample_collaborators sample_widget sample_five.icons)
            sample_five.icons 0)
          [0, 1, 2] = [48, 116, 184]) ∧
      ∀ j icon, sample_five.icons[j]? = some icon →
        ((lay_down_icons_horizontal sample_collaborators sample_widget sample_five
            sample_five.icons 0).heap icon).saved_ltr_x =
            lay_down_column_x
                (lay_down_grid_width sample_collaborators sample_widget sample_five.icons)
                ICON_PAD_LEFT
                (j % lay_down_num_columns sample_collaborators sample_widget sample_five.icons) +
              (lay_down_grid_width sample_collaborators sample_widget sample_five.icons -
                ((sample_widget.nautilus_canvas_item_get_icon_rectangle icon).x1 -
                  (sample_widget.nautilus_canvas_item_get_icon_rectangle icon).x0)) / 2 ∧
          ((lay_down_icons_horizontal sample_collaborators sample_widget sample_five
            sample_five.icons 0).heap icon).y =
            lay_down_row_baseline sample_widget
                (lay_down_num_columns sample_collaborators sample_widget sample_five.icons)
                sample_five.icons 0
                (j / lay_down_num_columns sample_collaborators sample_widget sample_five.icons) +
              ((sample_widget.nautilus_canvas_item_get_icon_rectangle icon).y0 -
                (sample_widget.nautilus_canvas_item_get_icon_rectangle icon).y1) ∧
          ((lay_down_icons_horizontal sample_collaborators sample_widget sample_five
            sample_five.icons 0).heap icon).x =
            (if sample_widget.is_layout_rtl then
              get_mirror_x_position sample_widget icon
                ((lay_down_icons_horizontal sample_collaborators sample_widget sample_five
                  sample_five.icons 0).heap icon).saved_ltr_x
             else ((lay_down_icons_horizontal sample_collaborators sample_widget sample_five
                sample_five.icons 0).heap icon).saved_ltr_x) :=
  ⟨by decide!, by decide!, by decide!, by decide!,
    (C11_row_wraps_after_num_columns sample_collaborators sample_widget sample_five
      sample_five.icons 0 (by decide) (by decide!) (by decide!) (by decide!) (by decide!)
      (by decide)).1⟩

/-! ## Lemmas: the sources after a removal -/

theorem icon_destroy_focus_sources {c c1 : NautilusCanvasContainer} {icon icon_to_focus : Nat}
    (h : icon_destroy_focus c icon icon_to_focus = some c1) :
    c1.sources = c.sources ∧ c1.last_source_id = c.last_source_id ∧
      c1.keyboard_icon_reveal_timer_id = c.keyboard_icon_reveal_timer_id ∧ c1.heap = c.heap := by
  unfold icon_destroy_focus set_focus clear_focus at h
  split_ifs at h <;> simp only [Option.some.injEq] at h <;> subst h <;>
    exact ⟨rfl, rfl, rfl, rfl⟩

theorem icon_destroy_references_sources (c : NautilusCanvasContainer) (icon : Nat)
    (ht : c.keyboard_icon_reveal_timer_id = 0) :
    (icon_destroy_references c icon).sources = c.sources ∧
      (icon_destroy_references c icon).last_source_id = c.last_source_id := by
  unfold icon_destroy_references
  lift_lets
  extract_lets c1 c2 c3 c4 c5
  have h1 : c1.sources = c.sources ∧ c1.last_source_id = c.last_source_id ∧
      c1.keyboard_icon_reveal_timer_id = 0 := by
    simp only [c1]
    split_ifs <;> simp [clear_keyboard_rubberband_start, ht]
  have h2 : c2.sources = c1.sources ∧ c2.last_source_id = c1.last_source_id := by
    have hu : unschedule_keyboard_icon_reveal c1 = c1 := by
      unfold unschedule_keyboard_icon_reveal
      rw [h1.2.2]
      simp
    simp only [c2, hu, ite_self, and_self]
  have h3 : c3.sources = c2.sources ∧ c3.last_source_id = c2.last_source_id := by
    simp only [c3]
    split_ifs <;> simp [clear_drag_state]
  have h4 : c4.sources = c3.sources ∧ c4.last_source_id = c3.last_source_id := by
    simp only [c4]
    split_ifs <;> simp
  have h5 : c5.sources = c4.sources ∧ c5.last_source_id = c4.last_source_id := by
    simp only [c5]
    split_ifs <;> simp
  have h6 : ∀ c6 : NautilusCanvasContainer,
      c6 = (if c5.pending_icon_to_reveal = icon then set_pending_icon_to_reveal c5 0 else c5) →
      c6.sources = c5.sources ∧ c6.last_source_id = c5.last_source_id := by
    intro c6 e
    subst e
    simp only [set_pending_icon_to_reveal]
    split_ifs <;> simp
  obtain ⟨a1, a2⟩ := h6 _ rfl
  exact ⟨by rw [a1, h5.1, h4.1, h3.1, h2.1, h1.1], by rw [a2, h5.2, h4.2, h3.2, h2.2, h1.2.1]⟩

theorem pending_sources_append (c : NautilusCanvasContainer) (sources : List (Nat × GSourceFunc))
    (function : GSourceFunc) (source : Nat × GSourceFunc)
    (h : c.sources = sources ++ [source]) :
    pending_sources c function =
      (sources.filter (fun s => decide (s.2 = function))).length +
        (if source.2 = function then 1 else 0) := by
  unfold pending_sources
  rw [h, List.filter_append, List.length_append]
  congr 1
  by_cases hs : source.2 = function <;> simp [hs]

theorem icon_destroy_pending (c : NautilusCanvasContainer) (icon : Nat) (hm : icon ∈ c.icons)
    (hsel : (c.heap icon).is_selected = true) (ht : c.keyboard_icon_reveal_timer_id = 0) :
    ∃ c1, icon_destroy c icon = some c1 ∧
      pending_sources c1 GSourceFunc.selection_changed_at_idle_callback =
        pending_sources c GSourceFunc.selection_changed_at_idle_callback + 1 := by
  unfold icon_destroy
  simp only [g_list_find, hm, if_true]
  split
  · next heq => exact absurd heq (icon_destroy_focus_ne_none _ _ _)
  · next cf heq =>
    obtain ⟨a1, _, a3, _⟩ := icon_destroy_focus_sources heq
    dsimp only at a1 a3
    obtain ⟨b1, _⟩ := icon_destroy_references_sources cf icon (a3.trans ht)
    simp only [hsel, if_true]
    refine ⟨_, rfl, ?_⟩
    rw [pending_sources_append _ c.sources _ (_, GSourceFunc.selection_changed_at_idle_callback)
      (by simp only [g_source_add]; rw [b1, a1])]
    simp [pending_sources]

theorem nautilus_canvas_container_remove_pending (c : NautilusCanvasContainer) (data : Nat)
    (hc : Consistent c) (hr : is_registered c data) (hsel : data ∈ c.selection)
    (ht : c.keyboard_icon_reveal_timer_id = 0) :
    ∃ c1, nautilus_canvas_container_remove c data = some (true, c1) ∧
      pending_sources c1 GSourceFunc.selection_changed_at_idle_callback =
        pending_sources c GSourceFunc.selection_changed_at_idle_callback + 1 := by
  obtain ⟨hmem, hdat⟩ := hc.registry.registered hr
  have hd : data ≠ 0 := by
    rw [← hdat]
    exact hc.registry.data_not_null _ hmem
  have hflag : (c.heap (g_hash_table_lookup c.icon_set data)).is_selected = true := by
    obtain ⟨icon, hi, hid, his⟩ := (hc.selection.selection_mem data).mp hsel
    have : icon = g_hash_table_lookup c.icon_set data := by
      rw [← hid]
      exact (hc.registry.index_of_icon icon hi).symm
    rw [← this]
    exact his
  obtain ⟨cd, hcd, hp⟩ := icon_destroy_pending c _ hmem hflag ht
  unfold nautilus_canvas_container_remove
  unfold is_registered at hr
  simp only [hd, hr, if_false, hcd]
  refine ⟨_, rfl, ?_⟩
  rw [← hp]
  unfold pending_sources g_signal_emit schedule_redo_layout g_source_add
  dsimp only
  split_ifs
  · simp
  · rfl

/-! ## C16, C17 and C20: clearing, coalescing and cancelling -/

/-- C16: `nautilus_canvas_container_clear` leaves an empty icon list; on a container with icons it
also empties the new-icon list, the index and the selection list and clears the focus, the
keyboard rubber-band anchor, the pending reveal and the drop target, and on a container without
icons it changes nothing.  It writes neither the range-selection anchor nor the drag icon, which
`icon_destroy` does clear: in the sample container, reachable from the empty one, whose icon 2 is
the range-selection anchor, the icon list is empty after the clear and the anchor is still the
icon 2. -/
theorem C16_clear_keeps_range_selection_anchor :
    (∀ c : NautilusCanvasContainer,
      (nautilus_canvas_container_clear c).icons = [] ∧
      (nautilus_canvas_container_clear c).range_selection_base_icon =
        c.range_selection_base_icon ∧
      (nautilus_canvas_container_clear c).drag_icon = c.drag_icon ∧
      (c.icons = [] → nautilus_canvas_container_clear c = c) ∧
      (c.icons ≠ [] →
        (nautilus_canvas_container_clear c).new_icons = [] ∧
        (nautilus_canvas_container_clear c).icon_set = [] ∧
        (nautilus_canvas_container_clear c).selection = [] ∧
        (nautilus_canvas_container_clear c).focus = 0 ∧
        (nautilus_canvas_container_clear c).keyboard_rubberband_start = 0 ∧
        (nautilus_canvas_container_clear c).pending_icon_to_reveal = 0 ∧
        (nautilus_canvas_container_clear c).drop_target = 0)) ∧
    (∀ k, Reachable k sample_anchored) ∧
    sample_anchored.range_selection_base_icon = 2 ∧ 2 ∈ sample_anchored.icons ∧
    (nautilus_canvas_container_clear sample_anchored).icons = [] ∧
    (nautilus_canvas_container_clear sample_anchored).range_selection_base_icon = 2 := by
  refine ⟨?_, fun k => Reachable.set_selection sample_three [20] (sample_three_reachable k),
    by decide, by decide, by decide, by decide⟩
  intro c
  unfold nautilus_canvas_container_clear
  by_cases he : c.icons = []
  · rw [if_pos he]
    exact ⟨he, rfl, rfl, fun _ => rfl, fun h => absurd he h⟩
  · rw [if_neg he]
    unfold set_pending_icon_to_reveal unschedule_keyboard_icon_reveal
      clear_keyboard_rubberband_start clear_focus g_source_remove
    refine ⟨rfl, ?_, ?_, fun h => absurd h he, fun _ => ⟨rfl, rfl, rfl, ?_, ?_, ?_, rfl⟩⟩ <;>
      dsimp only <;> split_ifs <;> first | rfl | simp_all

/-- C17: every `nautilus_canvas_container_remove` of a selected item from a consistent container
with no keyboard reveal timer attaches one more `selection_changed_at_idle_callback` source than
were pending.  In the sample container with the ids 40 and 30 selected, after the two are removed
two such sources are pending (the ids 2 and 3 after the layout source 1, the stored
`selection_changed_id` being 3), and one run of the idle queue emits `SELECTION_CHANGED`
twice. -/
theorem C17_each_removal_adds_a_notification :
    (∀ (c : NautilusCanvasContainer) (data : Nat), Consistent c → is_registered c data →
      data ∈ c.selection → c.keyboard_icon_reveal_timer_id = 0 →
      ∃ c1, nautilus_canvas_container_remove c data = some (true, c1) ∧
        pending_sources c1 GSourceFunc.selection_changed_at_idle_callback =
          pending_sources c GSourceFunc.selection_changed_at_idle_callback + 1) ∧
    ∃ c1 c2, nautilus_canvas_container_remove sample_two_selected 40 = some (true, c1) ∧
      nautilus_canvas_container_remove c1 30 = some (true, c2) ∧
      pending_sources sample_two_selected GSourceFunc.selection_changed_at_idle_callback = 0 ∧
      pending_sources c2 GSourceFunc.selection_changed_at_idle_callback = 2 ∧
      c2.sources.map Prod.fst = [1, 2, 3] ∧ c2.selection_changed_id = 3 ∧
      emissions c2 Signal.SELECTION_CHANGED = 0 ∧
      emissions (g_main_context_iteration sample_collaborators sample_widget c2)
        Signal.SELECTION_CHANGED = 2 := by
  refine ⟨fun c data hc hr hsel ht => nautilus_canvas_container_remove_pending c data hc hr hsel ht,
    _, _, rfl, rfl, ?_⟩
  decide!

/-- C20: `unschedule_redo_layout` clears `idle_id`, so that a second call changes nothing.
`unschedule_keyboard_icon_reveal` never writes `keyboard_icon_reveal_timer_id`: in the sample
container with a reveal of the icon 2 scheduled (the timer is the source 2), the first cancel
removes the source and leaves the stored id 2, and the second cancel is `g_source_remove` of the
id 2, which no attached source has. -/
theorem C20_keyboard_reveal_cancel_keeps_timer_id :
    (∀ c : NautilusCanvasContainer,
      (unschedule_redo_layout c).idle_id = 0 ∧
      unschedule_redo_layout (unschedule_redo_layout c) = unschedule_redo_layout c) ∧
    (∀ c : NautilusCanvasContainer,
      (unschedule_keyboard_icon_reveal c).keyboard_icon_reveal_timer_id =
        c.keyboard_icon_reveal_timer_id) ∧
    (schedule_keyboard_icon_reveal sample_three 2).keyboard_icon_reveal_timer_id = 2 ∧
    (2, GSourceFunc.keyboard_icon_reveal_timeout_callback) ∈
      (schedule_keyboard_icon_reveal sample_three 2).sources ∧
    (unschedule_keyboard_icon_reveal
      (schedule_keyboard_icon_reveal sample_three 2)).keyboard_icon_reveal_timer_id = 2 ∧
    (unschedule_keyboard_icon_reveal
      (schedule_keyboard_icon_reveal sample_three 2)).sources.map Prod.fst = [1] ∧
    unschedule_keyboard_icon_reveal (unschedule_keyboard_icon_reveal
        (schedule_keyboard_icon_reveal sample_three 2)) =
      g_source_remove (unschedule_keyboard_icon_reveal
        (schedule_keyboard_icon_reveal sample_three 2)) 2 := by
  refine ⟨?_, ?_, by decide, by decide, by decide, by decide, ?_⟩
  · intro c
    unfold unschedule_redo_layout
    by_cases h : c.idle_id = 0
    · simp [h]
    · simp [h]
  · intro c
    unfold unschedule_keyboard_icon_reveal g_source_remove
    split_ifs <;> rfl
  · have h : (unschedule_keyboard_icon_reveal
        (schedule_keyboard_icon_reveal sample_three 2)).keyboard_icon_reveal_timer_id = 2 := by
      decide
    have key : ∀ c : NautilusCanvasContainer, c.keyboard_icon_reveal_timer_id = 2 →
        unschedule_keyboard_icon_reveal c = g_source_remove c 2 := by
      intro c hc
      unfold unschedule_keyboard_icon_reveal
      rw [hc]
      rfl
    exact key _ h

/-! ## Lemmas: the focus under the selection operations -/

theorem icon_set_selected_focus (c : NautilusCanvasContainer) (icon : Nat) (select : Bool) :
    (icon_set_selected c icon select).2.focus = c.focus := by
  unfold icon_set_selected
  split
  · rfl
  · unfold icon_toggle_selected
    cases (c.heap icon).is_selected <;> rfl

theorem foldl_focus {σ : Type} (f : σ → Nat → σ) (cont : σ → NautilusCanvasContainer)
    (hstep : ∀ s icon, (cont (f s icon)).focus = (cont s).focus) (l : List Nat) (s : σ) :
    (cont (l.foldl f s)).focus = (cont s).focus := by
  induction l generalizing s with
  | nil => rfl
  | cons x t ih =>
    rw [List.foldl_cons, ih (f s x), hstep s x]

theorem set_selected_loop_focus (want : NautilusCanvasContainer → Nat → Bool) (l : List Nat)
    (acc : Bool × NautilusCanvasContainer) :
    (set_selected_loop want l acc).2.focus = acc.2.focus := by
  unfold set_selected_loop
  exact foldl_focus (set_selected_step want) (fun s => s.2)
    (fun s icon => icon_set_selected_focus s.2 icon (want s.2 icon)) l acc

theorem select_range_focus (c : NautilusCanvasContainer) (icon1 icon2 : Nat) (u : Bool) :
    (select_range c icon1 icon2 u).2.focus = c.focus := by
  unfold select_range
  exact foldl_focus (select_range_step icon1 icon2 u) (fun s => s.container)
    (fun s icon => by
      obtain ⟨b, hb, _⟩ := select_range_step_container icon1 icon2 u s icon
      show (select_range_step icon1 icon2 u s icon).container.focus = s.container.focus
      rw [hb]
      exact icon_set_selected_focus _ _ _) c.icons _

theorem reveal_icon_focus (c : NautilusCanvasContainer) (icon : Nat) :
    (reveal_icon c icon).focus = c.focus := by
  unfold reveal_icon set_pending_icon_to_reveal
  split_ifs <;> rfl

theorem select_one_unselect_others_focus (c : NautilusCanvasContainer) (icon : Nat) :
    (select_one_unselect_others c icon).2.focus = c.focus := by
  unfold select_one_unselect_others
  dsimp only
  split_ifs
  · dsimp only
    rw [reveal_icon_focus]
    exact set_selected_loop_focus _ c.icons (false, c)
  · exact set_selected_loop_focus _ c.icons (false, c)

theorem rubberband_select_focus (k : Collaborators) (c : NautilusCanvasContainer)
    (current_rect : EelDRect) : (rubberband_select k c current_rect).focus = c.focus := by
  unfold rubberband_select
  dsimp only
  split_ifs
  · unfold g_signal_emit
    dsimp only
    exact set_selected_loop_focus _ c.icons (false, c)
  · exact set_selected_loop_focus _ c.icons (false, c)

theorem g_signal_emit_focus (c : NautilusCanvasContainer) (signal : Signal) :
    (g_signal_emit c signal).focus = c.focus := rfl

theorem keyboard_move_to_select_focus (k : Collaborators) (w : CanvasWidget)
    (c : NautilusCanvasContainer) (icon from_icon : Nat) (event : Option GdkEventKey) :
    (keyboard_move_to_select k w c icon from_icon event).focus = c.focus := by
  unfold keyboard_move_to_select
  dsimp only
  split_ifs <;>
    simp only [g_signal_emit_focus, rubberband_select_focus, select_range_focus,
      select_one_unselect_others_focus, set_keyboard_rubberband_start,
      clear_keyboard_rubberband_start]

theorem schedule_keyboard_icon_reveal_focus (c : NautilusCanvasContainer) (icon : Nat) :
    (schedule_keyboard_icon_reveal c icon).focus = c.focus := by
  unfold schedule_keyboard_icon_reveal unschedule_keyboard_icon_reveal g_source_add
    g_source_remove
  dsimp only
  split_ifs <;> rfl

theorem keyboard_move_to_focus (k : Collaborators) (w : CanvasWidget)
    (c : NautilusCanvasContainer) (icon from_icon : Nat) (event : Option GdkEventKey)
    (hi : icon ≠ 0) :
    ∃ c1, keyboard_move_to k w c icon from_icon event = some c1 ∧ c1.focus = icon := by
  unfold keyboard_move_to
  rw [if_neg hi]
  have hf : ∃ c2, set_focus c icon true = some c2 ∧ c2.focus = icon := by
    unfold set_focus clear_focus
    rw [if_neg hi]
    split_ifs with h
    · exact ⟨c, rfl, h.symm⟩
    · exact ⟨_, rfl, rfl⟩
  obtain ⟨c2, h2, h3⟩ := hf
  rw [h2]
  refine ⟨_, rfl, ?_⟩
  rw [schedule_keyboard_icon_reveal_focus, keyboard_move_to_select_focus, h3]

theorem keyboard_move_to_null (k : Collaborators) (w : CanvasWidget)
    (c : NautilusCanvasContainer) (from_icon : Nat) (event : Option GdkEventKey) :
    keyboard_move_to k w c 0 from_icon event = some c := by
  unfold keyboard_move_to
  rfl

/-! ## Lemmas: arrow keys on an empty list and on a list of one icon -/

theorem keyboard_arrow_key_from_empty (k : Collaborators) (w : CanvasWidget)
    (c : NautilusCanvasContainer) (better_start empty_start : IsBetterCanvasFunction)
    (hi : c.icons = []) (hf : c.focus = 0) :
    keyboard_arrow_key_from k w c better_start empty_start = some 0 := by
  unfold keyboard_arrow_key_from has_multiple_selection get_first_selected_icon
    get_nth_selected_icon
  simp [hi, hf]

theorem keyboard_arrow_key_from_single (k : Collaborators) (w : CanvasWidget)
    (c : NautilusCanvasContainer) (better_start empty_start : IsBetterCanvasFunction) (a : Nat)
    (hi : c.icons = [a]) (hf : c.focus = 0 ∨ c.focus = a) :
    ∃ from_icon, keyboard_arrow_key_from k w c better_start empty_start = some from_icon ∧
      (from_icon = 0 ∨ from_icon = a) := by
  unfold keyboard_arrow_key_from
  dsimp only
  by_cases h0 : c.focus = 0
  · rw [if_pos h0]
    unfold has_multiple_selection get_first_selected_icon get_nth_selected_icon
    by_cases hs : (c.heap a).is_selected = true
    · exact ⟨a, by simp [hi, hs], Or.inr rfl⟩
    · exact ⟨0, by simp [hi, hs], Or.inl rfl⟩
  · rw [if_neg h0]
    exact ⟨c.focus, rfl, hf⟩

theorem keyboard_arrow_key_to_empty (k : Collaborators) (w : CanvasWidget)
    (c : NautilusCanvasContainer) (direction : GtkDirectionType)
    (empty_start better_destination : IsBetterCanvasFunction)
    (fallback fallback_fallback : Option IsBetterCanvasFunction) (hi : c.icons = []) :
    keyboard_arrow_key_to k w c 0 direction empty_start better_destination fallback
      fallback_fallback = some { container := c, from_icon := 0, to_icon := 0 } := by
  unfold keyboard_arrow_key_to find_best_icon
  simp [hi]

theorem find_best_icon_only_start (k : Collaborators) (w : CanvasWidget)
    (c : NautilusCanvasContainer) (function : IsBetterCanvasFunction) (a : Nat)
    (hi : c.icons = [a]) : find_best_icon k w c a function = some 0 := by
  unfold find_best_icon find_best_icon_step
  simp [hi]

theorem keyboard_empty_start_first (k : Collaborators) (w : CanvasWidget)
    (c : NautilusCanvasContainer) (start_icon candidate : Nat) :
    is_better_canvas (keyboard_empty_start w) k w c start_icon 0 candidate = some true := by
  unfold keyboard_empty_start
  split_ifs
  · unfold is_better_canvas rightmost_in_top_row
    simp
  · unfold is_better_canvas leftmost_in_top_row
    simp

theorem keyboard_arrow_key_to_single (k : Collaborators) (w : CanvasWidget)
    (c : NautilusCanvasContainer) (direction : GtkDirectionType)
    (better_destination : IsBetterCanvasFunction)
    (fallback fallback_fallback : Option IsBetterCanvasFunction) (a from_icon : Nat)
    (hi : c.icons = [a]) (ha : a ≠ 0) (hf : from_icon = 0 ∨ from_icon = a) :
    ∃ choice, keyboard_arrow_key_to k w c from_icon direction (keyboard_empty_start w)
        better_destination fallback fallback_fallback = some choice ∧
      choice.to_icon = a ∧ choice.from_icon = a := by
  rcases hf with hf | hf
  · subst hf
    unfold keyboard_arrow_key_to
    rw [if_pos rfl]
    have hb : find_best_icon k w c 0 (keyboard_empty_start w) = some a := by
      unfold find_best_icon find_best_icon_step
      rw [hi]
      simp only [List.foldl_cons, List.foldl_nil, Option.some_bind]
      rw [if_pos ha, keyboard_empty_start_first]
      rfl
    rw [hb]
    exact ⟨_, rfl, rfl, rfl⟩
  · subst hf
    unfold keyboard_arrow_key_to record_arrow_key_start
    rw [if_neg ha, if_neg ha]
    simp only [Option.some_bind]
    have hb : ∀ f, find_best_icon k w
        { c with arrow_key_start_x := (icon_cmp_point k w from_icon).1,
                 arrow_key_start_y := (icon_cmp_point k w from_icon).2,
                 arrow_key_direction := direction } from_icon f = some 0 :=
      fun f => find_best_icon_only_start k w _ f from_icon hi
    rw [hb]
    simp only [Option.some_bind]
    cases fallback <;> cases fallback_fallback <;>
      simp only [if_true, hb, Option.some_bind] <;> exact ⟨_, rfl, rfl, rfl⟩

theorem keyboard_arrow_key_empty (k : Collaborators) (w : CanvasWidget)
    (c : NautilusCanvasContainer) (event : Option GdkEventKey) (direction : GtkDirectionType)
    (better_start empty_start better_destination : IsBetterCanvasFunction)
    (fallback fallback_fallback : Option IsBetterCanvasFunction)
    (hi : c.icons = []) (hf : c.focus = 0) :
    keyboard_arrow_key k w c event direction better_start empty_start better_destination
      fallback fallback_fallback = some c := by
  unfold keyboard_arrow_key
  rw [keyboard_arrow_key_from_empty k w c better_start empty_start hi hf]
  simp only [Option.some_bind]
  rw [keyboard_arrow_key_to_empty k w c direction empty_start better_destination fallback
    fallback_fallback hi]
  simp only [Option.some_bind]
  exact keyboard_move_to_null k w c 0 event

theorem keyboard_arrow_key_single (k : Collaborators) (w : CanvasWidget)
    (c : NautilusCanvasContainer) (event : Option GdkEventKey) (direction : GtkDirectionType)
    (better_start better_destination : IsBetterCanvasFunction)
    (fallback fallback_fallback : Option IsBetterCanvasFunction) (a : Nat)
    (hi : c.icons = [a]) (ha : a ≠ 0) (hf : c.focus = 0 ∨ c.focus = a) :
    ∃ c1, keyboard_arrow_key k w c event direction better_start (keyboard_empty_start w)
        better_destination fallback fallback_fallback = some c1 ∧ c1.focus = a := by
  obtain ⟨from_icon, h1, h2⟩ := keyboard_arrow_key_from_single k w c better_start
    (keyboard_empty_start w) a hi hf
  obtain ⟨choice, h3, h4, _⟩ := keyboard_arrow_key_to_single k w c direction better_destination
    fallback fallback_fallback a from_icon hi ha h2
  unfold keyboard_arrow_key
  rw [h1]
  simp only [Option.some_bind]
  rw [h3]
  simp only [Option.some_bind]
  rw [h4]
  exact keyboard_move_to_focus k w choice.container a choice.from_icon event ha

/-! ## C18: arrow keys on an empty list and on a list of one icon -/

/-- C18: for every container whose focus is `NULL` or an icon of the list and whose list holds no
`NULL`, every key event (or none) and every text direction, each of `keyboard_up`,
`keyboard_down`, `keyboard_left` and `keyboard_right` returns: on an empty icon list it returns
the container unchanged, and on a list of exactly one icon it returns a container whose focus is
that icon, and the icon that `keyboard_arrow_key` chooses to move to is that icon, whichever
direction and destination functions it is called with. -/
theorem C18_arrow_keys_on_small_registries (k : Collaborators) (w : CanvasWidget)
    (c : NautilusCanvasContainer) (event : Option GdkEventKey)
    (hfocus : c.focus = 0 ∨ c.focus ∈ c.icons) (hnull : 0 ∉ c.icons) :
    (c.icons = [] →
      keyboard_up k w c event = some c ∧ keyboard_down k w c event = some c ∧
      keyboard_left k w c event = some c ∧ keyboard_right k w c event = some c) ∧
    (∀ a, c.icons = [a] →
      (∃ c1, keyboard_up k w c event = some c1 ∧ c1.focus = a) ∧
      (∃ c1, keyboard_down k w c event = some c1 ∧ c1.focus = a) ∧
      (∃ c1, keyboard_left k w c event = some c1 ∧ c1.focus = a) ∧
      (∃ c1, keyboard_right k w c event = some c1 ∧ c1.focus = a) ∧
      ∀ (direction : GtkDirectionType) (better_start better_destination : IsBetterCanvasFunction)
        (fallback fallback_fallback : Option IsBetterCanvasFunction),
        ∃ from_icon choice,
          keyboard_arrow_key_from k w c better_start (keyboard_empty_start w) = some from_icon ∧
          keyboard_arrow_key_to k w c from_icon direction (keyboard_empty_start w)
            better_destination fallback fallback_fallback = some choice ∧
          choice.to_icon = a) := by
  constructor
  · intro hi
    have hf : c.focus = 0 := by
      rcases hfocus with h | h
      · exact h
      · rw [hi] at h
        exact absurd h (List.not_mem_nil _)
    unfold keyboard_up keyboard_down keyboard_left keyboard_right
    exact ⟨keyboard_arrow_key_empty k w c event _ _ _ _ _ _ hi hf,
      keyboard_arrow_key_empty k w c event _ _ _ _ _ _ hi hf,
      keyboard_arrow_key_empty k w c event _ _ _ _ _ _ hi hf,
      keyboard_arrow_key_empty k w c event _ _ _ _ _ _ hi hf⟩
  · intro a hi
    have ha : a ≠ 0 := by
      intro h
      rw [hi, h] at hnull
      exact hnull (List.mem_singleton.mpr rfl)
    have hf : c.focus = 0 ∨ c.focus = a := by
      rcases hfocus with h | h
      · exact Or.inl h
      · rw [hi] at h
        exact Or.inr (List.mem_singleton.mp h)
    unfold keyboard_up keyboard_down keyboard_left keyboard_right
    refine ⟨keyboard_arrow_key_single k w c event _ _ _ _ _ a hi ha hf,
      keyboard_arrow_key_single k w c event _ _ _ _ _ a hi ha hf,
      keyboard_arrow_key_single k w c event _ _ _ _ _ a hi ha hf,
      keyboard_arrow_key_single k w c event _ _ _ _ _ a hi ha hf, ?_⟩
    intro direction better_start better_destination fallback fallback_fallback
    obtain ⟨from_icon, h1, h2⟩ := keyboard_arrow_key_from_single k w c better_start
      (keyboard_empty_start w) a hi hf
    obtain ⟨choice, h3, h4, _⟩ := keyboard_arrow_key_to_single k w c direction
      better_destination fallback fallback_fallback a from_icon hi ha h2
    exact ⟨from_icon, choice, h1, h3, h4⟩

/-- Witness of C18: the sample container with the one icon 1, no focus, and a key event with the
shift modifier. -/
theorem C18_arrow_keys_on_small_registries_witness :
    (sample_one.focus = 0 ∨ sample_one.focus ∈ sample_one.icons) ∧ 0 ∉ sample_one.icons ∧
      sample_one.icons = [1] ∧
      (∃ c1, keyboard_up sample_collaborators sample_widget sample_one (some { state := 1 }) =
        some c1 ∧ c1.focus = 1) ∧
      (∃ c1, keyboard_right sample_collaborators sample_widget sample_one (some { state := 1 }) =
        some c1 ∧ c1.focus = 1) :=
  ⟨by decide, by decide, by decide,
    ((C18_arrow_keys_on_small_registries sample_collaborators sample_widget sample_one
      (some { state := 1 }) (by decide) (by decide)).2 1 (by decide)).1,
    ((C18_arrow_keys_on_small_registries sample_collaborators sample_widget sample_one
      (some { state := 1 }) (by decide) (by decide)).2 1 (by decide)).2.2.2.1⟩

/-! ## Lemmas: the vertical-first order -/

theorem strcmp_sign (a b : String) (h : a ≠ b) :
    (strcmp a b = -1 ∧ a < b) ∨ (strcmp a b = 1 ∧ b < a) := by
  unfold strcmp
  rcases lt_or_gt_of_ne h with hl | hg
  · left
    exact ⟨by simp [hl], hl⟩
  · right
    refine ⟨?_, hg⟩
    have : ¬ a < b := not_lt_of_gt hg
    simp [this, h]

theorem compare_icons_vertical_first_sign (k : Collaborators) (w : CanvasWidget)
    (c : NautilusCanvasContainer) (a b : Nat) (ha : a ≠ 0) (hb : b ≠ 0) (hab : a ≠ b)
    (hu : k.get_icon_uri (c.heap a).data ≠ k.get_icon_uri (c.heap b).data) :
    (compare_icons_vertical_first k w c a b = some (-1) ∧
        vertical_first_key k w c a < vertical_first_key k w c b) ∨
      (compare_icons_vertical_first k w c a b = some 1 ∧
        vertical_first_key k w c b < vertical_first_key k w c a) := by
  unfold compare_icons_vertical_first vertical_first_key compare_icons_by_uri
  simp only [ha, hb, hab, or_self, if_false]
  rw [Prod.Lex.lt_iff, Prod.Lex.lt_iff, Prod.Lex.lt_iff, Prod.Lex.lt_iff]
  dsimp only
  rcases lt_trichotomy (icon_cmp_point k w a).2 (icon_cmp_point k w b).2 with h | h | h
  · left
    exact ⟨by simp [h], Or.inl h⟩
  · rcases lt_trichotomy (icon_cmp_point k w a).1 (icon_cmp_point k w b).1 with h2 | h2 | h2
    · left
      exact ⟨by simp [h, h2], Or.inr ⟨h, Or.inl h2⟩⟩
    · rcases strcmp_sign _ _ hu with ⟨s1, s2⟩ | ⟨s1, s2⟩
      · left
        exact ⟨by simp [h, h2, s1], Or.inr ⟨h, Or.inr ⟨h2, s2⟩⟩⟩
      · right
        exact ⟨by simp [h, h2, s1], Or.inr ⟨h.symm, Or.inr ⟨h2.symm, s2⟩⟩⟩
    · right
      have h3 : ¬ (icon_cmp_point k w a).1 < (icon_cmp_point k w b).1 := not_lt_of_gt h2
      exact ⟨by simp [h, h3, h2], Or.inr ⟨h.symm, Or.inl h2⟩⟩
  · right
    have h3 : ¬ (icon_cmp_point k w a).2 < (icon_cmp_point k w b).2 := not_lt_of_gt h
    exact ⟨by simp [h3, h], Or.inl h⟩

theorem vertical_first_key_injective (k : Collaborators) (w : CanvasWidget)
    (c : NautilusCanvasContainer) (a b : Nat)
    (h : vertical_first_key k w c a = vertical_first_key k w c b) :
    k.get_icon_uri (c.heap a).data = k.get_icon_uri (c.heap b).data := by
  unfold vertical_first_key at h
  have h2 := congrArg (fun p => (ofLex (ofLex p).2).2) h
  exact h2

/-! ## Lemmas: the best icon of a walk is the least one -/

theorem find_best_fold_min {K : Type} [LinearOrder K] (key : Nat → K)
    (step : Option Nat → Nat → Option Nat) (all : List Nat)
    (hA : ∀ cand ∈ all, step (some 0) cand = some cand)
    (hB : ∀ m ∈ all, ∀ cand ∈ all, m ≠ cand →
      step (some m) cand = some (if key cand < key m then cand else m))
    (l seen : List Nat) (m : Nat) (hall : ∀ x ∈ seen ++ l, x ∈ all) (hnd : (seen ++ l).Nodup)
    (hm : (seen = [] ∧ m = 0) ∨ (m ∈ seen ∧ ∀ x ∈ seen, key m ≤ key x)) :
    ∃ best, l.foldl step (some m) = some best ∧
      ((seen ++ l = [] ∧ best = 0) ∨ (best ∈ seen ++ l ∧ ∀ x ∈ seen ++ l, key best ≤ key x)) := by
  induction l generalizing seen m with
  | nil =>
    refine ⟨m, rfl, ?_⟩
    simpa using hm
  | cons cand rest ih =>
    have hc : cand ∈ all := hall cand (by simp)
    have hall2 : ∀ x ∈ (seen ++ [cand]) ++ rest, x ∈ all := by
      intro x hx
      exact hall x (by simpa using hx)
    have hnd2 : ((seen ++ [cand]) ++ rest).Nodup := by simpa using hnd
    rw [List.foldl_cons]
    rcases hm with ⟨hs, hm0⟩ | ⟨hms, hmin⟩
    · subst hm0
      rw [hA cand hc]
      obtain ⟨best, hb1, hb2⟩ := ih (seen ++ [cand]) cand hall2 hnd2
        (Or.inr ⟨by simp, by
          intro x hx
          rw [hs] at hx
          simp at hx
          rw [hx]⟩)
      refine ⟨best, hb1, ?_⟩
      simpa using hb2
    · have hne : m ≠ cand := by
        intro he
        rw [he] at hms
        have := List.nodup_append.mp hnd
        exact this.2.2 hms (List.mem_cons_self _ _)
      rw [hB m (hall m (List.mem_append_left _ hms)) cand hc hne]
      obtain ⟨best, hb1, hb2⟩ := ih (seen ++ [cand]) (if key cand < key m then cand else m)
        hall2 hnd2
        (Or.inr (by
          by_cases hlt : key cand < key m
          · rw [if_pos hlt]
            refine ⟨by simp, ?_⟩
            intro x hx
            rcases List.mem_append.mp hx with hx | hx
            · exact le_trans (le_of_lt hlt) (hmin x hx)
            · rw [List.mem_singleton.mp hx]
          · rw [if_neg hlt]
            refine ⟨List.mem_append_left _ hms, ?_⟩
            intro x hx
            rcases List.mem_append.mp hx with hx | hx
            · exact hmin x hx
            · rw [List.mem_singleton.mp hx]
              exact not_lt.mp hlt))
      refine ⟨best, hb1, ?_⟩
      simpa using hb2

theorem find_best_icon_step_first (k : Collaborators) (w : CanvasWidget)
    (c : NautilusCanvasContainer) (function : IsBetterCanvasFunction) (cand : Nat)
    (hc : cand ≠ 0)
    (hf : function = IsBetterCanvasFunction.leftmost_in_top_row ∨
      function = IsBetterCanvasFunction.rightmost_in_bottom_row) :
    find_best_icon_step k w c 0 function (some 0) cand = some cand := by
  unfold find_best_icon_step
  rcases hf with hf | hf <;> subst hf <;>
    simp [hc, is_better_canvas, leftmost_in_top_row, rightmost_in_bottom_row]

theorem find_best_icon_step_leftmost (k : Collaborators) (w : CanvasWidget)
    (c : NautilusCanvasContainer) (m cand : Nat) (hm : m ≠ 0) (hc : cand ≠ 0) (hne : m ≠ cand)
    (hu : k.get_icon_uri (c.heap m).data ≠ k.get_icon_uri (c.heap cand).data) :
    find_best_icon_step k w c 0 IsBetterCanvasFunction.leftmost_in_top_row (some m) cand =
      some (if vertical_first_key k w c cand < vertical_first_key k w c m then cand else m) := by
  unfold find_best_icon_step is_better_canvas leftmost_in_top_row
  simp only [Option.some_bind, hc, ne_eq, not_false_eq_true, if_true, hm, if_false]
  rcases compare_icons_vertical_first_sign k w c m cand hm hc hne hu with ⟨h1, h2⟩ | ⟨h1, h2⟩
  · rw [h1, if_neg (not_lt_of_gt h2)]
    rfl
  · rw [h1, if_pos h2]
    rfl

theorem find_best_icon_step_rightmost (k : Collaborators) (w : CanvasWidget)
    (c : NautilusCanvasContainer) (m cand : Nat) (hm : m ≠ 0) (hc : cand ≠ 0) (hne : m ≠ cand)
    (hu : k.get_icon_uri (c.heap m).data ≠ k.get_icon_uri (c.heap cand).data) :
    find_best_icon_step k w c 0 IsBetterCanvasFunction.rightmost_in_bottom_row (some m) cand =
      some (if OrderDual.toDual (vertical_first_key k w c cand) <
          OrderDual.toDual (vertical_first_key k w c m) then cand else m) := by
  unfold find_best_icon_step is_better_canvas rightmost_in_bottom_row
  simp only [Option.some_bind, hc, ne_eq, not_false_eq_true, if_true, hm, if_false,
    OrderDual.toDual_lt_toDual]
  rcases compare_icons_vertical_first_sign k w c m cand hm hc hne hu with ⟨h1, h2⟩ | ⟨h1, h2⟩
  · rw [h1, if_pos h2]
    rfl
  · rw [h1, if_neg (not_lt_of_gt h2)]
    rfl

theorem find_best_walk_leftmost (k : Collaborators) (w : CanvasWidget)
    (c : NautilusCanvasContainer) (all l : List Nat) (h0 : 0 ∉ all)
    (hu : distinct_uris k c all) (hl : ∀ x ∈ l, x ∈ all) (hnd : l.Nodup) :
    ∃ best, l.foldl (find_best_icon_step k w c 0 IsBetterCanvasFunction.leftmost_in_top_row)
        (some 0) = some best ∧
      ((l = [] ∧ best = 0) ∨
        (best ∈ l ∧ ∀ x ∈ l, vertical_first_key k w c best ≤ vertical_first_key k w c x)) := by
  have hnz : ∀ x ∈ all, x ≠ 0 := fun x hx he => h0 (he ▸ hx)
  have := find_best_fold_min (vertical_first_key k w c)
    (find_best_icon_step k w c 0 IsBetterCanvasFunction.leftmost_in_top_row) all
    (fun cand hc => find_best_icon_step_first k w c _ cand (hnz cand hc) (Or.inl rfl))
    (fun m hm cand hc hne => find_best_icon_step_leftmost k w c m cand (hnz m hm) (hnz cand hc)
      hne (hu m hm cand hc hne))
    l [] 0 (by simpa using hl) (by simpa using hnd) (Or.inl ⟨rfl, rfl⟩)
  simpa using this

theorem find_best_walk_rightmost (k : Collaborators) (w : CanvasWidget)
    (c : NautilusCanvasContainer) (all l : List Nat) (h0 : 0 ∉ all)
    (hu : distinct_uris k c all) (hl : ∀ x ∈ l, x ∈ all) (hnd : l.Nodup) :
    ∃ best, l.foldl (find_best_icon_step k w c 0 IsBetterCanvasFunction.rightmost_in_bottom_row)
        (some 0) = some best ∧
      ((l = [] ∧ best = 0) ∨
        (best ∈ l ∧ ∀ x ∈ l, vertical_first_key k w c x ≤ vertical_first_key k w c best)) := by
  have hnz : ∀ x ∈ all, x ≠ 0 := fun x hx he => h0 (he ▸ hx)
  have := find_best_fold_min (fun icon => OrderDual.toDual (vertical_first_key k w c icon))
    (find_best_icon_step k w c 0 IsBetterCanvasFunction.rightmost_in_bottom_row) all
    (fun cand hc => find_best_icon_step_first k w c _ cand (hnz cand hc) (Or.inr rfl))
    (fun m hm cand hc hne => find_best_icon_step_rightmost k w c m cand (hnz m hm) (hnz cand hc)
      hne (hu m hm cand hc hne))
    l [] 0 (by simpa using hl) (by simpa using hnd) (Or.inl ⟨rfl, rfl⟩)
  simpa using this

theorem find_best_selected_icon_eq_filter (k : Collaborators) (w : CanvasWidget)
    (c : NautilusCanvasContainer) (function : IsBetterCanvasFunction) (l : List Nat) (hl : 0 ∉ l)
    (best : Option Nat) :
    l.foldl (find_best_selected_icon_step k w c 0 function) best =
      (l.filter (fun icon => (c.heap icon).is_selected)).foldl
        (find_best_icon_step k w c 0 function) best := by
  induction l generalizing best with
  | nil => rfl
  | cons cand rest ih =>
    have hc : cand ≠ 0 := fun he => hl (he ▸ List.mem_cons_self _ _)
    have hr : 0 ∉ rest := fun h => hl (List.mem_cons_of_mem _ h)
    rw [List.foldl_cons, ih hr]
    by_cases hs : (c.heap cand).is_selected = true
    · rw [List.filter_cons]
      simp only [hs, if_true, List.foldl_cons]
      congr 1
      unfold find_best_selected_icon_step find_best_icon_step
      simp [hc, hs]
    · rw [List.filter_cons]
      simp only [hs, if_false, Bool.false_eq_true]
      congr 1
      unfold find_best_selected_icon_step
      cases best <;> simp [hs]

theorem find_best_selected_icon_isSome (k : Collaborators) (w : CanvasWidget)
    (c : NautilusCanvasContainer) (function : IsBetterCanvasFunction)
    (hf : function = IsBetterCanvasFunction.leftmost_in_top_row ∨
      function = IsBetterCanvasFunction.rightmost_in_bottom_row)
    (h0 : 0 ∉ c.icons) (hnd : c.icons.Nodup) (hu : distinct_uris k c c.icons) :
    ∃ from_icon, find_best_selected_icon k w c 0 function = some from_icon := by
  unfold find_best_selected_icon
  rw [find_best_selected_icon_eq_filter k w c function c.icons h0]
  have hl : ∀ x ∈ c.icons.filter (fun icon => (c.heap icon).is_selected), x ∈ c.icons :=
    fun x hx => (List.mem_filter.mp hx).1
  rcases hf with hf | hf <;> subst hf
  · obtain ⟨best, hb, _⟩ := find_best_walk_leftmost k w c c.icons _ h0 hu hl (hnd.filter _)
    exact ⟨best, hb⟩
  · obtain ⟨best, hb, _⟩ := find_best_walk_rightmost k w c c.icons _ h0 hu hl (hnd.filter _)
    exact ⟨best, hb⟩

theorem vertical_first_key_congr (k : Collaborators) (w : CanvasWidget)
    (c c2 : NautilusCanvasContainer) (h : c2.heap = c.heap) (icon : Nat) :
    vertical_first_key k w c2 icon = vertical_first_key k w c icon := by
  unfold vertical_first_key
  rw [h]

theorem find_best_icon_step_congr (k : Collaborators) (w : CanvasWidget)
    (c c2 : NautilusCanvasContainer) (h : c2.heap = c.heap)
    (function : IsBetterCanvasFunction)
    (hf : function = IsBetterCanvasFunction.leftmost_in_top_row ∨
      function = IsBetterCanvasFunction.rightmost_in_bottom_row) :
    find_best_icon_step k w c2 0 function = find_best_icon_step k w c 0 function := by
  funext best cand
  unfold find_best_icon_step
  rcases hf with hf | hf <;> subst hf <;>
    simp only [is_better_canvas, leftmost_in_top_row, rightmost_in_bottom_row,
      compare_icons_vertical_first, compare_icons_by_uri, h]

theorem vertical_first_key_eq (k : Collaborators) (w : CanvasWidget)
    (c : NautilusCanvasContainer) (icons : List Nat) (hu : distinct_uris k c icons) (a b : Nat)
    (ha : a ∈ icons) (hb : b ∈ icons)
    (h : vertical_first_key k w c a = vertical_first_key k w c b) : a = b := by
  by_contra hne
  exact hu a ha b hb hne (vertical_first_key_injective k w c a b h)

theorem find_best_icon_leftmost (k : Collaborators) (w : CanvasWidget)
    (c c2 : NautilusCanvasContainer) (hheap : c2.heap = c.heap) (hperm : c2.icons.Perm c.icons)
    (hne : c.icons ≠ []) (hnd : c.icons.Nodup) (h0 : 0 ∉ c.icons)
    (hu : distinct_uris k c c.icons) :
    ∃ first, find_best_icon k w c2 0 IsBetterCanvasFunction.leftmost_in_top_row = some first ∧
      first ∈ c.icons ∧
      ∀ x ∈ c.icons, vertical_first_key k w c first ≤ vertical_first_key k w c x := by
  unfold find_best_icon
  rw [find_best_icon_step_congr k w c c2 hheap _ (Or.inl rfl)]
  obtain ⟨best, hb, hprop⟩ := find_best_walk_leftmost k w c c.icons c2.icons h0 hu
    (fun x hx => hperm.subset hx) (hperm.nodup_iff.mpr hnd)
  refine ⟨best, hb, ?_⟩
  rcases hprop with ⟨he, _⟩ | ⟨hm, hmin⟩
  · rw [he] at hperm
    exact absurd hperm.symm.eq_nil hne
  · exact ⟨hperm.subset hm, fun x hx => hmin x (hperm.symm.subset hx)⟩

theorem find_best_icon_rightmost (k : Collaborators) (w : CanvasWidget)
    (c c2 : NautilusCanvasContainer) (hheap : c2.heap = c.heap) (hperm : c2.icons.Perm c.icons)
    (hne : c.icons ≠ []) (hnd : c.icons.Nodup) (h0 : 0 ∉ c.icons)
    (hu : distinct_uris k c c.icons) :
    ∃ last, find_best_icon k w c2 0 IsBetterCanvasFunction.rightmost_in_bottom_row = some last ∧
      last ∈ c.icons ∧
      ∀ x ∈ c.icons, vertical_first_key k w c x ≤ vertical_first_key k w c last := by
  unfold find_best_icon
  rw [find_best_icon_step_congr k w c c2 hheap _ (Or.inr rfl)]
  obtain ⟨best, hb, hprop⟩ := find_best_walk_rightmost k w c c.icons c2.icons h0 hu
    (fun x hx => hperm.subset hx) (hperm.nodup_iff.mpr hnd)
  refine ⟨best, hb, ?_⟩
  rcases hprop with ⟨he, _⟩ | ⟨hm, hmin⟩
  · rw [he] at hperm
    exact absurd hperm.symm.eq_nil hne
  · exact ⟨hperm.subset hm, fun x hx => hmin x (hperm.symm.subset hx)⟩

/-! ## C19: the targets of Home and End -/

/-- C19: for every container whose icon list is not empty, holds no icon twice and no `NULL`, and
whose icons have pairwise distinct URIs: the icon that `keyboard_home` moves to
(`find_best_icon` with `leftmost_in_top_row`) is the icon of the list that is strictly first in
the vertical-first order (the y of the comparison point, then its x, then the URI),
`keyboard_home` returns with the focus on it, and the same icon is found in every container with
the same icons in another order; the icon that `keyboard_end` moves to (`find_best_icon` with
`rightmost_in_bottom_row`) is the one that is strictly last in that order, with the same two
properties. -/
theorem C19_home_and_end_targets (k : Collaborators) (w : CanvasWidget)
    (c : NautilusCanvasContainer) (hne : c.icons ≠ []) (hnd : c.icons.Nodup)
    (h0 : 0 ∉ c.icons) (hu : distinct_uris k c c.icons) :
    (∃ first,
      find_best_icon k w c 0 IsBetterCanvasFunction.leftmost_in_top_row = some first ∧
      first ∈ c.icons ∧
      (∀ x ∈ c.icons, x ≠ first →
        vertical_first_key k w c first < vertical_first_key k w c x) ∧
      (∀ event, ∃ c1, keyboard_home k w c event = some c1 ∧ c1.focus = first) ∧
      (∀ c2 : NautilusCanvasContainer, c2.heap = c.heap → c2.icons.Perm c.icons →
        find_best_icon k w c2 0 IsBetterCanvasFunction.leftmost_in_top_row = some first)) ∧
    (∃ last,
      find_best_icon k w c 0 IsBetterCanvasFunction.rightmost_in_bottom_row = some last ∧
      last ∈ c.icons ∧
      (∀ x ∈ c.icons, x ≠ last →
        vertical_first_key k w c x < vertical_first_key k w c last) ∧
      (∀ event, ∃ c1, keyboard_end k w c event = some c1 ∧ c1.focus = last) ∧
      (∀ c2 : NautilusCanvasContainer, c2.heap = c.heap → c2.icons.Perm c.icons →
        find_best_icon k w c2 0 IsBetterCanvasFunction.rightmost_in_bottom_row = some last)) := by
  constructor
  · obtain ⟨first, h1, h2, h3⟩ := find_best_icon_leftmost k w c c rfl (List.Perm.refl _) hne hnd
      h0 hu
    have hf0 : first ≠ 0 := fun he => h0 (he ▸ h2)
    refine ⟨first, h1, h2, ?_, ?_, ?_⟩
    · intro x hx hxf
      refine lt_of_le_of_ne (h3 x hx) ?_
      intro he
      exact hxf (vertical_first_key_eq k w c c.icons hu x first hx h2 he.symm)
    · intro event
      obtain ⟨from_icon, hfrom⟩ := find_best_selected_icon_isSome k w c
        IsBetterCanvasFunction.rightmost_in_bottom_row (Or.inr rfl) h0 hnd hu
      unfold keyboard_home
      rw [hfrom, h1]
      simp only [Option.some_bind]
      exact keyboard_move_to_focus k w c first from_icon event hf0
    · intro c2 hheap hperm
      obtain ⟨first2, g1, g2, g3⟩ := find_best_icon_leftmost k w c c2 hheap hperm hne hnd h0 hu
      rw [g1]
      congr 1
      exact vertical_first_key_eq k w c c.icons hu first2 first g2 h2
        (le_antisymm (g3 first h2) (h3 first2 g2))
  · obtain ⟨last, h1, h2, h3⟩ := find_best_icon_rightmost k w c c rfl (List.Perm.refl _) hne hnd
      h0 hu
    have hf0 : last ≠ 0 := fun he => h0 (he ▸ h2)
    refine ⟨last, h1, h2, ?_, ?_, ?_⟩
    · intro x hx hxf
      refine lt_of_le_of_ne (h3 x hx) ?_
      intro he
      exact hxf (vertical_first_key_eq k w c c.icons hu x last hx h2 he)
    · intro event
      obtain ⟨from_icon, hfrom⟩ := find_best_selected_icon_isSome k w c
        IsBetterCanvasFunction.leftmost_in_top_row (Or.inl rfl) h0 hnd hu
      unfold keyboard_end
      rw [hfrom, h1]
      simp only [Option.some_bind]
      exact keyboard_move_to_focus k w c last from_icon event hf0
    · intro c2 hheap hperm
      obtain ⟨last2, g1, g2, g3⟩ := find_best_icon_rightmost k w c c2 hheap hperm hne hnd h0 hu
      rw [g1]
      congr 1
      exact vertical_first_key_eq k w c c.icons hu last2 last g2 h2
        (le_antisymm (h3 last2 g2) (g3 last h2))

/-- Witness of C19: the five icons of the sample container standing in two columns; Home moves to
the icon 1 at the top left and End to the icon 5 in the last row. -/
theorem C19_home_and_end_targets_witness :
    sample_five.icons ≠ [] ∧ sample_five.icons.Nodup ∧ 0 ∉ sample_five.icons ∧
      distinct_uris sample_collaborators sample_five sample_five.icons ∧
      find_best_icon sample_collaborators sample_widget_placed sample_five 0
        IsBetterCanvasFunction.leftmost_in_top_row = some 1 ∧
      find_best_icon sample_collaborators sample_widget_placed sample_five 0
        IsBetterCanvasFunction.rightmost_in_bottom_row = some 5 ∧
      ∃ first, find_best_icon sample_collaborators sample_widget_placed sample_five 0
          IsBetterCanvasFunction.leftmost_in_top_row = some first ∧
        ∀ event, ∃ c1, keyboard_home sample_collaborators sample_widget_placed sample_five
          event = some c1 ∧ c1.focus = first :=
  have hu : distinct_uris sample_collaborators sample_five sample_five.icons := by
    unfold distinct_uris
    decide!
  ⟨by decide, by decide, by decide, hu, by decide!, by decide!,
    (C19_home_and_end_targets sample_collaborators sample_widget_placed sample_five (by decide)
      (by decide) (by decide) hu).1.imp fun _ h => ⟨h.1, h.2.2.2.1⟩⟩

/-! ## Lemmas: the grid width of a single line -/

theorem grid_size_for_zoom_level_bounds (zoom_level : NautilusCanvasZoomLevel) :
    106 ≤ nautilus_canvas_container_get_grid_size_for_zoom_level zoom_level ∧
      nautilus_canvas_container_get_grid_size_for_zoom_level zoom_level ≤ 128 := by
  cases zoom_level <;>
    simp [nautilus_canvas_container_get_grid_size_for_zoom_level, SMALL_ICON_GRID_WIDTH,
      STANDARD_ICON_GRID_WIDTH, LARGE_ICON_GRID_WIDTH, LARGER_ICON_GRID_WIDTH]

theorem lay_down_available_width_eq (k : Collaborators) (canvas_width min_grid_width : Rat)
    (icons : List Nat) :
    (lay_down_icons_horizontal_grid k canvas_width min_grid_width icons).available_width =
      max 1 (canvas_width - 9) := by
  unfold lay_down_icons_horizontal_grid
  dsimp only
  rw [MAX_eq_max]
  unfold ICON_PAD_LEFT ICON_PAD_RIGHT
  congr 1
  ring

theorem lay_down_num_columns_eq (k : Collaborators) (w : CanvasWidget) (icons : List Nat) :
    lay_down_num_columns k w icons =
      Int.toNat (max 1 (Int.floor (max 1 (w.canvas_width - 9) / w.min_grid_width))) := by
  have ha : MAX 1 (w.canvas_width - ICON_PAD_LEFT - ICON_PAD_RIGHT - 1) =
      max 1 (w.canvas_width - 9) := by
    rw [MAX_eq_max]
    unfold ICON_PAD_LEFT ICON_PAD_RIGHT
    congr 1
    ring
  have hN : MAX 1 ((Int.floor (max 1 (w.canvas_width - 9) / w.min_grid_width) : Int) : Rat) =
      ((max 1 (Int.floor (max 1 (w.canvas_width - 9) / w.min_grid_width)) : Int) : Rat) := by
    rw [MAX_eq_max]
    push_cast
    rfl
  unfold lay_down_num_columns lay_down_icons_horizontal_grid
  dsimp only
  rw [ha, hN, Int.floor_intCast]

theorem lay_down_grid_width_single_line (k : Collaborators) (w : CanvasWidget) (icons : List Nat)
    (h : icons.length ≤ lay_down_num_columns k w icons) :
    lay_down_grid_width k w icons =
      MAX w.min_grid_width (w.min_grid_width *
        (1 + (k.pow (lay_down_max_extra_fraction w.canvas_width w.min_grid_width icons + 1)
          (1 / 4) - 1))) := by
  have hnone : (g_list_nth icons (lay_down_num_columns k w icons)).isSome = false := by
    unfold g_list_nth
    rw [List.get?_eq_none.mpr h]
    rfl
  unfold lay_down_num_columns at hnone
  unfold lay_down_grid_width lay_down_max_extra_fraction
  unfold lay_down_icons_horizontal_grid at hnone ⊢
  dsimp only at hnone ⊢
  rw [hnone]
  simp only [Bool.false_eq_true, if_false]

theorem lay_down_grid_width_ge (k : Collaborators) (w : CanvasWidget) (icons : List Nat) :
    w.min_grid_width ≤ lay_down_grid_width k w icons := by
  unfold lay_down_grid_width lay_down_icons_horizontal_grid
  dsimp only
  rw [MAX_eq_max]
  exact le_max_left _ _

theorem lay_down_pow_argument_eq (canvas_width min_grid_width : Rat) (icons : List Nat)
    (hm : 0 < min_grid_width) :
    lay_down_max_extra_fraction canvas_width min_grid_width icons + 1 =
      max 1 (canvas_width - 9) / (max 1 ((icons.length : Nat) : Rat) * min_grid_width) := by
  have ha : MAX 1 (canvas_width - ICON_PAD_LEFT - ICON_PAD_RIGHT - 1) =
      max 1 (canvas_width - 9) := by
    rw [MAX_eq_max]
    unfold ICON_PAD_LEFT ICON_PAD_RIGHT
    congr 1
    ring
  unfold lay_down_max_extra_fraction g_list_length
  dsimp only
  rw [ha, MAX_eq_max]
  have hn : (0 : Rat) < max 1 ((icons.length : Nat) : Rat) :=
    lt_of_lt_of_le one_pos (le_max_left _ _)
  field_simp

theorem damped_width_arith (a m n p : Rat) (hm : 0 < m) (hn : 0 < n) (hfit : n * m ≤ a)
    (hp : p ≤ a / (n * m)) :
    max m (m * (1 + (p - 1))) ≤ a / n := by
  apply max_le
  · rw [le_div_iff₀ hn]
    linarith
  · have h1 : m * (1 + (p - 1)) = m * p := by ring
    rw [h1]
    have h2 : m * p ≤ m * (a / (n * m)) := mul_le_mul_of_nonneg_left hp hm.le
    have h3 : m * (a / (n * m)) = a / n := by
      field_simp
      ring
    rw [h3] at h2
    exact h2

theorem lay_down_single_line_fits (k : Collaborators) (w : CanvasWidget) (icons : List Nat)
    (hm : 0 < w.min_grid_width) (hlen : 1 ≤ icons.length)
    (hcols : icons.length ≤ lay_down_num_columns k w icons)
    (haw : w.min_grid_width ≤ max 1 (w.canvas_width - 9)) :
    ((icons.length : Nat) : Rat) * w.min_grid_width ≤ max 1 (w.canvas_width - 9) := by
  rw [lay_down_num_columns_eq] at hcols
  by_cases hf : 1 ≤ Int.floor (max 1 (w.canvas_width - 9) / w.min_grid_width)
  · rw [max_eq_right hf] at hcols
    have h1 : ((icons.length : Nat) : Int) ≤
        Int.floor (max 1 (w.canvas_width - 9) / w.min_grid_width) := by omega
    have h2 : (((icons.length : Nat) : Int) : Rat) ≤
        max 1 (w.canvas_width - 9) / w.min_grid_width :=
      le_trans (by exact_mod_cast h1) (Int.floor_le _)
    rw [le_div_iff₀ hm] at h2
    exact_mod_cast h2
  · rw [max_eq_left (le_of_lt (not_le.mp hf))] at hcols
    have h1 : icons.length = 1 := by
      have : Int.toNat 1 = 1 := rfl
      omega
    rw [h1]
    simpa using haw


/-! ## C21: the damped grid width -/

/-- C21: on every widget whose minimum grid width is at least 1 (the grid widths of the zoom
levels are 106 to 128), with a `pow` whose fourth root of an `x ≥ 1` is at most `x`: the argument
`max_extra_fraction + 1` of the fourth root is positive and the grid width is at least the
minimum grid width, for every canvas width and every icon list; and for a list of `N ≥ 1` icons
with `N` at most the number of columns and the available width at least the minimum grid width,
the argument is `available_width / (N * min_grid_width)`, it is at least 1, the grid width is
`MAX (min_grid_width, min_grid_width * (1 + (pow (argument, 1/4) - 1)))`, it lies between the
minimum grid width and `available_width / N`, and on an allocated container
`lay_down_icons_horizontal` lays items that take one grid cell each down in one row. -/
theorem C21_damped_grid_width (k : Collaborators) (w : CanvasWidget)
    (c : NautilusCanvasContainer) (icons : List Nat) (start_y : Rat)
    (hm : 1 ≤ w.min_grid_width)
    (hpow : ∀ x : Rat, 1 ≤ x → k.pow x (1 / 4) ≤ x) :
    (0 < lay_down_max_extra_fraction w.canvas_width w.min_grid_width icons + 1 ∧
      w.min_grid_width ≤ lay_down_grid_width k w icons) ∧
    (1 ≤ icons.length → icons.length ≤ lay_down_num_columns k w icons →
      w.min_grid_width ≤
        (lay_down_icons_horizontal_grid k w.canvas_width w.min_grid_width
          icons).available_width →
      lay_down_max_extra_fraction w.canvas_width w.min_grid_width icons + 1 =
        (lay_down_icons_horizontal_grid k w.canvas_width w.min_grid_width
          icons).available_width / (((icons.length : Nat) : Rat) * w.min_grid_width) ∧
      1 ≤ lay_down_max_extra_fraction w.canvas_width w.min_grid_width icons + 1 ∧
      lay_down_grid_width k w icons =
        MAX w.min_grid_width (w.min_grid_width *
          (1 + (k.pow (lay_down_max_extra_fraction w.canvas_width w.min_grid_width icons + 1)
            (1 / 4) - 1))) ∧
      w.min_grid_width ≤ lay_down_grid_width k w icons ∧
      lay_down_grid_width k w icons ≤
        (lay_down_icons_horizontal_grid k w.canvas_width w.min_grid_width
          icons).available_width / ((icons.length : Nat) : Rat) ∧
      (c.has_been_allocated = true → 0 < w.icon_size →
        w.icon_size ≤ lay_down_grid_width k w icons →
        (∀ icon ∈ icons,
          (w.nautilus_canvas_item_get_bounds_for_layout icon).x1 -
            (w.nautilus_canvas_item_get_bounds_for_layout icon).x0 ≤
              lay_down_grid_width k w icons) →
        lay_down_icons_horizontal_lines k w c icons start_y = [icons])) := by
  have hmpos : 0 < w.min_grid_width := lt_of_lt_of_le one_pos hm
  have harg := lay_down_pow_argument_eq w.canvas_width w.min_grid_width icons hmpos
  have hapos : (0 : Rat) < max 1 (w.canvas_width - 9) :=
    lt_of_lt_of_le one_pos (le_max_left _ _)
  have hnpos : (0 : Rat) < max 1 ((icons.length : Nat) : Rat) :=
    lt_of_lt_of_le one_pos (le_max_left _ _)
  refine ⟨⟨?_, lay_down_grid_width_ge k w icons⟩, ?_⟩
  · rw [harg]
    exact div_pos hapos (mul_pos hnpos hmpos)
  · intro hlen hcols haw
    rw [lay_down_available_width_eq] at haw ⊢
    have hN : max 1 ((icons.length : Nat) : Rat) = ((icons.length : Nat) : Rat) :=
      max_eq_right (by exact_mod_cast hlen)
    rw [hN] at harg hnpos
    have hfit := lay_down_single_line_fits k w icons hmpos hlen hcols haw
    have hone : 1 ≤ lay_down_max_extra_fraction w.canvas_width w.min_grid_width icons + 1 := by
      rw [harg, le_div_iff₀ (mul_pos hnpos hmpos)]
      linarith
    have hgw := lay_down_grid_width_single_line k w icons hcols
    have hle : lay_down_grid_width k w icons ≤
        max 1 (w.canvas_width - 9) / ((icons.length : Nat) : Rat) := by
      rw [hgw, MAX_eq_max]
      apply damped_width_arith _ _ _ _ hmpos hnpos hfit
      rw [← harg]
      exact hpow _ hone
    refine ⟨harg, hone, hgw, lay_down_grid_width_ge k w icons, hle, ?_⟩
    intro halloc hs hsg hcell
    have hg : 0 < lay_down_grid_width k w icons := lt_of_lt_of_le hs hsg
    have hne : icons ≠ [] := by
      intro h
      rw [h] at hlen
      simp at hlen
    have hw : ∀ icon ∈ icons,
        lay_down_icon_width w (lay_down_grid_width k w icons) icon =
          lay_down_grid_width k w icons :=
      fun icon hi => lay_down_icon_width_single_cell w _ icon hs hsg (hcell icon hi)
    have hrow : icons.length = 1 ∨
        ((icons.length : Nat) : Rat) * lay_down_grid_width k w icons < w.canvas_width := by
      by_cases h1 : icons.length = 1
      · exact Or.inl h1
      · right
        have h2 : (2 : Rat) ≤ ((icons.length : Nat) : Rat) := by
          exact_mod_cast (by omega : 2 ≤ icons.length)
        have h3 : ((icons.length : Nat) : Rat) * lay_down_grid_width k w icons ≤
            max 1 (w.canvas_width - 9) := by
          rw [le_div_iff₀ hnpos] at hle
          linarith
        have h4 : (1 : Rat) < max 1 (w.canvas_width - 9) := by nlinarith
        have h5 : max 1 (w.canvas_width - 9) = w.canvas_width - 9 := by
          rcases le_total (1 : Rat) (w.canvas_width - 9) with h | h
          · exact max_eq_right h
          · rw [max_eq_left h] at h4
            exact absurd h4 (lt_irrefl _)
        rw [h5] at h3
        linarith
    unfold lay_down_icons_horizontal_lines lay_down_icons_horizontal_loop
    simp only [halloc, hne, if_false, Bool.true_eq_false]
    obtain ⟨a1, a2, _⟩ := lay_down_fold_first_row w (lay_down_grid_width k w icons) icons.length
      hg hrow icons
      { container := c, line := [], y := start_y + CONTAINER_PAD_TOP, line_width := 0,
        max_height_above := 0, max_height_below := 0, lines := [] } hw (by simp) (by simp)
    rw [show (lay_down_icons_horizontal_grid k w.canvas_width w.min_grid_width icons).grid_width =
      lay_down_grid_width k w icons from rfl, a1, a2]
    rfl

/-- Witness of C21: two items of width 40 in a canvas of width 1609 with minimum grid width 50
(32 columns): the argument of the fourth root is 1600 / (2 * 50) = 16, the grid width is
50 * 2 = 100, below the even spread 800, and both items are in one row. -/
theorem C21_damped_grid_width_witness :
    sample_pair.icons = [1, 2] ∧
    lay_down_num_columns sample_collaborators_root sample_widget_wide sample_pair.icons = 32 ∧
    lay_down_max_extra_fraction sample_widget_wide.canvas_width sample_widget_wide.min_grid_width
      sample_pair.icons + 1 = 16 ∧
    lay_down_grid_width sample_collaborators_root sample_widget_wide sample_pair.icons = 100 ∧
    lay_down_icons_horizontal_lines sample_collaborators_root sample_widget_wide sample_pair
      sample_pair.icons 0 = [sample_pair.icons] :=
  ⟨by decide, by decide!, by decide!, by decide!,
    ((C21_damped_grid_width sample_collaborators_root sample_widget_wide sample_pair
      sample_pair.icons 0 (by decide!)
      (fun x _ => by
        show (if x = 16 then 2 else x) ≤ x
        split_ifs with h
        · rw [h]
          norm_num
        · exact le_refl x)).2
      (by decide) (by decide!) (by decide!)).2.2.2.2.2
      (by decide) (by decide!) (by decide!) (by decide!)⟩

/-! ## Lemmas: an arrow key that finds no candidate -/

theorem keyboard_arrow_key_from_focused (k : Collaborators) (w : CanvasWidget)
    (c : NautilusCanvasContainer) (better_start empty_start : IsBetterCanvasFunction)
    (hf : c.focus ≠ 0) :
    keyboard_arrow_key_from k w c better_start empty_start = some c.focus := by
  unfold keyboard_arrow_key_from
  dsimp only
  rw [if_neg hf]

theorem keyboard_arrow_key_to_none_found (k : Collaborators) (w : CanvasWidget)
    (c c2 : NautilusCanvasContainer) (from_icon : Nat) (direction : GtkDirectionType)
    (empty_start better_destination : IsBetterCanvasFunction)
    (fallback fallback_fallback : Option IsBetterCanvasFunction) (hf : from_icon ≠ 0)
    (hrec : record_arrow_key_start k w c from_icon direction = some c2)
    (h1 : find_best_icon k w c2 from_icon better_destination = some 0)
    (h2 : ∀ f, fallback = some f → find_best_icon k w c2 from_icon f = some 0)
    (h3 : ∀ f, fallback_fallback = some f → find_best_icon k w c2 from_icon f = some 0) :
    keyboard_arrow_key_to k w c from_icon direction empty_start better_destination fallback
      fallback_fallback = some { container := c2, from_icon := from_icon, to_icon := from_icon } := by
  unfold keyboard_arrow_key_to
  rw [if_neg hf, hrec]
  simp only [Option.some_bind]
  rw [h1]
  simp only [Option.some_bind]
  cases fallback with
  | none =>
    cases fallback_fallback with
    | none => simp
    | some f3 => simp [h3 f3 rfl]
  | some f2 =>
    have e := h2 f2 rfl
    cases fallback_fallback with
    | none => simp [e]
    | some f3 => simp [e, h3 f3 rfl]

theorem keyboard_arrow_key_none_found (k : Collaborators) (w : CanvasWidget)
    (c c2 : NautilusCanvasContainer) (event : Option GdkEventKey) (direction : GtkDirectionType)
    (better_start empty_start better_destination : IsBetterCanvasFunction)
    (fallback fallback_fallback : Option IsBetterCanvasFunction) (hf : c.focus ≠ 0)
    (hrec : record_arrow_key_start k w c c.focus direction = some c2)
    (h1 : find_best_icon k w c2 c.focus better_destination = some 0)
    (h2 : ∀ f, fallback = some f → find_best_icon k w c2 c.focus f = some 0)
    (h3 : ∀ f, fallback_fallback = some f → find_best_icon k w c2 c.focus f = some 0) :
    ∃ c1, keyboard_arrow_key k w c event direction better_start empty_start better_destination
        fallback fallback_fallback = some c1 ∧ c1.focus = c.focus := by
  unfold keyboard_arrow_key
  rw [keyboard_arrow_key_from_focused k w c better_start empty_start hf]
  simp only [Option.some_bind]
  rw [keyboard_arrow_key_to_none_found k w c c2 c.focus direction empty_start better_destination
    fallback fallback_fallback hf hrec h1 h2 h3]
  simp only [Option.some_bind]
  exact keyboard_move_to_focus k w c2 c.focus c.focus event hf

theorem sample_five_recorded_eq :
    record_arrow_key_start sample_collaborators sample_widget_grid sample_five_focused 5
      GtkDirectionType.GTK_DIR_RIGHT = some sample_five_recorded := by
  have h : icon_cmp_point sample_collaborators sample_widget_grid 5 = (20, 200) := by decide!
  unfold record_arrow_key_start
  rw [if_neg (by decide)]
  simp only [h]
  rfl

/-! ## C22: the arrow keys never fall back to the closest icon -/

/-- C22, as amended: for every container with a focused icon, when a press of the right arrow
finds no candidate in the row of the focused icon and, unless the event is a rectangle selection,
none in the next row, the press leaves the focus on the focused icon, and likewise for the left
arrow and the previous row: `keyboard_arrow_key` reads no further comparison, so
`closest_in_90_degrees` is never asked. -/
theorem C22_arrow_target_without_candidate (k : Collaborators) (w : CanvasWidget)
    (c : NautilusCanvasContainer) (event : Option GdkEventKey) (hf : c.focus ≠ 0) :
    (∀ c2, record_arrow_key_start k w c c.focus GtkDirectionType.GTK_DIR_RIGHT = some c2 →
      find_best_icon k w c2 c.focus IsBetterCanvasFunction.same_row_right_side_leftmost =
        some 0 →
      (is_rectangle_selection_event event = false →
        find_best_icon k w c2 c.focus IsBetterCanvasFunction.next_row_leftmost = some 0) →
      ∃ c1, keyboard_right k w c event = some c1 ∧ c1.focus = c.focus) ∧
    (∀ c2, record_arrow_key_start k w c c.focus GtkDirectionType.GTK_DIR_LEFT = some c2 →
      find_best_icon k w c2 c.focus IsBetterCanvasFunction.same_row_left_side_rightmost =
        some 0 →
      (is_rectangle_selection_event event = false →
        find_best_icon k w c2 c.focus IsBetterCanvasFunction.previous_row_rightmost = some 0) →
      ∃ c1, keyboard_left k w c event = some c1 ∧ c1.focus = c.focus) := by
  constructor
  · intro c2 hrec h1 h2
    unfold keyboard_right
    refine keyboard_arrow_key_none_found k w c c2 event _ _ _ _ _ _ hf hrec h1 ?_ ?_
    · intro f hfb
      by_cases hr : is_rectangle_selection_event event = false
      · rw [hr] at hfb
        simp only [Bool.not_false, if_true, Option.some.injEq] at hfb
        rw [← hfb]
        exact h2 hr
      · rw [Bool.not_eq_false] at hr
        rw [hr] at hfb
        simp at hfb
    · intro f hfb
      exact absurd hfb (by simp)
  · intro c2 hrec h1 h2
    unfold keyboard_left
    refine keyboard_arrow_key_none_found k w c c2 event _ _ _ _ _ _ hf hrec h1 ?_ ?_
    · intro f hfb
      by_cases hr : is_rectangle_selection_event event = false
      · rw [hr] at hfb
        simp only [Bool.not_false, if_true, Option.some.injEq] at hfb
        rw [← hfb]
        exact h2 hr
      · rw [Bool.not_eq_false] at hr
        rw [hr] at hfb
        simp at hfb
    · intro f hfb
      exact absurd hfb (by simp)

/-- Witness of C22 as amended: in the sample grid, a press of the right arrow with the focus on
the icon 5, alone in the last row, leaves the focus on the icon 5. -/
theorem C22_arrow_target_without_candidate_witness :
    sample_five_focused.focus ≠ 0 ∧
      ∃ c1, keyboard_right sample_collaborators sample_widget_grid sample_five_focused none =
        some c1 ∧ c1.focus = sample_five_focused.focus :=
  ⟨by decide,
    (C22_arrow_target_without_candidate sample_collaborators sample_widget_grid
      sample_five_focused none (by decide)).1 sample_five_recorded sample_five_recorded_eq
      (by decide!) (fun _ => by decide!)⟩

/-- Counterexample to C22 as stated: in the sample grid, with the focus on the icon 5, a press of
the right arrow finds no candidate in the row of the icon 5 and none in the next row; the icon 4
lies within 45 degrees of the direction, at the squared distance 100 * 100 + 80 * 80 from the
start point, and no icon but the icons 4 and 5 does; yet the press leaves the focus on the icon 5
and not on the icon 4. -/
theorem C22_closest_in_90_degrees_counterexample :
    record_arrow_key_start sample_collaborators sample_widget_grid sample_five_focused 5
      GtkDirectionType.GTK_DIR_RIGHT = some sample_five_recorded ∧
    find_best_icon sample_collaborators sample_widget_grid sample_five_recorded 5
      IsBetterCanvasFunction.same_row_right_side_leftmost = some 0 ∧
    find_best_icon sample_collaborators sample_widget_grid sample_five_recorded 5
      IsBetterCanvasFunction.next_row_leftmost = some 0 ∧
    closest_in_90_degrees sample_collaborators sample_widget_grid sample_five_recorded 0 4 0 =
      some (true, 16400) ∧
    (∀ icon ∈ sample_five_recorded.icons, icon ≠ 4 → icon ≠ 5 →
      closest_in_90_degrees sample_collaborators sample_widget_grid sample_five_recorded 0 icon
        0 = some (false, 0)) ∧
    (keyboard_right sample_collaborators sample_widget_grid sample_five_focused none).map
      (fun c1 => c1.focus) = some 5 :=
  ⟨sample_five_recorded_eq, by decide!, by decide!, by decide!, by decide!, by decide!⟩

/-! ## Lemmas: what a key press leaves alone -/

theorem KeyboardOnly.keyboard_refl (c : NautilusCanvasContainer) : KeyboardOnly c c := rfl

theorem KeyboardOnly.keyboard_trans {c c1 c2 : NautilusCanvasContainer} (h1 : KeyboardOnly c c1)
    (h2 : KeyboardOnly c1 c2) : KeyboardOnly c c2 := by
  unfold KeyboardOnly at *
  rw [h2, h1]

theorem KeyboardOnly.keyboard_fields {c c1 : NautilusCanvasContainer} (h : KeyboardOnly c c1) :
    c1.icons = c.icons ∧ c1.arrow_key_start_x = c.arrow_key_start_x ∧
      c1.arrow_key_start_y = c.arrow_key_start_y ∧
      c1.arrow_key_direction = c.arrow_key_direction ∧ c1.icon_set = c.icon_set ∧
      c1.rubberband_info = c.rubberband_info := by
  unfold KeyboardOnly at h
  rw [h]
  exact ⟨rfl, rfl, rfl, rfl, rfl, rfl⟩

theorem keyboard_only_icon_toggle_selected (c : NautilusCanvasContainer) (icon : Nat) :
    KeyboardOnly c (icon_toggle_selected c icon) := by
  unfold icon_toggle_selected
  dsimp only
  split_ifs <;> rfl

theorem keyboard_only_icon_set_selected (c : NautilusCanvasContainer) (icon : Nat)
    (select : Bool) : KeyboardOnly c (icon_set_selected c icon select).2 := by
  unfold icon_set_selected
  split_ifs
  · exact KeyboardOnly.keyboard_refl c
  · exact keyboard_only_icon_toggle_selected c icon

theorem foldl_keyboard_only {σ : Type} (f : σ → Nat → σ) (cont : σ → NautilusCanvasContainer)
    (hstep : ∀ s icon, KeyboardOnly (cont s) (cont (f s icon))) (l : List Nat) (s : σ) :
    KeyboardOnly (cont s) (cont (l.foldl f s)) := by
  induction l generalizing s with
  | nil => exact KeyboardOnly.keyboard_refl _
  | cons x t ih =>
    rw [List.foldl_cons]
    exact (hstep s x).keyboard_trans (ih (f s x))

theorem keyboard_only_set_selected_loop (want : NautilusCanvasContainer → Nat → Bool)
    (l : List Nat) (acc : Bool × NautilusCanvasContainer) :
    KeyboardOnly acc.2 (set_selected_loop want l acc).2 := by
  unfold set_selected_loop
  exact foldl_keyboard_only (set_selected_step want) (fun s => s.2)
    (fun s icon => keyboard_only_icon_set_selected s.2 icon (want s.2 icon)) l acc

theorem keyboard_only_g_signal_emit (c : NautilusCanvasContainer) (signal : Signal) :
    KeyboardOnly c (g_signal_emit c signal) := rfl

theorem keyboard_only_reveal_icon (c : NautilusCanvasContainer) (icon : Nat) :
    KeyboardOnly c (reveal_icon c icon) := by
  unfold reveal_icon set_pending_icon_to_reveal
  split_ifs <;> rfl

theorem keyboard_only_rubberband_select (k : Collaborators) (c : NautilusCanvasContainer)
    (current_rect : EelDRect) : KeyboardOnly c (rubberband_select k c current_rect) := by
  unfold rubberband_select
  dsimp only
  split
  · exact (keyboard_only_set_selected_loop _ c.icons (false, c)).keyboard_trans
      (keyboard_only_g_signal_emit _ _)
  · exact keyboard_only_set_selected_loop _ c.icons (false, c)

theorem keyboard_only_select_one_unselect_others (c : NautilusCanvasContainer)
    (icon_to_select : Nat) :
    KeyboardOnly c (select_one_unselect_others c icon_to_select).2 := by
  unfold select_one_unselect_others
  dsimp only
  split
  · exact (keyboard_only_set_selected_loop _ c.icons (false, c)).keyboard_trans
      (keyboard_only_reveal_icon _ _)
  · exact keyboard_only_set_selected_loop _ c.icons (false, c)

theorem keyboard_only_select_range (c : NautilusCanvasContainer) (icon1 icon2 : Nat)
    (u : Bool) : KeyboardOnly c (select_range c icon1 icon2 u).2 := by
  unfold Nautilus.select_range
  refine foldl_keyboard_only (select_range_step icon1 icon2 u) (fun s => s.container) ?_
    c.icons _
  intro s icon
  unfold select_range_step select_range_close select_range_apply select_range_match
  dsimp only
  split_ifs <;> first
    | exact KeyboardOnly.keyboard_refl _
    | exact keyboard_only_icon_set_selected _ _ _

theorem keyboard_only_set_focus {c c1 : NautilusCanvasContainer} {icon : Nat} {kf : Bool}
    (h : set_focus c icon kf = some c1) : KeyboardOnly c c1 := by
  unfold set_focus clear_focus at h
  split_ifs at h <;> simp only [Option.some.injEq] at h <;> subst h <;> rfl

theorem keyboard_only_schedule_keyboard_icon_reveal (c : NautilusCanvasContainer) (icon : Nat) :
    KeyboardOnly c (schedule_keyboard_icon_reveal c icon) := by
  unfold schedule_keyboard_icon_reveal unschedule_keyboard_icon_reveal g_source_add
    g_source_remove
  dsimp only
  split_ifs <;> rfl

theorem keyboard_only_keyboard_move_to_select (k : Collaborators) (w : CanvasWidget)
    (c : NautilusCanvasContainer) (icon from_icon : Nat) (event : Option GdkEventKey) :
    KeyboardOnly c (keyboard_move_to_select k w c icon from_icon event) := by
  unfold keyboard_move_to_select
  dsimp only
  split_ifs
  all_goals first
    | rfl
    | (refine KeyboardOnly.keyboard_trans ?_ (keyboard_only_rubberband_select _ _ _); rfl)
    | (refine KeyboardOnly.keyboard_trans ?_ (keyboard_only_select_range _ _ _ _); rfl)
    | (refine KeyboardOnly.keyboard_trans (KeyboardOnly.keyboard_trans ?_
        (keyboard_only_select_range _ _ _ _)) (keyboard_only_g_signal_emit _ _); rfl)
    | (refine KeyboardOnly.keyboard_trans ?_ (keyboard_only_select_one_unselect_others _ _); rfl)
    | (refine KeyboardOnly.keyboard_trans (KeyboardOnly.keyboard_trans ?_
        (keyboard_only_select_one_unselect_others _ _)) (keyboard_only_g_signal_emit _ _); rfl)

theorem keyboard_only_keyboard_move_to {k : Collaborators} {w : CanvasWidget}
    {c c1 : NautilusCanvasContainer} {icon from_icon : Nat} {event : Option GdkEventKey}
    (h : keyboard_move_to k w c icon from_icon event = some c1) : KeyboardOnly c c1 := by
  unfold keyboard_move_to at h
  split_ifs at h with hi
  · simp only [Option.some.injEq] at h
    subst h
    exact KeyboardOnly.keyboard_refl c
  · cases hs : set_focus c icon true with
    | none =>
      rw [hs] at h
      simp at h
    | some c2 =>
      rw [hs] at h
      simp only [Option.some_bind, Option.some.injEq] at h
      subst h
      exact ((keyboard_only_set_focus hs).keyboard_trans
        (keyboard_only_keyboard_move_to_select k w c2 icon from_icon event)).keyboard_trans
        (keyboard_only_schedule_keyboard_icon_reveal _ _)

/-! ## Lemmas: the comparisons of the arrow keys return -/

theorem compare_icons_by_uri_isSome (k : Collaborators) (c : NautilusCanvasContainer)
    (a b : Nat) (ha : a ≠ 0) (hb : b ≠ 0) (hab : a ≠ b)
    (hu : k.get_icon_uri (c.heap a).data ≠ k.get_icon_uri (c.heap b).data) :
    ∃ r, compare_icons_by_uri k c a b = some r := by
  unfold compare_icons_by_uri
  simp only [ha, hb, hab, if_false]
  rcases strcmp_sign _ _ hu with ⟨h, _⟩ | ⟨h, _⟩ <;> rw [h] <;> simp

theorem compare_icons_vertical_first_isSome (k : Collaborators) (w : CanvasWidget)
    (c : NautilusCanvasContainer) (a b : Nat) (ha : a ≠ 0) (hb : b ≠ 0) (hab : a ≠ b)
    (hu : k.get_icon_uri (c.heap a).data ≠ k.get_icon_uri (c.heap b).data) :
    ∃ r, compare_icons_vertical_first k w c a b = some r := by
  rcases compare_icons_vertical_first_sign k w c a b ha hb hab hu with ⟨h, _⟩ | ⟨h, _⟩
  · exact ⟨_, h⟩
  · exact ⟨_, h⟩

theorem compare_icons_horizontal_first_isSome (k : Collaborators) (w : CanvasWidget)
    (c : NautilusCanvasContainer) (a b : Nat) (ha : a ≠ 0) (hb : b ≠ 0) (hab : a ≠ b)
    (hu : k.get_icon_uri (c.heap a).data ≠ k.get_icon_uri (c.heap b).data) :
    ∃ r, compare_icons_horizontal_first k w c a b = some r := by
  unfold compare_icons_horizontal_first
  simp only [ha, hb, or_self, if_false]
  split_ifs
  · exact ⟨_, rfl⟩
  · exact ⟨_, rfl⟩
  · exact ⟨_, rfl⟩
  · exact ⟨_, rfl⟩
  · exact compare_icons_by_uri_isSome k c a b ha hb hab hu

theorem compare_icons_vertical_isSome (k : Collaborators) (w : CanvasWidget) (a b : Nat)
    (ha : a ≠ 0) (hb : b ≠ 0) : ∃ r, compare_icons_vertical k w a b = some r := by
  unfold compare_icons_vertical
  simp only [ha, hb, or_self, if_false]
  split_ifs <;> exact ⟨_, rfl⟩

theorem compare_with_start_row_isSome (w : CanvasWidget) (c : NautilusCanvasContainer)
    (icon : Nat) (hi : icon ≠ 0) : ∃ r, compare_with_start_row w c icon = some r := by
  unfold compare_with_start_row
  simp only [hi, if_false]
  split_ifs <;> exact ⟨_, rfl⟩

theorem compare_with_start_column_isSome (w : CanvasWidget) (c : NautilusCanvasContainer)
    (icon : Nat) (hi : icon ≠ 0) : ∃ r, compare_with_start_column w c icon = some r := by
  unfold compare_with_start_column
  simp only [hi, if_false]
  split_ifs <;> exact ⟨_, rfl⟩

theorem is_better_canvas_isSome (function : IsBetterCanvasFunction) (k : Collaborators)
    (w : CanvasWidget) (c : NautilusCanvasContainer) (start_icon best cand : Nat)
    (hs : start_icon ≠ 0) (hc : cand ≠ 0)
    (hcs : cand ≠ start_icon ∧
      k.get_icon_uri (c.heap cand).data ≠ k.get_icon_uri (c.heap start_icon).data)
    (hb : best ≠ 0 → best ≠ cand ∧
      k.get_icon_uri (c.heap best).data ≠ k.get_icon_uri (c.heap cand).data) :
    ∃ b, is_better_canvas function k w c start_icon best cand = some b := by
  obtain ⟨row, hrow⟩ := compare_with_start_row_isSome w c cand hc
  obtain ⟨col, hcol⟩ := compare_with_start_column_isSome w c cand hc
  obtain ⟨v2, hv2⟩ := compare_icons_vertical_first_isSome k w c cand start_icon hc hs hcs.1 hcs.2
  obtain ⟨h2, hh2⟩ := compare_icons_horizontal_first_isSome k w c cand start_icon hc hs hcs.1
    hcs.2
  by_cases hb0 : best = 0
  · subst hb0
    cases function <;>
      simp only [is_better_canvas, leftmost_in_top_row, rightmost_in_top_row,
        rightmost_in_bottom_row, same_row_right_side_leftmost, same_row_left_side_rightmost,
        next_row_leftmost, next_row_rightmost, previous_row_rightmost, same_column_above_lowest,
        same_column_below_highest, hrow, hcol, hv2, hh2, Option.some_bind, ne_eq,
        not_true_eq_false, if_true, if_false, false_and] <;>
      first | exact ⟨_, rfl⟩ | (split_ifs <;> exact ⟨_, rfl⟩)
  · obtain ⟨hne, hu⟩ := hb hb0
    obtain ⟨v1, hv1⟩ := compare_icons_vertical_first_isSome k w c best cand hb0 hc hne hu
    obtain ⟨h1, hh1⟩ := compare_icons_horizontal_first_isSome k w c best cand hb0 hc hne hu
    obtain ⟨v0, hv0⟩ := compare_icons_vertical_isSome k w best cand hb0 hc
    cases function <;>
      simp only [is_better_canvas, leftmost_in_top_row, rightmost_in_top_row,
        rightmost_in_bottom_row, same_row_right_side_leftmost, same_row_left_side_rightmost,
        next_row_leftmost, next_row_rightmost, previous_row_rightmost, same_column_above_lowest,
        same_column_below_highest, hrow, hcol, hv2, hh2, hv1, hh1, hv0, hb0, Option.some_bind,
        Option.map_some', ne_eq, not_false_eq_true, if_true, if_false, true_and] <;>
      first | exact ⟨_, rfl⟩ | (split_ifs <;> exact ⟨_, rfl⟩)

theorem find_best_walk_from (k : Collaborators) (w : CanvasWidget)
    (c : NautilusCanvasContainer) (function : IsBetterCanvasFunction) (start_icon : Nat)
    (all : List Nat) (hs : start_icon ∈ all) (h0 : 0 ∉ all) (hu : distinct_uris k c all)
    (l : List Nat) (m : Nat) (hl : ∀ x ∈ l, x ∈ all) (hnd : l.Nodup)
    (hm : m = 0 ∨ (m ∈ all ∧ m ∉ l ∧ m ≠ start_icon ∧
      ∃ b0, is_better_canvas function k w c start_icon b0 m = some true)) :
    ∃ best, l.foldl (find_best_icon_step k w c start_icon function) (some m) = some best ∧
      (best = 0 ∨ (best ∈ all ∧ best ≠ start_icon ∧
        ∃ b0, is_better_canvas function k w c start_icon b0 best = some true)) := by
  have hnz : ∀ x ∈ all, x ≠ 0 := fun x hx he => h0 (he ▸ hx)
  induction l generalizing m with
  | nil =>
    refine ⟨m, rfl, ?_⟩
    rcases hm with hm | ⟨h1, _, h3, h4⟩
    · exact Or.inl hm
    · exact Or.inr ⟨h1, h3, h4⟩
  | cons x t ih =>
    have hxall : x ∈ all := hl x (List.mem_cons_self _ _)
    have htall : ∀ y ∈ t, y ∈ all := fun y hy => hl y (List.mem_cons_of_mem _ hy)
    have hxt : x ∉ t := (List.nodup_cons.mp hnd).1
    have htnd : t.Nodup := (List.nodup_cons.mp hnd).2
    have hm2 : m = 0 ∨ (m ∈ all ∧ m ∉ t ∧ m ≠ start_icon ∧
        ∃ b0, is_better_canvas function k w c start_icon b0 m = some true) := by
      rcases hm with hm | ⟨h1, h2, h3, h4⟩
      · exact Or.inl hm
      · exact Or.inr ⟨h1, fun h => h2 (List.mem_cons_of_mem _ h), h3, h4⟩
    rw [List.foldl_cons]
    unfold find_best_icon_step
    simp only [Option.some_bind]
    by_cases hx : x = start_icon
    · rw [if_neg (not_not.mpr hx)]
      exact ih m htall htnd hm2
    · rw [if_pos hx]
      obtain ⟨b, hb⟩ := is_better_canvas_isSome function k w c start_icon m x (hnz _ hs)
        (hnz _ hxall) ⟨hx, hu x hxall start_icon hs hx⟩ (by
          intro hm0
          rcases hm with hm | ⟨h1, h2, _, _⟩
          · exact absurd hm hm0
          · have hne : m ≠ x := fun he => h2 (he ▸ List.mem_cons_self _ _)
            exact ⟨hne, hu m h1 x hxall hne⟩)
      rw [hb]
      simp only [Option.some_bind]
      cases b with
      | false =>
        simp only [Bool.false_eq_true, if_false]
        exact ih m htall htnd hm2
      | true =>
        simp only [if_true]
        exact ih x htall htnd (Or.inr ⟨hxall, hxt, hx, m, hb⟩)

theorem find_best_icon_from (k : Collaborators) (w : CanvasWidget)
    (c : NautilusCanvasContainer) (function : IsBetterCanvasFunction) (start_icon : Nat)
    (hs : start_icon ∈ c.icons) (h0 : 0 ∉ c.icons) (hnd : c.icons.Nodup)
    (hu : distinct_uris k c c.icons) :
    ∃ best, find_best_icon k w c start_icon function = some best ∧
      (best = 0 ∨ (best ∈ c.icons ∧ best ≠ start_icon ∧
        ∃ b0, is_better_canvas function k w c start_icon b0 best = some true)) := by
  unfold find_best_icon
  exact find_best_walk_from k w c function start_icon c.icons hs h0 hu c.icons 0
    (fun _ h => h) hnd (Or.inl rfl)

/-! ## Lemmas: an arrow key pressed with an icon focused -/

theorem record_arrow_key_start_eq (k : Collaborators) (w : CanvasWidget)
    (c : NautilusCanvasContainer) (icon : Nat) (direction : GtkDirectionType) (hi : icon ≠ 0) :
    record_arrow_key_start k w c icon direction =
      some { c with arrow_key_start_x := (icon_cmp_point k w icon).1,
                    arrow_key_start_y := (icon_cmp_point k w icon).2,
                    arrow_key_direction := direction } := by
  unfold record_arrow_key_start
  rw [if_neg hi]

theorem keyboard_arrow_key_to_eq (k : Collaborators) (w : CanvasWidget)
    (c c2 : NautilusCanvasContainer) (from_icon : Nat) (direction : GtkDirectionType)
    (empty_start better_destination : IsBetterCanvasFunction)
    (fallback fallback_fallback : Option IsBetterCanvasFunction) (hf : from_icon ≠ 0)
    (hrec : record_arrow_key_start k w c from_icon direction = some c2) :
    keyboard_arrow_key_to k w c from_icon direction empty_start better_destination fallback
      fallback_fallback =
      (find_best_icon k w c2 from_icon better_destination).bind fun t1 =>
      (keyboard_arrow_key_fallback k w c2 from_icon fallback t1).bind fun t2 =>
      (keyboard_arrow_key_fallback k w c2 from_icon fallback_fallback t2).bind fun t3 =>
      some { container := c2, from_icon := from_icon,
             to_icon := if t3 = 0 then from_icon else t3 } := by
  unfold keyboard_arrow_key_to keyboard_arrow_key_fallback
  rw [if_neg hf, hrec]
  rfl

theorem keyboard_arrow_key_fallback_from (k : Collaborators) (w : CanvasWidget)
    (c2 : NautilusCanvasContainer) (from_icon : Nat) (fallback : Option IsBetterCanvasFunction)
    (allowed : IsBetterCanvasFunction → Prop) (hallowed : ∀ f, fallback = some f → allowed f)
    (hf : from_icon ∈ c2.icons) (h0 : 0 ∉ c2.icons) (hnd : c2.icons.Nodup)
    (hu : distinct_uris k c2 c2.icons) (t1 : Nat)
    (p1 : t1 = 0 ∨ (t1 ∈ c2.icons ∧ t1 ≠ from_icon ∧
      ∃ function b0, allowed function ∧
        is_better_canvas function k w c2 from_icon b0 t1 = some true)) :
    ∃ t2, keyboard_arrow_key_fallback k w c2 from_icon fallback t1 = some t2 ∧
      (t2 = 0 ∨ (t2 ∈ c2.icons ∧ t2 ≠ from_icon ∧
        ∃ function b0, allowed function ∧
          is_better_canvas function k w c2 from_icon b0 t2 = some true)) := by
  unfold keyboard_arrow_key_fallback
  cases fallback with
  | none => exact ⟨t1, rfl, p1⟩
  | some fb =>
    by_cases ht : t1 = 0
    · obtain ⟨t2, e2, p2⟩ := find_best_icon_from k w c2 fb from_icon hf h0 hnd hu
      refine ⟨t2, by simp only [ht, if_true]; exact e2, ?_⟩
      rcases p2 with h | ⟨h1, h2, b0, h3⟩
      · exact Or.inl h
      · exact Or.inr ⟨h1, h2, fb, b0, hallowed fb rfl, h3⟩
    · exact ⟨t1, by simp only [ht, if_false], p1⟩

theorem keyboard_arrow_key_to_from_icon (k : Collaborators) (w : CanvasWidget)
    (c c2 : NautilusCanvasContainer) (from_icon : Nat) (direction : GtkDirectionType)
    (empty_start better_destination : IsBetterCanvasFunction)
    (fallback fallback_fallback : Option IsBetterCanvasFunction)
    (hrec : record_arrow_key_start k w c from_icon direction = some c2)
    (hf : from_icon ∈ c2.icons) (h0 : 0 ∉ c2.icons) (hnd : c2.icons.Nodup)
    (hu : distinct_uris k c2 c2.icons) :
    ∃ to_icon, keyboard_arrow_key_to k w c from_icon direction empty_start better_destination
        fallback fallback_fallback =
          some { container := c2, from_icon := from_icon, to_icon := to_icon } ∧
      (to_icon = from_icon ∨ (to_icon ∈ c2.icons ∧ to_icon ≠ from_icon ∧
        ∃ function b0, (function = better_destination ∨ fallback = some function ∨
            fallback_fallback = some function) ∧
          is_better_canvas function k w c2 from_icon b0 to_icon = some true)) := by
  have hfz : from_icon ≠ 0 := fun he => h0 (he ▸ hf)
  rw [keyboard_arrow_key_to_eq k w c c2 from_icon direction empty_start better_destination
    fallback fallback_fallback hfz hrec]
  obtain ⟨t1, e1, p1⟩ := find_best_icon_from k w c2 better_destination from_icon hf h0 hnd hu
  have q1 : t1 = 0 ∨ (t1 ∈ c2.icons ∧ t1 ≠ from_icon ∧
      ∃ function b0, (function = better_destination ∨ fallback = some function ∨
          fallback_fallback = some function) ∧
        is_better_canvas function k w c2 from_icon b0 t1 = some true) := by
    rcases p1 with h | ⟨h1, h2, b0, h3⟩
    · exact Or.inl h
    · exact Or.inr ⟨h1, h2, better_destination, b0, Or.inl rfl, h3⟩
  obtain ⟨t2, e2, p2⟩ := keyboard_arrow_key_fallback_from k w c2 from_icon fallback
    (fun f => f = better_destination ∨ fallback = some f ∨ fallback_fallback = some f)
    (fun f h => Or.inr (Or.inl h)) hf h0 hnd hu t1 q1
  obtain ⟨t3, e3, p3⟩ := keyboard_arrow_key_fallback_from k w c2 from_icon fallback_fallback
    (fun f => f = better_destination ∨ fallback = some f ∨ fallback_fallback = some f)
    (fun f h => Or.inr (Or.inr h)) hf h0 hnd hu t2 p2
  rw [e1]
  simp only [Option.some_bind]
  rw [e2]
  simp only [Option.some_bind]
  rw [e3]
  simp only [Option.some_bind]
  refine ⟨_, rfl, ?_⟩
  by_cases ht : t3 = 0
  · left
    rw [if_pos ht]
  · right
    rw [if_neg ht]
    rcases p3 with h | h
    · exact absurd h ht
    · exact h

theorem keyboard_arrow_key_press (k : Collaborators) (w : CanvasWidget)
    (c : NautilusCanvasContainer) (event : Option GdkEventKey) (direction : GtkDirectionType)
    (better_start empty_start better_destination : IsBetterCanvasFunction)
    (fallback fallback_fallback : Option IsBetterCanvasFunction)
    (hf : c.focus ∈ c.icons) (h0 : 0 ∉ c.icons) (hnd : c.icons.Nodup)
    (hu : distinct_uris k c c.icons) :
    ∃ c2 c1, record_arrow_key_start k w c c.focus direction = some c2 ∧
      c2 = { c with arrow_key_start_x := (icon_cmp_point k w c.focus).1,
                    arrow_key_start_y := (icon_cmp_point k w c.focus).2,
                    arrow_key_direction := direction } ∧
      keyboard_arrow_key k w c event direction better_start empty_start better_destination
        fallback fallback_fallback = some c1 ∧
      KeyboardOnly c2 c1 ∧
      (c1.focus = c.focus ∨ (c1.focus ∈ c.icons ∧ c1.focus ≠ c.focus ∧
        ∃ function b0, (function = better_destination ∨ fallback = some function ∨
            fallback_fallback = some function) ∧
          is_better_canvas function k w c2 c.focus b0 c1.focus = some true)) := by
  have hfz : c.focus ≠ 0 := fun he => h0 (he ▸ hf)
  have hrec := record_arrow_key_start_eq k w c c.focus direction hfz
  obtain ⟨to_icon, hto, hprop⟩ := keyboard_arrow_key_to_from_icon k w c _ c.focus direction
    empty_start better_destination fallback fallback_fallback hrec hf h0 hnd hu
  have hne : to_icon ≠ 0 := by
    rcases hprop with h | ⟨h, _, _⟩
    · rw [h]
      exact hfz
    · exact fun he => h0 (he ▸ h)
  obtain ⟨c1, hmove, hfocus⟩ := keyboard_move_to_focus k w
    { c with arrow_key_start_x := (icon_cmp_point k w c.focus).1,
             arrow_key_start_y := (icon_cmp_point k w c.focus).2,
             arrow_key_direction := direction } to_icon c.focus event hne
  refine ⟨_, c1, hrec, rfl, ?_, keyboard_only_keyboard_move_to hmove, ?_⟩
  · unfold keyboard_arrow_key
    rw [keyboard_arrow_key_from_focused k w c better_start empty_start hfz]
    simp only [Option.some_bind]
    rw [hto]
    simp only [Option.some_bind]
    exact hmove
  · rw [hfocus]
    exact hprop

theorem same_column_above_lowest_accepts (k : Collaborators) (w : CanvasWidget)
    (c : NautilusCanvasContainer) (start_icon best cand : Nat)
    (h : same_column_above_lowest k w c start_icon best cand = some true) :
    compare_with_start_column w c cand = some 0 ∧
      ∃ r, compare_icons_vertical_first k w c cand start_icon = some r ∧ r < 0 := by
  unfold same_column_above_lowest at h
  cases hcol : compare_with_start_column w c cand with
  | none =>
    rw [hcol] at h
    simp at h
  | some col =>
    rw [hcol] at h
    simp only [Option.some_bind] at h
    by_cases hc : col = 0
    · subst hc
      refine ⟨rfl, ?_⟩
      simp only [ne_eq, not_true_eq_false, if_false] at h
      cases h1 : (if ¬best = 0 then compare_icons_vertical_first k w c best cand else some 0) with
      | none =>
        rw [h1] at h
        simp at h
      | some r1 =>
        rw [h1] at h
        simp only [Option.some_bind] at h
        split_ifs at h with h2
        · simp at h
        · cases h3 : compare_icons_vertical_first k w c cand start_icon with
          | none =>
            rw [h3] at h
            simp at h
          | some r2 =>
            rw [h3] at h
            simp only [Option.some_bind] at h
            split_ifs at h with h4
            · simp at h
            · exact ⟨r2, rfl, lt_of_not_ge h4⟩
    · rw [if_pos hc] at h
      simp at h

theorem same_column_below_highest_accepts (k : Collaborators) (w : CanvasWidget)
    (c : NautilusCanvasContainer) (start_icon best cand : Nat)
    (h : same_column_below_highest k w c start_icon best cand = some true) :
    compare_with_start_column w c cand = some 0 ∧
      ∃ r, compare_icons_vertical_first k w c cand start_icon = some r ∧ 0 < r := by
  unfold same_column_below_highest at h
  cases hcol : compare_with_start_column w c cand with
  | none =>
    rw [hcol] at h
    simp at h
  | some col =>
    rw [hcol] at h
    simp only [Option.some_bind] at h
    by_cases hc : col = 0
    · subst hc
      refine ⟨rfl, ?_⟩
      simp only [ne_eq, not_true_eq_false, if_false] at h
      cases h1 : (if ¬best = 0 then compare_icons_vertical_first k w c best cand else some 0) with
      | none =>
        rw [h1] at h
        simp at h
      | some r1 =>
        rw [h1] at h
        simp only [Option.some_bind] at h
        split_ifs at h with h2
        · simp at h
        · cases h3 : compare_icons_vertical_first k w c cand start_icon with
          | none =>
            rw [h3] at h
            simp at h
          | some r2 =>
            rw [h3] at h
            simp only [Option.some_bind] at h
            split_ifs at h with h4
            · simp at h
            · exact ⟨r2, rfl, lt_of_not_ge h4⟩
    · rw [if_pos hc] at h
      simp at h

theorem compare_with_start_column_zero (w : CanvasWidget) (c : NautilusCanvasContainer)
    (icon : Nat) (h : compare_with_start_column w c icon = some 0) :
    (w.eel_canvas_item_extent icon).x0 ≤ (c.arrow_key_start_x : Rat) ∧
      (c.arrow_key_start_x : Rat) ≤ (w.eel_canvas_item_extent icon).x1 := by
  unfold compare_with_start_column at h
  by_cases h1 : icon = 0
  · rw [if_pos h1] at h
    simp at h
  · rw [if_neg h1] at h
    dsimp only at h
    by_cases h2 : (c.arrow_key_start_x : Rat) < (w.eel_canvas_item_extent icon).x0
    · rw [if_pos h2] at h
      simp at h
    · rw [if_neg h2] at h
      by_cases h3 : (c.arrow_key_start_x : Rat) > (w.eel_canvas_item_extent icon).x1
      · rw [if_pos h3] at h
        simp at h
      · exact ⟨le_of_not_lt h2, le_of_not_lt h3⟩

/-! ## C23: the column anchor is recorded at every press -/

/-- C23, as amended: for every container whose icon list holds no icon twice and no `NULL`, whose
icons have pairwise distinct URIs and whose focused icon is in the list, a press of the up arrow
and a press of the down arrow return, and after the press the column anchor `arrow_key_start_x`
is the x of the comparison point (the centre-x) of the icon that was focused when this press
began: `record_arrow_key_start` writes it at every press.  The target of the up arrow is the
focused icon or an icon whose item spans that x. -/
theorem C23_column_anchor_follows_the_focus (k : Collaborators) (w : CanvasWidget)
    (c : NautilusCanvasContainer) (event : Option GdkEventKey)
    (hf : c.focus ∈ c.icons) (h0 : 0 ∉ c.icons) (hnd : c.icons.Nodup)
    (hu : distinct_uris k c c.icons) :
    (∃ c1, keyboard_up k w c event = some c1 ∧
      c1.arrow_key_start_x = (icon_cmp_point k w c.focus).1 ∧
      (c1.focus = c.focus ∨
        ((w.eel_canvas_item_extent c1.focus).x0 ≤ (((icon_cmp_point k w c.focus).1 : Int) : Rat) ∧
          (((icon_cmp_point k w c.focus).1 : Int) : Rat) ≤
            (w.eel_canvas_item_extent c1.focus).x1))) ∧
    (∃ c1, keyboard_down k w c event = some c1 ∧
      c1.arrow_key_start_x = (icon_cmp_point k w c.focus).1) := by
  constructor
  · unfold keyboard_up
    obtain ⟨c2, c1, _, hc2, hpress, hframe, hprop⟩ := keyboard_arrow_key_press k w c event
      GtkDirectionType.GTK_DIR_UP IsBetterCanvasFunction.rightmost_in_bottom_row
      (keyboard_empty_start w) IsBetterCanvasFunction.same_column_above_lowest none none
      hf h0 hnd hu
    have hx : c2.arrow_key_start_x = (icon_cmp_point k w c.focus).1 := by rw [hc2]
    refine ⟨c1, hpress, by rw [hframe.keyboard_fields.2.1, hx], ?_⟩
    rcases hprop with h | ⟨_, _, function, b0, hfn, hb⟩
    · exact Or.inl h
    · right
      have hfn2 : function = IsBetterCanvasFunction.same_column_above_lowest := by
        rcases hfn with h | h | h
        · exact h
        · exact absurd h (by simp)
        · exact absurd h (by simp)
      subst hfn2
      have hz := compare_with_start_column_zero w c2 c1.focus
        (same_column_above_lowest_accepts k w c2 c.focus b0 c1.focus hb).1
      rw [hx] at hz
      exact hz
  · unfold keyboard_down
    obtain ⟨c2, c1, _, hc2, hpress, hframe, _⟩ := keyboard_arrow_key_press k w c event
      GtkDirectionType.GTK_DIR_DOWN IsBetterCanvasFunction.rightmost_in_bottom_row
      (keyboard_empty_start w) IsBetterCanvasFunction.same_column_below_highest none
      (some (if w.is_layout_rtl then IsBetterCanvasFunction.next_row_leftmost
        else IsBetterCanvasFunction.next_row_rightmost))
      hf h0 hnd hu
    have hx : c2.arrow_key_start_x = (icon_cmp_point k w c.focus).1 := by rw [hc2]
    exact ⟨c1, hpress, by rw [hframe.keyboard_fields.2.1, hx]⟩

/-- Witness of C23 as amended: the three icons of the sample container, not lined up, with the
focus on the lowest one, whose comparison point is at x = 50. -/
theorem C23_column_anchor_follows_the_focus_witness :
    sample_three_bottom.focus ∈ sample_three_bottom.icons ∧ 0 ∉ sample_three_bottom.icons ∧
      sample_three_bottom.icons.Nodup ∧
      distinct_uris sample_collaborators sample_three_bottom sample_three_bottom.icons ∧
      (icon_cmp_point sample_collaborators sample_widget_ragged sample_three_bottom.focus).1 =
        50 ∧
      ∃ c1, keyboard_up sample_collaborators sample_widget_ragged sample_three_bottom
          (some { state := 0 }) = some c1 ∧
        c1.arrow_key_start_x =
          (icon_cmp_point sample_collaborators sample_widget_ragged
            sample_three_bottom.focus).1 :=
  have hu : distinct_uris sample_collaborators sample_three_bottom sample_three_bottom.icons := by
    unfold distinct_uris
    decide!
  ⟨by decide, by decide, by decide, hu, by decide!,
    (C23_column_anchor_follows_the_focus sample_collaborators sample_widget_ragged
      sample_three_bottom (some { state := 0 }) (by decide) (by decide) (by decide) hu).1.imp
        fun _ h => ⟨h.1, h.2.1⟩⟩

/-- Counterexample to C23 as stated: a run of two presses of the up arrow on three icons that are
not lined up, starting from the icon 3, whose centre-x is 50.  The first press moves to the icon
2 with the anchor at 50; the second press sets the anchor to 30, the centre-x of the icon 2, and
moves to the icon 1, although the item of the icon 1 does not span the x 50 of the icon that the
run started from. -/
theorem C23_anchor_changes_in_a_run_counterexample :
    sample_three_bottom.focus = 3 ∧
    (icon_cmp_point sample_collaborators sample_widget_ragged 3).1 = 50 ∧
    (keyboard_up sample_collaborators sample_widget_ragged sample_three_bottom
      (some { state := 0 })).map (fun c1 => (c1.focus, c1.arrow_key_start_x)) = some (2, 50) ∧
    ((keyboard_up sample_collaborators sample_widget_ragged sample_three_bottom
      (some { state := 0 })).bind (fun c1 =>
        keyboard_up sample_collaborators sample_widget_ragged c1 (some { state := 0 }))).map
      (fun c2 => (c2.focus, c2.arrow_key_start_x)) = some (1, 30) ∧
    (sample_widget_ragged.eel_canvas_item_extent 1).x1 < 50 :=
  ⟨by decide, by decide!, by decide!, by decide!, by decide!⟩

/-! ## Lemmas: the anchor that `set_selection` picks -/

theorem icon_set_selected_heap_other (c : NautilusCanvasContainer) (icon other : Nat)
    (select : Bool) (h : other ≠ icon) :
    (icon_set_selected c icon select).2.heap other = c.heap other := by
  unfold icon_set_selected
  split_ifs
  · rfl
  · rw [icon_toggle_selected_heap, Function.update_noteq h]

theorem icon_set_selected_fst (c : NautilusCanvasContainer) (icon : Nat) (select : Bool) :
    (icon_set_selected c icon select).1 = decide (select ≠ (c.heap icon).is_selected) := by
  unfold icon_set_selected
  split_ifs with h
  · simp [h]
  · simp [h]

theorem set_selection_selected_icon (hash : List (Nat × Nat)) (l : List Nat) (hnd : l.Nodup)
    (s : set_selection_state) :
    (l.foldl (set_selection_step hash) s).selected_icon =
      ((l.filter (fun y => decide (decide (g_hash_table_lookup hash (s.container.heap y).data ≠ 0) ≠
        (s.container.heap y).is_selected))).getLast?).getD s.selected_icon := by
  induction l generalizing s with
  | nil => rfl
  | cons x t ih =>
    obtain ⟨hx, ht⟩ := List.nodup_cons.mp hnd
    rw [List.foldl_cons, ih ht]
    have hheap : ∀ y ∈ t, (set_selection_step hash s x).container.heap y = s.container.heap y := by
      intro y hy
      have hyx : y ≠ x := fun e => hx (e ▸ hy)
      exact icon_set_selected_heap_other s.container x y _ hyx
    have hfilter : t.filter (fun y => decide (decide (g_hash_table_lookup hash
          ((set_selection_step hash s x).container.heap y).data ≠ 0) ≠
          ((set_selection_step hash s x).container.heap y).is_selected)) =
        t.filter (fun y => decide (decide (g_hash_table_lookup hash
          (s.container.heap y).data ≠ 0) ≠ (s.container.heap y).is_selected)) := by
      apply List.filter_congr
      intro y hy
      rw [hheap y hy]
    rw [hfilter]
    have hsel : (set_selection_step hash s x).selected_icon =
        if decide (g_hash_table_lookup hash (s.container.heap x).data ≠ 0) ≠
          (s.container.heap x).is_selected then x else s.selected_icon := by
      unfold set_selection_step
      dsimp only
      rw [icon_set_selected_fst]
      by_cases h : decide (g_hash_table_lookup hash (s.container.heap x).data ≠ 0) ≠
          (s.container.heap x).is_selected
      · rw [if_pos h, if_pos (decide_eq_true h)]
      · rw [if_neg h, if_neg (by simpa using h)]
    rw [hsel, List.filter_cons]
    by_cases h : decide (g_hash_table_lookup hash (s.container.heap x).data ≠ 0) ≠
        (s.container.heap x).is_selected
    · rw [if_pos h, if_pos (decide_eq_true h), List.getLast?_cons]
      rfl
    · rw [if_neg h, if_neg (by simpa using h)]

theorem SelectionOnly.only_refl (c : NautilusCanvasContainer) : SelectionOnly c c := rfl

theorem SelectionOnly.only_trans {c c1 c2 : NautilusCanvasContainer} (h1 : SelectionOnly c c1)
    (h2 : SelectionOnly c1 c2) : SelectionOnly c c2 := by
  unfold SelectionOnly at *
  rw [h2, h1]

theorem selection_only_icon_toggle_selected (c : NautilusCanvasContainer) (icon : Nat) :
    SelectionOnly c (icon_toggle_selected c icon) := by
  unfold icon_toggle_selected
  dsimp only
  split_ifs <;> rfl

theorem selection_only_icon_set_selected (c : NautilusCanvasContainer) (icon : Nat)
    (select : Bool) : SelectionOnly c (icon_set_selected c icon select).2 := by
  unfold icon_set_selected
  split_ifs
  · exact SelectionOnly.only_refl c
  · exact selection_only_icon_toggle_selected c icon

theorem foldl_selection_only {σ : Type} (f : σ → Nat → σ) (cont : σ → NautilusCanvasContainer)
    (hstep : ∀ s icon, SelectionOnly (cont s) (cont (f s icon))) (l : List Nat) (s : σ) :
    SelectionOnly (cont s) (cont (l.foldl f s)) := by
  induction l generalizing s with
  | nil => exact SelectionOnly.only_refl _
  | cons x t ih =>
    rw [List.foldl_cons]
    exact (hstep s x).only_trans (ih (f s x))

theorem set_selection_changed_eq (hash : List (Nat × Nat)) (l : List Nat) (hnd : l.Nodup)
    (s : set_selection_state) :
    (l.foldl (set_selection_step hash) s).selection_changed =
      (s.selection_changed ||
        decide (l.filter (fun y => decide (decide (g_hash_table_lookup hash
          (s.container.heap y).data ≠ 0) ≠ (s.container.heap y).is_selected)) ≠ [])) := by
  induction l generalizing s with
  | nil => simp
  | cons x t ih =>
    obtain ⟨hx, ht⟩ := List.nodup_cons.mp hnd
    rw [List.foldl_cons, ih ht]
    have hheap : ∀ y ∈ t, (set_selection_step hash s x).container.heap y = s.container.heap y := by
      intro y hy
      have hyx : y ≠ x := fun e => hx (e ▸ hy)
      exact icon_set_selected_heap_other s.container x y _ hyx
    have hfilter : t.filter (fun y => decide (decide (g_hash_table_lookup hash
          ((set_selection_step hash s x).container.heap y).data ≠ 0) ≠
          ((set_selection_step hash s x).container.heap y).is_selected)) =
        t.filter (fun y => decide (decide (g_hash_table_lookup hash
          (s.container.heap y).data ≠ 0) ≠ (s.container.heap y).is_selected)) := by
      apply List.filter_congr
      intro y hy
      rw [hheap y hy]
    rw [hfilter]
    have hch : (set_selection_step hash s x).selection_changed =
        (s.selection_changed || decide (decide (g_hash_table_lookup hash
          (s.container.heap x).data ≠ 0) ≠ (s.container.heap x).is_selected)) := by
      unfold set_selection_step
      dsimp only
      rw [icon_set_selected_fst]
    rw [hch, List.filter_cons]
    generalize List.filter (fun y => decide (decide (g_hash_table_lookup hash
      (s.container.heap y).data ≠ 0) ≠ (s.container.heap y).is_selected)) t = ft
    by_cases h : decide (g_hash_table_lookup hash (s.container.heap x).data ≠ 0) ≠
        (s.container.heap x).is_selected
    · have hd := decide_eq_true h
      rw [if_pos hd, hd, decide_eq_true (List.cons_ne_nil x ft)]
      simp only [Bool.or_true, Bool.true_or]
    · have hd := decide_eq_false h
      rw [hd, if_neg (by simp), Bool.or_false]

theorem set_selection_loop_only (hash : List (Nat × Nat)) (l : List Nat)
    (s : set_selection_state) :
    SelectionOnly s.container (l.foldl (set_selection_step hash) s).container :=
  foldl_selection_only (set_selection_step hash) (fun s => s.container)
    (fun s icon => selection_only_icon_set_selected s.container icon _) l s

theorem set_selection_anchor (c : NautilusCanvasContainer) (data : Nat) (hnd : c.icons.Nodup) :
    (nautilus_canvas_container_set_selection c [data]).range_selection_base_icon =
      ((c.icons.filter (fun y => decide (decide (g_hash_table_lookup (set_selection_hash [data])
        (c.heap y).data ≠ 0) ≠ (c.heap y).is_selected))).getLast?).getD
          c.range_selection_base_icon := by
  have h1 := set_selection_selected_icon (set_selection_hash [data]) c.icons hnd
    { container := c, selection_changed := false, selected_icon := 0 }
  have h2 := set_selection_changed_eq (set_selection_hash [data]) c.icons hnd
    { container := c, selection_changed := false, selected_icon := 0 }
  have h3 := set_selection_loop_only (set_selection_hash [data]) c.icons
    { container := c, selection_changed := false, selected_icon := 0 }
  dsimp only at h1 h2 h3
  unfold nautilus_canvas_container_set_selection
  dsimp only
  generalize List.foldl (set_selection_step (set_selection_hash [data]))
    { container := c, selection_changed := false, selected_icon := 0 } c.icons = s at h1 h2 h3
  have hbase : s.container.range_selection_base_icon = c.range_selection_base_icon := by
    unfold SelectionOnly at h3
    rw [h3]
  generalize List.filter (fun y => decide (decide (g_hash_table_lookup
    (set_selection_hash [data]) (c.heap y).data ≠ 0) ≠ (c.heap y).is_selected)) c.icons = ch
    at h1 h2
  rw [Bool.false_or] at h2
  cases ch with
  | nil =>
    have : s.selection_changed = false := by simpa using h2
    rw [this]
    simpa using hbase
  | cons a rest =>
    have : s.selection_changed = true := by simpa using h2
    rw [this]
    simp only [if_true, g_list_length, List.length_singleton, g_signal_emit]
    rw [h1]
    have hne : (a :: rest).getLast? = some ((a :: rest).getLast (by simp)) :=
      List.getLast?_eq_getLast _ _
    rw [hne]
    rfl

theorem set_selection_wants (c : NautilusCanvasContainer) (data : Nat) (hc : Consistent c)
    (hr : is_registered c data) (y : Nat) (hy : y ∈ c.icons) :
    decide (g_hash_table_lookup (set_selection_hash [data]) (c.heap y).data ≠ 0) =
      decide (y = g_hash_table_lookup c.icon_set data) := by
  obtain ⟨hm, hd⟩ := hc.registry.registered hr
  have hdata : data ≠ 0 := by
    rw [← hd]
    exact hc.registry.data_not_null _ hm
  rw [lookup_set_selection_hash]
  by_cases hyi : y = g_hash_table_lookup c.icon_set data
  · have e : (c.heap y).data = data := by
      rw [hyi]
      exact hd
    rw [e]
    simp [hdata, hyi]
  · have e : (c.heap y).data ≠ data := by
      intro he
      apply hyi
      exact hc.registry.data_injective hy hm (he.trans hd.symm)
    simp [e, hyi]

/-! ## C24: the anchor after `set_selection` with one id -/

/-- C24, as amended: for every consistent container and every registered id, with `icon` the
icon of that id, after `nautilus_canvas_container_set_selection` with the one-element list of the
id: when the icon was the only selected icon already, so that the call changes no flag, the
range-selection anchor is what it was before the call; and when the icon was not selected and no
icon after it in the icon list was selected, the anchor is the icon. -/
theorem C24_set_selection_anchor (c : NautilusCanvasContainer) (data : Nat)
    (hc : Consistent c) (hr : is_registered c data) :
    ((c.heap (g_hash_table_lookup c.icon_set data)).is_selected = true →
      (∀ y ∈ c.icons, y ≠ g_hash_table_lookup c.icon_set data →
        (c.heap y).is_selected = false) →
      (nautilus_canvas_container_set_selection c [data]).range_selection_base_icon =
        c.range_selection_base_icon) ∧
    ((c.heap (g_hash_table_lookup c.icon_set data)).is_selected = false →
      ∀ pre post, c.icons = pre ++ g_hash_table_lookup c.icon_set data :: post →
        (∀ y ∈ post, (c.heap y).is_selected = false) →
        (nautilus_canvas_container_set_selection c [data]).range_selection_base_icon =
          g_hash_table_lookup c.icon_set data) := by
  have hnd := hc.registry.icons_nodup
  have hw := set_selection_wants c data hc hr
  rw [set_selection_anchor c data hnd]
  generalize g_hash_table_lookup c.icon_set data = icon at hw ⊢
  constructor
  · intro hsel hothers
    have hnil : c.icons.filter (fun y => decide (decide (g_hash_table_lookup
        (set_selection_hash [data]) (c.heap y).data ≠ 0) ≠ (c.heap y).is_selected)) = [] := by
      rw [List.filter_eq_nil_iff]
      intro y hy
      rw [hw y hy]
      by_cases hyi : y = icon
      · rw [hyi, hsel]
        simp
      · rw [hothers y hy hyi]
        simp [hyi]
    rw [hnil]
    rfl
  · intro hsel pre post hsplit hpost
    have hmem : ∀ y ∈ pre ++ icon :: post, y ∈ c.icons := fun y hy => hsplit ▸ hy
    rw [hsplit] at hnd
    have hnotin : icon ∉ post := by
      have := (List.nodup_append.mp hnd).2.1
      exact (List.nodup_cons.mp this).1
    have hlast : (pre ++ icon :: post).filter (fun y => decide (decide (g_hash_table_lookup
        (set_selection_hash [data]) (c.heap y).data ≠ 0) ≠ (c.heap y).is_selected)) =
        pre.filter (fun y => decide (decide (g_hash_table_lookup
          (set_selection_hash [data]) (c.heap y).data ≠ 0) ≠ (c.heap y).is_selected)) ++
          [icon] := by
      rw [List.filter_append, List.filter_cons]
      have hi : decide (decide (g_hash_table_lookup (set_selection_hash [data])
          (c.heap icon).data ≠ 0) ≠ (c.heap icon).is_selected) = true := by
        rw [hw icon (hmem icon (by simp)), hsel]
        simp
      rw [if_pos hi]
      have hp : post.filter (fun y => decide (decide (g_hash_table_lookup
          (set_selection_hash [data]) (c.heap y).data ≠ 0) ≠ (c.heap y).is_selected)) = [] := by
        rw [List.filter_eq_nil_iff]
        intro y hy
        have hyi : y ≠ icon := fun e => hnotin (e ▸ hy)
        rw [hw y (hmem y (by simp [hy])), hpost y hy]
        simp [hyi]
      rw [hp]
    rw [hsplit, hlast, List.getLast?_concat]
    rfl

theorem sample_four_reachable (k : Collaborators) : Reachable k sample_four :=
  Reachable.toggle_selected _ 4
    (Reachable.add _ 4 40 (sample_three_reachable k) (by decide) (by decide)) (by decide)

theorem sample_four_consistent : Consistent sample_four :=
  consistent_of_reachable sample_collaborators (sample_four_reachable sample_collaborators)

/-- Witness of C24 as amended: in the sample container with the ids 10, 20 and 30, none selected,
selecting the id 20 makes its icon, the icon 2, the anchor. -/
theorem C24_set_selection_anchor_witness :
    Consistent sample_three ∧ is_registered sample_three 20 ∧
      g_hash_table_lookup sample_three.icon_set 20 = 2 ∧
      (nautilus_canvas_container_set_selection sample_three [20]).range_selection_base_icon =
        g_hash_table_lookup sample_three.icon_set 20 :=
  ⟨sample_three_consistent, by decide, by decide,
    (C24_set_selection_anchor sample_three 20 sample_three_consistent (by decide)).2
      (by decide) [3] [1] (by decide) (by decide)⟩

/-- Counterexample to C24 as stated: in the sample container with the ids 10 to 40, where the
icon 4 of the id 40 is the only selected icon and there is no anchor, selecting the id 40 changes
no flag and leaves the anchor `NULL`. -/
theorem C24_anchor_left_alone_counterexample :
    Consistent sample_four ∧ is_registered sample_four 40 ∧
      g_hash_table_lookup sample_four.icon_set 40 = 4 ∧
      sample_four.icons.map (icon_is_selected sample_four) = [true, false, false, false] ∧
      (nautilus_canvas_container_set_selection sample_four [40]).range_selection_base_icon = 0 :=
  ⟨sample_four_consistent, by decide, by decide, by decide, by decide⟩

/-- The anchor of `set_selection` can be an icon that the call has unselected: in the sample
container with the icons 4 and 3 selected, selecting the id 40 alone unselects the icon 3 and
makes it the anchor. -/
theorem set_selection_anchor_after_unselect :
    sample_two_selected.icons.map (icon_is_selected sample_two_selected) =
        [true, true, false, false] ∧
      sample_two_selected.icons.map (icon_is_selected
        (nautilus_canvas_container_set_selection sample_two_selected [40])) =
        [true, false, false, false] ∧
      (nautilus_canvas_container_set_selection sample_two_selected
        [40]).range_selection_base_icon = 3 :=
  ⟨by decide, by decide, by decide⟩

/-! ## Lemmas: the bounds of the items -/

theorem SortKept.kept_refl (c : NautilusCanvasContainer) : SortKept c c := ⟨rfl, rfl⟩

theorem SortKept.kept_trans {c c1 c2 : NautilusCanvasContainer} (h1 : SortKept c c1)
    (h2 : SortKept c1 c2) : SortKept c c2 :=
  ⟨h2.1.trans h1.1, h2.2.trans h1.2⟩

theorem SortKept.kept_ite {c : NautilusCanvasContainer} (p : Prop) [Decidable p]
    {c1 : NautilusCanvasContainer} (h : SortKept c c1) : SortKept c (if p then c1 else c) := by
  split
  · exact h
  · exact SortKept.kept_refl c

theorem sort_kept_schedule_redo_layout (c : NautilusCanvasContainer) :
    SortKept c (schedule_redo_layout c) := by
  unfold schedule_redo_layout
  split
  · exact ⟨rfl, rfl⟩
  · exact SortKept.kept_refl c

theorem sort_kept_icon_destroy_focus {c c1 : NautilusCanvasContainer} {icon icon_to_focus : Nat}
    (h : icon_destroy_focus c icon icon_to_focus = some c1) : SortKept c c1 := by
  unfold icon_destroy_focus set_focus clear_focus at h
  split_ifs at h <;> simp only [Option.some.injEq] at h <;> subst h <;> exact ⟨rfl, rfl⟩

theorem sort_kept_icon_destroy_references (c : NautilusCanvasContainer) (icon : Nat) :
    SortKept c (icon_destroy_references c icon) := by
  unfold icon_destroy_references
  lift_lets
  extract_lets c1 c2 c3 c4 c5
  have h1 : SortKept c c1 := SortKept.kept_ite _ ⟨rfl, rfl⟩
  have h2 : SortKept c1 c2 := SortKept.kept_ite _ (by
    unfold unschedule_keyboard_icon_reveal
    split
    · exact ⟨rfl, rfl⟩
    · exact SortKept.kept_refl c1)
  have h3 : SortKept c2 c3 := SortKept.kept_ite _ ⟨rfl, rfl⟩
  have h4 : SortKept c3 c4 := SortKept.kept_ite _ ⟨rfl, rfl⟩
  have h5 : SortKept c4 c5 := SortKept.kept_ite _ ⟨rfl, rfl⟩
  have h6 : SortKept c5 (if c5.pending_icon_to_reveal = icon then
      set_pending_icon_to_reveal c5 0 else c5) :=
    SortKept.kept_ite _ (by
      unfold set_pending_icon_to_reveal
      split
      · exact SortKept.kept_refl c5
      · exact ⟨rfl, rfl⟩)
  exact h1.kept_trans (h2.kept_trans (h3.kept_trans (h4.kept_trans (h5.kept_trans h6))))

theorem icon_destroy_selection_of_mem (c : NautilusCanvasContainer) (icon : Nat)
    (hm : icon ∈ c.icons) :
    ∃ c1, icon_destroy c icon = some c1 ∧
      c1.selection = c.selection.erase (c.heap icon).data ∧
      c1.selection_needs_resort = c.selection_needs_resort := by
  unfold icon_destroy
  simp only [g_list_find, hm, if_true]
  split
  · next heq => exact absurd heq (icon_destroy_focus_ne_none _ _ _)
  · next cf heq =>
    have hk := (sort_kept_icon_destroy_focus heq).kept_trans
      (sort_kept_icon_destroy_references cf icon)
    split
    · refine ⟨_, rfl, ?_⟩
      dsimp only [g_source_add]
      exact ⟨hk.1, hk.2⟩
    · exact ⟨_, rfl, hk.1, hk.2⟩

theorem icon_destroy_selection {c c1 : NautilusCanvasContainer} {icon : Nat}
    (h : icon_destroy c icon = some c1) :
    c1.selection = c.selection.erase (c.heap icon).data ∧
      c1.selection_needs_resort = c.selection_needs_resort := by
  by_cases hm : icon ∈ c.icons
  · obtain ⟨c2, e, h1, h2⟩ := icon_destroy_selection_of_mem c icon hm
    rw [e] at h
    simp only [Option.some.injEq] at h
    subst h
    exact ⟨h1, h2⟩
  · unfold icon_destroy at h
    simp only [g_list_find, hm, if_false] at h
    simp at h

theorem nautilus_canvas_container_remove_selection {c : NautilusCanvasContainer} {data : Nat}
    {r : Bool × NautilusCanvasContainer}
    (h : nautilus_canvas_container_remove c data = some r) :
    (r.2.selection = c.selection ∨ ∃ d, r.2.selection = c.selection.erase d) ∧
      r.2.selection_needs_resort = c.selection_needs_resort := by
  unfold nautilus_canvas_container_remove at h
  by_cases h1 : data = 0
  · rw [if_pos h1] at h
    simp only [Option.some.injEq] at h
    subst h
    exact ⟨Or.inl rfl, rfl⟩
  · rw [if_neg h1] at h
    dsimp only at h
    by_cases h2 : g_hash_table_lookup c.icon_set data = 0
    · rw [if_pos h2] at h
      simp only [Option.some.injEq] at h
      subst h
      exact ⟨Or.inl rfl, rfl⟩
    · rw [if_neg h2] at h
      cases hd : icon_destroy c (g_hash_table_lookup c.icon_set data) with
      | none =>
        rw [hd] at h
        simp at h
      | some cd =>
        rw [hd] at h
        simp only [Option.some.injEq] at h
        subst h
        obtain ⟨e1, e2⟩ := icon_destroy_selection hd
        have hk := sort_kept_schedule_redo_layout cd
        exact ⟨Or.inr ⟨_, hk.1.trans e1⟩, hk.2.trans e2⟩

theorem nautilus_canvas_container_add_selection (c : NautilusCanvasContainer) (icon data : Nat) :
    SortKept c (nautilus_canvas_container_add c icon data).2 := by
  unfold nautilus_canvas_container_add
  split_ifs
  · exact SortKept.kept_refl c
  · exact SortKept.kept_refl c
  · exact sort_kept_schedule_redo_layout _

theorem selection_sorted_erase {k : Collaborators} {selection : List Nat}
    (h : selection_sorted k selection) (data : Nat) :
    selection_sorted k (selection.erase data) :=
  List.Pairwise.sublist (List.erase_sublist data selection) h

theorem g_list_sort_with_data_sorted (k : Collaborators)
    (htrans : ∀ a b c : Nat, k.compare_icons a b ≤ 0 → k.compare_icons b c ≤ 0 →
      k.compare_icons a c ≤ 0)
    (htotal : ∀ a b : Nat, k.compare_icons a b ≤ 0 ∨ k.compare_icons b a ≤ 0)
    (selection : List Nat) :
    selection_sorted k (g_list_sort_with_data selection k.compare_icons) := by
  unfold selection_sorted g_list_sort_with_data
  have h : (selection.mergeSort (fun a b => decide (k.compare_icons a b ≤ 0))).Pairwise
      (fun a b => decide (k.compare_icons a b ≤ 0) = true) := List.sorted_mergeSort
    (fun a b c hab hbc => by
      simp only [decide_eq_true_eq] at hab hbc ⊢
      exact htrans a b c hab hbc)
    (fun a b => by
      simp only [Bool.or_eq_true, decide_eq_true_eq]
      exact htotal a b) selection
  exact h.imp (fun hab => by simpa using hab)

theorem icon_toggle_selected_needs_resort (c : NautilusCanvasContainer) (icon : Nat) :
    (icon_toggle_selected c icon).selection_needs_resort =
      if icon_is_selected c icon = true then c.selection_needs_resort else true := by
  unfold icon_toggle_selected icon_is_selected
  cases (c.heap icon).is_selected <;> rfl

theorem resort_selection (k : Collaborators) (c : NautilusCanvasContainer) :
    (resort k c).selection = g_list_sort_with_data c.selection k.compare_icons ∧
      (resort k c).selection_needs_resort = false ∧
      (resort k c).icons =
        g_list_sort_with_data c.icons
          (fun a b => k.compare_icons (c.heap a).data (c.heap b).data) ∧
      (resort k c).icon_set = c.icon_set := by
  have h := cache_icon_positions_fold (sort_selection k (sort_icons k c)).icons
    (sort_selection k (sort_icons k c), 0)
  unfold HeapOnly at h
  unfold resort cache_icon_positions
  rw [h]
  exact ⟨rfl, rfl, rfl, rfl⟩

theorem cache_icon_positions_fold_flags (l : List Nat) (s : NautilusCanvasContainer × Int)
    (i : Nat) :
    ((l.foldl (fun (s : NautilusCanvasContainer × Int) icon =>
      ({ s.1 with heap := Function.update s.1.heap icon { s.1.heap icon with position := s.2 } },
        s.2 + 1)) s).1.heap i).data = (s.1.heap i).data ∧
    ((l.foldl (fun (s : NautilusCanvasContainer × Int) icon =>
      ({ s.1 with heap := Function.update s.1.heap icon { s.1.heap icon with position := s.2 } },
        s.2 + 1)) s).1.heap i).is_selected = (s.1.heap i).is_selected := by
  induction l generalizing s with
  | nil => exact ⟨rfl, rfl⟩
  | cons icon rest ih =>
    simp only [List.foldl_cons]
    rw [(ih _).1, (ih _).2]
    by_cases h : i = icon
    · subst h
      simp only [Function.update_same]
      exact ⟨trivial, trivial⟩
    · simp only [Function.update_noteq h]
      exact ⟨trivial, trivial⟩

theorem resort_flags (k : Collaborators) (c : NautilusCanvasContainer) (icon : Nat) :
    icon_data (resort k c) icon = icon_data c icon ∧
      icon_is_selected (resort k c) icon = icon_is_selected c icon := by
  unfold resort cache_icon_positions icon_data icon_is_selected
  exact cache_icon_positions_fold_flags _ _ icon

theorem Consistent.of_reordered {c c1 : NautilusCanvasContainer} (h : Consistent c)
    (hi : c1.icons.Perm c.icons) (hs : c1.icon_set = c.icon_set)
    (hl : c1.selection.Perm c.selection)
    (hd : ∀ icon, icon_data c1 icon = icon_data c icon)
    (hf : ∀ icon, icon_is_selected c1 icon = icon_is_selected c icon) : Consistent c1 := by
  refine ⟨⟨?_, ?_, ?_, ?_, ?_, ?_⟩, ⟨?_, ?_⟩⟩
  · exact hi.nodup_iff.mpr h.registry.icons_nodup
  · rw [hi.mem_iff]; exact h.registry.icons_not_null
  · intro icon hm
    rw [hd]
    exact h.registry.data_not_null icon (hi.mem_iff.mp hm)
  · intro icon hm
    rw [hd, hs]
    exact h.registry.index_of_icon icon (hi.mem_iff.mp hm)
  · intro data hm
    rw [hs] at hm ⊢
    rw [hi.mem_iff, hd]
    exact h.registry.icon_of_key data hm
  · rw [hs]
    exact h.registry.keys_nodup
  · exact hl.nodup_iff.mpr h.selection.selection_nodup
  · intro data
    rw [hl.mem_iff, h.selection.selection_mem]
    simp only [hd, hf, hi.mem_iff]

theorem Consistent.resort {c : NautilusCanvasContainer} (h : Consistent c) (k : Collaborators) :
    Consistent (resort k c) := by
  obtain ⟨a1, _, a3, a4⟩ := resort_selection k c
  refine h.of_reordered ?_ a4 ?_ (fun icon => (resort_flags k c icon).1)
    (fun icon => (resort_flags k c icon).2)
  · rw [a3]; exact g_list_sort_with_data_perm _ _
  · rw [a1]; exact g_list_sort_with_data_perm _ _

theorem consistent_of_sort_reachable (k : Collaborators) {c : NautilusCanvasContainer}
    (h : SortReachable k c) : Consistent c := by
  induction h with
  | empty c he => exact consistent_of_empty he
  | add c icon data _ h0 hfresh ih => exact ih.add icon data h0 hfresh
  | remove c data r _ hrem ih => exact ih.remove hrem
  | toggle_selected c icon _ hm ih => exact ih.toggle hm
  | set_selected c icon select _ hm ih => exact ih.set_selected hm select
  | resort c _ ih => exact ih.resort k
  | get_selection c _ ih => exact ih.get_selection k

theorem sorted_of_sort_reachable (k : Collaborators)
    (htrans : ∀ a b c : Nat, k.compare_icons a b ≤ 0 → k.compare_icons b c ≤ 0 →
      k.compare_icons a c ≤ 0)
    (htotal : ∀ a b : Nat, k.compare_icons a b ≤ 0 ∨ k.compare_icons b a ≤ 0)
    {c : NautilusCanvasContainer} (h : SortReachable k c) :
    c.selection_needs_resort = false → selection_sorted k c.selection := by
  induction h with
  | empty c he =>
    intro _
    rw [he.2.2.1]
    exact List.Pairwise.nil
  | add c icon data _ h0 hfresh ih =>
    obtain ⟨a1, a2⟩ := nautilus_canvas_container_add_selection c icon data
    rw [a1, a2]
    exact ih
  | remove c data r _ hrem ih =>
    obtain ⟨a1, a2⟩ := nautilus_canvas_container_remove_selection hrem
    rw [a2]
    intro hf
    rcases a1 with a1 | ⟨d, a1⟩
    · rw [a1]; exact ih hf
    · rw [a1]; exact selection_sorted_erase (ih hf) d
  | toggle_selected c icon _ hm ih =>
    rw [icon_toggle_selected_needs_resort, icon_toggle_selected_selection]
    split
    · intro hf
      exact selection_sorted_erase (ih hf) _
    · intro hf
      exact absurd hf (by decide)
  | set_selected c icon select _ hm ih =>
    unfold icon_set_selected
    split
    · exact ih
    · dsimp only
      rw [icon_toggle_selected_needs_resort, icon_toggle_selected_selection]
      split
      · intro hf
        exact selection_sorted_erase (ih hf) _
      · intro hf
        exact absurd hf (by decide)
  | resort c _ ih =>
    intro _
    rw [(resort_selection k c).1]
    exact g_list_sort_with_data_sorted k htrans htotal _
  | get_selection c _ ih =>
    unfold nautilus_canvas_container_get_selection
    dsimp only
    split
    · intro _
      exact g_list_sort_with_data_sorted k htrans htotal _
    · exact ih

theorem sample_three_unsorted_reachable (k : Collaborators) :
    SortReachable k sample_three_unsorted :=
  SortReachable.toggle_selected _ 3
    (SortReachable.toggle_selected _ 1
      (SortReachable.add _ 3 30
        (SortReachable.add _ 2 20
          (SortReachable.add _ 1 10 (SortReachable.empty _ ⟨rfl, rfl, rfl, rfl⟩)
            (by decide) (by decide))
          (by decide) (by decide))
        (by decide) (by decide))
      (by decide))
    (by decide)

/-- C26: for a comparison that is transitive and total on ids, in every state reachable from an
empty container through add, remove, select, unselect, toggle, resort and get_selection, the
stored selection list is in the order of the comparison whenever `selection_needs_resort` is
clear, and `nautilus_canvas_container_get_selection` returns a list in that order that holds, each
once, exactly the ids of the selected icons. -/
theorem C26_get_selection_is_sorted (k : Collaborators)
    (htrans : ∀ a b c : Nat, k.compare_icons a b ≤ 0 → k.compare_icons b c ≤ 0 →
      k.compare_icons a c ≤ 0)
    (htotal : ∀ a b : Nat, k.compare_icons a b ≤ 0 ∨ k.compare_icons b a ≤ 0)
    (c : NautilusCanvasContainer) (h : SortReachable k c) :
    (c.selection_needs_resort = false → selection_sorted k c.selection) ∧
      selection_sorted k (nautilus_canvas_container_get_selection k c).1 ∧
      (nautilus_canvas_container_get_selection k c).1.Nodup ∧
      ∀ data, data ∈ (nautilus_canvas_container_get_selection k c).1 ↔
        ∃ icon ∈ c.icons, icon_data c icon = data ∧ icon_is_selected c icon = true := by
  have hc := consistent_of_sort_reachable k h
  refine ⟨sorted_of_sort_reachable k htrans htotal h, ?_, ?_, ?_⟩
  · have h2 := sorted_of_sort_reachable k htrans htotal (SortReachable.get_selection c h)
    refine h2 ?_
    unfold nautilus_canvas_container_get_selection
    dsimp only
    split
    · rfl
    · next hf => simpa using hf
  · exact (hc.get_selection k).selection.selection_nodup
  · intro data
    rw [get_selection_mem]
    exact hc.selection.selection_mem data

/-- Witness of C26: with ids compared as numbers, the sample container in which the icon 1 and
then the icon 3 were selected stores the selection `[30, 10]`, and
`nautilus_canvas_container_get_selection` returns `[10, 30]`, which is in order. -/
theorem C26_get_selection_is_sorted_witness :
    SortReachable sample_collaborators sample_three_unsorted ∧
      sample_three_unsorted.selection = [30, 10] ∧
      (nautilus_canvas_container_get_selection sample_collaborators
        sample_three_unsorted).1 = [10, 30] ∧
      selection_sorted sample_collaborators
        (nautilus_canvas_container_get_selection sample_collaborators
          sample_three_unsorted).1 :=
  ⟨sample_three_unsorted_reachable sample_collaborators, by decide, by decide!,
    (C26_get_selection_is_sorted sample_collaborators
      (fun a b c hab hbc => by
        simp only [sample_collaborators] at hab hbc ⊢
        omega)
      (fun a b => by
        simp only [sample_collaborators]
        omega)
      sample_three_unsorted (sample_three_unsorted_reachable sample_collaborators)).2.1⟩

/-! ## Lemmas: the focus after a removal -/

theorem icon_destroy_focus_keyboard_focus {c c1 : NautilusCanvasContainer}
    {icon icon_to_focus : Nat} (h : icon_destroy_focus c icon icon_to_focus = some c1) :
    c1.keyboard_focus =
      (if (c.focus = icon ∨ c.focus = 0) ∧ icon_to_focus ≠ 0 ∧ icon_to_focus ≠ c.focus then true
       else c.keyboard_focus) := by
  unfold icon_destroy_focus set_focus clear_focus at h
  split_ifs at h with h1 h2 h3 <;> simp only [Option.some.injEq] at h <;> subst h <;>
    simp_all

theorem icon_destroy_references_keyboard_focus (c : NautilusCanvasContainer) (icon : Nat) :
    (icon_destroy_references c icon).keyboard_focus = c.keyboard_focus := by
  unfold icon_destroy_references
  lift_lets
  extract_lets c1 c2 c3 c4 c5
  have h1 : c1.keyboard_focus = c.keyboard_focus := by
    show (if _ then _ else _ : NautilusCanvasContainer).keyboard_focus = _
    split <;> rfl
  have h2 : c2.keyboard_focus = c1.keyboard_focus := by
    show (if _ then _ else _ : NautilusCanvasContainer).keyboard_focus = _
    unfold unschedule_keyboard_icon_reveal
    split_ifs <;> rfl
  have h3 : c3.keyboard_focus = c2.keyboard_focus := by
    show (if _ then _ else _ : NautilusCanvasContainer).keyboard_focus = _
    split <;> rfl
  have h4 : c4.keyboard_focus = c3.keyboard_focus := by
    show (if _ then _ else _ : NautilusCanvasContainer).keyboard_focus = _
    split <;> rfl
  have h5 : c5.keyboard_focus = c4.keyboard_focus := by
    show (if _ then _ else _ : NautilusCanvasContainer).keyboard_focus = _
    split <;> rfl
  have h6 : (if c5.pending_icon_to_reveal = icon then set_pending_icon_to_reveal c5 0
      else c5).keyboard_focus = c5.keyboard_focus := by
    unfold set_pending_icon_to_reveal
    split_ifs <;> rfl
  rw [h6, h5, h4, h3, h2, h1]

theorem icon_destroy_keyboard_focus (c : NautilusCanvasContainer) (icon : Nat)
    (hm : icon ∈ c.icons) :
    ∃ c1, icon_destroy c icon = some c1 ∧
      c1.keyboard_focus =
        (if (c.focus = icon ∨ c.focus = 0) ∧
            (if c.icons.indexOf icon + 1 < c.icons.length then
              c.icons.getD (c.icons.indexOf icon + 1) 0
            else if 0 < c.icons.indexOf icon then c.icons.getD (c.icons.indexOf icon - 1) 0
            else 0) ≠ 0 ∧
            (if c.icons.indexOf icon + 1 < c.icons.length then
              c.icons.getD (c.icons.indexOf icon + 1) 0
            else if 0 < c.icons.indexOf icon then c.icons.getD (c.icons.indexOf icon - 1) 0
            else 0) ≠ c.focus then true
         else c.keyboard_focus) := by
  unfold icon_destroy
  simp only [g_list_find, hm, if_true]
  split
  · next heq => exact absurd heq (icon_destroy_focus_ne_none _ _ _)
  · next cf heq =>
    have a1 := icon_destroy_focus_keyboard_focus heq
    have b1 := icon_destroy_references_keyboard_focus cf icon
    dsimp only at a1
    rw [a1] at b1
    split
    · refine ⟨_, rfl, ?_⟩
      dsimp only [g_source_add]
      exact b1
    · exact ⟨_, rfl, b1⟩

theorem nautilus_canvas_container_remove_keyboard_focus (c : NautilusCanvasContainer)
    (data : Nat) (hreg : RegistryConsistent c) (hr : is_registered c data) :
    ∃ c1, nautilus_canvas_container_remove c data = some (true, c1) ∧
      c1.keyboard_focus =
        (if (c.focus = g_hash_table_lookup c.icon_set data ∨ c.focus = 0) ∧
            (if c.icons.indexOf (g_hash_table_lookup c.icon_set data) + 1 < c.icons.length then
              c.icons.getD (c.icons.indexOf (g_hash_table_lookup c.icon_set data) + 1) 0
            else if 0 < c.icons.indexOf (g_hash_table_lookup c.icon_set data) then
              c.icons.getD (c.icons.indexOf (g_hash_table_lookup c.icon_set data) - 1) 0
            else 0) ≠ 0 ∧
            (if c.icons.indexOf (g_hash_table_lookup c.icon_set data) + 1 < c.icons.length then
              c.icons.getD (c.icons.indexOf (g_hash_table_lookup c.icon_set data) + 1) 0
            else if 0 < c.icons.indexOf (g_hash_table_lookup c.icon_set data) then
              c.icons.getD (c.icons.indexOf (g_hash_table_lookup c.icon_set data) - 1) 0
            else 0) ≠ c.focus then true
         else c.keyboard_focus) := by
  obtain ⟨hmem, hdat⟩ := hreg.registered hr
  have hd : data ≠ 0 := by
    rw [← hdat]
    exact hreg.data_not_null _ hmem
  obtain ⟨cd, hcd, e1⟩ := icon_destroy_keyboard_focus c _ hmem
  unfold nautilus_canvas_container_remove
  unfold is_registered at hr
  simp only [hd, hr, if_false, hcd]
  refine ⟨_, rfl, ?_⟩
  simp only [g_signal_emit]
  refine Eq.trans ?_ e1
  unfold schedule_redo_layout g_source_add
  split_ifs <;> rfl

theorem neighbour_of_split_mem (pre post : List Nat) (icon : Nat)
    (hnd : (pre ++ icon :: post).Nodup) (h0 : 0 ∉ pre ++ icon :: post)
    (hne : pre ≠ [] ∨ post ≠ []) :
    post.head?.getD (pre.getLast?.getD 0) ≠ 0 ∧
      post.head?.getD (pre.getLast?.getD 0) ∈ (pre ++ icon :: post).erase icon := by
  have hmem : post.head?.getD (pre.getLast?.getD 0) ∈ pre ++ icon :: post := by
    cases post with
    | cons next rest => simp
    | nil =>
      rcases List.eq_nil_or_concat pre with hp | ⟨l, a, hp⟩
      · subst hp
        simp at hne
      · subst hp
        simp
  have hicon : icon ≠ 0 := fun e => h0 (by rw [← e]; simp)
  refine ⟨fun e => h0 (e ▸ hmem), ?_⟩
  rw [hnd.mem_erase_iff]
  exact ⟨neighbour_of_split_ne pre post icon hnd hicon, hmem⟩

/-! ## C27: a removal while no item is focused -/

/-- C27: for every consistent container state and every registered id whose icon splits the icon
list as `pre ++ icon :: post`, `nautilus_canvas_container_remove` returns TRUE and: when no icon
was focused, the focus afterwards is the first icon of `post` (the successor), or the last icon of
`pre` when `post` is empty (the predecessor), which is an icon of the list that is left, with the
keyboard focus flag set, whenever the removed icon was not the only one; when another icon was
focused, the focus and the keyboard focus flag are unchanged. -/
theorem C27_removal_without_focus_focuses_neighbour (c : NautilusCanvasContainer) (data : Nat)
    (pre post : List Nat) (hc : Consistent c) (hr : is_registered c data)
    (hsplit : c.icons = pre ++ g_hash_table_lookup c.icon_set data :: post) :
    ∃ c1, nautilus_canvas_container_remove c data = some (true, c1) ∧
      (c.focus = 0 →
        c1.focus = post.head?.getD (pre.getLast?.getD 0) ∧
          (pre ≠ [] ∨ post ≠ [] →
            c1.focus ≠ 0 ∧ c1.focus ∈ c1.icons ∧ c1.keyboard_focus = true)) ∧
      (c.focus ≠ 0 → c.focus ≠ g_hash_table_lookup c.icon_set data →
        c1.focus = c.focus ∧ c1.keyboard_focus = c.keyboard_focus) := by
  obtain ⟨c1, h1, f1, _⟩ := nautilus_canvas_container_remove_fields c data hc.registry hr
  obtain ⟨c2, h2, _, i2, _⟩ := nautilus_canvas_container_remove_core c data hc.registry hr
  obtain ⟨c3, h3, k3⟩ := nautilus_canvas_container_remove_keyboard_focus c data hc.registry hr
  rw [h1] at h2 h3
  simp only [Option.some.injEq, Prod.mk.injEq, true_and] at h2 h3
  subst h2
  subst h3
  have hnd : (pre ++ g_hash_table_lookup c.icon_set data :: post).Nodup := by
    rw [← hsplit]
    exact hc.registry.icons_nodup
  have h0 : 0 ∉ pre ++ g_hash_table_lookup c.icon_set data :: post := by
    rw [← hsplit]
    exact hc.registry.icons_not_null
  have hn := neighbour_of_split pre post _ hnd
  rw [← hsplit] at hn
  rw [hn] at f1 k3
  refine ⟨c1, h1, ?_, ?_⟩
  · intro hf
    rw [if_pos (Or.inr hf)] at f1
    refine ⟨f1, fun hne => ?_⟩
    obtain ⟨n1, n2⟩ := neighbour_of_split_mem pre post _ hnd h0 hne
    rw [f1, i2, hsplit]
    refine ⟨n1, n2, ?_⟩
    rw [k3, if_pos ⟨Or.inr hf, n1, by rw [hf]; exact n1⟩]
  · intro hf0 hfi
    have hno : ¬ (c.focus = g_hash_table_lookup c.icon_set data ∨ c.focus = 0) := by
      rintro (e | e)
      · exact hfi e
      · exact hf0 e
    rw [if_neg hno] at f1
    rw [if_neg (fun h => hno h.1)] at k3
    exact ⟨f1, k3⟩

/-- Witness of C27: in the sample container, icon list `[3, 2, 1]`, no icon is focused; removing
the id 20 focuses the icon 1, the successor of the icon 2.  With the icon 2 focused, removing the
id 30 leaves the focus on the icon 2. -/
theorem C27_removal_without_focus_focuses_neighbour_witness :
    (Consistent sample_three ∧ is_registered sample_three 20 ∧
      sample_three.icons = [3] ++ g_hash_table_lookup sample_three.icon_set 20 :: [1] ∧
      sample_three.focus = 0 ∧
      ∃ c1, nautilus_canvas_container_remove sample_three 20 = some (true, c1) ∧
        c1.focus = 1 ∧ c1.keyboard_focus = true) ∧
    (sample_three_focused.focus = 2 ∧
      ∃ c1, nautilus_canvas_container_remove sample_three_focused 30 = some (true, c1) ∧
        c1.focus = 2) := by
  refine ⟨⟨sample_three_consistent, by decide, by decide, by decide, ?_⟩, by decide, ?_⟩
  · obtain ⟨c1, h1, h2, _⟩ := C27_removal_without_focus_focuses_neighbour sample_three 20 [3] [1]
      sample_three_consistent (by decide) (by decide)
    obtain ⟨f1, f2⟩ := h2 (by decide)
    exact ⟨c1, h1, f1, (f2 (Or.inl (by decide))).2.2⟩
  · obtain ⟨c1, h1, _, h3⟩ := C27_removal_without_focus_focuses_neighbour sample_three_focused
      30 [] [2, 1] sample_three_focused_consistent (by decide) (by decide)
    exact ⟨c1, h1, (h3 (by decide) (by decide)).1⟩

/-! ## Lemmas: the timer of the rubber band -/

theorem stop_rubberbanding_mismatch (c : NautilusCanvasContainer) (event : GdkEventButton)
    (h : event.device ≠ c.rubberband_info.device) :
    stop_rubberbanding c (some event) = some c := by
  unfold stop_rubberbanding
  simp only [h, ne_eq, not_false_eq_true, decide_True, if_true]

theorem stop_rubberbanding_completes {c c1 : NautilusCanvasContainer}
    {event : Option GdkEventButton} (h : stop_rubberbanding c event = some c1)
    (hm : ∀ e, event = some e → e.device = c.rubberband_info.device) :
    c.rubberband_info.timer_id ≠ 0 ∧ c1.rubberband_info.active = false ∧
      c1.rubberband_info.timer_id = 0 ∧
      c1.sources = c.sources.filter (fun s => decide (s.1 ≠ c.rubberband_info.timer_id)) := by
  simp only [stop_rubberbanding] at h
  split_ifs at h with h1 h2
  · exfalso
    cases event with
    | none => simp at h1
    | some e => simp [hm e rfl] at h1
  all_goals
    simp only [Option.some.injEq] at h
    subst h
    exact ⟨h2, rfl, rfl, rfl⟩

theorem rubberband_invariant_stop {c c1 : NautilusCanvasContainer}
    {event : Option GdkEventButton} (hi : rubberband_invariant c)
    (h : stop_rubberbanding c event = some c1) : rubberband_invariant c1 := by
  by_cases hm : ∀ e, event = some e → e.device = c.rubberband_info.device
  · obtain ⟨_, a1, a2, a3⟩ := stop_rubberbanding_completes h hm
    refine ⟨?_, ?_, ?_⟩
    · intro ha
      rw [a1] at ha
      cases ha
    · intro source hs
      rw [a3] at hs
      exact hi.2.1 source (List.mem_filter.mp hs).1
    · intro source hs hf
      rw [a3] at hs
      obtain ⟨hs1, hs2⟩ := List.mem_filter.mp hs
      have := hi.2.2 source hs1 hf
      simp only [ne_eq, decide_not, Bool.not_eq_true', decide_eq_false_iff_not] at hs2
      exact absurd this hs2
  · push_neg at hm
    obtain ⟨e, he, hd⟩ := hm
    subst he
    rw [stop_rubberbanding_mismatch c e hd] at h
    simp only [Option.some.injEq] at h
    subst h
    exact hi

theorem heap_only_snapshot (l : List Nat) (c : NautilusCanvasContainer) :
    HeapOnly c (l.foldl start_rubberbanding_snapshot_step c) := by
  induction l generalizing c with
  | nil => exact HeapOnly.heap_refl c
  | cons x t ih =>
    rw [List.foldl_cons]
    exact (show HeapOnly c (start_rubberbanding_snapshot_step c x) from rfl).heap_trans (ih _)

theorem start_rubberbanding_snapshot_eq (c : NautilusCanvasContainer) :
    start_rubberbanding_snapshot c =
      { c with heap := (start_rubberbanding_snapshot c).heap } :=
  heap_only_snapshot c.icons c

theorem start_rubberbanding_begin_band (c : NautilusCanvasContainer) (event : GdkEventButton) :
    (start_rubberbanding_begin c event).rubberband_info.active = true ∧
      (start_rubberbanding_begin c event).rubberband_info.timer_id =
        (if c.rubberband_info.timer_id = 0 then c.last_source_id + 1
         else c.rubberband_info.timer_id) ∧
      (start_rubberbanding_begin c event).sources =
        (if c.rubberband_info.timer_id = 0 then
          c.sources ++ [(c.last_source_id + 1, GSourceFunc.rubberband_timeout_callback)]
         else c.sources) ∧
      (start_rubberbanding_begin c event).rubberband_info.device = event.device := by
  unfold start_rubberbanding_begin
  dsimp only [g_signal_emit, g_source_add]
  rw [start_rubberbanding_snapshot_eq]
  dsimp only
  by_cases h : c.rubberband_info.timer_id = 0
  · rw [if_pos h, if_pos h, if_pos h]
    exact ⟨rfl, rfl, rfl, rfl⟩
  · rw [if_neg h, if_neg h, if_neg h]
    exact ⟨rfl, rfl, rfl, rfl⟩

theorem rubberband_invariant_begin (c : NautilusCanvasContainer) (event : GdkEventButton)
    (hi : rubberband_invariant c) :
    rubberband_invariant (start_rubberbanding_begin c event) := by
  obtain ⟨a1, a2, a3, _⟩ := start_rubberbanding_begin_band c event
  refine ⟨?_, ?_, ?_⟩
  · intro _
    rw [a2]
    split
    · exact Nat.succ_ne_zero _
    · next hne => exact hne
  · intro source hs
    rw [a3] at hs
    split at hs
    · rcases List.mem_append.mp hs with h | h
      · exact hi.2.1 source h
      · rw [List.mem_singleton.mp h]
        exact Nat.succ_ne_zero _
    · exact hi.2.1 source hs
  · intro source hs hf
    rw [a3] at hs
    rw [a2]
    split at hs
    · next h0 =>
      rw [if_pos h0]
      rcases List.mem_append.mp hs with h | h
      · have := hi.2.2 source h hf
        rw [h0] at this
        exact absurd this (hi.2.1 source h)
      · rw [List.mem_singleton.mp h]
    · next h0 =>
      rw [if_neg h0]
      exact hi.2.2 source hs hf

theorem rubberband_invariant_start {c c1 : NautilusCanvasContainer} {event : GdkEventButton}
    (hi : rubberband_invariant c) (h : start_rubberbanding c event = some c1) :
    rubberband_invariant c1 := by
  unfold start_rubberbanding at h
  dsimp only at h
  split at h
  · cases h
  · next c0 hc0 =>
    simp only [Option.some.injEq] at h
    subst h
    refine rubberband_invariant_begin c0 event ?_
    split_ifs at hc0
    · exact rubberband_invariant_stop hi hc0
    · simp only [Option.some.injEq] at hc0
      subst hc0
      exact hi

theorem selection_only_set_selected_loop (want : NautilusCanvasContainer → Nat → Bool)
    (l : List Nat) (acc : Bool × NautilusCanvasContainer) :
    SelectionOnly acc.2 (set_selected_loop want l acc).2 := by
  unfold set_selected_loop
  exact foldl_selection_only (set_selected_step want) (fun s => s.2)
    (fun s icon => selection_only_icon_set_selected s.2 icon (want s.2 icon)) l acc

theorem rubberband_select_band (k : Collaborators) (c : NautilusCanvasContainer)
    (current_rect : EelDRect) :
    (rubberband_select k c current_rect).rubberband_info = c.rubberband_info ∧
      (rubberband_select k c current_rect).sources = c.sources := by
  have h : SelectionOnly c (set_selected_loop
      (fun c icon =>
        xor (k.nautilus_canvas_item_hit_test_rectangle icon
          (rubberband_canvas_rect k current_rect))
          (c.heap icon).was_selected_before_rubberband)
      c.icons (false, c)).2 := by
    exact selection_only_set_selected_loop _ c.icons (false, c)
  unfold SelectionOnly at h
  unfold rubberband_select
  dsimp only
  split
  · dsimp only [g_signal_emit]
    rw [h]
    exact ⟨rfl, rfl⟩
  · rw [h]
    exact ⟨rfl, rfl⟩

theorem rubberband_timeout_callback_band {k : Collaborators} {c : NautilusCanvasContainer}
    {selection_rect : Option EelDRect} {r : Bool × NautilusCanvasContainer}
    (h : rubberband_timeout_callback k c selection_rect = some r) :
    r.1 = true ∧ r.2.rubberband_info = c.rubberband_info ∧ r.2.sources = c.sources := by
  unfold rubberband_timeout_callback at h
  split_ifs at h
  cases selection_rect with
  | none =>
    simp only [Option.some.injEq] at h
    subst h
    exact ⟨rfl, rfl, rfl⟩
  | some rect =>
    simp only [Option.some.injEq] at h
    subst h
    exact ⟨rfl, rubberband_select_band k c rect⟩

theorem rubberband_invariant_tick {k : Collaborators} {c c1 : NautilusCanvasContainer}
    {source : Nat × GSourceFunc} {selection_rect : Option EelDRect}
    (hi : rubberband_invariant c)
    (h : g_timeout_dispatch k c source selection_rect = some c1) :
    rubberband_invariant c1 := by
  unfold g_timeout_dispatch at h
  split_ifs at h
  · cases hr : rubberband_timeout_callback k c selection_rect with
    | none =>
      rw [hr] at h
      cases h
    | some r =>
      rw [hr] at h
      obtain ⟨b1, b2, b3⟩ := rubberband_timeout_callback_band hr
      simp only [Option.map_some', b1, if_true, Option.some.injEq] at h
      subst h
      unfold rubberband_invariant
      rw [b2, b3]
      exact hi
  · simp only [Option.some.injEq] at h
    subst h
    exact hi

theorem rubberband_invariant_button_release {c c1 : NautilusCanvasContainer}
    {event : GdkEventButton} (hi : rubberband_invariant c)
    (h : button_release_event c event = some (some c1)) : rubberband_invariant c1 := by
  unfold button_release_event at h
  split_ifs at h
  · cases hs : stop_rubberbanding c (some event) with
    | none =>
      rw [hs] at h
      cases h
    | some c2 =>
      rw [hs] at h
      simp only [Option.map_some', Option.some.injEq] at h
      subst h
      exact rubberband_invariant_stop hi hs
  · simp at h

theorem rubberband_invariant_grab_notify {c c1 : NautilusCanvasContainer}
    {was_grabbed : Bool} (hi : rubberband_invariant c)
    (h : grab_notify_cb c was_grabbed = some c1) : rubberband_invariant c1 := by
  unfold grab_notify_cb at h
  split_ifs at h
  · exact rubberband_invariant_stop hi h
  · simp only [Option.some.injEq] at h
    subst h
    exact hi

theorem rubberband_invariant_of_reachable {k : Collaborators} {c : NautilusCanvasContainer}
    (h : RubberbandReachable k c) : rubberband_invariant c := by
  induction h with
  | idle c hidle =>
    refine ⟨?_, ?_, ?_⟩
    · intro ha
      rw [hidle.1] at ha
      cases ha
    · intro source hs
      exact (hidle.2.2 source hs).1
    · intro source hs hf
      exact absurd hf (hidle.2.2 source hs).2
  | start_rubberbanding c event c1 _ hs ih => exact rubberband_invariant_start ih hs
  | stop_rubberbanding c event c1 _ hs ih => exact rubberband_invariant_stop ih hs
  | timer_tick c source rect c1 _ hs ih => exact rubberband_invariant_tick ih hs
  | button_release c event c1 _ hs ih => exact rubberband_invariant_button_release ih hs
  | grab_notify c was_grabbed c1 _ hs ih => exact rubberband_invariant_grab_notify ih hs

theorem sample_banding_reachable (k : Collaborators) : RubberbandReachable k sample_banding :=
  RubberbandReachable.start_rubberbanding sample_three { device := 7 } sample_banding
    (RubberbandReachable.idle sample_three
      ⟨rfl, rfl, by
        intro source hs
        have hs2 : source ∈ [(1, GSourceFunc.redo_layout_callback)] := hs
        rw [List.mem_singleton.mp hs2]
        exact ⟨by decide, by decide⟩⟩)
    rfl

/-! ## C28: the timer of the rubber band -/

/-- C28 (as amended): in every state reachable from a container without a rubber band through
`start_rubberbanding`, `stop_rubberbanding`, the timer tick, the rubber band branch of
`button_release_event` and `grab_notify_cb`, an active rubber band has a timer id that is not 0;
so no assertion fails: `stop_rubberbanding` returns whenever the band is active, which is where
its three callers call it, and `start_rubberbanding`, `button_release_event`, `grab_notify_cb` and
the dispatch of the timer, which runs `rubberband_timeout_callback`, return.  After
`stop_rubberbanding` returns for a `NULL` event or an event of the device of the rubber band, the
band is inactive with timer id 0; for an event of another device it returns the container as it
was. -/
theorem C28_rubberband_timer (k : Collaborators) (c : NautilusCanvasContainer)
    (h : RubberbandReachable k c) :
    (c.rubberband_info.active = true → c.rubberband_info.timer_id ≠ 0) ∧
      (c.rubberband_info.active = true →
        ∀ event, ∃ c1, stop_rubberbanding c event = some c1) ∧
      (∀ event, ∃ c1, start_rubberbanding c event = some c1) ∧
      (∀ event, ∃ r, button_release_event c event = some r) ∧
      (∀ was_grabbed, ∃ c1, grab_notify_cb c was_grabbed = some c1) ∧
      (∀ source selection_rect, ∃ c1, g_timeout_dispatch k c source selection_rect = some c1) ∧
      (∀ event c1, stop_rubberbanding c event = some c1 →
        (∀ e, event = some e → e.device = c.rubberband_info.device) →
        c1.rubberband_info.active = false ∧ c1.rubberband_info.timer_id = 0) ∧
      (∀ e : GdkEventButton, e.device ≠ c.rubberband_info.device →
        stop_rubberbanding c (some e) = some c) := by
  have hi := rubberband_invariant_of_reachable h
  refine ⟨hi.1, ?_, ?_, ?_, ?_, ?_, ?_, ?_⟩
  · intro ha event
    exact stop_rubberbanding_isSome c event (hi.1 ha)
  · intro event
    exact start_rubberbanding_isSome c event hi.1
  · intro event
    unfold button_release_event
    split_ifs with hc
    · obtain ⟨c1, h1⟩ := stop_rubberbanding_isSome c (some event) (hi.1 hc.2)
      rw [h1]
      exact ⟨_, rfl⟩
    · exact ⟨_, rfl⟩
  · intro was_grabbed
    unfold grab_notify_cb
    split_ifs with hc
    · exact stop_rubberbanding_isSome c none (hi.1 hc.1)
    · exact ⟨_, rfl⟩
  · intro source selection_rect
    unfold g_timeout_dispatch
    split_ifs with hc
    · have ht : c.rubberband_info.timer_id ≠ 0 := by
        rw [← hi.2.2 source hc.1 hc.2]
        exact hi.2.1 source hc.1
      unfold rubberband_timeout_callback
      rw [if_neg ht]
      cases selection_rect <;> exact ⟨_, rfl⟩
    · exact ⟨_, rfl⟩
  · intro event c1 hs hm
    obtain ⟨_, a1, a2, _⟩ := stop_rubberbanding_completes hs hm
    exact ⟨a1, a2⟩
  · intro e he
    exact stop_rubberbanding_mismatch c e he

/-- Witness of C28 as amended: in the sample container a rubber band of the device 7 is active
with the timer 2, and `stop_rubberbanding` with an event of the device 7 returns a container
whose band is inactive with timer id 0. -/
theorem C28_rubberband_timer_witness :
    RubberbandReachable sample_collaborators sample_banding ∧
      sample_banding.rubberband_info.active = true ∧
      sample_banding.rubberband_info.timer_id = 2 ∧
      ∃ c1, stop_rubberbanding sample_banding (some { device := 7 }) = some c1 ∧
        c1.rubberband_info.active = false ∧ c1.rubberband_info.timer_id = 0 := by
  have h := C28_rubberband_timer sample_collaborators sample_banding
    (sample_banding_reachable sample_collaborators)
  obtain ⟨c1, h1⟩ := h.2.1 (by decide) (some { device := 7 })
  exact ⟨sample_banding_reachable sample_collaborators, by decide, by decide, c1, h1,
    h.2.2.2.2.2.2.1 _ c1 h1 (fun e he => by
      simp only [Option.some.injEq] at he
      subst he
      decide)⟩

/-- Counterexample to C28 as stated: in the sample container, where a rubber band of the device 7
is active, `stop_rubberbanding` with an event of the device 8 completes, and afterwards the band
is still active and its timer id is 2. -/
theorem C28_stop_for_another_device_counterexample :
    RubberbandReachable sample_collaborators sample_banding ∧
      ∃ c1, stop_rubberbanding sample_banding (some { device := 8 }) = some c1 ∧
        ¬ (c1.rubberband_info.active = false ∧ c1.rubberband_info.timer_id = 0) :=
  ⟨sample_banding_reachable sample_collaborators, sample_banding,
    stop_rubberbanding_mismatch sample_banding { device := 8 } (by decide), by decide⟩

/-! ## Lemmas: the rubber band of the keyboard -/

theorem set_focus_frame (c : NautilusCanvasContainer) (icon : Nat) (keyboard_focus : Bool)
    (hicon : icon ≠ 0) :
    ∃ c1, set_focus c icon keyboard_focus = some c1 ∧ c1.heap = c.heap ∧ c1.icons = c.icons ∧
      c1.keyboard_rubberband_start = c.keyboard_rubberband_start := by
  unfold set_focus clear_focus
  rw [if_neg hicon]
  split_ifs
  · exact ⟨_, rfl, rfl, rfl, rfl⟩
  · exact ⟨_, rfl, rfl, rfl, rfl⟩

theorem schedule_keyboard_icon_reveal_frame (c : NautilusCanvasContainer) (icon : Nat) :
    (schedule_keyboard_icon_reveal c icon).heap = c.heap ∧
      (schedule_keyboard_icon_reveal c icon).icons = c.icons ∧
      (schedule_keyboard_icon_reveal c icon).keyboard_rubberband_start =
        c.keyboard_rubberband_start := by
  unfold schedule_keyboard_icon_reveal unschedule_keyboard_icon_reveal g_source_add
    g_source_remove
  dsimp only
  split_ifs <;> exact ⟨rfl, rfl, rfl⟩

theorem keyboard_move_to_select_rubberband (k : Collaborators) (w : CanvasWidget)
    (c : NautilusCanvasContainer) (icon from_icon : Nat) (event : GdkEventKey)
    (hicon : icon ≠ 0)
    (hcontrol : event_has (some event) GDK_CONTROL_MASK = true)
    (hshift : event_has (some event) GDK_SHIFT_MASK = true)
    (hanchor : from_icon ≠ 0 ∨ c.keyboard_rubberband_start ≠ 0) :
    ∃ c0, c0.heap = c.heap ∧ c0.icons = c.icons ∧
      c0.keyboard_rubberband_start =
        (if c.keyboard_rubberband_start = 0 then from_icon else c.keyboard_rubberband_start) ∧
      keyboard_move_to_select k w c icon from_icon (some event) =
        rubberband_select k c0 (get_rubberband k w
          (if c.keyboard_rubberband_start = 0 then from_icon else c.keyboard_rubberband_start)
          icon) := by
  unfold keyboard_move_to_select
  have h1 : ¬ ((some event).isSome = true ∧ event_has (some event) GDK_CONTROL_MASK = true ∧
      event_has (some event) GDK_SHIFT_MASK = false) := by
    rw [hshift]
    simp
  have h2 : (some event).isSome = true ∧ event_has (some event) GDK_CONTROL_MASK = true ∧
      event_has (some event) GDK_SHIFT_MASK = true := ⟨rfl, hcontrol, hshift⟩
  rw [if_neg h1, if_pos h2]
  by_cases h0 : c.keyboard_rubberband_start = 0
  · have hf : from_icon ≠ 0 := by
      rcases hanchor with h | h
      · exact h
      · exact absurd h0 h
    rw [if_pos h0]
    refine ⟨set_keyboard_rubberband_start c from_icon, rfl, rfl, rfl, ?_⟩
    dsimp only
    rw [if_pos (⟨hf, h0⟩ : from_icon ≠ 0 ∧ c.keyboard_rubberband_start = 0),
      if_pos (⟨hicon, hf⟩ : icon ≠ 0 ∧
        (set_keyboard_rubberband_start c from_icon).keyboard_rubberband_start ≠ 0)]
    rfl
  · rw [if_neg h0]
    refine ⟨c, rfl, rfl, rfl, ?_⟩
    dsimp only
    rw [if_neg (fun h => h0 h.2 : ¬ (from_icon ≠ 0 ∧ c.keyboard_rubberband_start = 0)),
      if_pos (⟨hicon, h0⟩ : icon ≠ 0 ∧ c.keyboard_rubberband_start ≠ 0)]

theorem nautilus_canvas_container_add_snapshot_flag (c : NautilusCanvasContainer)
    (icon data : Nat) (h : (nautilus_canvas_container_add c icon data).1 = true) :
    ((nautilus_canvas_container_add c icon data).2.heap icon).was_selected_before_rubberband =
      false := by
  unfold nautilus_canvas_container_add at h ⊢
  by_cases h1 : data = 0
  · rw [if_pos h1] at h
    cases h
  · rw [if_neg h1] at h ⊢
    by_cases h2 : g_hash_table_lookup c.icon_set data ≠ 0
    · rw [if_pos h2] at h
      cases h
    · rw [if_neg h2]
      dsimp only
      rw [(same_core_schedule_redo_layout _).1]
      simp [g_new0_icon]

theorem rubberband_select_keyboard_start (k : Collaborators) (c : NautilusCanvasContainer)
    (current_rect : EelDRect) :
    (rubberband_select k c current_rect).keyboard_rubberband_start =
      c.keyboard_rubberband_start := by
  have h : SelectionOnly c (set_selected_loop
      (fun c icon =>
        xor (k.nautilus_canvas_item_hit_test_rectangle icon
          (rubberband_canvas_rect k current_rect))
          (c.heap icon).was_selected_before_rubberband)
      c.icons (false, c)).2 :=
    selection_only_set_selected_loop _ c.icons (false, c)
  unfold SelectionOnly at h
  unfold rubberband_select
  dsimp only
  split
  · dsimp only [g_signal_emit]
    rw [h]
  · rw [h]

/-! ## C29: the rubber band of the keyboard -/

/-- C29: for every container state, `keyboard_move_to` to an icon that is not `NULL`, with an
event that has Control and Shift set and with an anchor (the recorded start of the keyboard rubber
band, or else the icon `from_icon`), returns; afterwards the anchor is recorded, each icon of the
list is selected exactly when its hit test against the union of the bounds of the anchor and of
the target differs from its `was_selected_before_rubberband` flag as it was before the call, and
that flag is unchanged: the selection before the call does not enter.  An icon that
`nautilus_canvas_container_add` has just added has the flag FALSE. -/
theorem C29_keyboard_rubberband_uses_old_snapshot (k : Collaborators) (w : CanvasWidget)
    (c : NautilusCanvasContainer) (icon from_icon : Nat) (event : GdkEventKey)
    (hicon : icon ≠ 0)
    (hcontrol : event_has (some event) GDK_CONTROL_MASK = true)
    (hshift : event_has (some event) GDK_SHIFT_MASK = true)
    (hanchor : from_icon ≠ 0 ∨ c.keyboard_rubberband_start ≠ 0) :
    (∃ c1, keyboard_move_to k w c icon from_icon (some event) = some c1 ∧
      c1.keyboard_rubberband_start =
        (if c.keyboard_rubberband_start = 0 then from_icon else c.keyboard_rubberband_start) ∧
      (∀ i ∈ c.icons, icon_is_selected c1 i =
        xor (k.nautilus_canvas_item_hit_test_rectangle i
            (rubberband_canvas_rect k (get_rubberband k w
              (if c.keyboard_rubberband_start = 0 then from_icon
               else c.keyboard_rubberband_start) icon)))
          (c.heap i).was_selected_before_rubberband) ∧
      (∀ i, (c1.heap i).was_selected_before_rubberband =
        (c.heap i).was_selected_before_rubberband)) ∧
    (∀ added data, (nautilus_canvas_container_add c added data).1 = true →
      ((nautilus_canvas_container_add c added data).2.heap added).was_selected_before_rubberband =
        false) := by
  refine ⟨?_, fun added data h => nautilus_canvas_container_add_snapshot_flag c added data h⟩
  obtain ⟨c2, hs, hheap, hicons, hstart⟩ := set_focus_frame c icon true hicon
  have hanchor2 : from_icon ≠ 0 ∨ c2.keyboard_rubberband_start ≠ 0 := by
    rw [hstart]
    exact hanchor
  obtain ⟨c0, a1, a2, a3, a4⟩ := keyboard_move_to_select_rubberband k w c2 icon from_icon event
    hicon hcontrol hshift hanchor2
  rw [hstart] at a3 a4
  obtain ⟨s1, s2, s3⟩ := schedule_keyboard_icon_reveal_frame
    (keyboard_move_to_select k w c2 icon from_icon (some event)) icon
  have hfr := rubberband_select_frame k c0 (get_rubberband k w
    (if c.keyboard_rubberband_start = 0 then from_icon else c.keyboard_rubberband_start) icon)
  unfold keyboard_move_to
  rw [if_neg hicon, hs]
  simp only [Option.some_bind]
  refine ⟨_, rfl, ?_, ?_, ?_⟩
  · rw [s3, a4, rubberband_select_keyboard_start, a3]
  · intro i hi
    unfold icon_is_selected
    rw [s1, a4]
    have := rubberband_select_flag k c0 (get_rubberband k w
      (if c.keyboard_rubberband_start = 0 then from_icon else c.keyboard_rubberband_start) icon)
      i (by rw [a2, hicons]; exact hi)
    unfold icon_is_selected at this
    rw [this, a1, hheap]
  · intro i
    rw [s1, a4, hfr.2.2.2.2 i, a1, hheap]

/-- Witness of C29: in the sample container of four icons only the icon 4 is selected and every
snapshot flag is clear.  A press with Control and Shift that moves from the icon 2 to the icon 3
selects the icons 2 and 3, which lie in the rectangle between them, and unselects the icon 4. -/
theorem C29_keyboard_rubberband_uses_old_snapshot_witness :
    icon_is_selected sample_four 4 = true ∧
      ∃ c1, keyboard_move_to sample_collaborators sample_widget_line sample_four 3 2
          (some { state := 5 }) = some c1 ∧
        c1.keyboard_rubberband_start = 2 ∧
        icon_is_selected c1 4 = false ∧ icon_is_selected c1 3 = true ∧
        icon_is_selected c1 2 = true ∧ icon_is_selected c1 1 = false := by
  obtain ⟨c1, h1, h2, h3, _⟩ := (C29_keyboard_rubberband_uses_old_snapshot sample_collaborators
    sample_widget_line sample_four 3 2 { state := 5 } (by decide) (by decide) (by decide)
    (Or.inl (by decide))).1
  refine ⟨by decide, c1, h1, h2, ?_, ?_, ?_, ?_⟩
  · rw [h3 4 (by decide)]
    decide!
  · rw [h3 3 (by decide)]
    decide!
  · rw [h3 2 (by decide)]
    decide!
  · rw [h3 1 (by decide)]
    decide!

/-! ## Lemmas: what a press of an arrow key leaves alone -/

theorem select_one_unselect_others_data (c : NautilusCanvasContainer) (icon_to_select : Nat)
    (i : Nat) : icon_data (select_one_unselect_others c icon_to_select).2 i = icon_data c i := by
  have hl := (set_selected_loop_frame (fun _ icon => decide (icon = icon_to_select)) c.icons
    (false, c)).2.2.2.1 i
  unfold select_one_unselect_others
  dsimp only
  split
  · rw [← hl]
    unfold icon_data
    rw [(same_core_reveal_icon _ _).1]
  · exact hl

theorem keyboard_move_to_select_data (k : Collaborators) (w : CanvasWidget)
    (c : NautilusCanvasContainer) (icon from_icon : Nat) (event : Option GdkEventKey) (i : Nat) :
    icon_data (keyboard_move_to_select k w c icon from_icon event) i = icon_data c i := by
  unfold keyboard_move_to_select
  dsimp only
  split_ifs
  all_goals first
    | rfl
    | exact (rubberband_select_frame _ _ _).2.2.2.1 i
    | exact (select_range_frame _ _ _ _).2.2.2.1 i
    | exact select_one_unselect_others_data _ _ i

theorem keyboard_move_to_data {k : Collaborators} {w : CanvasWidget}
    {c c1 : NautilusCanvasContainer} {icon from_icon : Nat} {event : Option GdkEventKey}
    (h : keyboard_move_to k w c icon from_icon event = some c1) (i : Nat) :
    icon_data c1 i = icon_data c i := by
  unfold keyboard_move_to at h
  split_ifs at h with hi
  · simp only [Option.some.injEq] at h
    subst h
    rfl
  · obtain ⟨c2, hs, hheap, _, _⟩ := set_focus_frame c icon true hi
    rw [hs] at h
    simp only [Option.some_bind, Option.some.injEq] at h
    subst h
    have h1 := keyboard_move_to_select_data k w c2 icon from_icon event i
    unfold icon_data at h1 ⊢
    rw [(schedule_keyboard_icon_reveal_frame _ _).1, h1, hheap]

/-! ## Lemmas: one press of the up arrow -/

theorem find_best_icon_same_column_congr (k : Collaborators) (w : CanvasWidget)
    (c c2 : NautilusCanvasContainer) (start_icon : Nat)
    (hi : c2.icons = c.icons) (hx : c2.arrow_key_start_x = c.arrow_key_start_x)
    (hd : ∀ i, icon_data c2 i = icon_data c i) :
    find_best_icon k w c2 start_icon IsBetterCanvasFunction.same_column_above_lowest =
      find_best_icon k w c start_icon IsBetterCanvasFunction.same_column_above_lowest := by
  have hd2 : ∀ i, (c2.heap i).data = (c.heap i).data := hd
  have hstep : find_best_icon_step k w c2 start_icon
      IsBetterCanvasFunction.same_column_above_lowest =
      find_best_icon_step k w c start_icon IsBetterCanvasFunction.same_column_above_lowest := by
    funext best cand
    simp only [find_best_icon_step, is_better_canvas, same_column_above_lowest,
      compare_with_start_column, compare_icons_vertical_first, compare_icons_by_uri, hx, hd2]
  unfold find_best_icon
  rw [hi, hstep]

theorem vertical_first_key_of_data (k : Collaborators) (w : CanvasWidget)
    (c c2 : NautilusCanvasContainer) (hd : ∀ i, icon_data c2 i = icon_data c i) (i : Nat) :
    vertical_first_key k w c2 i = vertical_first_key k w c i := by
  have hd2 : (c2.heap i).data = (c.heap i).data := hd i
  unfold vertical_first_key
  rw [hd2]

theorem distinct_uris_congr (k : Collaborators) (c c2 : NautilusCanvasContainer)
    (icons : List Nat) (hd : ∀ i, icon_data c2 i = icon_data c i)
    (hu : distinct_uris k c icons) : distinct_uris k c2 icons := by
  intro a ha b hb hab
  have h1 : (c2.heap a).data = (c.heap a).data := hd a
  have h2 : (c2.heap b).data = (c.heap b).data := hd b
  rw [h1, h2]
  exact hu a ha b hb hab

theorem keyboard_up_press (k : Collaborators) (w : CanvasWidget)
    (c : NautilusCanvasContainer) (event : Option GdkEventKey)
    (hf : c.focus ∈ c.icons) (h0 : 0 ∉ c.icons) (hnd : c.icons.Nodup)
    (hu : distinct_uris k c c.icons) :
    ∃ c2 c1 t, record_arrow_key_start k w c c.focus GtkDirectionType.GTK_DIR_UP = some c2 ∧
      c2.icons = c.icons ∧ c2.arrow_key_start_x = (icon_cmp_point k w c.focus).1 ∧
      (∀ i, icon_data c2 i = icon_data c i) ∧
      find_best_icon k w c2 c.focus IsBetterCanvasFunction.same_column_above_lowest = some t ∧
      (t = 0 ∨ (t ∈ c.icons ∧ t ≠ c.focus ∧
        ∃ b0, is_better_canvas IsBetterCanvasFunction.same_column_above_lowest k w c2 c.focus
          b0 t = some true)) ∧
      keyboard_up k w c event = some c1 ∧
      c1.focus = (if t = 0 then c.focus else t) ∧ c1.icons = c.icons ∧
      ∀ i, icon_data c1 i = icon_data c i := by
  have hfz : c.focus ≠ 0 := fun he => h0 (he ▸ hf)
  have hrec := record_arrow_key_start_eq k w c c.focus GtkDirectionType.GTK_DIR_UP hfz
  obtain ⟨c2, hc2⟩ : ∃ c2, c2 =
      { c with arrow_key_start_x := (icon_cmp_point k w c.focus).1,
               arrow_key_start_y := (icon_cmp_point k w c.focus).2,
               arrow_key_direction := GtkDirectionType.GTK_DIR_UP } := ⟨_, rfl⟩
  rw [← hc2] at hrec
  have hi2 : c2.icons = c.icons := by rw [hc2]
  have hx2 : c2.arrow_key_start_x = (icon_cmp_point k w c.focus).1 := by rw [hc2]
  have hd2 : ∀ i, icon_data c2 i = icon_data c i := by
    intro i
    rw [hc2]
    rfl
  obtain ⟨t, ht, hprop⟩ := find_best_icon_from k w c2
    IsBetterCanvasFunction.same_column_above_lowest c.focus (by rw [hi2]; exact hf)
    (by rw [hi2]; exact h0) (by rw [hi2]; exact hnd)
    (by rw [hi2]; exact distinct_uris_congr k c c2 c.icons hd2 hu)
  rw [hi2] at hprop
  have hne : (if t = 0 then c.focus else t) ≠ 0 := by
    split_ifs with h
    · exact hfz
    · exact h
  obtain ⟨c1, hmove, hfocus⟩ := keyboard_move_to_focus k w c2 (if t = 0 then c.focus else t)
    c.focus event hne
  refine ⟨c2, c1, t, hrec, hi2, hx2, hd2, ht, hprop, ?_, hfocus, ?_, ?_⟩
  · unfold keyboard_up keyboard_arrow_key
    rw [keyboard_arrow_key_from_focused k w c _ _ hfz]
    simp only [Option.some_bind]
    rw [keyboard_arrow_key_to_eq k w c c2 c.focus GtkDirectionType.GTK_DIR_UP _ _ none none
      hfz hrec, ht]
    simp only [Option.some_bind, keyboard_arrow_key_fallback]
    exact hmove
  · rw [(keyboard_only_keyboard_move_to hmove).keyboard_fields.1, hi2]
  · intro i
    rw [keyboard_move_to_data hmove i, hd2 i]

theorem keyboard_up_target_is_earlier (k : Collaborators) (w : CanvasWidget)
    (c c2 : NautilusCanvasContainer) (t b0 : Nat)
    (hf : c.focus ∈ c.icons) (h0 : 0 ∉ c.icons) (hu : distinct_uris k c c.icons)
    (hx : c2.arrow_key_start_x = (icon_cmp_point k w c.focus).1)
    (hd : ∀ i, icon_data c2 i = icon_data c i)
    (ht : t ∈ c.icons) (hne : t ≠ c.focus)
    (hb : is_better_canvas IsBetterCanvasFunction.same_column_above_lowest k w c2 c.focus
      b0 t = some true) :
    vertical_first_key k w c t < vertical_first_key k w c c.focus ∧
      (w.eel_canvas_item_extent t).x0 ≤ (((icon_cmp_point k w c.focus).1 : Int) : Rat) ∧
      (((icon_cmp_point k w c.focus).1 : Int) : Rat) ≤ (w.eel_canvas_item_extent t).x1 := by
  have hfz : c.focus ≠ 0 := fun he => h0 (he ▸ hf)
  have htz : t ≠ 0 := fun he => h0 (he ▸ ht)
  obtain ⟨a1, r, a2, a3⟩ := same_column_above_lowest_accepts k w c2 c.focus b0 t hb
  have hz := compare_with_start_column_zero w c2 t a1
  rw [hx] at hz
  refine ⟨?_, hz⟩
  have hu2 : k.get_icon_uri (c2.heap t).data ≠ k.get_icon_uri (c2.heap c.focus).data :=
    distinct_uris_congr k c c2 c.icons hd hu t ht c.focus hf hne
  rcases compare_icons_vertical_first_sign k w c2 t c.focus htz hfz hne hu2 with
    ⟨_, s2⟩ | ⟨s1, _⟩
  · rw [vertical_first_key_of_data k w c c2 hd, vertical_first_key_of_data k w c c2 hd] at s2
    exact s2
  · rw [s1] at a2
    simp only [Option.some.injEq] at a2
    subst a2
    exact absurd a3 (by decide)

/-! ## Lemmas: runs of the up arrow -/

theorem keyboard_up_run_cons {k : Collaborators} {w : CanvasWidget}
    {c c1 : NautilusCanvasContainer} {event : Option GdkEventKey}
    (events : List (Option GdkEventKey)) (h : keyboard_up k w c event = some c1) :
    keyboard_up_run k w c (event :: events) =
      (keyboard_up_run k w c1 events).map fun states => c1 :: states := by
  rw [keyboard_up_run, h]
  rfl

theorem keyboard_up_press_invariant {k : Collaborators} {c c1 : NautilusCanvasContainer}
    (h0 : 0 ∉ c.icons) (hnd : c.icons.Nodup) (hu : distinct_uris k c c.icons)
    (hicons : c1.icons = c.icons) (hdata : ∀ i, icon_data c1 i = icon_data c i) :
    0 ∉ c1.icons ∧ c1.icons.Nodup ∧ distinct_uris k c1 c1.icons := by
  rw [hicons]
  exact ⟨h0, hnd, distinct_uris_congr k c c1 c.icons hdata hu⟩

theorem keyboard_up_run_moves (k : Collaborators) (w : CanvasWidget)
    (events : List (Option GdkEventKey)) :
    ∀ (c : NautilusCanvasContainer) (S : Finset Nat),
      c.focus ∈ c.icons → 0 ∉ c.icons → c.icons.Nodup → distinct_uris k c c.icons →
      (∀ i ∈ c.icons, vertical_first_key k w c i < vertical_first_key k w c c.focus →
        i ∈ S) →
      ∃ states, keyboard_up_run k w c events = some states ∧
        states.length = events.length ∧
        focus_moves (c.focus :: states.map (fun s => s.focus)) ≤ S.card := by
  induction events with
  | nil =>
    intro c S _ _ _ _ _
    exact ⟨[], rfl, rfl, Nat.zero_le _⟩
  | cons e es ih =>
    intro c S hf h0 hnd hu hS
    obtain ⟨c2, c1, t, _, _, hx2, hd2, _, hprop, hup, hfocus, hicons, hdata⟩ :=
      keyboard_up_press k w c e hf h0 hnd hu
    obtain ⟨h01, hnd1, hu1⟩ := keyboard_up_press_invariant h0 hnd hu hicons hdata
    have hkey : ∀ i, vertical_first_key k w c1 i = vertical_first_key k w c i :=
      vertical_first_key_of_data k w c c1 hdata
    by_cases ht : t = 0
    · rw [if_pos ht] at hfocus
      have hf1 : c1.focus ∈ c1.icons := by
        rw [hfocus, hicons]
        exact hf
      obtain ⟨states, hrun, hlen, hmoves⟩ := ih c1 S hf1 h01 hnd1 hu1 (by
        intro i hi hlt
        rw [hicons] at hi
        rw [hkey, hkey, hfocus] at hlt
        exact hS i hi hlt)
      refine ⟨c1 :: states, ?_, ?_, ?_⟩
      · rw [keyboard_up_run_cons es hup, hrun]
        rfl
      · simp [hlen]
      · rw [hfocus] at hmoves
        simp only [List.map_cons, focus_moves, hfocus, ne_eq, not_true_eq_false, if_false,
          Nat.zero_add]
        exact hmoves
    · rw [if_neg ht] at hfocus
      rcases hprop with h | ⟨htm, htne, b0, hb⟩
      · exact absurd h ht
      · obtain ⟨hlt, _⟩ := keyboard_up_target_is_earlier k w c c2 t b0 hf h0 hu hx2 hd2 htm
          htne hb
        have hf1 : c1.focus ∈ c1.icons := by
          rw [hfocus, hicons]
          exact htm
        classical
        have hcard : (S.filter (fun i => vertical_first_key k w c i <
            vertical_first_key k w c t)).card < S.card :=
          Finset.card_lt_card (Finset.filter_ssubset.mpr ⟨t, hS t htm hlt, lt_irrefl _⟩)
        obtain ⟨states, hrun, hlen, hmoves⟩ := ih c1
          (S.filter (fun i => vertical_first_key k w c i < vertical_first_key k w c t))
          hf1 h01 hnd1 hu1 (by
            intro i hi hlt2
            rw [hicons] at hi
            rw [hkey, hkey, hfocus] at hlt2
            exact Finset.mem_filter.mpr ⟨hS i hi (lt_trans hlt2 hlt), hlt2⟩)
        refine ⟨c1 :: states, ?_, ?_, ?_⟩
        · rw [keyboard_up_run_cons es hup, hrun]
          rfl
        · simp [hlen]
        · rw [hfocus] at hmoves
          have hne : c.focus ≠ t := fun e => htne e.symm
          simp only [List.map_cons, focus_moves, hfocus, ne_eq, hne, not_false_eq_true,
            if_true]
          omega

theorem keyboard_up_run_stays (k : Collaborators) (w : CanvasWidget)
    (events : List (Option GdkEventKey)) :
    ∀ (c : NautilusCanvasContainer),
      c.focus ∈ c.icons → 0 ∉ c.icons → c.icons.Nodup → distinct_uris k c c.icons →
      (∀ c2, record_arrow_key_start k w c c.focus GtkDirectionType.GTK_DIR_UP = some c2 →
        find_best_icon k w c2 c.focus IsBetterCanvasFunction.same_column_above_lowest =
          some 0) →
      ∃ states, keyboard_up_run k w c events = some states ∧
        ∀ x ∈ states.map (fun s => s.focus), x = c.focus := by
  induction events with
  | nil =>
    intro c _ _ _ _ _
    exact ⟨[], rfl, by simp⟩
  | cons e es ih =>
    intro c hf h0 hnd hu hstay
    obtain ⟨c2, c1, t, hrec, hi2, hx2, hd2, hfind, _, hup, hfocus, hicons, hdata⟩ :=
      keyboard_up_press k w c e hf h0 hnd hu
    obtain ⟨h01, hnd1, hu1⟩ := keyboard_up_press_invariant h0 hnd hu hicons hdata
    have ht : t = 0 := by
      rw [hstay c2 hrec] at hfind
      simp only [Option.some.injEq] at hfind
      exact hfind.symm
    rw [if_pos ht] at hfocus
    subst ht
    have hf1 : c1.focus ∈ c1.icons := by
      rw [hfocus, hicons]
      exact hf
    obtain ⟨states, hrun, hall⟩ := ih c1 hf1 h01 hnd1 hu1 (by
      intro c3 hrec3
      have hfz : c1.focus ≠ 0 := fun he => h01 (he ▸ hf1)
      rw [record_arrow_key_start_eq k w c1 c1.focus _ hfz] at hrec3
      simp only [Option.some.injEq] at hrec3
      subst hrec3
      rw [hfocus, ← hfind]
      refine find_best_icon_same_column_congr k w c2 _ c.focus ?_ ?_ ?_
      · show c1.icons = c2.icons
        rw [hicons, hi2]
      · show (icon_cmp_point k w c.focus).1 = c2.arrow_key_start_x
        rw [hx2]
      · intro i
        show icon_data c1 i = icon_data c2 i
        rw [hdata, hd2])
    refine ⟨c1 :: states, ?_, ?_⟩
    · rw [keyboard_up_run_cons es hup, hrun]
      rfl
    · intro x hx
      rw [List.map_cons, List.mem_cons] at hx
      rcases hx with h | h
      · rw [h, hfocus]
      · rw [hall x h, hfocus]

theorem keyboard_up_run_settles (k : Collaborators) (w : CanvasWidget)
    (events : List (Option GdkEventKey)) :
    ∀ (c : NautilusCanvasContainer),
      c.focus ∈ c.icons → 0 ∉ c.icons → c.icons.Nodup → distinct_uris k c c.icons →
      ∀ states, keyboard_up_run k w c events = some states →
      ∀ (pre : List Nat) (a : Nat) (post : List Nat),
        c.focus :: states.map (fun s => s.focus) = pre ++ a :: a :: post →
        ∀ x ∈ post, x = a := by
  induction events with
  | nil =>
    intro c _ _ _ _ states hrun pre a post hsplit
    simp only [keyboard_up_run, Option.some.injEq] at hrun
    subst hrun
    have := congrArg List.length hsplit
    simp at this
    omega
  | cons e es ih =>
    intro c hf h0 hnd hu states hrun pre a post hsplit
    obtain ⟨c2, c1, t, hrec, hi2, hx2, hd2, hfind, hprop, hup, hfocus, hicons, hdata⟩ :=
      keyboard_up_press k w c e hf h0 hnd hu
    obtain ⟨h01, hnd1, hu1⟩ := keyboard_up_press_invariant h0 hnd hu hicons hdata
    have hf1 : c1.focus ∈ c1.icons := by
      rw [hfocus, hicons]
      split_ifs with h
      · exact hf
      · rcases hprop with h2 | ⟨h2, _⟩
        · exact absurd h2 h
        · exact h2
    rw [keyboard_up_run_cons es hup] at hrun
    cases hrest : keyboard_up_run k w c1 es with
    | none =>
      rw [hrest] at hrun
      simp at hrun
    | some rest =>
      rw [hrest] at hrun
      simp only [Option.map_some', Option.some.injEq] at hrun
      subst hrun
      rw [List.map_cons] at hsplit
      cases pre with
      | nil =>
        simp only [List.nil_append, List.cons.injEq] at hsplit
        obtain ⟨e1, e2, e3⟩ := hsplit
        have ht : t = 0 := by
          by_contra hne
          rw [if_neg hne] at hfocus
          rcases hprop with h2 | ⟨_, h2, _⟩
          · exact hne h2
          · exact h2 (by rw [← hfocus, e2, ← e1])
        subst ht
        rw [if_pos rfl] at hfocus
        obtain ⟨states, hrun2, hall⟩ := keyboard_up_run_stays k w es c1 hf1 h01 hnd1 hu1 (by
          intro c3 hrec3
          have hfz : c1.focus ≠ 0 := fun he => h01 (he ▸ hf1)
          rw [record_arrow_key_start_eq k w c1 c1.focus _ hfz] at hrec3
          simp only [Option.some.injEq] at hrec3
          subst hrec3
          rw [hfocus, ← hfind]
          refine find_best_icon_same_column_congr k w c2 _ c.focus ?_ ?_ ?_
          · show c1.icons = c2.icons
            rw [hicons, hi2]
          · show (icon_cmp_point k w c.focus).1 = c2.arrow_key_start_x
            rw [hx2]
          · intro i
            show icon_data c1 i = icon_data c2 i
            rw [hdata, hd2])
        rw [hrest] at hrun2
        simp only [Option.some.injEq] at hrun2
        subst hrun2
        intro x hx
        rw [← e3] at hx
        rw [hall x hx, ← e2]
      | cons p pre2 =>
        simp only [List.cons_append, List.cons.injEq] at hsplit
        exact ih c1 hf1 h01 hnd1 hu1 rest hrest pre2 a post hsplit.2

/-! ## C30: repeated presses of the up arrow -/

/-- C30: for every container whose icon list holds N icons, none twice and no `NULL`, with
pairwise distinct URIs and with the focused icon in the list, a press of the up arrow returns and
leaves the focus where it was or moves it to an icon of the list that is strictly earlier in the
vertical-first order and whose item spans the x of the comparison point (the centre-x) of the
icon that was focused.  Hence every run of presses of the up arrow returns, moves the focus at
most N - 1 times, and once a press has left the focus in place every later press of the run does
so too. -/
theorem C30_up_arrow_moves_are_bounded (k : Collaborators) (w : CanvasWidget)
    (c : NautilusCanvasContainer)
    (hf : c.focus ∈ c.icons) (h0 : 0 ∉ c.icons) (hnd : c.icons.Nodup)
    (hu : distinct_uris k c c.icons) :
    (∀ event, ∃ c1, keyboard_up k w c event = some c1 ∧
      (c1.focus = c.focus ∨
        (c1.focus ∈ c.icons ∧
          vertical_first_key k w c c1.focus < vertical_first_key k w c c.focus ∧
          (w.eel_canvas_item_extent c1.focus).x0 ≤
            (((icon_cmp_point k w c.focus).1 : Int) : Rat) ∧
          (((icon_cmp_point k w c.focus).1 : Int) : Rat) ≤
            (w.eel_canvas_item_extent c1.focus).x1))) ∧
    (∀ events, ∃ states, keyboard_up_run k w c events = some states ∧
      states.length = events.length ∧
      focus_moves (c.focus :: states.map (fun s => s.focus)) ≤ c.icons.length - 1 ∧
      ∀ (pre : List Nat) (a : Nat) (post : List Nat),
        c.focus :: states.map (fun s => s.focus) = pre ++ a :: a :: post →
        ∀ x ∈ post, x = a) := by
  constructor
  · intro event
    obtain ⟨c2, c1, t, _, _, hx2, hd2, _, hprop, hup, hfocus, _, _⟩ :=
      keyboard_up_press k w c event hf h0 hnd hu
    refine ⟨c1, hup, ?_⟩
    by_cases ht : t = 0
    · left
      rw [hfocus, if_pos ht]
    · right
      rw [if_neg ht] at hfocus
      rcases hprop with h | ⟨htm, htne, b0, hb⟩
      · exact absurd h ht
      · rw [hfocus]
        exact ⟨htm, keyboard_up_target_is_earlier k w c c2 t b0 hf h0 hu hx2 hd2 htm htne hb⟩
  · intro events
    obtain ⟨states, hrun, hlen, hmoves⟩ := keyboard_up_run_moves k w events c
      (c.icons.toFinset.erase c.focus) hf h0 hnd hu (by
        intro i hi hlt
        refine Finset.mem_erase.mpr ⟨?_, List.mem_toFinset.mpr hi⟩
        intro e
        rw [e] at hlt
        exact lt_irrefl _ hlt)
    refine ⟨states, hrun, hlen, ?_, keyboard_up_run_settles k w events c hf h0 hnd hu states hrun⟩
    rw [Finset.card_erase_of_mem (List.mem_toFinset.mpr hf),
      List.toFinset_card_of_nodup hnd] at hmoves
    exact hmoves

/-- Witness of C30: the three icons of the sample container, not lined up, with the focus on the
lowest one, the icon 3.  Three presses of the up arrow lead to the icons 2, 1 and 1: two moves,
which is N - 1, and then the focus stays. -/
theorem C30_up_arrow_moves_are_bounded_witness :
    sample_three_bottom.focus ∈ sample_three_bottom.icons ∧ 0 ∉ sample_three_bottom.icons ∧
      sample_three_bottom.icons.Nodup ∧
      distinct_uris sample_collaborators sample_three_bottom sample_three_bottom.icons ∧
      (keyboard_up_run sample_collaborators sample_widget_ragged sample_three_bottom
        [some { state := 0 }, some { state := 0 }, some { state := 0 }]).map
          (fun states => states.map (fun s => s.focus)) = some [2, 1, 1] ∧
      ∃ states, keyboard_up_run sample_collaborators sample_widget_ragged sample_three_bottom
          [some { state := 0 }, some { state := 0 }, some { state := 0 }] = some states ∧
        focus_moves (sample_three_bottom.focus :: states.map (fun s => s.focus)) ≤
          sample_three_bottom.icons.length - 1 :=
  have hu : distinct_uris sample_collaborators sample_three_bottom sample_three_bottom.icons := by
    unfold distinct_uris
    decide!
  ⟨by decide, by decide, by decide, hu, by decide!,
    ((C30_up_arrow_moves_are_bounded sample_collaborators sample_widget_ragged
      sample_three_bottom (by decide) (by decide) (by decide) hu).2
        [some { state := 0 }, some { state := 0 }, some { state := 0 }]).imp
      fun _ h => ⟨h.1, h.2.2.1⟩⟩

end Nautilus
